import Mathlib

/-!
# RTIPC transport: StreamHdr handshake and Session framing

A shallow embedding of `src/transports/utils/streamhdr.c` and
`src/transports/rtipc/srtipc.c`.

* Buffers are lists of bytes (`List Nat`); C integers are `Nat`/`Int` with
  explicit reduction where a cast or a fixed width matters.
* A failed `nn_assert` (and `nn_fsm_bad_state/source/action`) aborts the
  process: the embedded function returns `none`.
* Calls into collaborators that are not part of these files (socket, timer,
  pipe, FSM runtime) are recorded, in program order, as a list of `Effect`s.
  Values those collaborators return (`nn_timer_isidle`, `nn_pipebase_ispeer`,
  the previous owner given back by `nn_usock_swap_owner`, ...) are inputs.
-/

namespace NN

/-! ## Wire helpers -/

/-- Modelled from the spec: `nn_puts` of `utils/wire.c` (not in the sources):
stores a 16-bit value at offset `off`, big-endian (high byte, then low byte). -/
def nn_puts (buf : List Nat) (off : Nat) (val : Nat) : List Nat :=
  (buf.set off ((val / 256) % 256)).set (off + 1) (val % 256)

/-- Modelled from the spec: `nn_gets` of `utils/wire.c` (not in the sources):
reads the big-endian unsigned 16-bit value at offset `off`. -/
def nn_gets (buf : List Nat) (off : Nat) : Nat :=
  256 * buf.getD off 0 + buf.getD (off + 1) 0

/-- Modelled from the spec: `nn_putll` of `utils/wire.c` (not in the sources):
stores a 64-bit value at offset `off`, big-endian, most significant byte
first. -/
def nn_putll (buf : List Nat) (off : Nat) (val : Nat) : List Nat :=
  ((((((((buf.set off ((val / 2 ^ 56) % 256)).set (off + 1) ((val / 2 ^ 48) % 256)).set
    (off + 2) ((val / 2 ^ 40) % 256)).set (off + 3) ((val / 2 ^ 32) % 256)).set
    (off + 4) ((val / 2 ^ 24) % 256)).set (off + 5) ((val / 2 ^ 16) % 256)).set
    (off + 6) ((val / 2 ^ 8) % 256)).set (off + 7) (val % 256))

/-- Modelled from the spec: `nn_getll` of `utils/wire.c` (not in the sources):
reads the big-endian unsigned 64-bit value at offset `off`. -/
def nn_getll (buf : List Nat) (off : Nat) : Nat :=
  2 ^ 56 * buf.getD off 0 + 2 ^ 48 * buf.getD (off + 1) 0 + 2 ^ 40 * buf.getD (off + 2) 0
    + 2 ^ 32 * buf.getD (off + 3) 0 + 2 ^ 24 * buf.getD (off + 4) 0
    + 2 ^ 16 * buf.getD (off + 5) 0 + 2 ^ 8 * buf.getD (off + 6) 0 + buf.getD (off + 7) 0

/-! ## Events and effects -/

/-- Modelled from the spec: the actions the FSM runtime (`aio/fsm.h`, not in
the sources) injects into a machine: `NN_FSM_START` and `NN_FSM_STOP`. -/
inductive nn_fsm_action where
  | NN_FSM_START
  | NN_FSM_STOP
  deriving DecidableEq, Repr

/-- Modelled from the spec: the completion events of the underlying socket
(`aio/usock.h`, not in the sources). -/
inductive nn_usock_event where
  | NN_USOCK_CONNECTED
  | NN_USOCK_ACCEPTED
  | NN_USOCK_SENT
  | NN_USOCK_RECEIVED
  | NN_USOCK_ERROR
  | NN_USOCK_ACCEPT_ERROR
  | NN_USOCK_STOPPED
  | NN_USOCK_SHUTDOWN
  deriving DecidableEq, Repr

/-- Modelled from the spec: the events of a timer (`aio/timer.h`, not in the
sources). -/
inductive nn_timer_event where
  | NN_TIMER_TIMEOUT
  | NN_TIMER_STOPPED
  deriving DecidableEq, Repr

/-- Modelled from the spec: the events StreamHdr raises to its parent
(`transports/utils/streamhdr.h`, not in the sources). -/
inductive nn_streamhdr_event where
  | NN_STREAMHDR_OK
  | NN_STREAMHDR_ERROR
  | NN_STREAMHDR_STOPPED
  deriving DecidableEq, Repr

/-- Event type `NN_SRTIPC_ERROR` of `srtipc.h`. -/
def NN_SRTIPC_ERROR : Int := 1
/-- Event type `NN_SRTIPC_STOPPED` of `srtipc.h`. -/
def NN_SRTIPC_STOPPED : Int := 2

/-- The owner record of a socket, `struct nn_fsm_owner`: the source tag under
which the owner sees the socket, and the owning machine (`none` is `NULL`). -/
structure nn_fsm_owner where
  src : Int
  fsm : Option Nat
  deriving DecidableEq, Repr

/-- A message, `struct nn_msg`: a header chunk and a body chunk. -/
structure nn_msg where
  hdr : List Nat
  body : List Nat
  deriving DecidableEq, Repr

/-- The buffers of these two files into which a read is posted. -/
inductive RecvBuf where
  | protohdr
  | inhdr
  | inmsg_body
  deriving DecidableEq, Repr

/-- A call into a collaborator, recorded in program order. -/
inductive Effect where
  /-- The call `nn_timer_start (timer, timeout)`. -/
  | timer_start (timeout : Int)
  /-- The call `nn_timer_stop (timer)`. -/
  | timer_stop
  /-- The call `nn_usock_send (usock, iov, n)`: the contents of the `n` buffers. -/
  | usock_send (iov : List (List Nat))
  /-- The call `nn_usock_recv (usock, buf, len)`. -/
  | usock_recv (buf : RecvBuf) (len : Nat)
  /-- The call `nn_usock_swap_owner (usock, fsm)` of `streamhdr.c`. -/
  | usock_swap_owner_fsm (owner : Option Nat)
  /-- The call `nn_usock_swap_owner (usock, &owner)` of `srtipc.c`: the owner
  record handed to the socket. -/
  | usock_swap_owner (owner : nn_fsm_owner)
  /-- StreamHdr: `nn_fsm_raise (&fsm, &done, type)`. -/
  | streamhdr_raise (type : nn_streamhdr_event)
  /-- StreamHdr: `nn_fsm_stopped (&fsm, type)`. -/
  | streamhdr_stopped (type : nn_streamhdr_event)
  /-- Session: `nn_streamhdr_start (&streamhdr, usock, &pipebase)`. -/
  | streamhdr_start
  /-- Session: `nn_streamhdr_stop (&streamhdr)`. -/
  | streamhdr_stop
  /-- Session: `nn_fsm_raise (&fsm, &done, type)`. -/
  | srtipc_raise (type : Int)
  /-- Session: `nn_fsm_stopped (&fsm, type)`. -/
  | srtipc_stopped (type : Int)
  /-- The call `nn_pipebase_start`. -/
  | pipebase_start
  /-- The call `nn_pipebase_stop`. -/
  | pipebase_stop
  /-- The upcall `nn_pipebase_sent`. -/
  | pipebase_sent
  /-- The upcall `nn_pipebase_received`. -/
  | pipebase_received
  deriving DecidableEq, Repr

/-! ## StreamHdr (`streamhdr.c`) -/

def NN_STREAMHDR_STATE_IDLE : Nat := 1
def NN_STREAMHDR_STATE_SENDING : Nat := 2
def NN_STREAMHDR_STATE_RECEIVING : Nat := 3
def NN_STREAMHDR_STATE_STOPPING_TIMER_ERROR : Nat := 4
def NN_STREAMHDR_STATE_STOPPING_TIMER_DONE : Nat := 5
def NN_STREAMHDR_STATE_DONE : Nat := 6
def NN_STREAMHDR_STATE_STOPPING : Nat := 7

/-- The fields of `struct nn_streamhdr` that `streamhdr.c` reads and writes.
`fsm` stands for the address of the embedded state machine; pointers are
`Option Nat` with `none` for `NULL`. The timer is a collaborator. -/
structure nn_streamhdr where
  fsm : Nat
  state : Nat
  usock : Option Nat
  usock_owner : Option Nat
  pipebase : Option Nat
  protohdr : List Nat
  deriving DecidableEq, Repr

/-- The `(source, type)` pairs the handler of StreamHdr distinguishes: the
source pointer is compared with `&streamhdr->fsm`, `streamhdr->usock` and
`&streamhdr->timer`, in this order. -/
inductive streamhdr_input where
  | fsm (type : nn_fsm_action)
  | usock (type : nn_usock_event)
  | timer (type : nn_timer_event)
  deriving DecidableEq, Repr

/-- The function `nn_streamhdr_init`; the 8 bytes of `protohdr` are not
initialised by the source and are taken as zero. -/
def nn_streamhdr_init (fsm : Nat) : nn_streamhdr :=
  { fsm := fsm, state := NN_STREAMHDR_STATE_IDLE, usock := none, usock_owner := none,
    pipebase := none, protohdr := List.replicate 8 0 }

/-- The handler of StreamHdr, `case NN_STREAMHDR_STATE_IDLE`. -/
def nn_streamhdr_handler_IDLE (self : nn_streamhdr) :
    streamhdr_input → Option (nn_streamhdr × List Effect)
  | streamhdr_input.fsm nn_fsm_action.NN_FSM_START =>
    some ({ self with state := NN_STREAMHDR_STATE_SENDING },
      [Effect.timer_start 1000, Effect.usock_send [self.protohdr]])
  | _ => none

/-- The handler of StreamHdr, `case NN_STREAMHDR_STATE_SENDING`. -/
def nn_streamhdr_handler_SENDING (self : nn_streamhdr) :
    streamhdr_input → Option (nn_streamhdr × List Effect)
  | streamhdr_input.usock nn_usock_event.NN_USOCK_SENT =>
    some ({ self with state := NN_STREAMHDR_STATE_RECEIVING },
      [Effect.usock_recv RecvBuf.protohdr 8])
  | streamhdr_input.usock nn_usock_event.NN_USOCK_ERROR =>
    some ({ self with state := NN_STREAMHDR_STATE_STOPPING_TIMER_ERROR }, [Effect.timer_stop])
  | streamhdr_input.timer nn_timer_event.NN_TIMER_TIMEOUT =>
    some ({ self with state := NN_STREAMHDR_STATE_STOPPING_TIMER_ERROR }, [Effect.timer_stop])
  | _ => none

/-- The handler of StreamHdr, `case NN_STREAMHDR_STATE_RECEIVING`; `ispeer` is
`nn_pipebase_ispeer` of the bound pipe. -/
def nn_streamhdr_handler_RECEIVING (ispeer : Nat → Bool) (self : nn_streamhdr) :
    streamhdr_input → Option (nn_streamhdr × List Effect)
  | streamhdr_input.usock nn_usock_event.NN_USOCK_RECEIVED =>
    if self.protohdr.take 4 ≠ [0x00, 0x53, 0x50, 0x00] then
      -- goto invalidhdr
      some ({ self with state := NN_STREAMHDR_STATE_STOPPING_TIMER_ERROR }, [Effect.timer_stop])
    else if ispeer (nn_gets self.protohdr 4) = false then
      -- goto invalidhdr
      some ({ self with state := NN_STREAMHDR_STATE_STOPPING_TIMER_ERROR }, [Effect.timer_stop])
    else
      some ({ self with state := NN_STREAMHDR_STATE_STOPPING_TIMER_DONE }, [Effect.timer_stop])
  | streamhdr_input.usock nn_usock_event.NN_USOCK_ERROR =>
    some ({ self with state := NN_STREAMHDR_STATE_STOPPING_TIMER_ERROR }, [Effect.timer_stop])
  | streamhdr_input.timer nn_timer_event.NN_TIMER_TIMEOUT =>
    some ({ self with state := NN_STREAMHDR_STATE_STOPPING_TIMER_ERROR }, [Effect.timer_stop])
  | _ => none

/-- The handler of StreamHdr, `case NN_STREAMHDR_STATE_STOPPING_TIMER_ERROR`. -/
def nn_streamhdr_handler_STOPPING_TIMER_ERROR (self : nn_streamhdr) :
    streamhdr_input → Option (nn_streamhdr × List Effect)
  | streamhdr_input.timer nn_timer_event.NN_TIMER_STOPPED =>
    some ({ self with usock := none, usock_owner := none, state := NN_STREAMHDR_STATE_DONE },
      [Effect.usock_swap_owner_fsm self.usock_owner,
       Effect.streamhdr_raise nn_streamhdr_event.NN_STREAMHDR_ERROR])
  | _ => none

/-- The handler of StreamHdr, `case NN_STREAMHDR_STATE_STOPPING_TIMER_DONE`. -/
def nn_streamhdr_handler_STOPPING_TIMER_DONE (self : nn_streamhdr) :
    streamhdr_input → Option (nn_streamhdr × List Effect)
  | streamhdr_input.timer nn_timer_event.NN_TIMER_STOPPED =>
    some ({ self with usock := none, usock_owner := none, state := NN_STREAMHDR_STATE_DONE },
      [Effect.usock_swap_owner_fsm self.usock_owner,
       Effect.streamhdr_raise nn_streamhdr_event.NN_STREAMHDR_OK])
  | _ => none

/-- The function `nn_streamhdr_handler`. `ispeer` is `nn_pipebase_ispeer` of the
bound pipe and `timer_isidle` the answer of `nn_timer_isidle` when asked. -/
def nn_streamhdr_handler (ispeer : Nat → Bool) (timer_isidle : Bool)
    (self : nn_streamhdr) (ev : streamhdr_input) :
    Option (nn_streamhdr × List Effect) :=
  -- STOP procedure
  let stopreq : Bool := decide (ev = streamhdr_input.fsm nn_fsm_action.NN_FSM_STOP)
  let s1 : nn_streamhdr :=
    if stopreq then { self with state := NN_STREAMHDR_STATE_STOPPING } else self
  let e1 : List Effect := if stopreq then [Effect.timer_stop] else []
  if s1.state = NN_STREAMHDR_STATE_STOPPING then
    if timer_isidle = false then some (s1, e1)
    else some ({ s1 with state := NN_STREAMHDR_STATE_IDLE },
      e1 ++ [Effect.streamhdr_stopped nn_streamhdr_event.NN_STREAMHDR_STOPPED])
  else if s1.state = NN_STREAMHDR_STATE_IDLE then nn_streamhdr_handler_IDLE s1 ev
  else if s1.state = NN_STREAMHDR_STATE_SENDING then nn_streamhdr_handler_SENDING s1 ev
  else if s1.state = NN_STREAMHDR_STATE_RECEIVING then
    nn_streamhdr_handler_RECEIVING ispeer s1 ev
  else if s1.state = NN_STREAMHDR_STATE_STOPPING_TIMER_ERROR then
    nn_streamhdr_handler_STOPPING_TIMER_ERROR s1 ev
  else if s1.state = NN_STREAMHDR_STATE_STOPPING_TIMER_DONE then
    nn_streamhdr_handler_STOPPING_TIMER_DONE s1 ev
  else
    -- DONE state and invalid states: nn_assert (0)
    none

/-- Modelled from the spec: `nn_fsm_start` of the FSM runtime (`aio/fsm.c`, not
in the sources) delivers the `NN_FSM_START` action to the machine's handler. -/
def nn_streamhdr_fsm_start (ispeer : Nat → Bool) (timer_isidle : Bool)
    (self : nn_streamhdr) : Option (nn_streamhdr × List Effect) :=
  nn_streamhdr_handler ispeer timer_isidle self
    (streamhdr_input.fsm nn_fsm_action.NN_FSM_START)

/-- The C cast `(uint16_t) protocol` of an `int`. -/
def cast_uint16 (protocol : Int) : Nat := (protocol % 65536).toNat

/-- The function `nn_streamhdr_start`. `prev_owner` is the owner that
`nn_usock_swap_owner` returns; `protocol` and `sz` are what
`nn_pipebase_getopt (pipebase, NN_SOL_SOCKET, NN_PROTOCOL, ...)` stores. -/
def nn_streamhdr_start (ispeer : Nat → Bool) (timer_isidle : Bool)
    (prev_owner : Option Nat) (protocol : Int) (sz : Nat)
    (self : nn_streamhdr) (usock : Nat) (pipebase : Nat) :
    Option (nn_streamhdr × List Effect) :=
  if self.usock = none ∧ self.usock_owner = none then
    let s1 : nn_streamhdr :=
      { self with usock_owner := prev_owner, usock := some usock, pipebase := some pipebase }
    if sz = 4 then
      let s2 : nn_streamhdr :=
        { s1 with protohdr := nn_puts [0x00, 0x53, 0x50, 0x00, 0, 0, 0, 0] 4 (cast_uint16 protocol) }
      match nn_streamhdr_fsm_start ispeer timer_isidle s2 with
      | some (s3, effs) => some (s3, Effect.usock_swap_owner_fsm (some self.fsm) :: effs)
      | none => none
    else none
  else none

/-- The 8-byte handshake header of protocol identifier `p`: `00 53 50 00`, the
high byte and the low byte of `p mod 2^16`, `00 00`. -/
def handshake_header (p : Int) : List Nat :=
  [0x00, 0x53, 0x50, 0x00, (p % 2 ^ 16).toNat / 256, (p % 2 ^ 16).toNat % 256, 0x00, 0x00]

/-- One delivery of the reactor to a started StreamHdr: the event, the bytes
the socket stored in the buffer of the posted read when the event is
`NN_USOCK_RECEIVED` (ignored otherwise), and what `nn_timer_isidle` answers
during the handler. -/
structure streamhdr_delivery where
  ev : streamhdr_input
  data : List Nat
  timer_isidle : Bool
  deriving DecidableEq, Repr

/-- Modelled from the spec: the underlying socket (`aio/usock.c`, not in the
sources) completes the read posted with `nn_usock_recv (usock, protohdr, 8)` by
storing the received bytes in `protohdr` and then raising `NN_USOCK_RECEIVED`;
every other event is delivered to the handler as is. -/
def nn_streamhdr_deliver (ispeer : Nat → Bool) (self : nn_streamhdr)
    (d : streamhdr_delivery) : Option (nn_streamhdr × List Effect) :=
  if d.ev = streamhdr_input.usock nn_usock_event.NN_USOCK_RECEIVED then
    nn_streamhdr_handler ispeer d.timer_isidle { self with protohdr := d.data } d.ev
  else
    nn_streamhdr_handler ispeer d.timer_isidle self d.ev

/-- Deliveries handled one after the other; `none` when an assertion of the
handler fails on the way. The effects are collected in order. -/
def nn_streamhdr_run (ispeer : Nat → Bool) :
    nn_streamhdr → List streamhdr_delivery → Option (nn_streamhdr × List Effect)
  | s, [] => some (s, [])
  | s, d :: ds =>
    match nn_streamhdr_deliver ispeer s d with
    | none => none
    | some (s1, e1) =>
      match nn_streamhdr_run ispeer s1 ds with
      | none => none
      | some (s2, e2) => some (s2, e1 ++ e2)

/-- The check of a received header done in RECEIVING: the signature
`00 53 50 00` and a protocol identifier, big-endian at offset 4, that the pipe
accepts as a peer. -/
def valid_header (ispeer : Nat → Bool) (b : List Nat) : Prop :=
  b.take 4 = [0x00, 0x53, 0x50, 0x00] ∧ ispeer (256 * b.getD 4 0 + b.getD 5 0) = true

instance (ispeer : Nat → Bool) (b : List Nat) : Decidable (valid_header ispeer b) := by
  unfold valid_header
  exact inferInstance

/-- A delivery that makes the handshake fail: a socket error, a timer timeout,
or a received header that does not pass the check. -/
def failing_delivery (ispeer : Nat → Bool) (d : streamhdr_delivery) : Prop :=
  d.ev = streamhdr_input.usock nn_usock_event.NN_USOCK_ERROR
  ∨ d.ev = streamhdr_input.timer nn_timer_event.NN_TIMER_TIMEOUT
  ∨ (d.ev = streamhdr_input.usock nn_usock_event.NN_USOCK_RECEIVED ∧ ¬ valid_header ispeer d.data)

/-! ## Session (`srtipc.c`) -/

def NN_SRTIPC_MSG_NORMAL : Nat := 1
def NN_SRTIPC_MSG_SHMEM : Nat := 2

def NN_SRTIPC_STATE_IDLE : Nat := 1
def NN_SRTIPC_STATE_PROTOHDR : Nat := 2
def NN_SRTIPC_STATE_STOPPING_STREAMHDR : Nat := 3
def NN_SRTIPC_STATE_ACTIVE : Nat := 4
def NN_SRTIPC_STATE_SHUTTING_DOWN : Nat := 5
def NN_SRTIPC_STATE_DONE : Nat := 6
def NN_SRTIPC_STATE_STOPPING : Nat := 7

def NN_SRTIPC_SRC_USOCK : Int := 1
def NN_SRTIPC_SRC_STREAMHDR : Int := 2

def NN_SRTIPC_INSTATE_HDR : Int := 1
def NN_SRTIPC_INSTATE_BODY : Int := 2
def NN_SRTIPC_INSTATE_HASMSG : Int := 3

def NN_SRTIPC_OUTSTATE_IDLE : Int := 1
def NN_SRTIPC_OUTSTATE_SENDING : Int := 2

/-- Modelled from the spec: `nn_msg_init (msg, size)` of `utils/msg.c` (not in
the sources) makes a message with an empty header chunk and a body chunk of
`size` bytes; the bytes of a fresh body are taken as zero. -/
def nn_msg_init (size : Nat) : nn_msg :=
  { hdr := [], body := List.replicate size 0 }

/-- The C cast `(size_t) size`, for a 64-bit `size_t`. -/
def cast_size_t (size : Nat) : Nat := size % 2 ^ 64

/-- The fields of `struct nn_srtipc` that `srtipc.c` reads and writes. `fsm`
stands for the address of the embedded state machine. The child StreamHdr and
the pipe are collaborators: calls to them are effects, their answers inputs. -/
structure nn_srtipc where
  fsm : Nat
  state : Nat
  usock : Option Nat
  usock_owner : nn_fsm_owner
  instate : Int
  inhdr : List Nat
  inmsg : nn_msg
  outstate : Int
  outhdr : List Nat
  outmsg : nn_msg
  deriving DecidableEq, Repr

/-- The `(src, type)` pairs the handlers of the Session distinguish: `src` is
`NN_FSM_ACTION`, `NN_SRTIPC_SRC_USOCK` or `NN_SRTIPC_SRC_STREAMHDR`. -/
inductive srtipc_input where
  | action (type : nn_fsm_action)
  | usock (type : nn_usock_event)
  | streamhdr (type : nn_streamhdr_event)
  deriving DecidableEq, Repr

/-- The function `nn_srtipc_init`; the two 9-byte header buffers are not
initialised by the source and are taken as zero. -/
def nn_srtipc_init (fsm : Nat) : nn_srtipc :=
  { fsm := fsm, state := NN_SRTIPC_STATE_IDLE, usock := none,
    usock_owner := { src := -1, fsm := none },
    instate := -1, inhdr := List.replicate 9 0, inmsg := nn_msg_init 0,
    outstate := -1, outhdr := List.replicate 9 0, outmsg := nn_msg_init 0 }

/-- The outcome of a pipe call that can hit an assertion: `aborted` carries the
object and the effects as they are when the assertion fails. -/
inductive call_result (α : Type) where
  | aborted (self : nn_srtipc) (effs : List Effect)
  | returned (self : nn_srtipc) (effs : List Effect) (val : α)
  deriving DecidableEq, Repr

/-- The function `nn_srtipc_send`; the value returned is `0`. -/
def nn_srtipc_send (self : nn_srtipc) (msg : nn_msg) : call_result Int :=
  if self.state ≠ NN_SRTIPC_STATE_ACTIVE then call_result.aborted self []
  else if self.outstate ≠ NN_SRTIPC_OUTSTATE_IDLE then call_result.aborted self []
  else
    -- Move the message to the local storage.
    let s1 : nn_srtipc := { self with outmsg := msg }
    -- Serialise the message header.
    let s2 : nn_srtipc := { s1 with outhdr := s1.outhdr.set 0 NN_SRTIPC_MSG_NORMAL }
    let s3 : nn_srtipc :=
      { s2 with outhdr :=
          nn_putll s2.outhdr 1 ((s2.outmsg.hdr.length + s2.outmsg.body.length) % 2 ^ 64) }
    -- Start async sending.
    let effs : List Effect := [Effect.usock_send [s3.outhdr, s3.outmsg.hdr, s3.outmsg.body]]
    call_result.returned { s3 with outstate := NN_SRTIPC_OUTSTATE_SENDING } effs 0

/-- The function `nn_srtipc_recv`; the value is the message moved to the
caller through the `msg` argument, with the return value `0` of the C
function. -/
def nn_srtipc_recv (self : nn_srtipc) : call_result (nn_msg × Int) :=
  if self.state ≠ NN_SRTIPC_STATE_ACTIVE then call_result.aborted self []
  else if self.instate ≠ NN_SRTIPC_INSTATE_HASMSG then call_result.aborted self []
  else
    -- Move received message to the user.
    let msg : nn_msg := self.inmsg
    let s1 : nn_srtipc := { self with inmsg := nn_msg_init 0 }
    -- Start receiving new message.
    let s2 : nn_srtipc := { s1 with instate := NN_SRTIPC_INSTATE_HDR }
    call_result.returned s2 [Effect.usock_recv RecvBuf.inhdr 9] (msg, 0)

/-- The function `nn_srtipc_shutdown`; `streamhdr_isidle` is the answer of
`nn_streamhdr_isidle` when asked. -/
def nn_srtipc_shutdown (streamhdr_isidle : Bool) (self : nn_srtipc) (ev : srtipc_input) :
    Option (nn_srtipc × List Effect) :=
  let stopreq : Bool := decide (ev = srtipc_input.action nn_fsm_action.NN_FSM_STOP)
  let s1 : nn_srtipc := if stopreq then { self with state := NN_SRTIPC_STATE_STOPPING } else self
  let e1 : List Effect := if stopreq then [Effect.pipebase_stop, Effect.streamhdr_stop] else []
  if s1.state = NN_SRTIPC_STATE_STOPPING then
    if streamhdr_isidle = true then
      some ({ s1 with usock := none, usock_owner := { src := -1, fsm := none },
                      state := NN_SRTIPC_STATE_IDLE },
        e1 ++ [Effect.usock_swap_owner s1.usock_owner, Effect.srtipc_stopped NN_SRTIPC_STOPPED])
    else some (s1, e1)
  else
    -- nn_fsm_bad_state
    none

/-- The handler of the Session, `case NN_SRTIPC_STATE_IDLE`. -/
def nn_srtipc_handler_IDLE (self : nn_srtipc) :
    srtipc_input → Option (nn_srtipc × List Effect)
  | srtipc_input.action nn_fsm_action.NN_FSM_START =>
    some ({ self with state := NN_SRTIPC_STATE_PROTOHDR }, [Effect.streamhdr_start])
  | _ => none

/-- The handler of the Session, `case NN_SRTIPC_STATE_PROTOHDR`. -/
def nn_srtipc_handler_PROTOHDR (self : nn_srtipc) :
    srtipc_input → Option (nn_srtipc × List Effect)
  | srtipc_input.streamhdr nn_streamhdr_event.NN_STREAMHDR_OK =>
    some ({ self with state := NN_SRTIPC_STATE_STOPPING_STREAMHDR }, [Effect.streamhdr_stop])
  | srtipc_input.streamhdr nn_streamhdr_event.NN_STREAMHDR_ERROR =>
    some ({ self with state := NN_SRTIPC_STATE_DONE }, [Effect.srtipc_raise NN_SRTIPC_ERROR])
  | _ => none

/-- The handler of the Session, `case NN_SRTIPC_STATE_STOPPING_STREAMHDR`; `rc`
is the value `nn_pipebase_start` returns. -/
def nn_srtipc_handler_STOPPING_STREAMHDR (rc : Int) (self : nn_srtipc) :
    srtipc_input → Option (nn_srtipc × List Effect)
  | srtipc_input.streamhdr nn_streamhdr_event.NN_STREAMHDR_STOPPED =>
    if rc < 0 then
      some ({ self with state := NN_SRTIPC_STATE_DONE },
        [Effect.pipebase_start, Effect.srtipc_raise NN_SRTIPC_ERROR])
    else
      some ({ self with instate := NN_SRTIPC_INSTATE_HDR,
                        outstate := NN_SRTIPC_OUTSTATE_IDLE,
                        state := NN_SRTIPC_STATE_ACTIVE },
        [Effect.pipebase_start, Effect.usock_recv RecvBuf.inhdr 9])
  | _ => none

/-- The handler of the Session, `case NN_SRTIPC_STATE_ACTIVE`, event
`NN_USOCK_RECEIVED`. -/
def nn_srtipc_handler_ACTIVE_RECEIVED (self : nn_srtipc) :
    Option (nn_srtipc × List Effect) :=
  if self.instate = NN_SRTIPC_INSTATE_HDR then
    if self.inhdr.getD 0 0 ≠ NN_SRTIPC_MSG_NORMAL then none
    else
      let size : Nat := nn_getll self.inhdr 1
      let s1 : nn_srtipc := { self with inmsg := nn_msg_init (cast_size_t size) }
      if size = 0 then
        some ({ s1 with instate := NN_SRTIPC_INSTATE_HASMSG }, [Effect.pipebase_received])
      else
        some ({ s1 with instate := NN_SRTIPC_INSTATE_BODY },
          [Effect.usock_recv RecvBuf.inmsg_body (cast_size_t size)])
  else if self.instate = NN_SRTIPC_INSTATE_BODY then
    some ({ self with instate := NN_SRTIPC_INSTATE_HASMSG }, [Effect.pipebase_received])
  else none

/-- The handler of the Session, `case NN_SRTIPC_STATE_ACTIVE`. -/
def nn_srtipc_handler_ACTIVE (self : nn_srtipc) :
    srtipc_input → Option (nn_srtipc × List Effect)
  | srtipc_input.usock nn_usock_event.NN_USOCK_SENT =>
    if self.outstate ≠ NN_SRTIPC_OUTSTATE_SENDING then none
    else
      some ({ self with outstate := NN_SRTIPC_OUTSTATE_IDLE, outmsg := nn_msg_init 0 },
        [Effect.pipebase_sent])
  | srtipc_input.usock nn_usock_event.NN_USOCK_RECEIVED =>
    nn_srtipc_handler_ACTIVE_RECEIVED self
  | srtipc_input.usock nn_usock_event.NN_USOCK_SHUTDOWN =>
    some ({ self with state := NN_SRTIPC_STATE_SHUTTING_DOWN }, [Effect.pipebase_stop])
  | srtipc_input.usock nn_usock_event.NN_USOCK_ERROR =>
    some ({ self with state := NN_SRTIPC_STATE_DONE },
      [Effect.pipebase_stop, Effect.srtipc_raise NN_SRTIPC_ERROR])
  | _ => none

/-- The handler of the Session, `case NN_SRTIPC_STATE_SHUTTING_DOWN`. -/
def nn_srtipc_handler_SHUTTING_DOWN (self : nn_srtipc) :
    srtipc_input → Option (nn_srtipc × List Effect)
  | srtipc_input.usock nn_usock_event.NN_USOCK_ERROR =>
    some ({ self with state := NN_SRTIPC_STATE_DONE }, [Effect.srtipc_raise NN_SRTIPC_ERROR])
  | _ => none

/-- The function `nn_srtipc_handler`; `rc` is the value `nn_pipebase_start`
returns when called. -/
def nn_srtipc_handler (rc : Int) (self : nn_srtipc) (ev : srtipc_input) :
    Option (nn_srtipc × List Effect) :=
  if self.state = NN_SRTIPC_STATE_IDLE then nn_srtipc_handler_IDLE self ev
  else if self.state = NN_SRTIPC_STATE_PROTOHDR then nn_srtipc_handler_PROTOHDR self ev
  else if self.state = NN_SRTIPC_STATE_STOPPING_STREAMHDR then
    nn_srtipc_handler_STOPPING_STREAMHDR rc self ev
  else if self.state = NN_SRTIPC_STATE_ACTIVE then nn_srtipc_handler_ACTIVE self ev
  else if self.state = NN_SRTIPC_STATE_SHUTTING_DOWN then nn_srtipc_handler_SHUTTING_DOWN self ev
  else
    -- DONE state: nn_fsm_bad_source; invalid state: nn_fsm_bad_state
    none

/-- Modelled from the spec: dispatch of the FSM runtime (`aio/fsm.c`, not in the
sources): while the machine is stopping its shutdown handler is invoked instead
of the normal handler. -/
def nn_srtipc_feed (streamhdr_isidle : Bool) (rc : Int) (self : nn_srtipc)
    (ev : srtipc_input) : Option (nn_srtipc × List Effect) :=
  if self.state = NN_SRTIPC_STATE_STOPPING then nn_srtipc_shutdown streamhdr_isidle self ev
  else nn_srtipc_handler rc self ev

/-- The function `nn_srtipc_start`. `prev_owner` is the owner record that
`nn_usock_swap_owner` leaves in `usock_owner`. The call `nn_fsm_start` is
modelled from the spec (the FSM runtime is not in the sources): it delivers
`NN_FSM_START` to the handler. -/
def nn_srtipc_start (prev_owner : nn_fsm_owner) (self : nn_srtipc) (usock : Nat) :
    Option (nn_srtipc × List Effect) :=
  if self.usock = none ∧ self.usock_owner.fsm = none then
    let s1 : nn_srtipc :=
      { self with usock_owner := { src := NN_SRTIPC_SRC_USOCK, fsm := some self.fsm } }
    let e1 : List Effect := [Effect.usock_swap_owner s1.usock_owner]
    let s2 : nn_srtipc := { s1 with usock_owner := prev_owner, usock := some usock }
    match nn_srtipc_handler 0 s2 (srtipc_input.action nn_fsm_action.NN_FSM_START) with
    | some (s3, e3) => some (s3, e1 ++ e3)
    | none => none
  else none

/-- The function `nn_srtipc_stop`, that is `nn_fsm_stop`. Modelled from the
spec (the FSM runtime is not in the sources): stop on an idle machine is a
contract violation, stop during a shutdown in progress is a no-op, otherwise
the Stop action is injected into the shutdown handler. -/
def nn_srtipc_stop (streamhdr_isidle : Bool) (self : nn_srtipc) :
    Option (nn_srtipc × List Effect) :=
  if self.state = NN_SRTIPC_STATE_IDLE then none
  else if self.state = NN_SRTIPC_STATE_STOPPING then some (self, [])
  else nn_srtipc_shutdown streamhdr_isidle self (srtipc_input.action nn_fsm_action.NN_FSM_STOP)

/-! ## The Session in its environment -/

/-- What the environment does to a Session: the calls of the parent
(`nn_srtipc_start`, `nn_srtipc_stop`), the events the runtime delivers (from
the socket and from the child StreamHdr, each with the answers the collaborators
give during the handler), and the calls of the pipe user (`send`, `recv`). For
`NN_USOCK_RECEIVED`, `data` is what the socket stored in the buffer of the
posted read. -/
inductive srtipc_call where
  | start (usock : Nat) (prev_owner : nn_fsm_owner)
  | stop (streamhdr_isidle : Bool)
  | usock (type : nn_usock_event) (data : List Nat) (streamhdr_isidle : Bool)
  | streamhdr (type : nn_streamhdr_event) (streamhdr_isidle : Bool) (rc : Int)
  | send (msg : nn_msg)
  | recv
  deriving DecidableEq, Repr

/-- A Session together with what an observer records about it: the read that
is posted on the socket, all effects so far, and the number of `send` calls
that returned. -/
structure srtipc_world where
  self : nn_srtipc
  rd : Option (RecvBuf × Nat)
  trace : List Effect
  sends : Nat
  deriving DecidableEq, Repr

/-- A freshly initialised Session. -/
def srtipc_world_init (fsm : Nat) : srtipc_world :=
  { self := nn_srtipc_init fsm, rd := none, trace := [], sends := 0 }

/-- The read posted by a list of effects, if any (the last one). -/
def posted_read : List Effect → Option (RecvBuf × Nat)
  | [] => none
  | Effect.usock_recv buf len :: rest =>
    match posted_read rest with
    | some r => some r
    | none => some (buf, len)
  | _ :: rest => posted_read rest

/-- Modelled from the spec: the underlying socket (`aio/usock.c`, not in the
sources) completes a posted read by storing the received bytes at the start of
the posted buffer. -/
def usock_store (self : nn_srtipc) (rd : Option (RecvBuf × Nat)) (data : List Nat) : nn_srtipc :=
  match rd with
  | some (RecvBuf.inhdr, _) =>
    { self with inhdr := data ++ self.inhdr.drop data.length }
  | some (RecvBuf.inmsg_body, _) =>
    { self with inmsg := { self.inmsg with body := data ++ self.inmsg.body.drop data.length } }
  | _ => self

/-- The world after a handler or a call returned `(s, e)`. -/
def srtipc_world_next (w : srtipc_world) (rd : Option (RecvBuf × Nat)) (s : nn_srtipc)
    (e : List Effect) : srtipc_world :=
  { w with self := s, trace := w.trace ++ e,
           rd := match posted_read e with
                 | some r => some r
                 | none => rd }

/-- One step of the Session in its environment; `none` when an assertion
fails. A Received event consumes the posted read. -/
def srtipc_step (w : srtipc_world) : srtipc_call → Option srtipc_world
  | srtipc_call.start usock prev_owner =>
    match nn_srtipc_start prev_owner w.self usock with
    | some (s, e) => some (srtipc_world_next w w.rd s e)
    | none => none
  | srtipc_call.stop streamhdr_isidle =>
    match nn_srtipc_stop streamhdr_isidle w.self with
    | some (s, e) => some (srtipc_world_next w w.rd s e)
    | none => none
  | srtipc_call.usock type data streamhdr_isidle =>
    if type = nn_usock_event.NN_USOCK_RECEIVED then
      match nn_srtipc_feed streamhdr_isidle 0 (usock_store w.self w.rd data)
          (srtipc_input.usock type) with
      | some (s, e) => some (srtipc_world_next w none s e)
      | none => none
    else
      match nn_srtipc_feed streamhdr_isidle 0 w.self (srtipc_input.usock type) with
      | some (s, e) => some (srtipc_world_next w w.rd s e)
      | none => none
  | srtipc_call.streamhdr type streamhdr_isidle rc =>
    match nn_srtipc_feed streamhdr_isidle rc w.self (srtipc_input.streamhdr type) with
    | some (s, e) => some (srtipc_world_next w w.rd s e)
    | none => none
  | srtipc_call.send msg =>
    match nn_srtipc_send w.self msg with
    | call_result.returned s e _ =>
      some { srtipc_world_next w w.rd s e with sends := w.sends + 1 }
    | call_result.aborted _ _ => none
  | srtipc_call.recv =>
    match nn_srtipc_recv w.self with
    | call_result.returned s e _ => some (srtipc_world_next w w.rd s e)
    | call_result.aborted _ _ => none

/-- Steps taken one after the other; `none` when an assertion fails on the
way. -/
def srtipc_run : srtipc_world → List srtipc_call → Option srtipc_world
  | w, [] => some w
  | w, c :: cs =>
    match srtipc_step w c with
    | none => none
    | some w1 => srtipc_run w1 cs

/-- The number of `nn_pipebase_sent` upcalls recorded in a world. -/
def sent_upcalls (w : srtipc_world) : Nat := w.trace.count Effect.pipebase_sent

/-- Whether a call is `nn_srtipc_start`. -/
def srtipc_call.is_start : srtipc_call → Bool
  | srtipc_call.start _ _ => true
  | _ => false

/-- Modelled from the spec: the stream of bytes a peer finds on the wire is
handed to the Session read by read: as long as a read is posted and the stream
holds as many bytes as that read asks for, the socket stores them and raises
`NN_USOCK_RECEIVED`. `fuel` bounds the number of reads completed. -/
def srtipc_feed_stream : Nat → srtipc_world → List Nat → Option srtipc_world
  | 0, w, _ => some w
  | fuel + 1, w, stream =>
    match w.rd with
    | none => some w
    | some (_, len) =>
      if stream.length < len then some w
      else
        match srtipc_step w
            (srtipc_call.usock nn_usock_event.NN_USOCK_RECEIVED (stream.take len) false) with
        | none => none
        | some w1 => srtipc_feed_stream fuel w1 (stream.drop len)

/-- The big-endian 64-bit encoding of `v`: eight bytes, most significant
first. -/
def be64 (v : Nat) : List Nat :=
  [(v / 2 ^ 56) % 256, (v / 2 ^ 48) % 256, (v / 2 ^ 40) % 256, (v / 2 ^ 32) % 256,
   (v / 2 ^ 24) % 256, (v / 2 ^ 16) % 256, (v / 2 ^ 8) % 256, v % 256]

/-- The bytes a gather write puts on the wire: its buffers, concatenated. -/
def wire_bytes (iov : List (List Nat)) : List Nat := iov.flatten

/-- Modelled from the spec: the FSM runtime (`aio/fsm.c`, not in the sources)
delivers what a child raises to the handler of its parent, tagged with the
source identifier registered at creation; the StreamHdr of a Session is
registered as `NN_SRTIPC_SRC_STREAMHDR`. The events are listed in the order
raised; `streamhdr_isidle` and `rc` are the answers the collaborators give
during the handlers of the Session. -/
def streamhdr_raised (streamhdr_isidle : Bool) (rc : Int) : List Effect → List srtipc_call
  | [] => []
  | Effect.streamhdr_raise type :: rest =>
    srtipc_call.streamhdr type streamhdr_isidle rc :: streamhdr_raised streamhdr_isidle rc rest
  | Effect.streamhdr_stopped type :: rest =>
    srtipc_call.streamhdr type streamhdr_isidle rc :: streamhdr_raised streamhdr_isidle rc rest
  | _ :: rest => streamhdr_raised streamhdr_isidle rc rest

/-- The relation between upcalls and sends that holds for a Session started
once: `sent` upcalls never exceed the sends that returned and lag by at most
one; they are equal when outbound = IDLE and during the handshake, and lag by
exactly one when outbound = SENDING. -/
def sent_matches_sends (w : srtipc_world) : Prop :=
  sent_upcalls w ≤ w.sends ∧ w.sends ≤ sent_upcalls w + 1
  ∧ (w.self.outstate = NN_SRTIPC_OUTSTATE_IDLE → sent_upcalls w = w.sends)
  ∧ (w.self.outstate = NN_SRTIPC_OUTSTATE_SENDING → sent_upcalls w + 1 = w.sends)
  ∧ (w.self.state = NN_SRTIPC_STATE_PROTOHDR ∨ w.self.state = NN_SRTIPC_STATE_STOPPING_STREAMHDR
      → sent_upcalls w = w.sends)

/-- A Session whose handshake failed and that never started its pipe: it is in
DONE, STOPPING or IDLE and neither `nn_pipebase_start` nor
`nn_pipebase_received` has been called. -/
def pipe_never_started (w : srtipc_world) : Prop :=
  (w.self.state = NN_SRTIPC_STATE_DONE ∨ w.self.state = NN_SRTIPC_STATE_STOPPING
    ∨ w.self.state = NN_SRTIPC_STATE_IDLE)
  ∧ Effect.pipebase_start ∉ w.trace ∧ Effect.pipebase_received ∉ w.trace

/-- One connection, for illustration: start, handshake OK, StreamHdr stopped
and pipe started, one send, its Sent completion. -/
def one_send_calls : List srtipc_call :=
  [srtipc_call.start 1 { src := 3, fsm := some 9 },
   srtipc_call.streamhdr nn_streamhdr_event.NN_STREAMHDR_OK false 0,
   srtipc_call.streamhdr nn_streamhdr_event.NN_STREAMHDR_STOPPED true 0,
   srtipc_call.send { hdr := [], body := [0x41, 0x42, 0x43] },
   srtipc_call.usock nn_usock_event.NN_USOCK_SENT [] false]

/-- The world `one_send_calls` leads to from a freshly initialised Session. -/
def one_send_world : srtipc_world :=
  { self :=
      { fsm := 5, state := NN_SRTIPC_STATE_ACTIVE, usock := some 1,
        usock_owner := { src := 3, fsm := some 9 },
        instate := NN_SRTIPC_INSTATE_HDR, inhdr := List.replicate 9 0,
        inmsg := nn_msg_init 0, outstate := NN_SRTIPC_OUTSTATE_IDLE,
        outhdr := [0x01, 0x00, 0x00, 0x00, 0x00, 0x00, 0x00, 0x00, 0x03],
        outmsg := nn_msg_init 0 },
    rd := some (RecvBuf.inhdr, 9),
    trace := [Effect.usock_swap_owner { src := 1, fsm := some 5 }, Effect.streamhdr_start,
              Effect.streamhdr_stop, Effect.pipebase_start,
              Effect.usock_recv RecvBuf.inhdr 9,
              Effect.usock_send
                [[0x01, 0x00, 0x00, 0x00, 0x00, 0x00, 0x00, 0x00, 0x03], [],
                 [0x41, 0x42, 0x43]],
              Effect.pipebase_sent],
    sends := 1 }

/-- The states of StreamHdr from which the handshake can no longer succeed:
STOPPING_TIMER_ERROR, DONE, STOPPING and IDLE. -/
def streamhdr_over (s : nn_streamhdr) : Prop :=
  s.state = NN_STREAMHDR_STATE_STOPPING_TIMER_ERROR ∨ s.state = NN_STREAMHDR_STATE_DONE
    ∨ s.state = NN_STREAMHDR_STATE_STOPPING ∨ s.state = NN_STREAMHDR_STATE_IDLE

/-! ## Session: observers used by the later theorems -/

/-- The handler of the Session, `case NN_SRTIPC_STATE_ACTIVE`, event
`NN_USOCK_RECEIVED`, `case NN_SRTIPC_INSTATE_HDR`, keeping the object and the
effects as they are when the assertion on the type byte fails. -/
def nn_srtipc_handler_ACTIVE_RECEIVED_HDR (self : nn_srtipc) : call_result Unit :=
  if self.inhdr.getD 0 0 ≠ NN_SRTIPC_MSG_NORMAL then call_result.aborted self []
  else
    let size : Nat := nn_getll self.inhdr 1
    let s1 : nn_srtipc := { self with inmsg := nn_msg_init (cast_size_t size) }
    if size = 0 then
      call_result.returned { s1 with instate := NN_SRTIPC_INSTATE_HASMSG }
        [Effect.pipebase_received] ()
    else
      call_result.returned { s1 with instate := NN_SRTIPC_INSTATE_BODY }
        [Effect.usock_recv RecvBuf.inmsg_body (cast_size_t size)] ()

/-- What a handler returns, read off a `call_result`: nothing when the
assertion failed. -/
def call_result.to_handler {α : Type} : call_result α → Option (nn_srtipc × List Effect)
  | call_result.aborted _ _ => none
  | call_result.returned s e _ => some (s, e)

/-- Modelled from the spec: `nn_usock_swap_owner (usock, &owner)` (`aio/usock.c`,
not in the sources) makes `owner` the owner of the socket, whoever owned it
before. The owner of the Session's socket after a list of effects, `cur` being
the owner before them. -/
def session_usock_owner (cur : nn_fsm_owner) : List Effect → nn_fsm_owner
  | [] => cur
  | Effect.usock_swap_owner owner :: rest => session_usock_owner owner rest
  | _ :: rest => session_usock_owner cur rest

/-- A started Session holds the socket `usock` it was started with and keeps
the owner `prev` that held the socket before `nn_srtipc_start`, until it is
back in IDLE. -/
def keeps_saved_owner (usock : Nat) (prev : nn_fsm_owner) (w : srtipc_world) : Prop :=
  w.self.state ≠ NN_SRTIPC_STATE_IDLE →
    w.self.usock = some usock ∧ w.self.usock_owner = prev

/-- A started StreamHdr that has not finished keeps the owner `prev` saved by
`nn_streamhdr_start`: in SENDING, RECEIVING and the two STOPPING_TIMER states
`usock_owner` is `prev`. -/
def streamhdr_keeps_owner (prev : Option Nat) (s : nn_streamhdr) : Prop :=
  (s.state = NN_STREAMHDR_STATE_SENDING ∨ s.state = NN_STREAMHDR_STATE_RECEIVING
    ∨ s.state = NN_STREAMHDR_STATE_STOPPING_TIMER_ERROR
    ∨ s.state = NN_STREAMHDR_STATE_STOPPING_TIMER_DONE) → s.usock_owner = prev

/-- Whether an effect posts a read on the socket. -/
def Effect.is_usock_recv : Effect → Bool
  | Effect.usock_recv _ _ => true
  | _ => false

/-- Whether an effect posts a write on the socket. -/
def Effect.is_usock_send : Effect → Bool
  | Effect.usock_send _ => true
  | _ => false

/-- A Session in its environment together with the operations outstanding on
its socket: reads and writes posted by the Session whose completion has not
been delivered yet. -/
structure srtipc_io where
  w : srtipc_world
  reads : Nat
  writes : Nat
  deriving DecidableEq, Repr

/-- A freshly initialised Session; nothing is posted. -/
def srtipc_io_init (fsm : Nat) : srtipc_io :=
  { w := srtipc_world_init fsm, reads := 0, writes := 0 }

/-- Modelled from the spec: the operations outstanding on the socket of a
Session. The parent starts a Session on a socket that has just been connected
or accepted, with nothing posted on it; a Received (Sent) event is the
completion of one read (write); every `nn_usock_recv` (`nn_usock_send`) of the
step posts one more. -/
def srtipc_io_step (x : srtipc_io) (c : srtipc_call) : Option srtipc_io :=
  match srtipc_step x.w c with
  | none => none
  | some w1 =>
    let e : List Effect := w1.trace.drop x.w.trace.length
    let reads0 : Nat :=
      match c with
      | srtipc_call.start _ _ => 0
      | srtipc_call.usock nn_usock_event.NN_USOCK_RECEIVED _ _ => x.reads - 1
      | _ => x.reads
    let writes0 : Nat :=
      match c with
      | srtipc_call.start _ _ => 0
      | srtipc_call.usock nn_usock_event.NN_USOCK_SENT _ _ => x.writes - 1
      | _ => x.writes
    some { w := w1, reads := reads0 + e.countP Effect.is_usock_recv,
           writes := writes0 + e.countP Effect.is_usock_send }

/-- Steps taken one after the other, with the outstanding operations. -/
def srtipc_io_run : srtipc_io → List srtipc_call → Option srtipc_io
  | x, [] => some x
  | x, c :: cs =>
    match srtipc_io_step x c with
    | none => none
    | some x1 => srtipc_io_run x1 cs

/-- The relation between the sub-states of a Session and the operations
outstanding on its socket: in ACTIVE one read is outstanding when inbound is
HDR or BODY and none when it is HASMSG, one write when outbound is SENDING and
none when it is IDLE; during the handshake the Session has nothing posted. -/
def io_matches_substates (x : srtipc_io) : Prop :=
  (x.w.self.state = NN_SRTIPC_STATE_ACTIVE →
    ((((x.w.self.instate = NN_SRTIPC_INSTATE_HDR ∨ x.w.self.instate = NN_SRTIPC_INSTATE_BODY)
          ∧ x.reads = 1)
        ∨ (x.w.self.instate = NN_SRTIPC_INSTATE_HASMSG ∧ x.reads = 0))
      ∧ ((x.w.self.outstate = NN_SRTIPC_OUTSTATE_SENDING ∧ x.writes = 1)
        ∨ (x.w.self.outstate = NN_SRTIPC_OUTSTATE_IDLE ∧ x.writes = 0))))
  ∧ ((x.w.self.state = NN_SRTIPC_STATE_PROTOHDR
        ∨ x.w.self.state = NN_SRTIPC_STATE_STOPPING_STREAMHDR) →
      x.reads = 0 ∧ x.writes = 0)

/-- One connection, for illustration: start, handshake OK, StreamHdr stopped
and pipe started, one send whose completion is still to come. -/
def in_flight_calls : List srtipc_call :=
  [srtipc_call.start 1 { src := 3, fsm := some 9 },
   srtipc_call.streamhdr nn_streamhdr_event.NN_STREAMHDR_OK false 0,
   srtipc_call.streamhdr nn_streamhdr_event.NN_STREAMHDR_STOPPED true 0,
   srtipc_call.send { hdr := [], body := [0x41, 0x42, 0x43] }]

/-- The world `in_flight_calls` leads to from a freshly initialised Session,
with the operations outstanding on the socket. -/
def in_flight_io : srtipc_io :=
  { w :=
      { self :=
          { fsm := 5, state := NN_SRTIPC_STATE_ACTIVE, usock := some 1,
            usock_owner := { src := 3, fsm := some 9 },
            instate := NN_SRTIPC_INSTATE_HDR, inhdr := List.replicate 9 0,
            inmsg := nn_msg_init 0, outstate := NN_SRTIPC_OUTSTATE_SENDING,
            outhdr := [0x01, 0x00, 0x00, 0x00, 0x00, 0x00, 0x00, 0x00, 0x03],
            outmsg := { hdr := [], body := [0x41, 0x42, 0x43] } },
        rd := some (RecvBuf.inhdr, 9),
        trace := [Effect.usock_swap_owner { src := 1, fsm := some 5 }, Effect.streamhdr_start,
                  Effect.streamhdr_stop, Effect.pipebase_start,
                  Effect.usock_recv RecvBuf.inhdr 9,
                  Effect.usock_send
                    [[0x01, 0x00, 0x00, 0x00, 0x00, 0x00, 0x00, 0x00, 0x03], [],
                     [0x41, 0x42, 0x43]]],
        sends := 1 },
    reads := 1, writes := 1 }

/-! ## Endpoints: events, effects and the answers of collaborators -/

/-- Modelled from the spec: the events an AcceptSession raises to its parent
(`transports/rtipc/artipc.h`, not in the sources). -/
inductive nn_artipc_event where
  | NN_ARTIPC_ACCEPTED
  | NN_ARTIPC_ERROR
  | NN_ARTIPC_STOPPED
  deriving DecidableEq, Repr

/-- Modelled from the spec: the events of the reconnect Backoff
(`transports/utils/backoff.h`, not in the sources). -/
inductive nn_backoff_event where
  | NN_BACKOFF_TIMEOUT
  | NN_BACKOFF_STOPPED
  deriving DecidableEq, Repr

/-- Modelled from the spec: the statistics counters of an endpoint
(`nn_epbase_stat_increment`, not in the sources). -/
inductive nn_stat where
  | NN_STAT_ESTABLISHED_CONNECTIONS
  | NN_STAT_ACCEPTED_CONNECTIONS
  | NN_STAT_DROPPED_CONNECTIONS
  | NN_STAT_BROKEN_CONNECTIONS
  | NN_STAT_CONNECT_ERRORS
  | NN_STAT_ACCEPT_ERRORS
  | NN_STAT_INPROGRESS_CONNECTIONS
  deriving DecidableEq, Repr

/-- The two socket options the endpoints set. -/
inductive nn_sockopt where
  | SO_SNDBUF
  | SO_RCVBUF
  deriving DecidableEq, Repr

/-- A call of an endpoint machine into a collaborator, recorded in program
order. `p` is the address of the AcceptSession a BindEndpoint acts on and
`addr` the bytes of the address string of the endpoint. -/
inductive EpEffect where
  | epbase_clear_error
  | epbase_set_error (errnum : Int)
  | epbase_stat_increment (name : nn_stat) (delta : Int)
  | epbase_stopped
  | unlink (addr : List Nat)
  | usock_start
  | usock_bind (addr : List Nat)
  | usock_listen (backlog : Int)
  | usock_connect (addr : List Nat)
  | usock_accept (listener : Option Nat)
  | usock_setsockopt (opt : nn_sockopt) (val : Int)
  | usock_activate
  | usock_stop
  | usock_swap_owner (owner : nn_fsm_owner)
  | srtipc_start
  | srtipc_stop
  | backoff_init (ivl : Int) (ivl_max : Int)
  | backoff_start
  | backoff_stop
  | artipc_raise (type : nn_artipc_event)
  | artipc_stopped (type : nn_artipc_event)
  | artipc_init (p : Nat) (src : Int) (owner : Nat)
  | artipc_start (p : Nat) (listener : Nat)
  | artipc_stop (p : Nat)
  | artipc_term (p : Nat)
  | free (p : Nat)
  | fsm_stopped_noevent
  deriving DecidableEq, Repr

/-- The answers the collaborators give during one invocation of an endpoint
handler: option values with their sizes, return codes, `isidle` answers, the
address string of the endpoint, the address `nn_alloc` returns (`none` is
`NULL`), and the value of the constant `NN_USOCK_SHUTDOWN` (`aio/usock.h` is not
in the sources). `srtipc_isidle_at_stop` is the answer to the `nn_srtipc_isidle`
asked before `nn_srtipc_stop`, `srtipc_isidle` the one asked after it. -/
structure ep_env where
  usock_shutdown_code : Int
  sndbuf : Int
  sndbuf_sz : Nat
  rcvbuf : Int
  rcvbuf_sz : Nat
  usock_errno : Int
  srtipc_isidle_at_stop : Bool
  srtipc_isidle : Bool
  usock_isidle : Bool
  backoff_isidle : Bool
  artipc_isidle : Bool
  addr : List Nat
  sun_path_size : Nat
  unlink_rc : Int
  unlink_enoent : Bool
  usock_start_rc : Int
  usock_bind_rc : Int
  usock_listen_rc : Int
  alloc : Option Nat
  deriving DecidableEq, Repr

/-! ## AcceptSession (`artipc.c`) -/

def NN_ARTIPC_STATE_IDLE : Nat := 1
def NN_ARTIPC_STATE_ACCEPTING : Nat := 2
def NN_ARTIPC_STATE_ACTIVE : Nat := 3
def NN_ARTIPC_STATE_STOPPING_SRTIPC : Nat := 4
def NN_ARTIPC_STATE_STOPPING_USOCK : Nat := 5
def NN_ARTIPC_STATE_DONE : Nat := 6
def NN_ARTIPC_STATE_STOPPING_SRTIPC_FINAL : Nat := 7
def NN_ARTIPC_STATE_STOPPING : Nat := 8

def NN_ARTIPC_SRC_USOCK : Int := 1
def NN_ARTIPC_SRC_SRTIPC : Int := 2
def NN_ARTIPC_SRC_LISTENER : Int := 3

/-- The fields of `struct nn_artipc` that `artipc.c` reads and writes. `fsm`
stands for the address of the object; `listener` is the borrowed listening
socket (`none` is `NULL`). The child socket, the Session and the endpoint base
are collaborators. -/
structure nn_artipc where
  fsm : Nat
  state : Nat
  listener : Option Nat
  listener_owner : nn_fsm_owner
  deriving DecidableEq, Repr

/-- The `(src, type)` pairs the handlers of the AcceptSession distinguish. The
type of an event from the Session is kept as the integer raised
(`NN_SRTIPC_ERROR`, `NN_SRTIPC_STOPPED`), because the source compares it with
`NN_USOCK_SHUTDOWN` as well. -/
inductive artipc_input where
  | action (type : nn_fsm_action)
  | usock (type : nn_usock_event)
  | srtipc (type : Int)
  | listener (type : nn_usock_event)
  deriving DecidableEq, Repr

/-- The function `nn_artipc_init`. -/
def nn_artipc_init (fsm : Nat) : nn_artipc :=
  { fsm := fsm, state := NN_ARTIPC_STATE_IDLE, listener := none,
    listener_owner := { src := -1, fsm := none } }

/-- The last block of `nn_artipc_shutdown`, `state == NN_ARTIPC_STATE_STOPPING`. -/
def nn_artipc_shutdown_STOPPING (env : ep_env) (self : nn_artipc) (e : List EpEffect) :
    Option (nn_artipc × List EpEffect) :=
  if env.usock_isidle = false then some (self, e)
  else if self.listener ≠ none then
    if self.listener_owner.fsm = none then none
    else
      some ({ self with listener := none, listener_owner := { src := -1, fsm := none },
                        state := NN_ARTIPC_STATE_IDLE },
        e ++ [EpEffect.usock_swap_owner self.listener_owner,
              EpEffect.artipc_stopped nn_artipc_event.NN_ARTIPC_STOPPED])
  else
    some ({ self with state := NN_ARTIPC_STATE_IDLE },
      e ++ [EpEffect.artipc_stopped nn_artipc_event.NN_ARTIPC_STOPPED])

/-- The function `nn_artipc_shutdown`. -/
def nn_artipc_shutdown (env : ep_env) (self : nn_artipc) (ev : artipc_input) :
    Option (nn_artipc × List EpEffect) :=
  let stopreq : Bool := decide (ev = artipc_input.action nn_fsm_action.NN_FSM_STOP)
  let s1 : nn_artipc :=
    if stopreq then { self with state := NN_ARTIPC_STATE_STOPPING_SRTIPC_FINAL } else self
  let e1 : List EpEffect :=
    if stopreq then
      if env.srtipc_isidle_at_stop = false then
        [EpEffect.epbase_stat_increment nn_stat.NN_STAT_DROPPED_CONNECTIONS 1,
         EpEffect.srtipc_stop]
      else []
    else []
  if s1.state = NN_ARTIPC_STATE_STOPPING_SRTIPC_FINAL then
    if env.srtipc_isidle = false then some (s1, e1)
    else
      nn_artipc_shutdown_STOPPING env { s1 with state := NN_ARTIPC_STATE_STOPPING }
        (e1 ++ [EpEffect.usock_stop])
  else if s1.state = NN_ARTIPC_STATE_STOPPING then nn_artipc_shutdown_STOPPING env s1 e1
  else
    -- nn_fsm_bad_state
    none

/-- The handler of the AcceptSession, `case NN_ARTIPC_STATE_IDLE`. -/
def nn_artipc_handler_IDLE (self : nn_artipc) :
    artipc_input → Option (nn_artipc × List EpEffect)
  | artipc_input.action nn_fsm_action.NN_FSM_START =>
    some ({ self with state := NN_ARTIPC_STATE_ACCEPTING }, [EpEffect.usock_accept self.listener])
  | _ => none

/-- The handler of the AcceptSession, `case NN_ARTIPC_STATE_ACCEPTING`. -/
def nn_artipc_handler_ACCEPTING (env : ep_env) (self : nn_artipc) :
    artipc_input → Option (nn_artipc × List EpEffect)
  | artipc_input.usock nn_usock_event.NN_USOCK_ACCEPTED =>
    if env.sndbuf_sz ≠ 4 then none
    else if env.rcvbuf_sz ≠ 4 then none
    else
      some ({ self with listener := none, listener_owner := { src := -1, fsm := none },
                        state := NN_ARTIPC_STATE_ACTIVE },
        [EpEffect.epbase_clear_error,
         EpEffect.usock_setsockopt nn_sockopt.SO_SNDBUF env.sndbuf,
         EpEffect.usock_setsockopt nn_sockopt.SO_RCVBUF env.rcvbuf,
         EpEffect.usock_swap_owner self.listener_owner,
         EpEffect.artipc_raise nn_artipc_event.NN_ARTIPC_ACCEPTED,
         EpEffect.usock_activate,
         EpEffect.srtipc_start,
         EpEffect.epbase_stat_increment nn_stat.NN_STAT_ACCEPTED_CONNECTIONS 1])
  | artipc_input.listener nn_usock_event.NN_USOCK_ACCEPT_ERROR =>
    some (self,
      [EpEffect.epbase_set_error env.usock_errno,
       EpEffect.epbase_stat_increment nn_stat.NN_STAT_ACCEPT_ERRORS 1,
       EpEffect.usock_accept self.listener])
  | _ => none

/-- The handler of the AcceptSession, `case NN_ARTIPC_STATE_ACTIVE`. -/
def nn_artipc_handler_ACTIVE (self : nn_artipc) :
    artipc_input → Option (nn_artipc × List EpEffect)
  | artipc_input.srtipc type =>
    if type = NN_SRTIPC_ERROR then
      some ({ self with state := NN_ARTIPC_STATE_STOPPING_SRTIPC },
        [EpEffect.srtipc_stop,
         EpEffect.epbase_stat_increment nn_stat.NN_STAT_BROKEN_CONNECTIONS 1])
    else none
  | _ => none

/-- The handler of the AcceptSession, `case NN_ARTIPC_STATE_STOPPING_SRTIPC`. -/
def nn_artipc_handler_STOPPING_SRTIPC (env : ep_env) (self : nn_artipc) :
    artipc_input → Option (nn_artipc × List EpEffect)
  | artipc_input.srtipc type =>
    if type = env.usock_shutdown_code then some (self, [])
    else if type = NN_SRTIPC_STOPPED then
      some ({ self with state := NN_ARTIPC_STATE_STOPPING_USOCK }, [EpEffect.usock_stop])
    else none
  | _ => none

/-- The handler of the AcceptSession, `case NN_ARTIPC_STATE_STOPPING_USOCK`. -/
def nn_artipc_handler_STOPPING_USOCK (self : nn_artipc) :
    artipc_input → Option (nn_artipc × List EpEffect)
  | artipc_input.usock nn_usock_event.NN_USOCK_SHUTDOWN => some (self, [])
  | artipc_input.usock nn_usock_event.NN_USOCK_STOPPED =>
    some ({ self with state := NN_ARTIPC_STATE_DONE },
      [EpEffect.artipc_raise nn_artipc_event.NN_ARTIPC_ERROR])
  | _ => none

/-- The function `nn_artipc_handler`. -/
def nn_artipc_handler (env : ep_env) (self : nn_artipc) (ev : artipc_input) :
    Option (nn_artipc × List EpEffect) :=
  if self.state = NN_ARTIPC_STATE_IDLE then nn_artipc_handler_IDLE self ev
  else if self.state = NN_ARTIPC_STATE_ACCEPTING then nn_artipc_handler_ACCEPTING env self ev
  else if self.state = NN_ARTIPC_STATE_ACTIVE then nn_artipc_handler_ACTIVE self ev
  else if self.state = NN_ARTIPC_STATE_STOPPING_SRTIPC then
    nn_artipc_handler_STOPPING_SRTIPC env self ev
  else if self.state = NN_ARTIPC_STATE_STOPPING_USOCK then
    nn_artipc_handler_STOPPING_USOCK self ev
  else
    -- nn_fsm_bad_state
    none

/-- Modelled from the spec: dispatch of the FSM runtime (`aio/fsm.c`, not in the
sources): while the machine is stopping its shutdown handler is invoked instead
of the normal handler. -/
def nn_artipc_feed (env : ep_env) (self : nn_artipc) (ev : artipc_input) :
    Option (nn_artipc × List EpEffect) :=
  if self.state = NN_ARTIPC_STATE_STOPPING_SRTIPC_FINAL ∨ self.state = NN_ARTIPC_STATE_STOPPING
  then nn_artipc_shutdown env self ev
  else nn_artipc_handler env self ev

/-- The function `nn_artipc_start`. `prev_owner` is the owner record that
`nn_usock_swap_owner` leaves in `listener_owner`. The call `nn_fsm_start` is
modelled from the spec: it delivers `NN_FSM_START` to the handler. -/
def nn_artipc_start (env : ep_env) (prev_owner : nn_fsm_owner) (self : nn_artipc)
    (listener : Nat) : Option (nn_artipc × List EpEffect) :=
  if self.state ≠ NN_ARTIPC_STATE_IDLE then none
  else
    let s1 : nn_artipc :=
      { self with listener := some listener,
                  listener_owner := { src := NN_ARTIPC_SRC_LISTENER, fsm := some self.fsm } }
    let e1 : List EpEffect := [EpEffect.usock_swap_owner s1.listener_owner]
    let s2 : nn_artipc := { s1 with listener_owner := prev_owner }
    match nn_artipc_handler env s2 (artipc_input.action nn_fsm_action.NN_FSM_START) with
    | some (s3, e3) => some (s3, e1 ++ e3)
    | none => none

/-- The function `nn_artipc_stop`, that is `nn_fsm_stop`. Modelled from the
spec (the FSM runtime is not in the sources): stop on an idle machine is a
contract violation, stop during a shutdown in progress is a no-op, otherwise
the Stop action is injected into the shutdown handler. -/
def nn_artipc_stop (env : ep_env) (self : nn_artipc) : Option (nn_artipc × List EpEffect) :=
  if self.state = NN_ARTIPC_STATE_IDLE then none
  else if self.state = NN_ARTIPC_STATE_STOPPING_SRTIPC_FINAL
      ∨ self.state = NN_ARTIPC_STATE_STOPPING then some (self, [])
  else nn_artipc_shutdown env self (artipc_input.action nn_fsm_action.NN_FSM_STOP)

/-! ## BindEndpoint (`brtipc.c`) -/

def NN_BRTIPC_BACKLOG : Int := 10

def NN_BRTIPC_STATE_IDLE : Nat := 1
def NN_BRTIPC_STATE_ACTIVE : Nat := 2
def NN_BRTIPC_STATE_STOPPING_ARTIPC : Nat := 3
def NN_BRTIPC_STATE_STOPPING_USOCK : Nat := 4
def NN_BRTIPC_STATE_STOPPING_ARTIPCS : Nat := 5

def NN_BRTIPC_SRC_USOCK : Int := 1
def NN_BRTIPC_SRC_ARTIPC : Int := 2

/-- The fields of `struct nn_brtipc` that `brtipc.c` reads and writes. `fsm`
and `usock` stand for the addresses of the embedded state machine and of the
embedded listening socket; `artipc` is the connection being accepted (`none` is
`NULL`) and `artipcs` the list of accepted connections, first to last, each
AcceptSession given by its address. -/
structure nn_brtipc where
  fsm : Nat
  usock : Nat
  state : Nat
  artipc : Option Nat
  artipcs : List Nat
  deriving DecidableEq, Repr

/-- The `(src, type, srcptr)` triples the handlers of the BindEndpoint
distinguish: an action of the runtime (`srcptr` is `NULL`), an event of the
listening socket, an event raised by the AcceptSession at address `srcptr`. -/
inductive brtipc_input where
  | action (type : nn_fsm_action)
  | usock (type : nn_usock_event)
  | artipc (srcptr : Nat) (type : nn_artipc_event)
  deriving DecidableEq, Repr

/-- The part of `nn_brtipc_create` that sets the fields. -/
def nn_brtipc_init (fsm usock : Nat) : nn_brtipc :=
  { fsm := fsm, usock := usock, state := NN_BRTIPC_STATE_IDLE, artipc := none, artipcs := [] }

/-- Modelled from the spec: `nn_list_erase` (`utils/list.c`, not in the
sources) removes the item from the list and keeps the order of the others;
erasing an item that is not in the list is an assertion failure. -/
def nn_list_erase (l : List Nat) (item : Nat) : Option (List Nat) :=
  if item ∈ l then some (l.erase item) else none

/-- The function `nn_brtipc_start_listening`. -/
def nn_brtipc_start_listening (env : ep_env) : Option (List EpEffect) :=
  if ¬ (env.addr.length < env.sun_path_size) then none
  else if ¬ (env.unlink_rc = 0 ∨ env.unlink_enoent = true) then none
  else if env.usock_start_rc ≠ 0 then none
  else if env.usock_bind_rc ≠ 0 then none
  else if env.usock_listen_rc ≠ 0 then none
  else
    some [EpEffect.unlink env.addr, EpEffect.usock_start, EpEffect.usock_bind env.addr,
          EpEffect.usock_listen NN_BRTIPC_BACKLOG]

/-- The function `nn_brtipc_start_accepting`. -/
def nn_brtipc_start_accepting (env : ep_env) (self : nn_brtipc) :
    Option (nn_brtipc × List EpEffect) :=
  if self.artipc ≠ none then none
  else
    match env.alloc with
    | none => none
    | some p =>
      some ({ self with artipc := some p },
        [EpEffect.artipc_init p NN_BRTIPC_SRC_ARTIPC self.fsm,
         EpEffect.artipc_start p self.usock])

/-- The label `artipcs_stopping` of `nn_brtipc_shutdown`. -/
def nn_brtipc_shutdown_artipcs_stopping (self : nn_brtipc) (e : List EpEffect) :
    Option (nn_brtipc × List EpEffect) :=
  if self.artipcs = [] then
    some ({ self with state := NN_BRTIPC_STATE_IDLE },
      e ++ [EpEffect.fsm_stopped_noevent, EpEffect.epbase_stopped])
  else some (self, e)

/-- The block `state == NN_BRTIPC_STATE_STOPPING_USOCK` of `nn_brtipc_shutdown`. -/
def nn_brtipc_shutdown_STOPPING_USOCK (env : ep_env) (self : nn_brtipc) (e : List EpEffect) :
    Option (nn_brtipc × List EpEffect) :=
  if env.usock_isidle = false then some (self, e)
  else
    nn_brtipc_shutdown_artipcs_stopping
      { self with state := NN_BRTIPC_STATE_STOPPING_ARTIPCS }
      (e ++ self.artipcs.map EpEffect.artipc_stop)

/-- The block `state == NN_BRTIPC_STATE_STOPPING_ARTIPC` of `nn_brtipc_shutdown`;
the pending AcceptSession is dereferenced, so a `NULL` one is a crash. -/
def nn_brtipc_shutdown_STOPPING_ARTIPC (env : ep_env) (self : nn_brtipc) (e : List EpEffect) :
    Option (nn_brtipc × List EpEffect) :=
  match self.artipc with
  | none => none
  | some p =>
    if env.artipc_isidle = false then some (self, e)
    else
      nn_brtipc_shutdown_STOPPING_USOCK env
        { self with artipc := none, state := NN_BRTIPC_STATE_STOPPING_USOCK }
        (e ++ [EpEffect.artipc_term p, EpEffect.free p, EpEffect.usock_stop])

/-- The block `state == NN_BRTIPC_STATE_STOPPING_ARTIPCS` of `nn_brtipc_shutdown`. -/
def nn_brtipc_shutdown_STOPPING_ARTIPCS (self : nn_brtipc) :
    brtipc_input → Option (nn_brtipc × List EpEffect)
  | brtipc_input.artipc srcptr nn_artipc_event.NN_ARTIPC_STOPPED =>
    match nn_list_erase self.artipcs srcptr with
    | none => none
    | some l =>
      nn_brtipc_shutdown_artipcs_stopping { self with artipcs := l }
        [EpEffect.artipc_term srcptr, EpEffect.free srcptr]
  | _ => none

/-- The function `nn_brtipc_shutdown`. -/
def nn_brtipc_shutdown (env : ep_env) (self : nn_brtipc) (ev : brtipc_input) :
    Option (nn_brtipc × List EpEffect) :=
  if ev = brtipc_input.action nn_fsm_action.NN_FSM_STOP then
    match self.artipc with
    | none => none
    | some p =>
      nn_brtipc_shutdown_STOPPING_ARTIPC env
        { self with state := NN_BRTIPC_STATE_STOPPING_ARTIPC } [EpEffect.artipc_stop p]
  else if self.state = NN_BRTIPC_STATE_STOPPING_ARTIPC then
    nn_brtipc_shutdown_STOPPING_ARTIPC env self []
  else if self.state = NN_BRTIPC_STATE_STOPPING_USOCK then
    nn_brtipc_shutdown_STOPPING_USOCK env self []
  else if self.state = NN_BRTIPC_STATE_STOPPING_ARTIPCS then
    nn_brtipc_shutdown_STOPPING_ARTIPCS self ev
  else
    -- nn_fsm_bad_state
    none

/-- The handler of the BindEndpoint, `case NN_BRTIPC_STATE_IDLE`. -/
def nn_brtipc_handler_IDLE (env : ep_env) (self : nn_brtipc) :
    brtipc_input → Option (nn_brtipc × List EpEffect)
  | brtipc_input.action nn_fsm_action.NN_FSM_START =>
    match nn_brtipc_start_listening env with
    | none => none
    | some e1 =>
      match nn_brtipc_start_accepting env self with
      | none => none
      | some (s2, e2) => some ({ s2 with state := NN_BRTIPC_STATE_ACTIVE }, e1 ++ e2)
  | _ => none

/-- The handler of the BindEndpoint, `case NN_BRTIPC_STATE_ACTIVE`. An action or
an event of the listening socket has a source pointer that is not the pending
AcceptSession and a source that is not `NN_BRTIPC_SRC_ARTIPC`, which fails the
assertion. -/
def nn_brtipc_handler_ACTIVE (env : ep_env) (self : nn_brtipc) :
    brtipc_input → Option (nn_brtipc × List EpEffect)
  | brtipc_input.artipc srcptr type =>
    if some srcptr = self.artipc then
      match type with
      | nn_artipc_event.NN_ARTIPC_ACCEPTED =>
        match nn_brtipc_start_accepting env
            { self with artipcs := self.artipcs ++ [srcptr], artipc := none } with
        | none => none
        | some (s2, e2) => some (s2, e2)
      | _ => none
    else
      match type with
      | nn_artipc_event.NN_ARTIPC_ERROR => some (self, [EpEffect.artipc_stop srcptr])
      | nn_artipc_event.NN_ARTIPC_STOPPED =>
        match nn_list_erase self.artipcs srcptr with
        | none => none
        | some l =>
          some ({ self with artipcs := l }, [EpEffect.artipc_term srcptr, EpEffect.free srcptr])
      | _ => none
  | _ => none

/-- The function `nn_brtipc_handler`. -/
def nn_brtipc_handler (env : ep_env) (self : nn_brtipc) (ev : brtipc_input) :
    Option (nn_brtipc × List EpEffect) :=
  if self.state = NN_BRTIPC_STATE_IDLE then nn_brtipc_handler_IDLE env self ev
  else if self.state = NN_BRTIPC_STATE_ACTIVE then nn_brtipc_handler_ACTIVE env self ev
  else
    -- nn_fsm_bad_state
    none

/-- Modelled from the spec: dispatch of the FSM runtime (`aio/fsm.c`, not in the
sources): while the machine is stopping its shutdown handler is invoked instead
of the normal handler. -/
def nn_brtipc_feed (env : ep_env) (self : nn_brtipc) (ev : brtipc_input) :
    Option (nn_brtipc × List EpEffect) :=
  if self.state = NN_BRTIPC_STATE_STOPPING_ARTIPC ∨ self.state = NN_BRTIPC_STATE_STOPPING_USOCK
      ∨ self.state = NN_BRTIPC_STATE_STOPPING_ARTIPCS
  then nn_brtipc_shutdown env self ev
  else nn_brtipc_handler env self ev

/-- The function `nn_brtipc_stop`, that is `nn_fsm_stop`. Modelled from the
spec (the FSM runtime is not in the sources): stop on an idle machine is a
contract violation, stop during a shutdown in progress is a no-op, otherwise
the Stop action is injected into the shutdown handler. -/
def nn_brtipc_stop (env : ep_env) (self : nn_brtipc) : Option (nn_brtipc × List EpEffect) :=
  if self.state = NN_BRTIPC_STATE_IDLE then none
  else if self.state = NN_BRTIPC_STATE_STOPPING_ARTIPC
      ∨ self.state = NN_BRTIPC_STATE_STOPPING_USOCK
      ∨ self.state = NN_BRTIPC_STATE_STOPPING_ARTIPCS then some (self, [])
  else nn_brtipc_shutdown env self (brtipc_input.action nn_fsm_action.NN_FSM_STOP)

/-! ## ConnectEndpoint (`crtipc.c`) -/

def NN_CRTIPC_STATE_IDLE : Nat := 1
def NN_CRTIPC_STATE_CONNECTING : Nat := 2
def NN_CRTIPC_STATE_ACTIVE : Nat := 3
def NN_CRTIPC_STATE_STOPPING_SRTIPC : Nat := 4
def NN_CRTIPC_STATE_STOPPING_USOCK : Nat := 5
def NN_CRTIPC_STATE_WAITING : Nat := 6
def NN_CRTIPC_STATE_STOPPING_BACKOFF : Nat := 7
def NN_CRTIPC_STATE_STOPPING_SRTIPC_FINAL : Nat := 8
def NN_CRTIPC_STATE_STOPPING : Nat := 9

def NN_CRTIPC_SRC_USOCK : Int := 1
def NN_CRTIPC_SRC_RECONNECT_TIMER : Int := 2
def NN_CRTIPC_SRC_SRTIPC : Int := 3

/-- The fields of `struct nn_crtipc` that `crtipc.c` reads and writes; the
socket, the backoff timer, the Session and the endpoint base are
collaborators. -/
structure nn_crtipc where
  fsm : Nat
  state : Nat
  deriving DecidableEq, Repr

/-- The `(src, type)` pairs the handlers of the ConnectEndpoint distinguish.
The type of an event from the Session is kept as the integer raised, because
the source compares it with `NN_USOCK_SHUTDOWN` as well. -/
inductive crtipc_input where
  | action (type : nn_fsm_action)
  | usock (type : nn_usock_event)
  | reconnect_timer (type : nn_backoff_event)
  | srtipc (type : Int)
  deriving DecidableEq, Repr

/-- The function `nn_crtipc_start_connecting`. -/
def nn_crtipc_start_connecting (env : ep_env) (self : nn_crtipc) :
    Option (nn_crtipc × List EpEffect) :=
  if env.usock_start_rc < 0 then
    some ({ self with state := NN_CRTIPC_STATE_WAITING },
      [EpEffect.usock_start, EpEffect.backoff_start])
  else if env.sndbuf_sz ≠ 4 then none
  else if env.rcvbuf_sz ≠ 4 then none
  else if ¬ (env.addr.length < env.sun_path_size) then none
  else
    some ({ self with state := NN_CRTIPC_STATE_CONNECTING },
      [EpEffect.usock_start,
       EpEffect.usock_setsockopt nn_sockopt.SO_SNDBUF env.sndbuf,
       EpEffect.usock_setsockopt nn_sockopt.SO_RCVBUF env.rcvbuf,
       EpEffect.usock_connect env.addr,
       EpEffect.epbase_stat_increment nn_stat.NN_STAT_INPROGRESS_CONNECTIONS 1])

/-- The last block of `nn_crtipc_shutdown`, `state == NN_CRTIPC_STATE_STOPPING`. -/
def nn_crtipc_shutdown_STOPPING (env : ep_env) (self : nn_crtipc) (e : List EpEffect) :
    Option (nn_crtipc × List EpEffect) :=
  if env.backoff_isidle = false ∨ env.usock_isidle = false then some (self, e)
  else
    some ({ self with state := NN_CRTIPC_STATE_IDLE },
      e ++ [EpEffect.fsm_stopped_noevent, EpEffect.epbase_stopped])

/-- The function `nn_crtipc_shutdown`. -/
def nn_crtipc_shutdown (env : ep_env) (self : nn_crtipc) (ev : crtipc_input) :
    Option (nn_crtipc × List EpEffect) :=
  let stopreq : Bool := decide (ev = crtipc_input.action nn_fsm_action.NN_FSM_STOP)
  let s1 : nn_crtipc :=
    if stopreq then { self with state := NN_CRTIPC_STATE_STOPPING_SRTIPC_FINAL } else self
  let e1 : List EpEffect :=
    if stopreq then
      if env.srtipc_isidle_at_stop = false then
        [EpEffect.epbase_stat_increment nn_stat.NN_STAT_DROPPED_CONNECTIONS 1,
         EpEffect.srtipc_stop]
      else []
    else []
  if s1.state = NN_CRTIPC_STATE_STOPPING_SRTIPC_FINAL then
    if env.srtipc_isidle = false then some (s1, e1)
    else
      nn_crtipc_shutdown_STOPPING env { s1 with state := NN_CRTIPC_STATE_STOPPING }
        (e1 ++ [EpEffect.backoff_stop, EpEffect.usock_stop])
  else if s1.state = NN_CRTIPC_STATE_STOPPING then nn_crtipc_shutdown_STOPPING env s1 e1
  else
    -- nn_fsm_bad_state
    none

/-- The handler of the ConnectEndpoint, `case NN_CRTIPC_STATE_IDLE`. -/
def nn_crtipc_handler_IDLE (env : ep_env) (self : nn_crtipc) :
    crtipc_input → Option (nn_crtipc × List EpEffect)
  | crtipc_input.action nn_fsm_action.NN_FSM_START => nn_crtipc_start_connecting env self
  | _ => none

/-- The handler of the ConnectEndpoint, `case NN_CRTIPC_STATE_CONNECTING`. -/
def nn_crtipc_handler_CONNECTING (env : ep_env) (self : nn_crtipc) :
    crtipc_input → Option (nn_crtipc × List EpEffect)
  | crtipc_input.usock nn_usock_event.NN_USOCK_CONNECTED =>
    some ({ self with state := NN_CRTIPC_STATE_ACTIVE },
      [EpEffect.srtipc_start,
       EpEffect.epbase_stat_increment nn_stat.NN_STAT_INPROGRESS_CONNECTIONS (-1),
       EpEffect.epbase_stat_increment nn_stat.NN_STAT_ESTABLISHED_CONNECTIONS 1,
       EpEffect.epbase_clear_error])
  | crtipc_input.usock nn_usock_event.NN_USOCK_ERROR =>
    some ({ self with state := NN_CRTIPC_STATE_STOPPING_USOCK },
      [EpEffect.epbase_set_error env.usock_errno,
       EpEffect.usock_stop,
       EpEffect.epbase_stat_increment nn_stat.NN_STAT_INPROGRESS_CONNECTIONS (-1),
       EpEffect.epbase_stat_increment nn_stat.NN_STAT_CONNECT_ERRORS 1])
  | _ => none

/-- The handler of the ConnectEndpoint, `case NN_CRTIPC_STATE_ACTIVE`. -/
def nn_crtipc_handler_ACTIVE (self : nn_crtipc) :
    crtipc_input → Option (nn_crtipc × List EpEffect)
  | crtipc_input.srtipc type =>
    if type = NN_SRTIPC_ERROR then
      some ({ self with state := NN_CRTIPC_STATE_STOPPING_SRTIPC },
        [EpEffect.srtipc_stop,
         EpEffect.epbase_stat_increment nn_stat.NN_STAT_BROKEN_CONNECTIONS 1])
    else none
  | _ => none

/-- The handler of the ConnectEndpoint, `case NN_CRTIPC_STATE_STOPPING_SRTIPC`. -/
def nn_crtipc_handler_STOPPING_SRTIPC (env : ep_env) (self : nn_crtipc) :
    crtipc_input → Option (nn_crtipc × List EpEffect)
  | crtipc_input.srtipc type =>
    if type = env.usock_shutdown_code then some (self, [])
    else if type = NN_SRTIPC_STOPPED then
      some ({ self with state := NN_CRTIPC_STATE_STOPPING_USOCK }, [EpEffect.usock_stop])
    else none
  | _ => none

/-- The handler of the ConnectEndpoint, `case NN_CRTIPC_STATE_STOPPING_USOCK`. -/
def nn_crtipc_handler_STOPPING_USOCK (self : nn_crtipc) :
    crtipc_input → Option (nn_crtipc × List EpEffect)
  | crtipc_input.usock nn_usock_event.NN_USOCK_SHUTDOWN => some (self, [])
  | crtipc_input.usock nn_usock_event.NN_USOCK_STOPPED =>
    some ({ self with state := NN_CRTIPC_STATE_WAITING }, [EpEffect.backoff_start])
  | _ => none

/-- The handler of the ConnectEndpoint, `case NN_CRTIPC_STATE_WAITING`. -/
def nn_crtipc_handler_WAITING (self : nn_crtipc) :
    crtipc_input → Option (nn_crtipc × List EpEffect)
  | crtipc_input.reconnect_timer nn_backoff_event.NN_BACKOFF_TIMEOUT =>
    some ({ self with state := NN_CRTIPC_STATE_STOPPING_BACKOFF }, [EpEffect.backoff_stop])
  | _ => none

/-- The handler of the ConnectEndpoint, `case NN_CRTIPC_STATE_STOPPING_BACKOFF`. -/
def nn_crtipc_handler_STOPPING_BACKOFF (env : ep_env) (self : nn_crtipc) :
    crtipc_input → Option (nn_crtipc × List EpEffect)
  | crtipc_input.reconnect_timer nn_backoff_event.NN_BACKOFF_STOPPED =>
    nn_crtipc_start_connecting env self
  | _ => none

/-- The function `nn_crtipc_handler`. -/
def nn_crtipc_handler (env : ep_env) (self : nn_crtipc) (ev : crtipc_input) :
    Option (nn_crtipc × List EpEffect) :=
  if self.state = NN_CRTIPC_STATE_IDLE then nn_crtipc_handler_IDLE env self ev
  else if self.state = NN_CRTIPC_STATE_CONNECTING then nn_crtipc_handler_CONNECTING env self ev
  else if self.state = NN_CRTIPC_STATE_ACTIVE then nn_crtipc_handler_ACTIVE self ev
  else if self.state = NN_CRTIPC_STATE_STOPPING_SRTIPC then
    nn_crtipc_handler_STOPPING_SRTIPC env self ev
  else if self.state = NN_CRTIPC_STATE_STOPPING_USOCK then
    nn_crtipc_handler_STOPPING_USOCK self ev
  else if self.state = NN_CRTIPC_STATE_WAITING then nn_crtipc_handler_WAITING self ev
  else if self.state = NN_CRTIPC_STATE_STOPPING_BACKOFF then
    nn_crtipc_handler_STOPPING_BACKOFF env self ev
  else
    -- nn_fsm_bad_state
    none

/-- Modelled from the spec: dispatch of the FSM runtime (`aio/fsm.c`, not in the
sources): while the machine is stopping its shutdown handler is invoked instead
of the normal handler. -/
def nn_crtipc_feed (env : ep_env) (self : nn_crtipc) (ev : crtipc_input) :
    Option (nn_crtipc × List EpEffect) :=
  if self.state = NN_CRTIPC_STATE_STOPPING_SRTIPC_FINAL ∨ self.state = NN_CRTIPC_STATE_STOPPING
  then nn_crtipc_shutdown env self ev
  else nn_crtipc_handler env self ev

/-- The function `nn_crtipc_stop`, that is `nn_fsm_stop`. Modelled from the
spec (the FSM runtime is not in the sources): stop on an idle machine is a
contract violation, stop during a shutdown in progress is a no-op, otherwise
the Stop action is injected into the shutdown handler. -/
def nn_crtipc_stop (env : ep_env) (self : nn_crtipc) : Option (nn_crtipc × List EpEffect) :=
  if self.state = NN_CRTIPC_STATE_IDLE then none
  else if self.state = NN_CRTIPC_STATE_STOPPING_SRTIPC_FINAL
      ∨ self.state = NN_CRTIPC_STATE_STOPPING then some (self, [])
  else nn_crtipc_shutdown env self (crtipc_input.action nn_fsm_action.NN_FSM_STOP)

/-- The function `nn_streamhdr_stop`, that is `nn_fsm_stop`. Modelled from the
spec (the FSM runtime is not in the sources): stop on an idle machine is a
contract violation, stop during a shutdown in progress is a no-op, otherwise
the Stop action is delivered to the handler, which holds the STOP procedure. -/
def nn_streamhdr_stop (ispeer : Nat → Bool) (timer_isidle : Bool) (self : nn_streamhdr) :
    Option (nn_streamhdr × List Effect) :=
  if self.state = NN_STREAMHDR_STATE_IDLE then none
  else if self.state = NN_STREAMHDR_STATE_STOPPING then some (self, [])
  else nn_streamhdr_handler ispeer timer_isidle self (streamhdr_input.fsm nn_fsm_action.NN_FSM_STOP)

/-! ## Shutdown as the owner of a machine sees it -/

/-- Deliveries handled one after the other by `feed`; `none` when an assertion
of a handler fails on the way. The effects are collected in order. -/
def fsm_run {S D F : Type} (feed : S → D → Option (S × List F)) :
    S → List D → Option (S × List F)
  | s, [] => some (s, [])
  | s, d :: ds =>
    match feed s d with
    | none => none
    | some (s1, e1) =>
      match fsm_run feed s1 ds with
      | none => none
      | some (s2, e2) => some (s2, e1 ++ e2)

/-- A stop call of the owner followed by deliveries to the machine. -/
def fsm_stop_run {S D F : Type} (stop : S → Option (S × List F))
    (feed : S → D → Option (S × List F)) (s : S) (ds : List D) : Option (S × List F) :=
  match stop s with
  | none => none
  | some (s1, e1) =>
    match fsm_run feed s1 ds with
    | none => none
    | some (s2, e2) => some (s2, e1 ++ e2)

/-- The stop contract of a machine whose children are asked whether they are
idle. `stop a s` is the stop call of the owner in state `s` under the answers
`a` of the children, `feed a s v` the delivery of the event `v` under the
answers `a`. From every running state: the stop call is accepted, and reaches
the idle state at once when the children report idle; along every sequence of
deliveries of events after it (no action of the owner), Stopped has been
raised once if the machine is idle and not at all otherwise; and as long as the
machine is not idle every delivery is accepted, and reaches the idle state when
the children report idle. -/
def stops_exactly_once {S A V F : Type} (running : S → Prop) (is_idle : S → Bool)
    (children_idle : A → Prop) (is_action : V → Bool) (is_stopped : F → Bool)
    (stop : A → S → Option (S × List F)) (feed : A → S → V → Option (S × List F)) : Prop :=
  ∀ (s : S) (a0 : A), running s →
    (∃ s1 e1, stop a0 s = some (s1, e1) ∧ (children_idle a0 → is_idle s1 = true)) ∧
    ∀ (ds : List (A × V)) (s1 : S) (e1 : List F), (∀ d ∈ ds, is_action d.2 = false) →
      fsm_stop_run (stop a0) (fun x d => feed d.1 x d.2) s ds = some (s1, e1) →
        e1.countP is_stopped = (if is_idle s1 = true then 1 else 0) ∧
        (is_idle s1 = false → ∀ (a : A) (v : V), ∃ s2 e2,
          feed a s1 v = some (s2, e2) ∧ (children_idle a → is_idle s2 = true))

/-- The actions of the owner among the inputs of StreamHdr. -/
def streamhdr_input.is_action : streamhdr_input → Bool
  | streamhdr_input.fsm _ => true
  | _ => false

/-- The actions of the owner among the inputs of the Session. -/
def srtipc_input.is_action : srtipc_input → Bool
  | srtipc_input.action _ => true
  | _ => false

/-- The actions of the owner among the inputs of the AcceptSession. -/
def artipc_input.is_action : artipc_input → Bool
  | artipc_input.action _ => true
  | _ => false

/-- The actions of the owner among the inputs of the ConnectEndpoint. -/
def crtipc_input.is_action : crtipc_input → Bool
  | crtipc_input.action _ => true
  | _ => false

/-- The actions of the owner among the inputs of the BindEndpoint. -/
def brtipc_input.is_action : brtipc_input → Bool
  | brtipc_input.action _ => true
  | _ => false

/-- The call `nn_fsm_stopped` of StreamHdr and of the Session. -/
def Effect.is_stopped : Effect → Bool
  | Effect.streamhdr_stopped _ => true
  | Effect.srtipc_stopped _ => true
  | _ => false

/-- The calls `nn_fsm_stopped` of the AcceptSession and `nn_fsm_stopped_noevent`
of the endpoints. -/
def EpEffect.is_stopped : EpEffect → Bool
  | EpEffect.artipc_stopped _ => true
  | EpEffect.fsm_stopped_noevent => true
  | _ => false

/-- A started StreamHdr that has not been asked to stop. -/
def nn_streamhdr.running (s : nn_streamhdr) : Prop :=
  s.state = NN_STREAMHDR_STATE_SENDING ∨ s.state = NN_STREAMHDR_STATE_RECEIVING
  ∨ s.state = NN_STREAMHDR_STATE_STOPPING_TIMER_ERROR
  ∨ s.state = NN_STREAMHDR_STATE_STOPPING_TIMER_DONE ∨ s.state = NN_STREAMHDR_STATE_DONE

/-- A started Session that has not been asked to stop. -/
def nn_srtipc.running (s : nn_srtipc) : Prop :=
  s.state = NN_SRTIPC_STATE_PROTOHDR ∨ s.state = NN_SRTIPC_STATE_STOPPING_STREAMHDR
  ∨ s.state = NN_SRTIPC_STATE_ACTIVE ∨ s.state = NN_SRTIPC_STATE_SHUTTING_DOWN
  ∨ s.state = NN_SRTIPC_STATE_DONE

/-- A started AcceptSession that has not been asked to stop. While it borrows
the listening socket it remembers an owner to give it back to, which is what
`nn_artipc_start` leaves when the socket had an owner. -/
def nn_artipc.running (s : nn_artipc) : Prop :=
  (s.state = NN_ARTIPC_STATE_ACCEPTING ∨ s.state = NN_ARTIPC_STATE_ACTIVE
    ∨ s.state = NN_ARTIPC_STATE_STOPPING_SRTIPC ∨ s.state = NN_ARTIPC_STATE_STOPPING_USOCK
    ∨ s.state = NN_ARTIPC_STATE_DONE)
  ∧ (s.listener ≠ none → s.listener_owner.fsm ≠ none)

/-- A started ConnectEndpoint that has not been asked to stop. -/
def nn_crtipc.running (s : nn_crtipc) : Prop :=
  s.state = NN_CRTIPC_STATE_CONNECTING ∨ s.state = NN_CRTIPC_STATE_ACTIVE
  ∨ s.state = NN_CRTIPC_STATE_STOPPING_SRTIPC ∨ s.state = NN_CRTIPC_STATE_STOPPING_USOCK
  ∨ s.state = NN_CRTIPC_STATE_WAITING ∨ s.state = NN_CRTIPC_STATE_STOPPING_BACKOFF

/-- A started BindEndpoint that has not been asked to stop: ACTIVE is its only
such state, and there it has a pending AcceptSession. -/
def nn_brtipc.running (s : nn_brtipc) : Prop :=
  s.state = NN_BRTIPC_STATE_ACTIVE ∧ s.artipc ≠ none

/-- A BindEndpoint that waits for its pending AcceptSession, or has released it
and waits for its listening socket, during shutdown. -/
def nn_brtipc.draining (s : nn_brtipc) : Prop :=
  (s.state = NN_BRTIPC_STATE_STOPPING_ARTIPC ∧ s.artipc ≠ none)
  ∨ (s.state = NN_BRTIPC_STATE_STOPPING_USOCK ∧ s.artipc = none)

/-- The deliveries of Stopped from the AcceptSessions `ms`, in this order, each
with the answers the collaborators give during it. -/
def brtipc_stopped_from (ms : List (ep_env × Nat)) : List (ep_env × brtipc_input) :=
  ms.map (fun m => (m.1, brtipc_input.artipc m.2 nn_artipc_event.NN_ARTIPC_STOPPED))

/-- The calls by which the BindEndpoint releases the AcceptSessions `l`, in
this order. -/
def brtipc_released (l : List Nat) : List EpEffect :=
  l.flatMap (fun q => [EpEffect.artipc_term q, EpEffect.free q])

/-- The order of the shutdown of a BindEndpoint that was stopped in ACTIVE with
the pending AcceptSession `p` and the accepted AcceptSessions `l`: the state
`s` reached and the calls `e` made since the stop. First stop is issued to the
pending AcceptSession; it is released and the listening socket is stopped; stop
is issued to every accepted AcceptSession, first to last; the accepted
AcceptSessions `done` are released, the others are still in the list; and once
the list is empty the machine is idle and has raised Stopped and notified the
endpoint, in this order. -/
def brtipc_shutdown_order (p : Nat) (l : List Nat) (s : nn_brtipc) (e : List EpEffect) : Prop :=
  (s.state = NN_BRTIPC_STATE_STOPPING_ARTIPC ∧ s.artipc = some p ∧ s.artipcs = l
    ∧ e = [EpEffect.artipc_stop p])
  ∨ (s.state = NN_BRTIPC_STATE_STOPPING_USOCK ∧ s.artipc = none ∧ s.artipcs = l
    ∧ e = [EpEffect.artipc_stop p, EpEffect.artipc_term p, EpEffect.free p,
           EpEffect.usock_stop])
  ∨ (s.state = NN_BRTIPC_STATE_STOPPING_ARTIPCS ∧ s.artipc = none ∧ s.artipcs ≠ []
    ∧ ∃ done : List Nat, (done ++ s.artipcs).Perm l
      ∧ e = [EpEffect.artipc_stop p, EpEffect.artipc_term p, EpEffect.free p,
             EpEffect.usock_stop]
          ++ l.map EpEffect.artipc_stop ++ brtipc_released done)
  ∨ (s.state = NN_BRTIPC_STATE_IDLE ∧ s.artipc = none ∧ s.artipcs = []
    ∧ ∃ done : List Nat, done.Perm l
      ∧ e = [EpEffect.artipc_stop p, EpEffect.artipc_term p, EpEffect.free p,
             EpEffect.usock_stop]
          ++ l.map EpEffect.artipc_stop ++ brtipc_released done
          ++ [EpEffect.fsm_stopped_noevent, EpEffect.epbase_stopped])

/-- The stop contract of the BindEndpoint. Its children are the pending
AcceptSession and the listening socket, which are asked whether they are idle,
and the accepted AcceptSessions, each of which reports with the event Stopped.
From every running state the stop call is accepted; along every sequence of
deliveries of events after it, Stopped has been raised once if the machine is
idle and not at all otherwise; when the pending AcceptSession and the socket
report idle, at the stop call or at a later delivery, and Stopped arrives from
every accepted AcceptSession, in any order, the machine is idle; and until then
every delivery to a machine that waits for the pending AcceptSession or for the
socket is accepted. -/
def brtipc_stops_exactly_once : Prop :=
  (∀ (s : nn_brtipc) (a0 : ep_env), s.running →
    (∃ s1 e1, nn_brtipc_stop a0 s = some (s1, e1)) ∧
    (∀ (ds : List (ep_env × brtipc_input)) (s1 : nn_brtipc) (e1 : List EpEffect),
      (∀ d ∈ ds, d.2.is_action = false) →
      fsm_stop_run (nn_brtipc_stop a0) (fun x d => nn_brtipc_feed d.1 x d.2) s ds
        = some (s1, e1) →
      e1.countP EpEffect.is_stopped = (if s1.state = NN_BRTIPC_STATE_IDLE then 1 else 0)) ∧
    (∀ (ms : List (ep_env × Nat)), a0.artipc_isidle = true → a0.usock_isidle = true →
      (ms.map Prod.snd).Perm s.artipcs →
      ∃ s2 e2,
        fsm_stop_run (nn_brtipc_stop a0) (fun x d => nn_brtipc_feed d.1 x d.2) s
          (brtipc_stopped_from ms) = some (s2, e2)
        ∧ s2.state = NN_BRTIPC_STATE_IDLE))
  ∧ (∀ (s : nn_brtipc) (a : ep_env) (v : brtipc_input), s.draining → v.is_action = false →
    (∃ s1 e1, nn_brtipc_feed a s v = some (s1, e1)) ∧
    (∀ (ms : List (ep_env × Nat)), a.artipc_isidle = true → a.usock_isidle = true →
      (ms.map Prod.snd).Perm s.artipcs →
      ∃ s2 e2,
        fsm_run (fun x d => nn_brtipc_feed d.1 x d.2) s ((a, v) :: brtipc_stopped_from ms)
          = some (s2, e2)
        ∧ s2.state = NN_BRTIPC_STATE_IDLE ∧ e2.countP EpEffect.is_stopped = 1))

/-- Answers of the collaborators in which every child is idle and every call
succeeds; the options are 4 bytes wide, the address is `/t` and `nn_alloc`
returns the address 11. -/
def ep_env_idle : ep_env :=
  { usock_shutdown_code := 8, sndbuf := 131072, sndbuf_sz := 4, rcvbuf := 131072,
    rcvbuf_sz := 4, usock_errno := 0, srtipc_isidle_at_stop := true, srtipc_isidle := true,
    usock_isidle := true, backoff_isidle := true, artipc_isidle := true, addr := [47, 116],
    sun_path_size := 108, unlink_rc := 0, unlink_enoent := false, usock_start_rc := 0,
    usock_bind_rc := 0, usock_listen_rc := 0, alloc := some 11 }

/-- Answers of the collaborators in which no child is idle yet; the rest is as
in `ep_env_idle`. -/
def ep_env_busy : ep_env :=
  { ep_env_idle with srtipc_isidle_at_stop := false, srtipc_isidle := false,
                     usock_isidle := false, backoff_isidle := false, artipc_isidle := false }

/-! ## The BindEndpoint together with its AcceptSessions and the listening socket -/

/-- The BindEndpoint `b`, the AcceptSessions that are allocated, by address,
the owner of the listening socket of the endpoint, and the events raised by the
AcceptSessions to the endpoint that are not delivered yet, oldest first. -/
structure bind_world where
  b : nn_brtipc
  objs : Nat → Option nn_artipc
  owner : nn_fsm_owner
  queue : List (Nat × nn_artipc_event)

/-- The world after the part of `nn_brtipc_create` that sets the fields:
`nn_usock_init (&self->usock, NN_BRTIPC_SRC_USOCK, &self->fsm)` makes the
endpoint the owner of the listening socket. -/
def bind_world_init (fsm usock : Nat) : bind_world :=
  { b := nn_brtipc_init fsm usock, objs := fun _ => none,
    owner := { src := NN_BRTIPC_SRC_USOCK, fsm := some fsm }, queue := [] }

/-- Modelled from the spec: `nn_usock_swap_owner` (`aio/usock.c`, not in the
sources) makes the given record the owner of the socket; the owner of the
listening socket after the calls `e` of an AcceptSession, which swaps the owner
of no other socket. -/
def listener_owner_after (cur : nn_fsm_owner) : List EpEffect → nn_fsm_owner
  | [] => cur
  | EpEffect.usock_swap_owner o :: es => listener_owner_after o es
  | _ :: es => listener_owner_after cur es

/-- Modelled from the spec: `nn_fsm_raise` and `nn_fsm_stopped` (`aio/fsm.c`,
not in the sources) queue the event for the owner of the machine, with the
machine as source; the events the AcceptSession at `q` queues with the calls
`e`. -/
def artipc_raised (q : Nat) : List EpEffect → List (Nat × nn_artipc_event)
  | [] => []
  | EpEffect.artipc_raise t :: es => (q, t) :: artipc_raised q es
  | EpEffect.artipc_stopped t :: es => (q, t) :: artipc_raised q es
  | _ :: es => artipc_raised q es

/-- The world after the AcceptSession at `q` went to `a` making the calls `e`. -/
def artipc_absorb (w : bind_world) (q : Nat) (a : nn_artipc) (e : List EpEffect) : bind_world :=
  { w with objs := Function.update w.objs q (some a),
           owner := listener_owner_after w.owner e,
           queue := w.queue ++ artipc_raised q e }

/-- One call of the BindEndpoint carried out on the world. `envs q` are the
answers of the collaborators of the AcceptSession at `q`. Modelled from the
spec: `nn_alloc` returns an address that no allocated AcceptSession and no
undelivered event uses, and `nn_free` gives the address back. The calls on the
listening socket itself and on the endpoint base leave the world as it is.
`nn_artipc_term` asserts that the AcceptSession is idle. Stop issued to an
AcceptSession that is idle already leaves the world as it is, so that the
worlds include those of a runtime that ignores such a stop. -/
def bind_exec_one (envs : Nat → ep_env) (w : bind_world) : EpEffect → Option bind_world
  | EpEffect.artipc_init q _ _ =>
    if (w.objs q).isSome = true ∨ q ∈ w.queue.map Prod.fst then none
    else some { w with objs := Function.update w.objs q (some (nn_artipc_init q)) }
  | EpEffect.artipc_start q l =>
    match w.objs q with
    | none => none
    | some a =>
      match nn_artipc_start (envs q) w.owner a l with
      | none => none
      | some (a1, e) => some (artipc_absorb w q a1 e)
  | EpEffect.artipc_stop q =>
    match w.objs q with
    | none => none
    | some a =>
      if a.state = NN_ARTIPC_STATE_IDLE then some w
      else
        match nn_artipc_stop (envs q) a with
        | none => none
        | some (a1, e) => some (artipc_absorb w q a1 e)
  | EpEffect.artipc_term q =>
    match w.objs q with
    | none => none
    | some a => if a.state = NN_ARTIPC_STATE_IDLE then some w else none
  | EpEffect.free q => some { w with objs := Function.update w.objs q none }
  | _ => some w

/-- The calls of the BindEndpoint carried out in order. -/
def bind_exec (envs : Nat → ep_env) : bind_world → List EpEffect → Option bind_world
  | w, [] => some w
  | w, x :: es =>
    match bind_exec_one envs w x with
    | none => none
    | some w1 => bind_exec envs w1 es

/-- The answer of `nn_artipc_isidle (brtipc->artipc)`. -/
def bind_world.pending_isidle (w : bind_world) : Bool :=
  match w.b.artipc with
  | none => false
  | some p =>
    match w.objs p with
    | none => false
    | some a => decide (a.state = NN_ARTIPC_STATE_IDLE)

/-- The answer of `nn_artipc_isidle (brtipc->artipc)` right after
`nn_artipc_stop (brtipc->artipc)`, as `nn_brtipc_shutdown` asks it on Stop. -/
def bind_world.pending_isidle_after_stop (envs : Nat → ep_env) (w : bind_world) : Bool :=
  match w.b.artipc with
  | none => false
  | some p =>
    match w.objs p with
    | none => false
    | some a =>
      if a.state = NN_ARTIPC_STATE_IDLE then true
      else
        match nn_artipc_stop (envs p) a with
        | none => false
        | some (a1, _) => decide (a1.state = NN_ARTIPC_STATE_IDLE)

/-- What happens to the world: the endpoint is created and started; it is
stopped; the oldest undelivered event of an AcceptSession is delivered to it;
an event of the listening socket is delivered to it; an event of its socket, of
its Session or of the listening socket is delivered to the AcceptSession at
`p`. `env` are the answers of the collaborators of the endpoint, `envs q` those
of the collaborators of the AcceptSession at `q`. -/
inductive bind_call where
  | create (env : ep_env) (envs : Nat → ep_env)
  | stop (env : ep_env) (envs : Nat → ep_env)
  | deliver (env : ep_env) (envs : Nat → ep_env)
  | usock (type : nn_usock_event) (env : ep_env) (envs : Nat → ep_env)
  | child (p : Nat) (ev : artipc_input) (env : ep_env)

/-- The result of a handler of the BindEndpoint carried out on the world. -/
def bind_apply (envs : Nat → ep_env) (w : bind_world) :
    Option (nn_brtipc × List EpEffect) → Option bind_world
  | none => none
  | some (b1, es) => bind_exec envs { w with b := b1 } es

/-- One step of the world; `none` when an assertion fails. -/
def bind_step (w : bind_world) : bind_call → Option bind_world
  | bind_call.create env envs =>
    if w.b.state = NN_BRTIPC_STATE_IDLE then
      bind_apply envs w (nn_brtipc_feed env w.b (brtipc_input.action nn_fsm_action.NN_FSM_START))
    else none
  | bind_call.stop env envs =>
    bind_apply envs w
      (nn_brtipc_stop { env with artipc_isidle := w.pending_isidle_after_stop envs } w.b)
  | bind_call.deliver env envs =>
    match w.queue with
    | [] => none
    | (p, t) :: rest =>
      bind_apply envs { w with queue := rest }
        (nn_brtipc_feed { env with artipc_isidle := w.pending_isidle } w.b
          (brtipc_input.artipc p t))
  | bind_call.usock type env envs =>
    bind_apply envs w
      (nn_brtipc_feed { env with artipc_isidle := w.pending_isidle } w.b
        (brtipc_input.usock type))
  | bind_call.child p ev env =>
    if ev.is_action = true then none
    else
      match w.objs p with
      | none => none
      | some a =>
        match nn_artipc_feed env a ev with
        | none => none
        | some (a1, e) => some (artipc_absorb w p a1 e)

/-- Steps of the world one after the other. -/
def bind_run : bind_world → List bind_call → Option bind_world
  | w, [] => some w
  | w, c :: cs =>
    match bind_step w c with
    | none => none
    | some w1 => bind_run w1 cs

/-- An AcceptSession that holds the listener pointer is in ACCEPTING or in one
of its two shutdown states, and in ACCEPTING it holds the pointer. -/
def nn_artipc.listener_states (a : nn_artipc) : Prop :=
  (a.listener ≠ none → a.state = NN_ARTIPC_STATE_ACCEPTING
    ∨ a.state = NN_ARTIPC_STATE_STOPPING_SRTIPC_FINAL ∨ a.state = NN_ARTIPC_STATE_STOPPING)
  ∧ (a.state = NN_ARTIPC_STATE_ACCEPTING → a.listener ≠ none)

/-- The ownership of the listening socket in a world, but for the
AcceptSessions in `t`: every allocated AcceptSession stands at its address and
satisfies `listener_states`; one that holds the listener pointer is the pending
AcceptSession of the endpoint or is in `t`, is the owner of the listening
socket, and has saved the endpoint as the owner to give the socket back to;
without such an AcceptSession the endpoint is the owner; and an AcceptSession
whose Accepted event is not delivered yet does not hold the pointer. -/
def bind_world.owned_but (w : bind_world) (t : Nat → Prop) : Prop :=
  (∀ p a, w.objs p = some a → a.fsm = p ∧ a.listener_states)
  ∧ (∀ p a, w.objs p = some a → a.listener ≠ none →
      (w.b.artipc = some p ∨ t p)
      ∧ w.owner = { src := NN_ARTIPC_SRC_LISTENER, fsm := some p }
      ∧ a.listener_owner = { src := NN_BRTIPC_SRC_USOCK, fsm := some w.b.fsm })
  ∧ ((∀ p a, w.objs p = some a → a.listener = none) →
      w.owner = { src := NN_BRTIPC_SRC_USOCK, fsm := some w.b.fsm })
  ∧ (∀ p a, (p, nn_artipc_event.NN_ARTIPC_ACCEPTED) ∈ w.queue → w.objs p = some a →
      a.listener = none)

/-- The ownership of the listening socket in a world: as `owned_but`, with no
AcceptSession left out. -/
def bind_world.owned (w : bind_world) : Prop := w.owned_but (fun _ => False)

/-- What an invocation of an AcceptSession does to the listening socket: going
from `a` to `a1` with the calls `e`, either it keeps the listener pointer and
the saved owner as they are, swaps no owner and raises no Accepted, or it held
the pointer, clears it and leaves the saved owner as the owner of the socket.
In both cases `a1` satisfies `listener_states` and stands at the address of
`a`. -/
def artipc_keeps_or_returns (a a1 : nn_artipc) (e : List EpEffect) : Prop :=
  a1.fsm = a.fsm ∧ a1.listener_states
  ∧ ((a1.listener = a.listener ∧ a1.listener_owner = a.listener_owner
      ∧ (∀ cur, listener_owner_after cur e = cur)
      ∧ (∀ q, (q, nn_artipc_event.NN_ARTIPC_ACCEPTED) ∉ artipc_raised q e))
    ∨ (a.listener ≠ none ∧ a1.listener = none
      ∧ ∀ cur, listener_owner_after cur e = a.listener_owner))

/-- The calls that create and start an AcceptSession. -/
def EpEffect.is_alloc : EpEffect → Bool
  | EpEffect.artipc_init _ _ _ => true
  | EpEffect.artipc_start _ _ => true
  | _ => false

/-- The call `x` may be followed by the calls `es`: before `nn_free (q)` comes
`nn_artipc_term (q)`. -/
def EpEffect.allows_next (x : EpEffect) : List EpEffect → Bool
  | EpEffect.free q :: _ => decide (x = EpEffect.artipc_term q)
  | _ => true

/-- A sequence of calls that creates no AcceptSession and frees one only right
after `nn_artipc_term` on it. -/
def release_shaped : List EpEffect → Bool
  | [] => true
  | x :: es => !x.is_alloc && x.allows_next es && release_shaped es

/-! ## ConnectEndpoint: creation, statistics and the order of its states -/

/-- The sum of the increments of the statistics counter `name` among the
calls `e`. -/
def stat_sum (name : nn_stat) : List EpEffect → Int
  | [] => 0
  | EpEffect.epbase_stat_increment n delta :: es =>
    (if n = name then delta else 0) + stat_sum name es
  | _ :: es => stat_sum name es

/-- The function `nn_crtipc_create`. `reconnect_ivl`, `reconnect_ivl_max` and
the sizes are what `nn_epbase_getopt` stores for `NN_RECONNECT_IVL` and
`NN_RECONNECT_IVL_MAX`; the address `nn_alloc` returns stands for the object and
its embedded state machine. The call `nn_fsm_start` is modelled from the spec:
it delivers `NN_FSM_START` to the handler. -/
def nn_crtipc_create (env : ep_env) (reconnect_ivl : Int) (reconnect_ivl_sz : Nat)
    (reconnect_ivl_max : Int) (reconnect_ivl_max_sz : Nat) :
    Option (nn_crtipc × List EpEffect) :=
  match env.alloc with
  | none => none
  | some self =>
    if reconnect_ivl_sz ≠ 4 then none
    else if reconnect_ivl_max_sz ≠ 4 then none
    else
      let ivl_max : Int := if reconnect_ivl_max = 0 then reconnect_ivl else reconnect_ivl_max
      match nn_crtipc_handler env { fsm := self, state := NN_CRTIPC_STATE_IDLE }
          (crtipc_input.action nn_fsm_action.NN_FSM_START) with
      | none => none
      | some (s, e) => some (s, EpEffect.backoff_init reconnect_ivl ivl_max :: e)


/-- The deliveries `ds`, each under the answers of the collaborators that come
with it, handled one after the other by a ConnectEndpoint: for each delivery
the event, the state the endpoint is in after it, and the calls made. The
result is `none` when an assertion fails on the way. -/
def crtipc_trace : nn_crtipc → List (ep_env × crtipc_input) →
    Option (List (crtipc_input × Nat × List EpEffect))
  | _, [] => some []
  | s, d :: ds =>
    match nn_crtipc_feed d.1 s d.2 with
    | none => none
    | some (s1, e1) =>
      match crtipc_trace s1 ds with
      | none => none
      | some tr => some ((d.2, s1.state, e1) :: tr)

/-- The states of a trace of a ConnectEndpoint, in order. -/
def crtipc_states (tr : List (crtipc_input × Nat × List EpEffect)) : List Nat :=
  tr.map (fun x => x.2.1)

/-- The states that lie between the state `st` of a ConnectEndpoint and its
next entry into CONNECTING, in the order of the handler. -/
def crtipc_need (st : Nat) : List Nat :=
  if st = NN_CRTIPC_STATE_CONNECTING then
    [NN_CRTIPC_STATE_STOPPING_USOCK, NN_CRTIPC_STATE_WAITING, NN_CRTIPC_STATE_STOPPING_BACKOFF]
  else if st = NN_CRTIPC_STATE_ACTIVE then
    [NN_CRTIPC_STATE_STOPPING_SRTIPC, NN_CRTIPC_STATE_STOPPING_USOCK, NN_CRTIPC_STATE_WAITING,
     NN_CRTIPC_STATE_STOPPING_BACKOFF]
  else if st = NN_CRTIPC_STATE_STOPPING_SRTIPC then
    [NN_CRTIPC_STATE_STOPPING_USOCK, NN_CRTIPC_STATE_WAITING, NN_CRTIPC_STATE_STOPPING_BACKOFF]
  else if st = NN_CRTIPC_STATE_STOPPING_USOCK then
    [NN_CRTIPC_STATE_WAITING, NN_CRTIPC_STATE_STOPPING_BACKOFF]
  else if st = NN_CRTIPC_STATE_WAITING then [NN_CRTIPC_STATE_STOPPING_BACKOFF]
  else []

/-- The deliveries that follow a failed connection when nothing else happens:
the socket reports Shutdown and Stopped, the backoff its Timeout and its
Stopped event. -/
def crtipc_retry_deliveries : List (ep_env × crtipc_input) :=
  [(ep_env_idle, crtipc_input.usock nn_usock_event.NN_USOCK_SHUTDOWN),
   (ep_env_idle, crtipc_input.usock nn_usock_event.NN_USOCK_STOPPED),
   (ep_env_idle, crtipc_input.reconnect_timer nn_backoff_event.NN_BACKOFF_TIMEOUT),
   (ep_env_idle, crtipc_input.reconnect_timer nn_backoff_event.NN_BACKOFF_STOPPED)]

/-- The trace of a ConnectEndpoint in CONNECTING over the Error of the socket
followed by `crtipc_retry_deliveries`. -/
def crtipc_retry_trace : List (crtipc_input × Nat × List EpEffect) :=
  [(crtipc_input.usock nn_usock_event.NN_USOCK_ERROR, NN_CRTIPC_STATE_STOPPING_USOCK,
      [EpEffect.epbase_set_error 0, EpEffect.usock_stop,
       EpEffect.epbase_stat_increment nn_stat.NN_STAT_INPROGRESS_CONNECTIONS (-1),
       EpEffect.epbase_stat_increment nn_stat.NN_STAT_CONNECT_ERRORS 1]),
   (crtipc_input.usock nn_usock_event.NN_USOCK_SHUTDOWN, NN_CRTIPC_STATE_STOPPING_USOCK, []),
   (crtipc_input.usock nn_usock_event.NN_USOCK_STOPPED, NN_CRTIPC_STATE_WAITING,
      [EpEffect.backoff_start]),
   (crtipc_input.reconnect_timer nn_backoff_event.NN_BACKOFF_TIMEOUT,
      NN_CRTIPC_STATE_STOPPING_BACKOFF, [EpEffect.backoff_stop]),
   (crtipc_input.reconnect_timer nn_backoff_event.NN_BACKOFF_STOPPED,
      NN_CRTIPC_STATE_CONNECTING,
      [EpEffect.usock_start,
       EpEffect.usock_setsockopt nn_sockopt.SO_SNDBUF 131072,
       EpEffect.usock_setsockopt nn_sockopt.SO_RCVBUF 131072,
       EpEffect.usock_connect [47, 116],
       EpEffect.epbase_stat_increment nn_stat.NN_STAT_INPROGRESS_CONNECTIONS 1])]

/-! ## A Stopped event that reaches the BindEndpoint during its shutdown -/

/-- The answers of the collaborators of the AcceptSessions in
`bind_late_stopped_calls`: every child is idle when asked, but for the socket of
the AcceptSession at 12. -/
def bind_late_stopped_envs (q : Nat) : ep_env :=
  if q = 12 then { ep_env_idle with usock_isidle := false } else ep_env_idle

/-- A BindEndpoint is created; the pending AcceptSession, at 11, accepts a
connection and the endpoint allocates the next one at 12; the Session of the
accepted AcceptSession fails, the AcceptSession raises Error and the endpoint
issues stop to it, after which it is idle and its Stopped event is queued. The
endpoint is stopped before that event is delivered; then the event is
delivered, the pending AcceptSession stops, and its Stopped event is
delivered. The steps of the world admit this order of the calls; the runtime
delivers a queued event before it takes the stop of the endpoint. -/
def bind_late_stopped_calls : List bind_call :=
  [bind_call.create ep_env_idle bind_late_stopped_envs,
   bind_call.child 11 (artipc_input.usock nn_usock_event.NN_USOCK_ACCEPTED) ep_env_idle,
   bind_call.deliver { ep_env_idle with alloc := some 12 } bind_late_stopped_envs,
   bind_call.child 11 (artipc_input.srtipc NN_SRTIPC_ERROR) ep_env_idle,
   bind_call.child 11 (artipc_input.srtipc NN_SRTIPC_STOPPED) ep_env_idle,
   bind_call.child 11 (artipc_input.usock nn_usock_event.NN_USOCK_STOPPED) ep_env_idle,
   bind_call.deliver ep_env_idle bind_late_stopped_envs,
   bind_call.stop ep_env_idle bind_late_stopped_envs,
   bind_call.deliver ep_env_idle bind_late_stopped_envs,
   bind_call.child 12 (artipc_input.usock nn_usock_event.NN_USOCK_STOPPED) ep_env_idle,
   bind_call.deliver ep_env_idle bind_late_stopped_envs]

/-- What is observed of a world: the state of the endpoint, its pending
AcceptSession, its list of accepted AcceptSessions, the state of the
AcceptSession at 11, and the undelivered events. -/
def bind_world.observe (w : bind_world) :
    Nat × Option Nat × List Nat × Option Nat × List (Nat × nn_artipc_event) :=
  (w.b.state, w.b.artipc, w.b.artipcs, (w.objs 11).map (fun a => a.state), w.queue)

/-! ## A Session together with its StreamHdr, the timer and its owner -/

/-- What the collaborators outside these files answer to a Session and its
StreamHdr during one step: `nn_pipebase_ispeer`, the protocol option and its
size, the value `nn_pipebase_start` returns, the pipe, and the socket and the
owner record of it that the owner of the Session passes to `nn_srtipc_start`. -/
structure link_env where
  ispeer : Nat → Bool
  protocol : Int
  protocol_sz : Nat
  pipebase : Nat
  pipebase_start_rc : Int
  usock : Nat
  usock_owner : nn_fsm_owner

/-- A Session `s`, its StreamHdr `h`, the timer of the StreamHdr (0 idle, 1
started, 2 asked to stop and not idle yet), the events raised by the StreamHdr
that are not delivered to the Session yet, and the event types raised by the
Session that are not delivered to its owner yet, oldest first. -/
structure link_world where
  s : nn_srtipc
  h : nn_streamhdr
  timer : Nat
  qh : List nn_streamhdr_event
  qs : List Int

/-- A Session and a StreamHdr after `nn_srtipc_init` and `nn_streamhdr_init`. -/
def link_world_init (fsm_s fsm_h : Nat) : link_world :=
  { s := nn_srtipc_init fsm_s, h := nn_streamhdr_init fsm_h, timer := 0, qh := [], qs := [] }

/-- Modelled from the spec: the timer (`aio/timer.c`, not in the sources) is
started by `nn_timer_start`; `nn_timer_stop` on an idle timer leaves it idle,
on a started one it is idle only once its Stopped event is delivered. -/
def timer_after : Nat → List Effect → Nat
  | t, [] => t
  | _, Effect.timer_start _ :: es => timer_after 1 es
  | t, Effect.timer_stop :: es => timer_after (if t = 0 then 0 else 2) es
  | t, _ :: es => timer_after t es

/-- Modelled from the spec: `nn_fsm_raise` and `nn_fsm_stopped` queue the event
for the owner; the events the StreamHdr queues with the calls `e`. -/
def streamhdr_events : List Effect → List nn_streamhdr_event
  | [] => []
  | Effect.streamhdr_raise t :: es => t :: streamhdr_events es
  | Effect.streamhdr_stopped t :: es => t :: streamhdr_events es
  | _ :: es => streamhdr_events es

/-- The event types the Session queues for its owner with the calls `e`. -/
def srtipc_events : List Effect → List Int
  | [] => []
  | Effect.srtipc_raise t :: es => t :: srtipc_events es
  | Effect.srtipc_stopped t :: es => t :: srtipc_events es
  | _ :: es => srtipc_events es

/-- The world after the StreamHdr went to `h1` making the calls `e`. -/
def link_world.absorb_h (w : link_world) (h1 : nn_streamhdr) (e : List Effect) : link_world :=
  { w with h := h1, timer := timer_after w.timer e, qh := w.qh ++ streamhdr_events e }

/-- One call of the Session carried out on the world. The StreamHdr is started
on the socket of the Session, whose owner was the Session. Stop issued to a
StreamHdr that is idle already leaves the world as it is, so that the worlds
include those of a runtime that ignores such a stop. `nn_timer_isidle` answers
from the state of the timer: right after `nn_timer_stop` the timer is idle
exactly when it was idle before. -/
def link_exec_one (env : link_env) (w : link_world) : Effect → Option link_world
  | Effect.streamhdr_start =>
    match w.s.usock with
    | none => none
    | some u =>
      match nn_streamhdr_start env.ispeer (decide (w.timer = 0)) (some w.s.fsm) env.protocol
          env.protocol_sz w.h u env.pipebase with
      | none => none
      | some (h1, e) => some (w.absorb_h h1 e)
  | Effect.streamhdr_stop =>
    if w.h.state = NN_STREAMHDR_STATE_IDLE then some w
    else
      match nn_streamhdr_stop env.ispeer (decide (w.timer = 0)) w.h with
      | none => none
      | some (h1, e) => some (w.absorb_h h1 e)
  | Effect.srtipc_raise t => some { w with qs := w.qs ++ [t] }
  | Effect.srtipc_stopped t => some { w with qs := w.qs ++ [t] }
  | _ => some w

/-- The calls of the Session carried out in order. -/
def link_exec (env : link_env) : link_world → List Effect → Option link_world
  | w, [] => some w
  | w, x :: es =>
    match link_exec_one env w x with
    | none => none
    | some w1 => link_exec env w1 es

/-- The result of a handler of the Session carried out on the world. -/
def link_apply (env : link_env) (w : link_world) :
    Option (nn_srtipc × List Effect) → Option link_world
  | none => none
  | some (s1, e) => link_exec env { w with s := s1 } e

/-- The answer of `nn_streamhdr_isidle` right after `nn_streamhdr_stop`, as
`nn_srtipc_shutdown` asks it on Stop. -/
def link_world.streamhdr_isidle_after_stop (env : link_env) (w : link_world) : Bool :=
  if w.h.state = NN_STREAMHDR_STATE_IDLE then true
  else
    match nn_streamhdr_stop env.ispeer (decide (w.timer = 0)) w.h with
    | none => false
    | some (h1, _) => decide (h1.state = NN_STREAMHDR_STATE_IDLE)

/-- The call `nn_srtipc_start` of the owner, carried out on the world. -/
def link_start (env : link_env) (w : link_world) : Option link_world :=
  link_apply env w (nn_srtipc_start env.usock_owner w.s env.usock)

/-- The call `nn_srtipc_stop` of the owner, carried out on the world; on an
idle Session it leaves the world as it is. -/
def link_stop (env : link_env) (w : link_world) : Option link_world :=
  if w.s.state = NN_SRTIPC_STATE_IDLE then some w
  else link_apply env w (nn_srtipc_stop (w.streamhdr_isidle_after_stop env) w.s)

/-- What happens below the owner: an event of the socket is delivered to the
Session, with the bytes the socket has stored in its buffers by then, or to the
StreamHdr, with the bytes of a completed read; the timer fires; the timer
reports Stopped; the oldest event of the StreamHdr is delivered to the
Session; the user of the pipe calls `nn_srtipc_send` or `nn_srtipc_recv`. -/
inductive link_call where
  | usock_s (type : nn_usock_event) (inhdr : List Nat) (inmsg : nn_msg)
  | usock_h (type : nn_usock_event) (data : List Nat)
  | timeout
  | timer_stopped
  | deliver_h
  | send (msg : nn_msg)
  | recv

/-- One step below the owner; `none` when an assertion fails. Modelled from the
spec: the timer fires only while started, and reports Stopped, being idle from
then on, only after it was asked to stop. -/
def link_step (env : link_env) (w : link_world) : link_call → Option link_world
  | link_call.usock_s type inhdr inmsg =>
    link_apply env w
      (nn_srtipc_feed (decide (w.h.state = NN_STREAMHDR_STATE_IDLE)) env.pipebase_start_rc
        { w.s with inhdr := inhdr, inmsg := inmsg } (srtipc_input.usock type))
  | link_call.usock_h type data =>
    match nn_streamhdr_deliver env.ispeer w.h
        ⟨streamhdr_input.usock type, data, decide (w.timer = 0)⟩ with
    | none => none
    | some (h1, e) => some (w.absorb_h h1 e)
  | link_call.timeout =>
    if w.timer = 1 then
      match nn_streamhdr_deliver env.ispeer w.h
          ⟨streamhdr_input.timer nn_timer_event.NN_TIMER_TIMEOUT, [], false⟩ with
      | none => none
      | some (h1, e) => some (w.absorb_h h1 e)
    else none
  | link_call.timer_stopped =>
    if w.timer = 2 then
      match nn_streamhdr_deliver env.ispeer w.h
          ⟨streamhdr_input.timer nn_timer_event.NN_TIMER_STOPPED, [], true⟩ with
      | none => none
      | some (h1, e) => some ({ w with timer := 0 }.absorb_h h1 e)
    else none
  | link_call.deliver_h =>
    match w.qh with
    | [] => none
    | t :: rest =>
      link_apply env { w with qh := rest }
        (nn_srtipc_feed (decide (w.h.state = NN_STREAMHDR_STATE_IDLE)) env.pipebase_start_rc
          w.s (srtipc_input.streamhdr t))
  | link_call.send msg =>
    match nn_srtipc_send w.s msg with
    | call_result.returned s1 _ _ => some { w with s := s1 }
    | call_result.aborted _ _ => none
  | link_call.recv =>
    match nn_srtipc_recv w.s with
    | call_result.returned s1 _ _ => some { w with s := s1 }
    | call_result.aborted _ _ => none

/-- The calls of an endpoint machine on its Session, carried out in order. -/
def link_exec_ep (env : link_env) : link_world → List EpEffect → Option link_world
  | w, [] => some w
  | w, EpEffect.srtipc_start :: es =>
    match link_start env w with
    | none => none
    | some w1 => link_exec_ep env w1 es
  | w, EpEffect.srtipc_stop :: es =>
    match link_stop env w with
    | none => none
    | some w1 => link_exec_ep env w1 es
  | w, _ :: es => link_exec_ep env w es

/-- The answer of `nn_srtipc_isidle`. -/
def link_world.srtipc_isidle (w : link_world) : Bool :=
  decide (w.s.state = NN_SRTIPC_STATE_IDLE)

/-- The answer of `nn_srtipc_isidle` right after `nn_srtipc_stop`, as the
shutdown handlers of the AcceptSession and of the ConnectEndpoint ask it on
Stop. -/
def link_world.srtipc_isidle_after_stop (env : link_env) (w : link_world) : Bool :=
  match link_stop env w with
  | none => false
  | some w1 => w1.srtipc_isidle

/-- An AcceptSession or a ConnectEndpoint `p` with its Session, and all calls
it made so far. -/
structure ep_world (P : Type) where
  p : P
  l : link_world
  trace : List EpEffect

/-- What happens to an endpoint machine with events of type `V` after it is
started: its owner stops it; an event of its socket, of the listening socket or
of the backoff is delivered to it; the oldest event of its Session is delivered
to it; something happens below it. `env` and `lenv` are the answers of the
collaborators outside these files. -/
inductive ep_call (V : Type) where
  | stop (env : ep_env) (lenv : link_env)
  | event (v : V) (env : ep_env) (lenv : link_env)
  | deliver (env : ep_env) (lenv : link_env)
  | link (c : link_call) (lenv : link_env)

/-- The result of a handler of the endpoint machine carried out on the world. -/
def ep_apply {P : Type} (lenv : link_env) (w : ep_world P) :
    Option (P × List EpEffect) → Option (ep_world P)
  | none => none
  | some (p1, e) =>
    match link_exec_ep lenv w.l e with
    | none => none
    | some l1 => some { p := p1, l := l1, trace := w.trace ++ e }

/-- One step of the world of an endpoint machine with the stop call `stop` and
the dispatch `feed`; `is_ext` tells the events that come from outside the
Session, `of_srtipc` makes the event of the Session with a given type. The
answers of `nn_srtipc_isidle` are those of the Session of the world. -/
def ep_step {P V : Type} (stop : ep_env → P → Option (P × List EpEffect))
    (feed : ep_env → P → V → Option (P × List EpEffect)) (is_ext : V → Bool)
    (of_srtipc : Int → V) (w : ep_world P) : ep_call V → Option (ep_world P)
  | ep_call.stop env lenv =>
    ep_apply lenv w
      (stop { env with srtipc_isidle_at_stop := w.l.srtipc_isidle,
                       srtipc_isidle := w.l.srtipc_isidle_after_stop lenv } w.p)
  | ep_call.event v env lenv =>
    if is_ext v = true then
      ep_apply lenv w
        (feed { env with srtipc_isidle_at_stop := w.l.srtipc_isidle,
                         srtipc_isidle := w.l.srtipc_isidle } w.p v)
    else none
  | ep_call.deliver env lenv =>
    match w.l.qs with
    | [] => none
    | t :: rest =>
      ep_apply lenv { w with l := { w.l with qs := rest } }
        (feed { env with srtipc_isidle_at_stop := w.l.srtipc_isidle,
                         srtipc_isidle := w.l.srtipc_isidle } w.p (of_srtipc t))
  | ep_call.link c lenv =>
    match link_step lenv w.l c with
    | none => none
    | some l1 => some { w with l := l1 }

/-- Steps of the world one after the other. -/
def ep_run {P V : Type} (stop : ep_env → P → Option (P × List EpEffect))
    (feed : ep_env → P → V → Option (P × List EpEffect)) (is_ext : V → Bool)
    (of_srtipc : Int → V) : ep_world P → List (ep_call V) → Option (ep_world P)
  | w, [] => some w
  | w, c :: cs =>
    match ep_step stop feed is_ext of_srtipc w c with
    | none => none
    | some w1 => ep_run stop feed is_ext of_srtipc w1 cs

/-- The events of a ConnectEndpoint that come from outside its Session. -/
def crtipc_input.is_ext : crtipc_input → Bool
  | crtipc_input.usock _ => true
  | crtipc_input.reconnect_timer _ => true
  | _ => false

/-- The events of an AcceptSession that come from outside its Session. -/
def artipc_input.is_ext : artipc_input → Bool
  | artipc_input.usock _ => true
  | artipc_input.listener _ => true
  | _ => false

/-- The world of a ConnectEndpoint after `nn_crtipc_create` returned `c` having
made the calls `e`. -/
def connect_world_init (c : nn_crtipc) (e : List EpEffect) : ep_world nn_crtipc :=
  { p := c, l := link_world_init (c.fsm + 1) (c.fsm + 2), trace := e }

/-- Steps of the world of a ConnectEndpoint. -/
def connect_run : ep_world nn_crtipc → List (ep_call crtipc_input) →
    Option (ep_world nn_crtipc) :=
  ep_run nn_crtipc_stop nn_crtipc_feed crtipc_input.is_ext crtipc_input.srtipc

/-- The world of an AcceptSession after `nn_artipc_start` returned `a` having
made the calls `e`. -/
def accept_world_init (a : nn_artipc) (e : List EpEffect) : ep_world nn_artipc :=
  { p := a, l := link_world_init (a.fsm + 1) (a.fsm + 2), trace := e }

/-- Steps of the world of an AcceptSession. -/
def accept_run : ep_world nn_artipc → List (ep_call artipc_input) →
    Option (ep_world nn_artipc) :=
  ep_run nn_artipc_stop nn_artipc_feed artipc_input.is_ext artipc_input.srtipc

/-- The increments of BROKEN_CONNECTIONS and DROPPED_CONNECTIONS among the calls
`e` that come after the last `nn_srtipc_start`, added to `acc`, which a
`nn_srtipc_start` sets back to 0: the losses counted for the Session started
last. -/
def loss_count (acc : Int) : List EpEffect → Int
  | [] => acc
  | EpEffect.srtipc_start :: es => loss_count 0 es
  | EpEffect.epbase_stat_increment n delta :: es =>
    loss_count
      (acc + (if n = nn_stat.NN_STAT_BROKEN_CONNECTIONS ∨ n = nn_stat.NN_STAT_DROPPED_CONNECTIONS
        then delta else 0)) es
  | _ :: es => loss_count acc es

/-- The number of OK and Error events of the StreamHdr in a queue. -/
def count_verdicts (q : List nn_streamhdr_event) : Nat :=
  q.countP (fun t => decide (t ≠ nn_streamhdr_event.NN_STREAMHDR_STOPPED))

/-- What holds of a Session with its StreamHdr while the owner has not been
stopped; `act` tells whether the owner is in its ACTIVE state. A StreamHdr in
IDLE or DONE has an idle timer; outside the handshake the StreamHdr is in IDLE
or DONE; the Session is not stopping; the Session is idle unless the owner is
ACTIVE; a verdict of the StreamHdr that is not delivered yet is the only one,
and the StreamHdr is in DONE and the Session in PROTOHDR then; an Error of the
Session that is not delivered yet is the only one, and the Session is in DONE
and the owner ACTIVE then. -/
def link_world.settled (act : Bool) (w : link_world) : Prop :=
  ((w.h.state = NN_STREAMHDR_STATE_IDLE ∨ w.h.state = NN_STREAMHDR_STATE_DONE) → w.timer = 0)
  ∧ (w.s.state ≠ NN_SRTIPC_STATE_PROTOHDR →
      w.h.state = NN_STREAMHDR_STATE_IDLE ∨ w.h.state = NN_STREAMHDR_STATE_DONE)
  ∧ w.s.state ≠ NN_SRTIPC_STATE_STOPPING
  ∧ (act = false → w.s.state = NN_SRTIPC_STATE_IDLE)
  ∧ count_verdicts w.qh ≤ 1
  ∧ (count_verdicts w.qh = 1 →
      w.h.state = NN_STREAMHDR_STATE_DONE ∧ w.s.state = NN_SRTIPC_STATE_PROTOHDR)
  ∧ w.qs.count NN_SRTIPC_ERROR ≤ 1
  ∧ (w.qs.count NN_SRTIPC_ERROR = 1 → w.s.state = NN_SRTIPC_STATE_DONE ∧ act = true)

/-- What the count of losses needs of an endpoint machine: `running` are its
states before stop, `stopped` those from stop on, `active` its ACTIVE state.
Before stop an event from outside the Session keeps the machine running, and
either leaves the Session alone and counts no loss, outside ACTIVE, or starts
the Session, on the way into ACTIVE; the Error of the Session in ACTIVE stops
the Session and counts one loss, every other event of the Session is accepted
outside ACTIVE only and then changes nothing for the Session; stop counts one
loss and stops the Session exactly when the Session is not idle; from stop on
nothing is counted and the Session is not started. -/
def counts_loss_once {P V : Type} (running stopped active : P → Prop)
    (stop : ep_env → P → Option (P × List EpEffect))
    (feed : ep_env → P → V → Option (P × List EpEffect)) (is_ext : V → Bool)
    (of_srtipc : Int → V) : Prop :=
  (∀ p, active p → running p)
  ∧ (∀ env p v p1 e, running p → is_ext v = true → feed env p v = some (p1, e) →
      ¬ active p ∧ running p1
      ∧ ((¬ active p1 ∧ e.filter (fun x => decide (x = EpEffect.srtipc_start ∨
            x = EpEffect.srtipc_stop)) = [] ∧ ∀ acc, loss_count acc e = acc)
        ∨ (active p1 ∧ e.filter (fun x => decide (x = EpEffect.srtipc_start ∨
            x = EpEffect.srtipc_stop)) = [EpEffect.srtipc_start]
          ∧ ∀ acc, loss_count acc e = 0)))
  ∧ (∀ env p t p1 e, running p → feed env p (of_srtipc t) = some (p1, e) →
      running p1 ∧ ¬ active p1
      ∧ ((active p ∧ t = NN_SRTIPC_ERROR
          ∧ e.filter (fun x => decide (x = EpEffect.srtipc_start ∨
              x = EpEffect.srtipc_stop)) = [EpEffect.srtipc_stop]
          ∧ ∀ acc, loss_count acc e = acc + 1)
        ∨ (¬ active p ∧ e.filter (fun x => decide (x = EpEffect.srtipc_start ∨
              x = EpEffect.srtipc_stop)) = [] ∧ ∀ acc, loss_count acc e = acc)))
  ∧ (∀ env p p1 e, running p → stop env p = some (p1, e) →
      stopped p1
      ∧ e.filter (fun x => decide (x = EpEffect.srtipc_start)) = []
      ∧ ∀ acc, loss_count acc e
          = acc + (if env.srtipc_isidle_at_stop = false then 1 else 0))
  ∧ (∀ env p v p1 e, stopped p → (is_ext v = true ∨ ∃ t, v = of_srtipc t) →
      feed env p v = some (p1, e) →
      stopped p1 ∧ e.filter (fun x => decide (x = EpEffect.srtipc_start)) = []
      ∧ ∀ acc, loss_count acc e = acc)
  ∧ (∀ env p p1 e, stopped p → stop env p = some (p1, e) →
      stopped p1 ∧ e.filter (fun x => decide (x = EpEffect.srtipc_start)) = []
      ∧ ∀ acc, loss_count acc e = acc)

/-- What holds of the world of an endpoint machine along its runs: the losses
counted for the Session started last are 0 or 1; and unless the machine has
been stopped, the Session and its StreamHdr are settled, and no loss is counted
yet while the machine is ACTIVE. -/
def ep_world.settled {P : Type} (running stopped active : P → Prop) (w : ep_world P) : Prop :=
  0 ≤ loss_count 0 w.trace ∧ loss_count 0 w.trace ≤ 1
  ∧ (stopped w.p
    ∨ (running w.p ∧ (active w.p → w.l.settled true ∧ loss_count 0 w.trace = 0)
      ∧ (¬ active w.p → w.l.settled false)))

/-- A ConnectEndpoint from `nn_crtipc_stop` on. -/
def nn_crtipc.stopped (s : nn_crtipc) : Prop :=
  s.state = NN_CRTIPC_STATE_STOPPING_SRTIPC_FINAL ∨ s.state = NN_CRTIPC_STATE_STOPPING
  ∨ s.state = NN_CRTIPC_STATE_IDLE

/-- An AcceptSession before `nn_artipc_stop`. -/
def nn_artipc.started (s : nn_artipc) : Prop :=
  s.state = NN_ARTIPC_STATE_ACCEPTING ∨ s.state = NN_ARTIPC_STATE_ACTIVE
  ∨ s.state = NN_ARTIPC_STATE_STOPPING_SRTIPC ∨ s.state = NN_ARTIPC_STATE_STOPPING_USOCK
  ∨ s.state = NN_ARTIPC_STATE_DONE

/-- An AcceptSession from `nn_artipc_stop` on. -/
def nn_artipc.stopped (s : nn_artipc) : Prop :=
  s.state = NN_ARTIPC_STATE_STOPPING_SRTIPC_FINAL ∨ s.state = NN_ARTIPC_STATE_STOPPING
  ∨ s.state = NN_ARTIPC_STATE_IDLE

/-- Answers of the collaborators below an endpoint machine for a pipe of
protocol 16 whose peer is protocol 16, on the socket 1. -/
def link_env_pair : link_env :=
  { ispeer := fun p => decide (p = 16), protocol := 16, protocol_sz := 4, pipebase := 2,
    pipebase_start_rc := 0, usock := 1, usock_owner := { src := 1, fsm := some 11 } }

/-- A connection is established and breaks: the handshake completes, the
Session becomes ACTIVE, the socket reports Error to it and it raises Error. -/
def link_broken_calls : List link_call :=
  [link_call.usock_h nn_usock_event.NN_USOCK_SENT [],
   link_call.usock_h nn_usock_event.NN_USOCK_RECEIVED
     [0x00, 0x53, 0x50, 0x00, 0x00, 0x10, 0x00, 0x00],
   link_call.timer_stopped,
   link_call.deliver_h,
   link_call.deliver_h,
   link_call.usock_s nn_usock_event.NN_USOCK_ERROR (List.replicate 9 0) (nn_msg_init 0)]

/-- The socket of a ConnectEndpoint connects, the connection breaks, the Error
of the Session is delivered to the endpoint, and the endpoint is stopped before
the Stopped event of the Session is delivered. -/
def connect_broken_calls : List (ep_call crtipc_input) :=
  ep_call.event (crtipc_input.usock nn_usock_event.NN_USOCK_CONNECTED) ep_env_idle link_env_pair
    :: link_broken_calls.map (fun c => ep_call.link c link_env_pair)
    ++ [ep_call.deliver ep_env_idle link_env_pair, ep_call.stop ep_env_idle link_env_pair]

/-- The socket of an AcceptSession accepts a connection, the connection breaks,
the Error of the Session is delivered to the AcceptSession, and the
AcceptSession is stopped before the Stopped event of the Session is
delivered. -/
def accept_broken_calls : List (ep_call artipc_input) :=
  ep_call.event (artipc_input.usock nn_usock_event.NN_USOCK_ACCEPTED) ep_env_idle link_env_pair
    :: link_broken_calls.map (fun c => ep_call.link c link_env_pair)
    ++ [ep_call.deliver ep_env_idle link_env_pair, ep_call.stop ep_env_idle link_env_pair]
/-! ## The calls of a Session to its pipe -/

/-- What an observer of the pipe of a Session records: `nn_pipebase_start` that
returned success or failure, `nn_pipebase_stop` called by the handler (on the
Shutdown or the Error of the socket in ACTIVE), and `nn_pipebase_stop` called by
the shutdown handler (on the Stop of the owner). -/
inductive pipe_call where
  | started
  | start_failed
  | stop_by_handler
  | stop_by_shutdown
  deriving DecidableEq, Repr

/-- The pipe calls among the effects of one step of a Session. `by_stop` says
that the step is a stop call of the owner, `ok` that `nn_pipebase_start`
returns success when called during the step. -/
def pipe_calls (by_stop ok : Bool) : List Effect → List pipe_call
  | [] => []
  | Effect.pipebase_start :: rest =>
    (if ok then pipe_call.started else pipe_call.start_failed) :: pipe_calls by_stop ok rest
  | Effect.pipebase_stop :: rest =>
    (if by_stop then pipe_call.stop_by_shutdown else pipe_call.stop_by_handler)
      :: pipe_calls by_stop ok rest
  | _ :: rest => pipe_calls by_stop ok rest

/-- Whether a call is `nn_srtipc_stop`. -/
def srtipc_call.is_stop : srtipc_call → Bool
  | srtipc_call.stop _ => true
  | _ => false

/-- The value `nn_pipebase_start` returns during a step, as `srtipc_step` hands
it to the handler. -/
def srtipc_call.start_rc : srtipc_call → Int
  | srtipc_call.streamhdr _ _ rc => rc
  | _ => 0

/-- The pipe calls of a Session along the steps `srtipc_run` takes, in order;
`none` when an assertion fails on the way. The effects of a step are what it
appends to the trace. -/
def srtipc_pipe_log : srtipc_world → List srtipc_call → Option (List pipe_call)
  | _, [] => some []
  | w, c :: cs =>
    match srtipc_step w c with
    | none => none
    | some w1 =>
      match srtipc_pipe_log w1 cs with
      | none => none
      | some l =>
        some (pipe_calls c.is_stop (decide (0 ≤ c.start_rc)) (w1.trace.drop w.trace.length) ++ l)

/-- The discipline "stop only after a successful start, at most once per
start" on a log of pipe calls; the flag says whether the pipe stands started
and not yet stopped. -/
def stops_follow_starts : Bool → List pipe_call → Bool
  | _, [] => true
  | _, pipe_call.started :: rest => stops_follow_starts true rest
  | b, pipe_call.start_failed :: rest => stops_follow_starts b rest
  | b, pipe_call.stop_by_handler :: rest => b && stops_follow_starts false rest
  | b, pipe_call.stop_by_shutdown :: rest => b && stops_follow_starts false rest

/-- The same discipline asked of the stops of the handler only: a stop by the
shutdown handler is allowed whether or not the pipe stands started. -/
def handler_stops_follow_starts : Bool → List pipe_call → Bool
  | _, [] => true
  | _, pipe_call.started :: rest => handler_stops_follow_starts true rest
  | b, pipe_call.start_failed :: rest => handler_stops_follow_starts b rest
  | b, pipe_call.stop_by_handler :: rest => b && handler_stops_follow_starts false rest
  | _, pipe_call.stop_by_shutdown :: rest => handler_stops_follow_starts false rest

/-- A connection that breaks in ACTIVE and is then stopped by its owner: start,
handshake OK, StreamHdr stopped and pipe started, Error of the socket, stop. -/
def pipe_broken_calls : List srtipc_call :=
  [srtipc_call.start 1 { src := 3, fsm := some 9 },
   srtipc_call.streamhdr nn_streamhdr_event.NN_STREAMHDR_OK false 0,
   srtipc_call.streamhdr nn_streamhdr_event.NN_STREAMHDR_STOPPED true 0,
   srtipc_call.usock nn_usock_event.NN_USOCK_ERROR [] true,
   srtipc_call.stop true]

/-! ## The pending AcceptSession of a BindEndpoint -/

/-- What holds of the pending AcceptSession and of the list of accepted ones in
a world: an idle endpoint has an empty list; an endpoint in ACTIVE has a pending
AcceptSession that is allocated, started and not in the list, the list holds no
AcceptSession twice, and every AcceptSession in the list is allocated. -/
def bind_world.pending_ok (w : bind_world) : Prop :=
  (w.b.state = NN_BRTIPC_STATE_IDLE → w.b.artipcs = [])
  ∧ (w.b.state = NN_BRTIPC_STATE_ACTIVE →
      (∃ p a, w.b.artipc = some p ∧ w.objs p = some a ∧ a.started ∧ p ∉ w.b.artipcs)
      ∧ w.b.artipcs.Nodup
      ∧ ∀ q ∈ w.b.artipcs, (w.objs q).isSome = true)

/-- A BindEndpoint that left ACTIVE: it is not in ACTIVE, and when it is idle
its list of accepted AcceptSessions is empty. -/
def nn_brtipc.left_active (b : nn_brtipc) : Prop :=
  b.state ≠ NN_BRTIPC_STATE_ACTIVE ∧ (b.state = NN_BRTIPC_STATE_IDLE → b.artipcs = [])

/-! ## The order in which the runtime takes the inputs of a BindEndpoint -/

/-- Modelled from the spec: the FSM runtime (`aio/fsm.c`, `aio/ctx.c`, not in
the sources) delivers the events posted from inside a handler first-in first-out
right after that handler returns, before it takes any other input; so a call of
the owner, an event of the listening socket and an event of a socket or a
Session of an AcceptSession are taken only when no posted event is undelivered.
A child raises Stopped when it is idle, and the AcceptSession enters DONE on the
Stopped event of its socket, which it stops on the Stopped event of its Session;
so the Session and the socket of an AcceptSession in DONE answer idle when they
are asked during the delivery of an event of that AcceptSession. Whether the
runtime takes the call `c` in the world `w`. -/
def bind_world.takes (w : bind_world) : bind_call → Bool
  | bind_call.deliver _ envs =>
    match w.queue with
    | [] => false
    | (q, _) :: _ =>
      match w.objs q with
      | none => true
      | some a =>
        if a.state = NN_ARTIPC_STATE_DONE then
          (envs q).srtipc_isidle && (envs q).usock_isidle
        else true
  | _ => w.queue.isEmpty

/-- Whether the calls come in an order in which the runtime takes them, from
the world `w` on. -/
def bind_schedule : bind_world → List bind_call → Bool
  | _, [] => true
  | w, c :: cs =>
    w.takes c &&
      (match bind_step w c with
       | none => true
       | some w1 => bind_schedule w1 cs)

/-- What `nn_streamhdr_start` returns on an idle StreamHdr that holds no
socket. -/
theorem nn_streamhdr_start_idle (ispeer : Nat → Bool) (timer_isidle : Bool)
    (prev_owner : Option Nat) (p : Int) (self : nn_streamhdr) (usock pipebase : Nat)
    (hidle : self.state = NN_STREAMHDR_STATE_IDLE)
    (husock : self.usock = none) (howner : self.usock_owner = none) :
    nn_streamhdr_start ispeer timer_isidle prev_owner p 4 self usock pipebase
        = some ({ self with usock_owner := prev_owner, usock := some usock,
                            pipebase := some pipebase, protohdr := handshake_header p,
                            state := NN_STREAMHDR_STATE_SENDING },
                [Effect.usock_swap_owner_fsm (some self.fsm), Effect.timer_start 1000,
                 Effect.usock_send [handshake_header p]]) := by
  have hlt : (p % 65536).toNat < 65536 := by
    have h1 : p % 65536 < 65536 := Int.emod_lt_of_pos p (by norm_num)
    have h0 : 0 ≤ p % 65536 := Int.emod_nonneg p (by norm_num)
    omega
  simp [nn_streamhdr_start, nn_streamhdr_fsm_start, nn_streamhdr_handler,
    nn_streamhdr_handler_IDLE, husock, howner,
    hidle, NN_STREAMHDR_STATE_IDLE, NN_STREAMHDR_STATE_STOPPING, NN_STREAMHDR_STATE_SENDING,
    nn_puts, cast_uint16, handshake_header]
  omega

/-- C1: for every protocol identifier `p` returned by the PROTOCOL option,
`nn_streamhdr_start` on an idle StreamHdr fills `protohdr` with
`00 53 50 00`, the high and the low byte of `p mod 2^16`, then `00 00`
(and posts exactly that buffer as its write); for `p = 0x0031` the buffer is
`00 53 50 00 00 31 00 00`. -/
theorem C1_streamhdr_start_protohdr (ispeer : Nat → Bool) (timer_isidle : Bool)
    (prev_owner : Option Nat) (p : Int) (self : nn_streamhdr) (usock pipebase : Nat)
    (hidle : self.state = NN_STREAMHDR_STATE_IDLE)
    (husock : self.usock = none) (howner : self.usock_owner = none) :
    nn_streamhdr_start ispeer timer_isidle prev_owner p 4 self usock pipebase
        = some ({ self with usock_owner := prev_owner, usock := some usock,
                            pipebase := some pipebase, protohdr := handshake_header p,
                            state := NN_STREAMHDR_STATE_SENDING },
                [Effect.usock_swap_owner_fsm (some self.fsm), Effect.timer_start 1000,
                 Effect.usock_send [handshake_header p]])
      ∧ (handshake_header p).length = 8
      ∧ handshake_header 0x0031 = [0x00, 0x53, 0x50, 0x00, 0x00, 0x31, 0x00, 0x00] := by
  refine ⟨nn_streamhdr_start_idle ispeer timer_isidle prev_owner p self usock pipebase
    hidle husock howner, ?_, ?_⟩
  · simp [handshake_header]
  · simp [handshake_header]

/-- C1 (witness): starting a freshly initialised StreamHdr with protocol
`0x0031`. -/
theorem C1_streamhdr_start_protohdr_witness :
    nn_streamhdr_start (fun _ => true) false none 0x0031 4 (nn_streamhdr_init 7) 1 2
        = some ({ fsm := 7, usock_owner := none, usock := some 1,
                  pipebase := some 2, protohdr := handshake_header 0x0031,
                  state := NN_STREAMHDR_STATE_SENDING },
                [Effect.usock_swap_owner_fsm (some (nn_streamhdr_init 7).fsm),
                 Effect.timer_start 1000, Effect.usock_send [handshake_header 0x0031]])
      ∧ (handshake_header 0x0031).length = 8
      ∧ handshake_header 0x0031 = [0x00, 0x53, 0x50, 0x00, 0x00, 0x31, 0x00, 0x00] :=
  C1_streamhdr_start_protohdr (fun _ => true) false none 0x0031 (nn_streamhdr_init 7) 1 2
    rfl rfl rfl

/-- C2: for every 8-byte buffer `b` delivered with the socket's Received event
while StreamHdr is in RECEIVING, the timer is stopped, and the next state is
STOPPING_TIMER_DONE if and only if `b[0..3] = 00 53 50 00` and
`is_peer (256 * b[4] + b[5])` holds; otherwise it is STOPPING_TIMER_ERROR. -/
theorem C2_receiving_verdict (ispeer : Nat → Bool) (idle : Bool) (self : nn_streamhdr)
    (b0 b1 b2 b3 b4 b5 b6 b7 : Nat) (hst : self.state = NN_STREAMHDR_STATE_RECEIVING) :
    nn_streamhdr_deliver ispeer self
        ⟨streamhdr_input.usock nn_usock_event.NN_USOCK_RECEIVED,
          [b0, b1, b2, b3, b4, b5, b6, b7], idle⟩
      = some ({ self with
                  protohdr := [b0, b1, b2, b3, b4, b5, b6, b7],
                  state :=
                    if [b0, b1, b2, b3] = [0x00, 0x53, 0x50, 0x00] ∧ ispeer (256 * b4 + b5) = true
                    then NN_STREAMHDR_STATE_STOPPING_TIMER_DONE
                    else NN_STREAMHDR_STATE_STOPPING_TIMER_ERROR },
              [Effect.timer_stop])
    ∧ NN_STREAMHDR_STATE_STOPPING_TIMER_DONE ≠ NN_STREAMHDR_STATE_STOPPING_TIMER_ERROR := by
  refine ⟨?_, by decide⟩
  simp only [nn_streamhdr_deliver, nn_streamhdr_handler, nn_streamhdr_handler_RECEIVING, hst,
    NN_STREAMHDR_STATE_RECEIVING, NN_STREAMHDR_STATE_STOPPING, NN_STREAMHDR_STATE_IDLE,
    NN_STREAMHDR_STATE_SENDING, nn_gets]
  simp
  split_ifs <;> simp_all

/-- C2 (witness): the header `00 53 50 00 00 31 00 00` received by a pipe whose
only peer protocol is `0x31`. -/
theorem C2_receiving_verdict_witness :
    nn_streamhdr_deliver (fun p => decide (p = 0x31))
        { fsm := 7, state := NN_STREAMHDR_STATE_RECEIVING, usock := some 1, usock_owner := none,
          pipebase := some 2, protohdr := handshake_header 0x31 }
        ⟨streamhdr_input.usock nn_usock_event.NN_USOCK_RECEIVED,
          [0x00, 0x53, 0x50, 0x00, 0x00, 0x31, 0x00, 0x00], false⟩
      = some ({ fsm := 7, usock := some 1, usock_owner := none, pipebase := some 2,
                protohdr := [0x00, 0x53, 0x50, 0x00, 0x00, 0x31, 0x00, 0x00],
                state :=
                  if [0x00, 0x53, 0x50, 0x00] = [0x00, 0x53, 0x50, 0x00]
                      ∧ (fun p => decide (p = 0x31)) (256 * 0x00 + 0x31) = true
                  then NN_STREAMHDR_STATE_STOPPING_TIMER_DONE
                  else NN_STREAMHDR_STATE_STOPPING_TIMER_ERROR },
              [Effect.timer_stop])
    ∧ NN_STREAMHDR_STATE_STOPPING_TIMER_DONE ≠ NN_STREAMHDR_STATE_STOPPING_TIMER_ERROR :=
  C2_receiving_verdict (fun p => decide (p = 0x31)) false
    { fsm := 7, state := NN_STREAMHDR_STATE_RECEIVING, usock := some 1, usock_owner := none,
      pipebase := some 2, protohdr := handshake_header 0x31 }
    0x00 0x53 0x50 0x00 0x00 0x31 0x00 0x00 rfl

/-- A step that raises OK was taken in STOPPING_TIMER_DONE. -/
theorem streamhdr_deliver_ok_from (ispeer : Nat → Bool) (s s1 : nn_streamhdr)
    (d : streamhdr_delivery) (e1 : List Effect)
    (h : nn_streamhdr_deliver ispeer s d = some (s1, e1))
    (hmem : Effect.streamhdr_raise nn_streamhdr_event.NN_STREAMHDR_OK ∈ e1) :
    s.state = NN_STREAMHDR_STATE_STOPPING_TIMER_DONE := by
  rcases d with ⟨ev, data, idle⟩
  replace h := h.symm
  rcases ev with (a | u | t)
  · cases a <;>
      simp [nn_streamhdr_deliver, nn_streamhdr_handler, nn_streamhdr_handler_IDLE,
        nn_streamhdr_handler_SENDING, nn_streamhdr_handler_RECEIVING,
        nn_streamhdr_handler_STOPPING_TIMER_ERROR, nn_streamhdr_handler_STOPPING_TIMER_DONE] at h <;>
      split_ifs at h <;> simp_all [NN_STREAMHDR_STATE_STOPPING_TIMER_DONE,
        NN_STREAMHDR_STATE_IDLE, NN_STREAMHDR_STATE_SENDING, NN_STREAMHDR_STATE_STOPPING,
        NN_STREAMHDR_STATE_RECEIVING, NN_STREAMHDR_STATE_STOPPING_TIMER_ERROR,
        NN_STREAMHDR_STATE_DONE, valid_header, nn_gets]
  · cases u <;>
      simp [nn_streamhdr_deliver, nn_streamhdr_handler, nn_streamhdr_handler_IDLE,
        nn_streamhdr_handler_SENDING, nn_streamhdr_handler_RECEIVING,
        nn_streamhdr_handler_STOPPING_TIMER_ERROR, nn_streamhdr_handler_STOPPING_TIMER_DONE] at h <;>
      split_ifs at h <;> simp_all [NN_STREAMHDR_STATE_STOPPING_TIMER_DONE,
        NN_STREAMHDR_STATE_IDLE, NN_STREAMHDR_STATE_SENDING, NN_STREAMHDR_STATE_STOPPING,
        NN_STREAMHDR_STATE_RECEIVING, NN_STREAMHDR_STATE_STOPPING_TIMER_ERROR,
        NN_STREAMHDR_STATE_DONE, valid_header, nn_gets]
  · cases t <;>
      simp [nn_streamhdr_deliver, nn_streamhdr_handler, nn_streamhdr_handler_IDLE,
        nn_streamhdr_handler_SENDING, nn_streamhdr_handler_RECEIVING,
        nn_streamhdr_handler_STOPPING_TIMER_ERROR, nn_streamhdr_handler_STOPPING_TIMER_DONE] at h <;>
      split_ifs at h <;> simp_all [NN_STREAMHDR_STATE_STOPPING_TIMER_DONE,
        NN_STREAMHDR_STATE_IDLE, NN_STREAMHDR_STATE_SENDING, NN_STREAMHDR_STATE_STOPPING,
        NN_STREAMHDR_STATE_RECEIVING, NN_STREAMHDR_STATE_STOPPING_TIMER_ERROR,
        NN_STREAMHDR_STATE_DONE, valid_header, nn_gets]

/-- A step that ends in STOPPING_TIMER_DONE handled a Received event whose
header passed the check. -/
theorem streamhdr_deliver_into_done (ispeer : Nat → Bool) (s s1 : nn_streamhdr)
    (d : streamhdr_delivery) (e1 : List Effect)
    (h : nn_streamhdr_deliver ispeer s d = some (s1, e1))
    (hst : s1.state = NN_STREAMHDR_STATE_STOPPING_TIMER_DONE) :
    d.ev = streamhdr_input.usock nn_usock_event.NN_USOCK_RECEIVED
      ∧ valid_header ispeer d.data := by
  rcases d with ⟨ev, data, idle⟩
  replace h := h.symm
  rcases ev with (a | u | t)
  · cases a <;>
      simp [nn_streamhdr_deliver, nn_streamhdr_handler, nn_streamhdr_handler_IDLE,
        nn_streamhdr_handler_SENDING, nn_streamhdr_handler_RECEIVING,
        nn_streamhdr_handler_STOPPING_TIMER_ERROR, nn_streamhdr_handler_STOPPING_TIMER_DONE] at h <;>
      split_ifs at h <;> simp_all [NN_STREAMHDR_STATE_STOPPING_TIMER_DONE,
        NN_STREAMHDR_STATE_IDLE, NN_STREAMHDR_STATE_SENDING, NN_STREAMHDR_STATE_STOPPING,
        NN_STREAMHDR_STATE_RECEIVING, NN_STREAMHDR_STATE_STOPPING_TIMER_ERROR,
        NN_STREAMHDR_STATE_DONE, valid_header, nn_gets]
  · cases u <;>
      simp [nn_streamhdr_deliver, nn_streamhdr_handler, nn_streamhdr_handler_IDLE,
        nn_streamhdr_handler_SENDING, nn_streamhdr_handler_RECEIVING,
        nn_streamhdr_handler_STOPPING_TIMER_ERROR, nn_streamhdr_handler_STOPPING_TIMER_DONE] at h <;>
      split_ifs at h <;> simp_all [NN_STREAMHDR_STATE_STOPPING_TIMER_DONE,
        NN_STREAMHDR_STATE_IDLE, NN_STREAMHDR_STATE_SENDING, NN_STREAMHDR_STATE_STOPPING,
        NN_STREAMHDR_STATE_RECEIVING, NN_STREAMHDR_STATE_STOPPING_TIMER_ERROR,
        NN_STREAMHDR_STATE_DONE, valid_header, nn_gets]
  · cases t <;>
      simp [nn_streamhdr_deliver, nn_streamhdr_handler, nn_streamhdr_handler_IDLE,
        nn_streamhdr_handler_SENDING, nn_streamhdr_handler_RECEIVING,
        nn_streamhdr_handler_STOPPING_TIMER_ERROR, nn_streamhdr_handler_STOPPING_TIMER_DONE] at h <;>
      split_ifs at h <;> simp_all [NN_STREAMHDR_STATE_STOPPING_TIMER_DONE,
        NN_STREAMHDR_STATE_IDLE, NN_STREAMHDR_STATE_SENDING, NN_STREAMHDR_STATE_STOPPING,
        NN_STREAMHDR_STATE_RECEIVING, NN_STREAMHDR_STATE_STOPPING_TIMER_ERROR,
        NN_STREAMHDR_STATE_DONE, valid_header, nn_gets]

/-- Without a new start, a StreamHdr that is over stays over. -/
theorem streamhdr_deliver_over (ispeer : Nat → Bool) (s s1 : nn_streamhdr)
    (d : streamhdr_delivery) (e1 : List Effect)
    (h : nn_streamhdr_deliver ispeer s d = some (s1, e1))
    (hns : d.ev ≠ streamhdr_input.fsm nn_fsm_action.NN_FSM_START)
    (hover : streamhdr_over s) : streamhdr_over s1 := by
  rcases d with ⟨ev, data, idle⟩
  replace h := h.symm
  rcases ev with (a | u | t)
  · cases a <;>
      simp [nn_streamhdr_deliver, nn_streamhdr_handler, nn_streamhdr_handler_IDLE,
        nn_streamhdr_handler_SENDING, nn_streamhdr_handler_RECEIVING,
        nn_streamhdr_handler_STOPPING_TIMER_ERROR, nn_streamhdr_handler_STOPPING_TIMER_DONE] at h <;>
      split_ifs at h <;> simp_all [NN_STREAMHDR_STATE_STOPPING_TIMER_DONE,
        NN_STREAMHDR_STATE_IDLE, NN_STREAMHDR_STATE_SENDING, NN_STREAMHDR_STATE_STOPPING,
        NN_STREAMHDR_STATE_RECEIVING, NN_STREAMHDR_STATE_STOPPING_TIMER_ERROR,
        NN_STREAMHDR_STATE_DONE, valid_header, nn_gets, streamhdr_over, failing_delivery]
  · cases u <;>
      simp [nn_streamhdr_deliver, nn_streamhdr_handler, nn_streamhdr_handler_IDLE,
        nn_streamhdr_handler_SENDING, nn_streamhdr_handler_RECEIVING,
        nn_streamhdr_handler_STOPPING_TIMER_ERROR, nn_streamhdr_handler_STOPPING_TIMER_DONE] at h <;>
      split_ifs at h <;> simp_all [NN_STREAMHDR_STATE_STOPPING_TIMER_DONE,
        NN_STREAMHDR_STATE_IDLE, NN_STREAMHDR_STATE_SENDING, NN_STREAMHDR_STATE_STOPPING,
        NN_STREAMHDR_STATE_RECEIVING, NN_STREAMHDR_STATE_STOPPING_TIMER_ERROR,
        NN_STREAMHDR_STATE_DONE, valid_header, nn_gets, streamhdr_over, failing_delivery]
  · cases t <;>
      simp [nn_streamhdr_deliver, nn_streamhdr_handler, nn_streamhdr_handler_IDLE,
        nn_streamhdr_handler_SENDING, nn_streamhdr_handler_RECEIVING,
        nn_streamhdr_handler_STOPPING_TIMER_ERROR, nn_streamhdr_handler_STOPPING_TIMER_DONE] at h <;>
      split_ifs at h <;> simp_all [NN_STREAMHDR_STATE_STOPPING_TIMER_DONE,
        NN_STREAMHDR_STATE_IDLE, NN_STREAMHDR_STATE_SENDING, NN_STREAMHDR_STATE_STOPPING,
        NN_STREAMHDR_STATE_RECEIVING, NN_STREAMHDR_STATE_STOPPING_TIMER_ERROR,
        NN_STREAMHDR_STATE_DONE, valid_header, nn_gets, streamhdr_over, failing_delivery]

/-- A failing delivery that the handler accepts leaves the StreamHdr over. -/
theorem streamhdr_deliver_failing (ispeer : Nat → Bool) (s s1 : nn_streamhdr)
    (d : streamhdr_delivery) (e1 : List Effect)
    (h : nn_streamhdr_deliver ispeer s d = some (s1, e1))
    (hbad : failing_delivery ispeer d) : streamhdr_over s1 := by
  rcases d with ⟨ev, data, idle⟩
  replace h := h.symm
  rcases ev with (a | u | t)
  · cases a <;>
      simp [nn_streamhdr_deliver, nn_streamhdr_handler, nn_streamhdr_handler_IDLE,
        nn_streamhdr_handler_SENDING, nn_streamhdr_handler_RECEIVING,
        nn_streamhdr_handler_STOPPING_TIMER_ERROR, nn_streamhdr_handler_STOPPING_TIMER_DONE] at h <;>
      split_ifs at h <;> simp_all [NN_STREAMHDR_STATE_STOPPING_TIMER_DONE,
        NN_STREAMHDR_STATE_IDLE, NN_STREAMHDR_STATE_SENDING, NN_STREAMHDR_STATE_STOPPING,
        NN_STREAMHDR_STATE_RECEIVING, NN_STREAMHDR_STATE_STOPPING_TIMER_ERROR,
        NN_STREAMHDR_STATE_DONE, valid_header, nn_gets, streamhdr_over, failing_delivery]
  · cases u <;>
      simp [nn_streamhdr_deliver, nn_streamhdr_handler, nn_streamhdr_handler_IDLE,
        nn_streamhdr_handler_SENDING, nn_streamhdr_handler_RECEIVING,
        nn_streamhdr_handler_STOPPING_TIMER_ERROR, nn_streamhdr_handler_STOPPING_TIMER_DONE] at h <;>
      split_ifs at h <;> simp_all [NN_STREAMHDR_STATE_STOPPING_TIMER_DONE,
        NN_STREAMHDR_STATE_IDLE, NN_STREAMHDR_STATE_SENDING, NN_STREAMHDR_STATE_STOPPING,
        NN_STREAMHDR_STATE_RECEIVING, NN_STREAMHDR_STATE_STOPPING_TIMER_ERROR,
        NN_STREAMHDR_STATE_DONE, valid_header, nn_gets, streamhdr_over, failing_delivery]
  · cases t <;>
      simp [nn_streamhdr_deliver, nn_streamhdr_handler, nn_streamhdr_handler_IDLE,
        nn_streamhdr_handler_SENDING, nn_streamhdr_handler_RECEIVING,
        nn_streamhdr_handler_STOPPING_TIMER_ERROR, nn_streamhdr_handler_STOPPING_TIMER_DONE] at h <;>
      split_ifs at h <;> simp_all [NN_STREAMHDR_STATE_STOPPING_TIMER_DONE,
        NN_STREAMHDR_STATE_IDLE, NN_STREAMHDR_STATE_SENDING, NN_STREAMHDR_STATE_STOPPING,
        NN_STREAMHDR_STATE_RECEIVING, NN_STREAMHDR_STATE_STOPPING_TIMER_ERROR,
        NN_STREAMHDR_STATE_DONE, valid_header, nn_gets, streamhdr_over, failing_delivery]

/-- A run that raises OK either began in STOPPING_TIMER_DONE or contains a
Received delivery whose header passed the check. -/
theorem streamhdr_run_ok (ispeer : Nat → Bool) (ds : List streamhdr_delivery) :
    ∀ (s s2 : nn_streamhdr) (effs : List Effect),
      nn_streamhdr_run ispeer s ds = some (s2, effs) →
      Effect.streamhdr_raise nn_streamhdr_event.NN_STREAMHDR_OK ∈ effs →
      s.state = NN_STREAMHDR_STATE_STOPPING_TIMER_DONE
        ∨ ∃ d ∈ ds, d.ev = streamhdr_input.usock nn_usock_event.NN_USOCK_RECEIVED
            ∧ valid_header ispeer d.data := by
  induction ds with
  | nil =>
    intro s s2 effs h hmem
    simp [nn_streamhdr_run] at h
    obtain ⟨-, rfl⟩ := h
    simp at hmem
  | cons d ds ih =>
    intro s s2 effs h hmem
    simp only [nn_streamhdr_run] at h
    cases hd : nn_streamhdr_deliver ispeer s d with
    | none => simp [hd] at h
    | some r1 =>
      obtain ⟨s1, e1⟩ := r1
      simp only [hd] at h
      cases hr : nn_streamhdr_run ispeer s1 ds with
      | none => simp [hr] at h
      | some r2 =>
        obtain ⟨s3, e2⟩ := r2
        simp only [hr, Option.some.injEq, Prod.mk.injEq] at h
        obtain ⟨-, rfl⟩ := h
        rcases List.mem_append.mp hmem with h1 | h2
        · exact Or.inl (streamhdr_deliver_ok_from ispeer s s1 d e1 hd h1)
        · rcases ih s1 s3 e2 hr h2 with h3 | ⟨d2, hd2, hv⟩
          · exact Or.inr ⟨d, List.mem_cons_self _ _,
              streamhdr_deliver_into_done ispeer s s1 d e1 hd h3⟩
          · exact Or.inr ⟨d2, List.mem_cons_of_mem _ hd2, hv⟩

/-- Once a StreamHdr is over, no run without a new start raises OK. -/
theorem streamhdr_run_over (ispeer : Nat → Bool) (ds : List streamhdr_delivery) :
    ∀ (s s2 : nn_streamhdr) (effs : List Effect),
      streamhdr_over s →
      (∀ d ∈ ds, d.ev ≠ streamhdr_input.fsm nn_fsm_action.NN_FSM_START) →
      nn_streamhdr_run ispeer s ds = some (s2, effs) →
      Effect.streamhdr_raise nn_streamhdr_event.NN_STREAMHDR_OK ∉ effs := by
  induction ds with
  | nil =>
    intro s s2 effs _ _ h
    simp [nn_streamhdr_run] at h
    obtain ⟨-, rfl⟩ := h
    simp
  | cons d ds ih =>
    intro s s2 effs hover hns h
    simp only [nn_streamhdr_run] at h
    cases hd : nn_streamhdr_deliver ispeer s d with
    | none => simp [hd] at h
    | some r1 =>
      obtain ⟨s1, e1⟩ := r1
      simp only [hd] at h
      cases hr : nn_streamhdr_run ispeer s1 ds with
      | none => simp [hr] at h
      | some r2 =>
        obtain ⟨s3, e2⟩ := r2
        simp only [hr, Option.some.injEq, Prod.mk.injEq] at h
        obtain ⟨-, rfl⟩ := h
        intro hmem
        rcases List.mem_append.mp hmem with h1 | h2
        · have hst := streamhdr_deliver_ok_from ispeer s s1 d e1 hd h1
          rcases hover with h4 | h4 | h4 | h4 <;> rw [hst] at h4 <;> revert h4 <;> decide
        · exact ih s1 s3 e2
            (streamhdr_deliver_over ispeer s s1 d e1 hd (hns d (List.mem_cons_self _ _)) hover)
            (fun d2 hd2 => hns d2 (List.mem_cons_of_mem _ hd2)) hr h2

/-- C3: for every sequence of deliveries to a StreamHdr after start, if the
machine raises OK then it handled a Received event whose 8 bytes begin with
`00 53 50 00` and carry at offset 4 a big-endian protocol identifier that
`is_peer` accepts; and once a socket Error, a timer Timeout or a header failing
the check has been handled, no later delivery of that run raises OK. -/
theorem C3_ok_only_after_valid_header (ispeer : Nat → Bool) (timer_isidle : Bool)
    (prev_owner : Option Nat) (p : Int) (self s0 : nn_streamhdr) (usock pipebase : Nat)
    (e0 : List Effect)
    (hidle : self.state = NN_STREAMHDR_STATE_IDLE)
    (hstart : nn_streamhdr_start ispeer timer_isidle prev_owner p 4 self usock pipebase
      = some (s0, e0)) :
    Effect.streamhdr_raise nn_streamhdr_event.NN_STREAMHDR_OK ∉ e0
    ∧ (∀ (ds : List streamhdr_delivery) (s : nn_streamhdr) (effs : List Effect),
        nn_streamhdr_run ispeer s0 ds = some (s, effs) →
        Effect.streamhdr_raise nn_streamhdr_event.NN_STREAMHDR_OK ∈ effs →
        ∃ d ∈ ds, d.ev = streamhdr_input.usock nn_usock_event.NN_USOCK_RECEIVED
          ∧ d.data.take 4 = [0x00, 0x53, 0x50, 0x00]
          ∧ ispeer (256 * d.data.getD 4 0 + d.data.getD 5 0) = true)
    ∧ (∀ (pre post : List streamhdr_delivery) (bad : streamhdr_delivery)
        (s1 s2 s3 : nn_streamhdr) (e1 e2 e3 : List Effect),
        nn_streamhdr_run ispeer s0 pre = some (s1, e1) →
        failing_delivery ispeer bad →
        nn_streamhdr_deliver ispeer s1 bad = some (s2, e2) →
        (∀ d ∈ post, d.ev ≠ streamhdr_input.fsm nn_fsm_action.NN_FSM_START) →
        nn_streamhdr_run ispeer s2 post = some (s3, e3) →
        Effect.streamhdr_raise nn_streamhdr_event.NN_STREAMHDR_OK ∉ e2 ++ e3) := by
  have hs0 : s0.state = NN_STREAMHDR_STATE_SENDING ∧
      Effect.streamhdr_raise nn_streamhdr_event.NN_STREAMHDR_OK ∉ e0 := by
    by_cases hu : self.usock = none ∧ self.usock_owner = none
    · rw [nn_streamhdr_start_idle ispeer timer_isidle prev_owner p self usock pipebase hidle
        hu.1 hu.2] at hstart
      simp only [Option.some.injEq, Prod.mk.injEq] at hstart
      obtain ⟨rfl, rfl⟩ := hstart
      simp
    · simp [nn_streamhdr_start, hu] at hstart
  refine ⟨hs0.2, ?_, ?_⟩
  · intro ds s effs hrun hmem
    rcases streamhdr_run_ok ispeer ds s0 s effs hrun hmem with h | ⟨d, hd, hev, hv⟩
    · rw [hs0.1] at h
      exact absurd h (by decide)
    · exact ⟨d, hd, hev, hv.1, hv.2⟩
  · intro pre post bad s1 s2 s3 e1 e2 e3 _ hbad hstep hns hrun hmem
    have hover : streamhdr_over s2 := streamhdr_deliver_failing ispeer s1 s2 bad e2 hstep hbad
    rcases List.mem_append.mp hmem with h1 | h2
    · have hst := streamhdr_deliver_ok_from ispeer s1 s2 bad e2 hstep h1
      rcases hbad with hb | hb | ⟨hb, hnv⟩
      · exact absurd hst (by
          intro hst2
          have hnone : nn_streamhdr_deliver ispeer s1 bad = none := by
            rcases bad with ⟨ev, data, idle⟩
            simp only at hb
            subst hb
            simp [nn_streamhdr_deliver, nn_streamhdr_handler,
              nn_streamhdr_handler_STOPPING_TIMER_DONE, hst2, NN_STREAMHDR_STATE_STOPPING_TIMER_DONE,
              NN_STREAMHDR_STATE_STOPPING, NN_STREAMHDR_STATE_IDLE, NN_STREAMHDR_STATE_SENDING,
              NN_STREAMHDR_STATE_RECEIVING, NN_STREAMHDR_STATE_STOPPING_TIMER_ERROR]
          rw [hnone] at hstep
          exact Option.noConfusion hstep)
      · exact absurd hst (by
          intro hst2
          have hnone : nn_streamhdr_deliver ispeer s1 bad = none := by
            rcases bad with ⟨ev, data, idle⟩
            simp only at hb
            subst hb
            simp [nn_streamhdr_deliver, nn_streamhdr_handler,
              nn_streamhdr_handler_STOPPING_TIMER_DONE, hst2, NN_STREAMHDR_STATE_STOPPING_TIMER_DONE,
              NN_STREAMHDR_STATE_STOPPING, NN_STREAMHDR_STATE_IDLE, NN_STREAMHDR_STATE_SENDING,
              NN_STREAMHDR_STATE_RECEIVING, NN_STREAMHDR_STATE_STOPPING_TIMER_ERROR]
          rw [hnone] at hstep
          exact Option.noConfusion hstep)
      · exact absurd hst (by
          intro hst2
          have hnone : nn_streamhdr_deliver ispeer s1 bad = none := by
            rcases bad with ⟨ev, data, idle⟩
            simp only at hb
            subst hb
            simp [nn_streamhdr_deliver, nn_streamhdr_handler,
              nn_streamhdr_handler_STOPPING_TIMER_DONE, hst2, NN_STREAMHDR_STATE_STOPPING_TIMER_DONE,
              NN_STREAMHDR_STATE_STOPPING, NN_STREAMHDR_STATE_IDLE, NN_STREAMHDR_STATE_SENDING,
              NN_STREAMHDR_STATE_RECEIVING, NN_STREAMHDR_STATE_STOPPING_TIMER_ERROR]
          rw [hnone] at hstep
          exact Option.noConfusion hstep)
    · exact streamhdr_run_over ispeer post s2 s3 e3 hover hns hrun h2

/-- C3 (witness): a pipe whose only peer protocol is `0x31`. The run Sent,
Received `00 53 50 00 00 31 00 00`, timer Stopped raises OK and contains the
valid header; after the failing header `48 49 00 00 00 01 00 00` the run
timer Stopped, Stop raises no OK. -/
theorem C3_ok_only_after_valid_header_witness :
    (∃ d ∈ [(⟨streamhdr_input.usock nn_usock_event.NN_USOCK_SENT, [], false⟩ : streamhdr_delivery),
            ⟨streamhdr_input.usock nn_usock_event.NN_USOCK_RECEIVED,
              [0x00, 0x53, 0x50, 0x00, 0x00, 0x31, 0x00, 0x00], false⟩,
            ⟨streamhdr_input.timer nn_timer_event.NN_TIMER_STOPPED, [], true⟩],
        d.ev = streamhdr_input.usock nn_usock_event.NN_USOCK_RECEIVED
          ∧ d.data.take 4 = [0x00, 0x53, 0x50, 0x00]
          ∧ (fun q => decide (q = 0x31)) (256 * d.data.getD 4 0 + d.data.getD 5 0) = true)
    ∧ Effect.streamhdr_raise nn_streamhdr_event.NN_STREAMHDR_OK ∉
        [Effect.timer_stop] ++
          [Effect.usock_swap_owner_fsm none,
           Effect.streamhdr_raise nn_streamhdr_event.NN_STREAMHDR_ERROR,
           Effect.timer_stop,
           Effect.streamhdr_stopped nn_streamhdr_event.NN_STREAMHDR_STOPPED] :=
  have hstart : nn_streamhdr_start (fun q => decide (q = 0x31)) false none 0x31 4
      (nn_streamhdr_init 7) 1 2
      = some ({ fsm := 7, state := NN_STREAMHDR_STATE_SENDING, usock := some 1,
                usock_owner := none, pipebase := some 2,
                protohdr := [0x00, 0x53, 0x50, 0x00, 0x00, 0x31, 0x00, 0x00] },
              [Effect.usock_swap_owner_fsm (some 7), Effect.timer_start 1000,
               Effect.usock_send [[0x00, 0x53, 0x50, 0x00, 0x00, 0x31, 0x00, 0x00]]]) := by
    rfl
  have h := C3_ok_only_after_valid_header (fun q => decide (q = 0x31)) false none 0x31
    (nn_streamhdr_init 7) _ 1 2 _ rfl hstart
  ⟨h.2.1
      [⟨streamhdr_input.usock nn_usock_event.NN_USOCK_SENT, [], false⟩,
       ⟨streamhdr_input.usock nn_usock_event.NN_USOCK_RECEIVED,
         [0x00, 0x53, 0x50, 0x00, 0x00, 0x31, 0x00, 0x00], false⟩,
       ⟨streamhdr_input.timer nn_timer_event.NN_TIMER_STOPPED, [], true⟩]
      { fsm := 7, state := NN_STREAMHDR_STATE_DONE, usock := none,
        usock_owner := none, pipebase := some 2,
        protohdr := [0x00, 0x53, 0x50, 0x00, 0x00, 0x31, 0x00, 0x00] }
      [Effect.usock_recv RecvBuf.protohdr 8, Effect.timer_stop,
       Effect.usock_swap_owner_fsm none,
       Effect.streamhdr_raise nn_streamhdr_event.NN_STREAMHDR_OK]
      (by rfl) (by decide),
   h.2.2
      [⟨streamhdr_input.usock nn_usock_event.NN_USOCK_SENT, [], false⟩]
      [⟨streamhdr_input.timer nn_timer_event.NN_TIMER_STOPPED, [], true⟩,
       ⟨streamhdr_input.fsm nn_fsm_action.NN_FSM_STOP, [], true⟩]
      ⟨streamhdr_input.usock nn_usock_event.NN_USOCK_RECEIVED,
        [0x48, 0x49, 0x00, 0x00, 0x00, 0x01, 0x00, 0x00], false⟩
      { fsm := 7, state := NN_STREAMHDR_STATE_RECEIVING, usock := some 1,
        usock_owner := none, pipebase := some 2,
        protohdr := [0x00, 0x53, 0x50, 0x00, 0x00, 0x31, 0x00, 0x00] }
      { fsm := 7, state := NN_STREAMHDR_STATE_STOPPING_TIMER_ERROR, usock := some 1,
        usock_owner := none, pipebase := some 2,
        protohdr := [0x48, 0x49, 0x00, 0x00, 0x00, 0x01, 0x00, 0x00] }
      { fsm := 7, state := NN_STREAMHDR_STATE_IDLE, usock := none,
        usock_owner := none, pipebase := some 2,
        protohdr := [0x48, 0x49, 0x00, 0x00, 0x00, 0x01, 0x00, 0x00] }
      [Effect.usock_recv RecvBuf.protohdr 8]
      [Effect.timer_stop]
      [Effect.usock_swap_owner_fsm none,
       Effect.streamhdr_raise nn_streamhdr_event.NN_STREAMHDR_ERROR,
       Effect.timer_stop,
       Effect.streamhdr_stopped nn_streamhdr_event.NN_STREAMHDR_STOPPED]
      (by rfl)
      (Or.inr (Or.inr ⟨rfl, by decide⟩))
      (by rfl)
      (by decide)
      (by rfl)⟩

/-- C8: for a StreamHdr in SENDING or in RECEIVING, a socket Error event or a
timer Timeout event stops the timer and moves the machine to
STOPPING_TIMER_ERROR, and the timer Stopped event that follows raises Error,
and no OK, to the parent. -/
theorem C8_error_or_timeout_fails_handshake (ispeer : Nat → Bool) (idle1 idle2 : Bool)
    (self : nn_streamhdr) (ev : streamhdr_input)
    (hst : self.state = NN_STREAMHDR_STATE_SENDING ∨ self.state = NN_STREAMHDR_STATE_RECEIVING)
    (hev : ev = streamhdr_input.usock nn_usock_event.NN_USOCK_ERROR
      ∨ ev = streamhdr_input.timer nn_timer_event.NN_TIMER_TIMEOUT) :
    nn_streamhdr_handler ispeer idle1 self ev
      = some ({ self with state := NN_STREAMHDR_STATE_STOPPING_TIMER_ERROR }, [Effect.timer_stop])
    ∧ nn_streamhdr_handler ispeer idle2
        { self with state := NN_STREAMHDR_STATE_STOPPING_TIMER_ERROR }
        (streamhdr_input.timer nn_timer_event.NN_TIMER_STOPPED)
      = some ({ self with usock := none, usock_owner := none, state := NN_STREAMHDR_STATE_DONE },
          [Effect.usock_swap_owner_fsm self.usock_owner,
           Effect.streamhdr_raise nn_streamhdr_event.NN_STREAMHDR_ERROR])
    ∧ Effect.streamhdr_raise nn_streamhdr_event.NN_STREAMHDR_OK ∉
        [Effect.timer_stop, Effect.usock_swap_owner_fsm self.usock_owner,
         Effect.streamhdr_raise nn_streamhdr_event.NN_STREAMHDR_ERROR] := by
  refine ⟨?_, ?_, by simp⟩
  · rcases hst with h | h <;> rcases hev with rfl | rfl <;>
      simp [nn_streamhdr_handler, nn_streamhdr_handler_SENDING, nn_streamhdr_handler_RECEIVING, h,
        NN_STREAMHDR_STATE_STOPPING, NN_STREAMHDR_STATE_IDLE, NN_STREAMHDR_STATE_SENDING,
        NN_STREAMHDR_STATE_RECEIVING]
  · simp [nn_streamhdr_handler, nn_streamhdr_handler_STOPPING_TIMER_ERROR,
      NN_STREAMHDR_STATE_STOPPING, NN_STREAMHDR_STATE_IDLE, NN_STREAMHDR_STATE_SENDING,
      NN_STREAMHDR_STATE_RECEIVING, NN_STREAMHDR_STATE_STOPPING_TIMER_ERROR]

/-- C8 (witness): the handshake timer fires while the header is awaited. -/
theorem C8_error_or_timeout_fails_handshake_witness :
    nn_streamhdr_handler (fun _ => true) false
        { fsm := 7, state := NN_STREAMHDR_STATE_RECEIVING, usock := some 1, usock_owner := some 9,
          pipebase := some 2, protohdr := handshake_header 0x31 }
        (streamhdr_input.timer nn_timer_event.NN_TIMER_TIMEOUT)
      = some ({ fsm := 7, state := NN_STREAMHDR_STATE_STOPPING_TIMER_ERROR, usock := some 1,
                usock_owner := some 9, pipebase := some 2, protohdr := handshake_header 0x31 },
              [Effect.timer_stop])
    ∧ nn_streamhdr_handler (fun _ => true) true
        { fsm := 7, state := NN_STREAMHDR_STATE_STOPPING_TIMER_ERROR, usock := some 1,
          usock_owner := some 9, pipebase := some 2, protohdr := handshake_header 0x31 }
        (streamhdr_input.timer nn_timer_event.NN_TIMER_STOPPED)
      = some ({ fsm := 7, state := NN_STREAMHDR_STATE_DONE, usock := none,
                usock_owner := none, pipebase := some 2, protohdr := handshake_header 0x31 },
          [Effect.usock_swap_owner_fsm (some 9),
           Effect.streamhdr_raise nn_streamhdr_event.NN_STREAMHDR_ERROR])
    ∧ Effect.streamhdr_raise nn_streamhdr_event.NN_STREAMHDR_OK ∉
        [Effect.timer_stop, Effect.usock_swap_owner_fsm (some 9),
         Effect.streamhdr_raise nn_streamhdr_event.NN_STREAMHDR_ERROR] :=
  C8_error_or_timeout_fails_handshake (fun _ => true) false true
    { fsm := 7, state := NN_STREAMHDR_STATE_RECEIVING, usock := some 1, usock_owner := some 9,
      pipebase := some 2, protohdr := handshake_header 0x31 }
    (streamhdr_input.timer nn_timer_event.NN_TIMER_TIMEOUT) (Or.inr rfl) (Or.inr rfl)

/-- A 9-byte buffer, byte by byte. -/
theorem list_length_nine (l : List Nat) (h : l.length = 9) :
    ∃ a0 a1 a2 a3 a4 a5 a6 a7 a8, l = [a0, a1, a2, a3, a4, a5, a6, a7, a8] := by
  match l, h with
  | [a0, a1, a2, a3, a4, a5, a6, a7, a8], _ => exact ⟨a0, a1, a2, a3, a4, a5, a6, a7, a8, rfl⟩

/-- What `nn_srtipc_send` does in ACTIVE with the outbound part idle. -/
theorem nn_srtipc_send_active (self : nn_srtipc) (msg : nn_msg)
    (hst : self.state = NN_SRTIPC_STATE_ACTIVE)
    (hout : self.outstate = NN_SRTIPC_OUTSTATE_IDLE)
    (hlen : self.outhdr.length = 9) :
    nn_srtipc_send self msg
      = call_result.returned
          { self with outmsg := msg,
                      outhdr := 1 :: be64 ((msg.hdr.length + msg.body.length) % 2 ^ 64),
                      outstate := NN_SRTIPC_OUTSTATE_SENDING }
          [Effect.usock_send
            [1 :: be64 ((msg.hdr.length + msg.body.length) % 2 ^ 64), msg.hdr, msg.body]]
          0 := by
  obtain ⟨a0, a1, a2, a3, a4, a5, a6, a7, a8, ha⟩ := list_length_nine self.outhdr hlen
  simp [nn_srtipc_send, hst, hout, ha, nn_putll, be64, NN_SRTIPC_MSG_NORMAL]

/-- C4: for every outbound message with header chunk length `h` and body chunk
length `b`, `nn_srtipc_send` called in ACTIVE with outbound = IDLE writes
`outhdr[0] = 1` and `outhdr[1..8]` = the big-endian 64-bit encoding of
`(h + b) mod 2^64`, posts one gather write of the three buffers
`[outhdr (9 bytes), msg.hdr, msg.body]`, sets outbound = SENDING and returns 0;
for an empty header and the body `41 42 43` the bytes written are
`01 00 00 00 00 00 00 00 03 41 42 43`. -/
theorem C4_send_frame (self : nn_srtipc) (hdr body : List Nat)
    (hst : self.state = NN_SRTIPC_STATE_ACTIVE)
    (hout : self.outstate = NN_SRTIPC_OUTSTATE_IDLE)
    (hlen : self.outhdr.length = 9) :
    nn_srtipc_send self { hdr := hdr, body := body }
      = call_result.returned
          { self with outmsg := { hdr := hdr, body := body },
                      outhdr := 1 :: be64 ((hdr.length + body.length) % 2 ^ 64),
                      outstate := NN_SRTIPC_OUTSTATE_SENDING }
          [Effect.usock_send [1 :: be64 ((hdr.length + body.length) % 2 ^ 64), hdr, body]]
          0
    ∧ (1 :: be64 ((hdr.length + body.length) % 2 ^ 64)).length = 9
    ∧ wire_bytes [1 :: be64 ((([] : List Nat).length + [0x41, 0x42, 0x43].length) % 2 ^ 64),
          [], [0x41, 0x42, 0x43]]
        = [0x01, 0x00, 0x00, 0x00, 0x00, 0x00, 0x00, 0x00, 0x03, 0x41, 0x42, 0x43] := by
  refine ⟨nn_srtipc_send_active self _ hst hout hlen, by simp [be64], by decide⟩

/-- C4 (witness): the message with an empty header and the body `41 42 43`,
sent by a Session that has just become ACTIVE. -/
theorem C4_send_frame_witness :
    nn_srtipc_send
        { (nn_srtipc_init 5) with state := NN_SRTIPC_STATE_ACTIVE,
                                  outstate := NN_SRTIPC_OUTSTATE_IDLE }
        { hdr := [], body := [0x41, 0x42, 0x43] }
      = call_result.returned
          { (nn_srtipc_init 5) with
              state := NN_SRTIPC_STATE_ACTIVE,
              outmsg := { hdr := [], body := [0x41, 0x42, 0x43] },
              outhdr := [0x01, 0x00, 0x00, 0x00, 0x00, 0x00, 0x00, 0x00, 0x03],
              outstate := NN_SRTIPC_OUTSTATE_SENDING }
          [Effect.usock_send
            [[0x01, 0x00, 0x00, 0x00, 0x00, 0x00, 0x00, 0x00, 0x03], [], [0x41, 0x42, 0x43]]]
          0 :=
  (C4_send_frame
    { (nn_srtipc_init 5) with state := NN_SRTIPC_STATE_ACTIVE,
                              outstate := NN_SRTIPC_OUTSTATE_IDLE }
    [] [0x41, 0x42, 0x43] rfl rfl rfl).1

/-- C9: `nn_srtipc_send` returns only when the Session is in ACTIVE and
outbound = IDLE; a send issued while outbound = SENDING, or in any state other
than ACTIVE, fails an assertion before anything is done: no write is posted and
the object, `outmsg` and `outhdr` included, is as it was. -/
theorem C9_send_only_when_idle (self : nn_srtipc) (msg : nn_msg) :
    ((∃ s e v, nn_srtipc_send self msg = call_result.returned s e v)
        ↔ (self.state = NN_SRTIPC_STATE_ACTIVE ∧ self.outstate = NN_SRTIPC_OUTSTATE_IDLE))
    ∧ (self.outstate = NN_SRTIPC_OUTSTATE_SENDING →
        nn_srtipc_send self msg = call_result.aborted self [])
    ∧ (self.state ≠ NN_SRTIPC_STATE_ACTIVE →
        nn_srtipc_send self msg = call_result.aborted self [])
    ∧ (¬ (self.state = NN_SRTIPC_STATE_ACTIVE ∧ self.outstate = NN_SRTIPC_OUTSTATE_IDLE) →
        nn_srtipc_send self msg = call_result.aborted self []) := by
  refine ⟨⟨?_, ?_⟩, ?_, ?_, ?_⟩
  · rintro ⟨s, e, v, h⟩
    by_cases h1 : self.state = NN_SRTIPC_STATE_ACTIVE
    · by_cases h2 : self.outstate = NN_SRTIPC_OUTSTATE_IDLE
      · exact ⟨h1, h2⟩
      · simp [nn_srtipc_send, h1, h2] at h
    · simp [nn_srtipc_send, h1] at h
  · rintro ⟨h1, h2⟩
    simp [nn_srtipc_send, h1, h2]
  · intro h
    by_cases h1 : self.state = NN_SRTIPC_STATE_ACTIVE
    · simp [nn_srtipc_send, h1, h, NN_SRTIPC_OUTSTATE_SENDING, NN_SRTIPC_OUTSTATE_IDLE]
    · simp [nn_srtipc_send, h1]
  · intro h1
    simp [nn_srtipc_send, h1]
  · intro h
    by_cases h1 : self.state = NN_SRTIPC_STATE_ACTIVE
    · have h2 : self.outstate ≠ NN_SRTIPC_OUTSTATE_IDLE := fun h2 => h ⟨h1, h2⟩
      simp [nn_srtipc_send, h1, h2]
    · simp [nn_srtipc_send, h1]

/-- C9 (witness): a second send while the first one is still being sent. -/
theorem C9_send_only_when_idle_witness :
    nn_srtipc_send
        { (nn_srtipc_init 5) with state := NN_SRTIPC_STATE_ACTIVE,
                                  outstate := NN_SRTIPC_OUTSTATE_SENDING,
                                  outmsg := { hdr := [], body := [0x41] } }
        { hdr := [], body := [0x42] }
      = call_result.aborted
        { (nn_srtipc_init 5) with state := NN_SRTIPC_STATE_ACTIVE,
                                  outstate := NN_SRTIPC_OUTSTATE_SENDING,
                                  outmsg := { hdr := [], body := [0x41] } } [] :=
  (C9_send_only_when_idle
    { (nn_srtipc_init 5) with state := NN_SRTIPC_STATE_ACTIVE,
                              outstate := NN_SRTIPC_OUTSTATE_SENDING,
                              outmsg := { hdr := [], body := [0x41] } }
    { hdr := [], body := [0x42] }).2.1 rfl

/-- Reading back the big-endian encoding of a 64-bit value. -/
theorem nn_getll_be64 (a n : Nat) (hn : n < 2 ^ 64) : nn_getll (a :: be64 n) 1 = n := by
  simp [nn_getll, be64]
  omega

/-- The frame header `01 | be64 n` completes the 9-byte read of a Session in
ACTIVE with inbound = HDR. -/
theorem srtipc_step_frame_header (r : srtipc_world) (n : Nat) (hn : n < 2 ^ 64)
    (hr : r.self.state = NN_SRTIPC_STATE_ACTIVE)
    (hri : r.self.instate = NN_SRTIPC_INSTATE_HDR)
    (hrd : r.rd = some (RecvBuf.inhdr, 9))
    (hrl : r.self.inhdr.length = 9) :
    srtipc_step r (srtipc_call.usock nn_usock_event.NN_USOCK_RECEIVED (1 :: be64 n) false)
      = some (if n = 0 then
          { r with self := { r.self with inhdr := 1 :: be64 n, inmsg := nn_msg_init 0,
                                         instate := NN_SRTIPC_INSTATE_HASMSG },
                   rd := none, trace := r.trace ++ [Effect.pipebase_received] }
        else
          { r with self := { r.self with inhdr := 1 :: be64 n, inmsg := nn_msg_init n,
                                         instate := NN_SRTIPC_INSTATE_BODY },
                   rd := some (RecvBuf.inmsg_body, n),
                   trace := r.trace ++ [Effect.usock_recv RecvBuf.inmsg_body n] }) := by
  have hg := nn_getll_be64 1 n hn
  have hn2 : n < 18446744073709551616 := by omega
  have hmod : n % 18446744073709551616 = n := Nat.mod_eq_of_lt hn2
  have hdrop : List.drop 9 r.self.inhdr = [] := by
    apply List.drop_of_length_le
    omega
  have hlen : (1 :: be64 n).length = 9 := by simp [be64]
  have hstore : usock_store r.self r.rd (1 :: be64 n)
      = { r.self with inhdr := 1 :: be64 n } := by
    simp only [usock_store, hrd, hlen, hdrop, List.append_nil]
  simp only [srtipc_step, if_true, hstore]
  by_cases h0 : n = 0
  · subst h0
    simp [nn_srtipc_feed, nn_srtipc_handler, nn_srtipc_handler_ACTIVE,
      nn_srtipc_handler_ACTIVE_RECEIVED, hr, hri, hg, NN_SRTIPC_STATE_ACTIVE,
      NN_SRTIPC_STATE_STOPPING, NN_SRTIPC_STATE_IDLE, NN_SRTIPC_STATE_PROTOHDR,
      NN_SRTIPC_STATE_STOPPING_STREAMHDR, NN_SRTIPC_MSG_NORMAL, cast_size_t,
      srtipc_world_next, posted_read]
  · simp [nn_srtipc_feed, nn_srtipc_handler, nn_srtipc_handler_ACTIVE,
      nn_srtipc_handler_ACTIVE_RECEIVED, hr, hri, hg, h0, hmod, hn2, NN_SRTIPC_STATE_ACTIVE,
      NN_SRTIPC_STATE_STOPPING, NN_SRTIPC_STATE_IDLE, NN_SRTIPC_STATE_PROTOHDR,
      NN_SRTIPC_STATE_STOPPING_STREAMHDR, NN_SRTIPC_MSG_NORMAL, cast_size_t,
      srtipc_world_next, posted_read]

/-- The payload completes the read of the body posted by a Session in ACTIVE
with inbound = BODY. -/
theorem srtipc_step_frame_body (r : srtipc_world) (data : List Nat)
    (hr : r.self.state = NN_SRTIPC_STATE_ACTIVE)
    (hri : r.self.instate = NN_SRTIPC_INSTATE_BODY)
    (hrd : r.rd = some (RecvBuf.inmsg_body, data.length))
    (hrl : r.self.inmsg.body.length = data.length) :
    srtipc_step r (srtipc_call.usock nn_usock_event.NN_USOCK_RECEIVED data false)
      = some { r with self := { r.self with inmsg := { r.self.inmsg with body := data },
                                            instate := NN_SRTIPC_INSTATE_HASMSG },
                      rd := none, trace := r.trace ++ [Effect.pipebase_received] } := by
  have hdrop : List.drop data.length r.self.inmsg.body = [] := by
    apply List.drop_of_length_le
    omega
  have hstore : usock_store r.self r.rd data
      = { r.self with inmsg := { r.self.inmsg with body := data } } := by
    simp only [usock_store, hrd, hdrop, List.append_nil]
  simp only [srtipc_step, if_true, hstore]
  simp [nn_srtipc_feed, nn_srtipc_handler, nn_srtipc_handler_ACTIVE,
    nn_srtipc_handler_ACTIVE_RECEIVED, hr, hri, NN_SRTIPC_STATE_ACTIVE,
    NN_SRTIPC_STATE_STOPPING, NN_SRTIPC_STATE_IDLE, NN_SRTIPC_STATE_PROTOHDR,
    NN_SRTIPC_STATE_STOPPING_STREAMHDR, NN_SRTIPC_INSTATE_BODY, NN_SRTIPC_INSTATE_HDR,
    srtipc_world_next, posted_read]

/-- With no read posted, nothing is taken from the stream. -/
theorem srtipc_feed_stream_no_read (fuel : Nat) (w : srtipc_world) (stream : List Nat)
    (h : w.rd = none) : srtipc_feed_stream fuel w stream = some w := by
  cases fuel with
  | zero => rfl
  | succ k => simp [srtipc_feed_stream, h]

/-- A frame `01 | be64 n | payload` fed to a Session in ACTIVE with inbound =
HDR leaves it with inbound = HASMSG and the payload as the message body. -/
theorem srtipc_feed_stream_frame (fuel : Nat) (r : srtipc_world) (payload : List Nat)
    (hn : payload.length < 2 ^ 64)
    (hr : r.self.state = NN_SRTIPC_STATE_ACTIVE)
    (hri : r.self.instate = NN_SRTIPC_INSTATE_HDR)
    (hrd : r.rd = some (RecvBuf.inhdr, 9))
    (hrl : r.self.inhdr.length = 9) :
    srtipc_feed_stream (fuel + 2) r ((1 :: be64 payload.length) ++ payload)
      = some { r with
          self := { r.self with inhdr := 1 :: be64 payload.length,
                                inmsg := { hdr := [], body := payload },
                                instate := NN_SRTIPC_INSTATE_HASMSG },
          rd := none,
          trace := r.trace ++
            (if payload.length = 0 then [Effect.pipebase_received]
             else [Effect.usock_recv RecvBuf.inmsg_body payload.length,
                   Effect.pipebase_received]) } := by
  have hlen : (1 :: be64 payload.length).length = 9 := by simp [be64]
  have htake : List.take 9 ((1 :: be64 payload.length) ++ payload) = 1 :: be64 payload.length := by
    rw [List.take_append_of_le_length (by omega)]
    exact List.take_of_length_le (by omega)
  have hdrop : List.drop 9 ((1 :: be64 payload.length) ++ payload) = payload := by
    rw [← hlen]
    exact List.drop_left _ _
  have hnlt : ¬ ((1 :: be64 payload.length) ++ payload).length < 9 := by
    rw [List.length_append, hlen]
    omega
  rw [srtipc_feed_stream]
  simp only [hrd, hnlt, if_false, htake, hdrop]
  rw [srtipc_step_frame_header r payload.length hn hr hri hrd hrl]
  by_cases h0 : payload.length = 0
  · have hp : payload = [] := List.length_eq_zero.mp h0
    subst hp
    simp only [List.length_nil, if_true]
    rw [srtipc_feed_stream_no_read _ _ _ rfl]
    rfl
  · simp only [h0, if_false]
    rw [srtipc_feed_stream]
    simp only [lt_irrefl, if_false, List.take_length, List.drop_length]
    rw [srtipc_step_frame_body _ payload (by simpa using hr) rfl rfl (by simp [nn_msg_init])]
    dsimp only
    rw [srtipc_feed_stream_no_read _ _ _ rfl]
    simp [nn_msg_init]

/-- C5: for every message whose header chunk and body chunk have total length
`N < 2^64`, the bytes `nn_srtipc_send` emits (the 9-byte frame header, then the
header chunk and the body chunk, concatenated), fed to a peer Session in ACTIVE
with inbound = HDR, leave the peer with inbound = HASMSG holding a message of
length `N` whose body is the sender's header chunk followed by its body
chunk. -/
theorem C5_roundtrip (fuel : Nat) (s : nn_srtipc) (r : srtipc_world) (hdr body : List Nat)
    (hN : hdr.length + body.length < 2 ^ 64)
    (hs : s.state = NN_SRTIPC_STATE_ACTIVE)
    (hso : s.outstate = NN_SRTIPC_OUTSTATE_IDLE)
    (hsl : s.outhdr.length = 9)
    (hr : r.self.state = NN_SRTIPC_STATE_ACTIVE)
    (hri : r.self.instate = NN_SRTIPC_INSTATE_HDR)
    (hrd : r.rd = some (RecvBuf.inhdr, 9))
    (hrl : r.self.inhdr.length = 9) :
    nn_srtipc_send s { hdr := hdr, body := body }
      = call_result.returned
          { s with outmsg := { hdr := hdr, body := body },
                   outhdr := 1 :: be64 (hdr.length + body.length),
                   outstate := NN_SRTIPC_OUTSTATE_SENDING }
          [Effect.usock_send [1 :: be64 (hdr.length + body.length), hdr, body]]
          0
    ∧ srtipc_feed_stream (fuel + 2) r
        (wire_bytes [1 :: be64 (hdr.length + body.length), hdr, body])
      = some { r with
          self := { r.self with inhdr := 1 :: be64 (hdr.length + body.length),
                                inmsg := { hdr := [], body := hdr ++ body },
                                instate := NN_SRTIPC_INSTATE_HASMSG },
          rd := none,
          trace := r.trace ++
            (if hdr.length + body.length = 0 then [Effect.pipebase_received]
             else [Effect.usock_recv RecvBuf.inmsg_body (hdr.length + body.length),
                   Effect.pipebase_received]) }
    ∧ (hdr ++ body).length = hdr.length + body.length := by
  have hmod : (hdr.length + body.length) % 2 ^ 64 = hdr.length + body.length :=
    Nat.mod_eq_of_lt hN
  refine ⟨?_, ?_, List.length_append _ _⟩
  · have h := nn_srtipc_send_active s { hdr := hdr, body := body } hs hso hsl
    simp only [hmod] at h
    exact h
  · have hw : wire_bytes [1 :: be64 (hdr.length + body.length), hdr, body]
        = (1 :: be64 (hdr ++ body).length) ++ (hdr ++ body) := by
      simp [wire_bytes]
    rw [hw]
    have h := srtipc_feed_stream_frame fuel r (hdr ++ body)
      (by rw [List.length_append]; exact hN) hr hri hrd hrl
    rw [h]
    simp only [List.length_append]

/-- C5 (witness): the payload `41 42 43`, split as header chunk `41` and body
chunk `42 43`, sent to a peer that has just become ACTIVE. -/
theorem C5_roundtrip_witness :
    srtipc_feed_stream 2
        { self := { (nn_srtipc_init 6) with state := NN_SRTIPC_STATE_ACTIVE,
                                            instate := NN_SRTIPC_INSTATE_HDR,
                                            outstate := NN_SRTIPC_OUTSTATE_IDLE },
          rd := some (RecvBuf.inhdr, 9), trace := [], sends := 0 }
        [0x01, 0x00, 0x00, 0x00, 0x00, 0x00, 0x00, 0x00, 0x03, 0x41, 0x42, 0x43]
      = some
        { self := { (nn_srtipc_init 6) with
                      state := NN_SRTIPC_STATE_ACTIVE,
                      inhdr := [0x01, 0x00, 0x00, 0x00, 0x00, 0x00, 0x00, 0x00, 0x03],
                      inmsg := { hdr := [], body := [0x41, 0x42, 0x43] },
                      instate := NN_SRTIPC_INSTATE_HASMSG,
                      outstate := NN_SRTIPC_OUTSTATE_IDLE },
          rd := none,
          trace := [Effect.usock_recv RecvBuf.inmsg_body 3, Effect.pipebase_received],
          sends := 0 } :=
  (C5_roundtrip 0
    { (nn_srtipc_init 5) with state := NN_SRTIPC_STATE_ACTIVE,
                              outstate := NN_SRTIPC_OUTSTATE_IDLE }
    { self := { (nn_srtipc_init 6) with state := NN_SRTIPC_STATE_ACTIVE,
                                        instate := NN_SRTIPC_INSTATE_HDR,
                                        outstate := NN_SRTIPC_OUTSTATE_IDLE },
      rd := some (RecvBuf.inhdr, 9), trace := [], sends := 0 }
    [0x41] [0x42, 0x43] (by norm_num) rfl rfl rfl rfl rfl rfl rfl).2.1

/-- C6: for a zero-length message the sender emits exactly the 9 bytes
`01 00 00 00 00 00 00 00 00` and no payload; and the receiver, on Received in
ACTIVE with inbound = HDR and decoded length 0, sets inbound = HASMSG with an
empty message and notifies `nn_pipebase_received` exactly once, posting no
read. -/
theorem C6_zero_length_message (s r : nn_srtipc) (rc : Int)
    (hs : s.state = NN_SRTIPC_STATE_ACTIVE)
    (hso : s.outstate = NN_SRTIPC_OUTSTATE_IDLE)
    (hsl : s.outhdr.length = 9)
    (hr : r.state = NN_SRTIPC_STATE_ACTIVE)
    (hri : r.instate = NN_SRTIPC_INSTATE_HDR)
    (htype : r.inhdr.getD 0 0 = NN_SRTIPC_MSG_NORMAL)
    (hsize : nn_getll r.inhdr 1 = 0) :
    nn_srtipc_send s { hdr := [], body := [] }
      = call_result.returned
          { s with outmsg := { hdr := [], body := [] },
                   outhdr := [0x01, 0x00, 0x00, 0x00, 0x00, 0x00, 0x00, 0x00, 0x00],
                   outstate := NN_SRTIPC_OUTSTATE_SENDING }
          [Effect.usock_send [[0x01, 0x00, 0x00, 0x00, 0x00, 0x00, 0x00, 0x00, 0x00], [], []]]
          0
    ∧ wire_bytes [[0x01, 0x00, 0x00, 0x00, 0x00, 0x00, 0x00, 0x00, 0x00], [], []]
        = [0x01, 0x00, 0x00, 0x00, 0x00, 0x00, 0x00, 0x00, 0x00]
    ∧ nn_srtipc_handler rc r (srtipc_input.usock nn_usock_event.NN_USOCK_RECEIVED)
        = some ({ r with inmsg := { hdr := [], body := [] },
                         instate := NN_SRTIPC_INSTATE_HASMSG },
                [Effect.pipebase_received])
    ∧ posted_read [Effect.pipebase_received] = none
    ∧ [Effect.pipebase_received].count Effect.pipebase_received = 1 := by
  refine ⟨?_, by decide, ?_, rfl, by decide⟩
  · have h := nn_srtipc_send_active s { hdr := [], body := [] } hs hso hsl
    simpa [be64] using h
  · rw [List.getD_eq_getElem?_getD] at htype
    simp [nn_srtipc_handler, nn_srtipc_handler_ACTIVE, nn_srtipc_handler_ACTIVE_RECEIVED,
      hr, hri, htype, hsize, NN_SRTIPC_STATE_ACTIVE, NN_SRTIPC_STATE_IDLE,
      NN_SRTIPC_STATE_PROTOHDR, NN_SRTIPC_STATE_STOPPING_STREAMHDR, cast_size_t, nn_msg_init]

/-- C6 (witness): an empty message between two Sessions that are ACTIVE; the
receiver holds the frame header the sender emitted. -/
theorem C6_zero_length_message_witness :
    nn_srtipc_send
        { (nn_srtipc_init 5) with state := NN_SRTIPC_STATE_ACTIVE,
                                  outstate := NN_SRTIPC_OUTSTATE_IDLE }
        { hdr := [], body := [] }
      = call_result.returned
          { (nn_srtipc_init 5) with
              state := NN_SRTIPC_STATE_ACTIVE,
              outmsg := { hdr := [], body := [] },
              outhdr := [0x01, 0x00, 0x00, 0x00, 0x00, 0x00, 0x00, 0x00, 0x00],
              outstate := NN_SRTIPC_OUTSTATE_SENDING }
          [Effect.usock_send [[0x01, 0x00, 0x00, 0x00, 0x00, 0x00, 0x00, 0x00, 0x00], [], []]]
          0
    ∧ nn_srtipc_handler 0
        { (nn_srtipc_init 6) with state := NN_SRTIPC_STATE_ACTIVE,
                                  instate := NN_SRTIPC_INSTATE_HDR,
                                  inhdr := [0x01, 0x00, 0x00, 0x00, 0x00, 0x00, 0x00, 0x00, 0x00],
                                  inmsg := { hdr := [], body := [0x07] } }
        (srtipc_input.usock nn_usock_event.NN_USOCK_RECEIVED)
      = some ({ (nn_srtipc_init 6) with
                  state := NN_SRTIPC_STATE_ACTIVE,
                  inhdr := [0x01, 0x00, 0x00, 0x00, 0x00, 0x00, 0x00, 0x00, 0x00],
                  inmsg := { hdr := [], body := [] },
                  instate := NN_SRTIPC_INSTATE_HASMSG },
              [Effect.pipebase_received]) :=
  have h := C6_zero_length_message
    { (nn_srtipc_init 5) with state := NN_SRTIPC_STATE_ACTIVE,
                              outstate := NN_SRTIPC_OUTSTATE_IDLE }
    { (nn_srtipc_init 6) with state := NN_SRTIPC_STATE_ACTIVE,
                              instate := NN_SRTIPC_INSTATE_HDR,
                              inhdr := [0x01, 0x00, 0x00, 0x00, 0x00, 0x00, 0x00, 0x00, 0x00],
                              inmsg := { hdr := [], body := [0x07] } }
    0 rfl rfl rfl rfl rfl rfl rfl
  ⟨h.1, h.2.2.1⟩

/-- Storing received bytes changes neither the state nor the outbound part. -/
theorem usock_store_state (s : nn_srtipc) (rd : Option (RecvBuf × Nat)) (data : List Nat) :
    (usock_store s rd data).state = s.state
      ∧ (usock_store s rd data).outstate = s.outstate := by
  unfold usock_store
  split <;> simp

/-- What an event from the socket or from the StreamHdr does to the outbound
part of a Session: nothing, or the pipe has just been started and outbound
becomes IDLE, or a write completed and `sent` is notified once. -/
theorem nn_srtipc_feed_outbound (idle : Bool) (rc : Int) (s s1 : nn_srtipc)
    (ev : srtipc_input) (e : List Effect)
    (h : nn_srtipc_feed idle rc s ev = some (s1, e))
    (hna : ∀ a, ev ≠ srtipc_input.action a) :
    (e.count Effect.pipebase_sent = 0 ∧ s1.outstate = s.outstate
        ∧ (s1.state = NN_SRTIPC_STATE_PROTOHDR ∨ s1.state = NN_SRTIPC_STATE_STOPPING_STREAMHDR
            → s.state = NN_SRTIPC_STATE_PROTOHDR))
    ∨ (e.count Effect.pipebase_sent = 0 ∧ s.state = NN_SRTIPC_STATE_STOPPING_STREAMHDR
        ∧ s1.state = NN_SRTIPC_STATE_ACTIVE ∧ s1.outstate = NN_SRTIPC_OUTSTATE_IDLE)
    ∨ (e.count Effect.pipebase_sent = 1 ∧ s.outstate = NN_SRTIPC_OUTSTATE_SENDING
        ∧ s1.outstate = NN_SRTIPC_OUTSTATE_IDLE ∧ s1.state = NN_SRTIPC_STATE_ACTIVE) := by
  replace h := h.symm
  rcases ev with (a | u | t)
  · exact absurd rfl (hna a)
  · cases u <;> simp [nn_srtipc_feed, nn_srtipc_shutdown, nn_srtipc_handler,
      nn_srtipc_handler_IDLE, nn_srtipc_handler_PROTOHDR, nn_srtipc_handler_STOPPING_STREAMHDR,
      nn_srtipc_handler_ACTIVE, nn_srtipc_handler_ACTIVE_RECEIVED,
      nn_srtipc_handler_SHUTTING_DOWN] at h <;>
      split_ifs at h <;> simp_all [NN_SRTIPC_STATE_IDLE, NN_SRTIPC_STATE_PROTOHDR,
      NN_SRTIPC_STATE_STOPPING_STREAMHDR, NN_SRTIPC_STATE_ACTIVE, NN_SRTIPC_STATE_STOPPING,
      NN_SRTIPC_STATE_DONE, NN_SRTIPC_STATE_SHUTTING_DOWN, NN_SRTIPC_OUTSTATE_IDLE,
      NN_SRTIPC_OUTSTATE_SENDING]
  · cases t <;> simp [nn_srtipc_feed, nn_srtipc_shutdown, nn_srtipc_handler,
      nn_srtipc_handler_IDLE, nn_srtipc_handler_PROTOHDR, nn_srtipc_handler_STOPPING_STREAMHDR,
      nn_srtipc_handler_ACTIVE, nn_srtipc_handler_ACTIVE_RECEIVED,
      nn_srtipc_handler_SHUTTING_DOWN] at h <;>
      split_ifs at h <;> simp_all [NN_SRTIPC_STATE_IDLE, NN_SRTIPC_STATE_PROTOHDR,
      NN_SRTIPC_STATE_STOPPING_STREAMHDR, NN_SRTIPC_STATE_ACTIVE, NN_SRTIPC_STATE_STOPPING,
      NN_SRTIPC_STATE_DONE, NN_SRTIPC_STATE_SHUTTING_DOWN, NN_SRTIPC_OUTSTATE_IDLE,
      NN_SRTIPC_OUTSTATE_SENDING]

/-- The relation between upcalls and sends is kept by an event from the socket
or from the StreamHdr. -/
theorem sent_matches_sends_feed (w : srtipc_world) (rd : Option (RecvBuf × Nat))
    (idle : Bool) (rc : Int) (s s1 : nn_srtipc) (ev : srtipc_input) (e : List Effect)
    (h : nn_srtipc_feed idle rc s ev = some (s1, e))
    (hna : ∀ a, ev ≠ srtipc_input.action a)
    (hst : s.state = w.self.state) (hout : s.outstate = w.self.outstate)
    (hk : sent_matches_sends w) : sent_matches_sends (srtipc_world_next w rd s1 e) := by
  obtain ⟨k1, k2, k3, k4, k5⟩ := hk
  have hc : sent_upcalls (srtipc_world_next w rd s1 e)
      = sent_upcalls w + e.count Effect.pipebase_sent := by
    simp [sent_upcalls, srtipc_world_next, List.count_append]
  have hs : (srtipc_world_next w rd s1 e).sends = w.sends := rfl
  have hself : (srtipc_world_next w rd s1 e).self = s1 := rfl
  unfold sent_matches_sends
  rw [hc, hs, hself]
  rcases nn_srtipc_feed_outbound idle rc s s1 ev e h hna with
    ⟨c0, ho, hp⟩ | ⟨c0, hs0, hs1, ho⟩ | ⟨c1, hso, ho, hs1⟩
  · rw [c0, ho, hout]
    refine ⟨by omega, by omega, fun h1 => by have := k3 h1; omega,
      fun h1 => by have := k4 h1; omega, fun h1 => ?_⟩
    have := k5 (Or.inl (hst ▸ hp h1))
    omega
  · rw [c0, ho, hs1]
    have hkk := k5 (Or.inr (hst ▸ hs0))
    refine ⟨by omega, by omega, fun _ => by omega, fun h1 => ?_, fun h1 => by omega⟩
    exact absurd h1 (by decide)
  · rw [c1, ho, hs1]
    have hkk := k4 (hout ▸ hso)
    refine ⟨by omega, by omega, fun _ => by omega, fun h1 => ?_, fun h1 => ?_⟩
    · exact absurd h1 (by decide)
    · rcases h1 with h1 | h1 <;> exact absurd h1 (by decide)

/-- The relation between upcalls and sends is kept by every step other than
a new start. -/
theorem srtipc_step_sent_matches_sends (w w1 : srtipc_world) (c : srtipc_call)
    (h : srtipc_step w c = some w1) (hns : c.is_start = false)
    (hk : sent_matches_sends w) : sent_matches_sends w1 := by
  cases c with
  | start u o => simp [srtipc_call.is_start] at hns
  | stop idle =>
    replace h := h.symm
    obtain ⟨k1, k2, k3, k4, k5⟩ := hk
    simp [srtipc_step, nn_srtipc_stop, nn_srtipc_shutdown] at h
    split_ifs at h <;> simp_all [sent_matches_sends, sent_upcalls, srtipc_world_next,
      posted_read, List.count_append, NN_SRTIPC_STATE_IDLE, NN_SRTIPC_STATE_PROTOHDR,
      NN_SRTIPC_STATE_STOPPING_STREAMHDR, NN_SRTIPC_STATE_ACTIVE, NN_SRTIPC_STATE_STOPPING,
      NN_SRTIPC_STATE_DONE, NN_SRTIPC_STATE_SHUTTING_DOWN]
  | usock t data idle =>
    simp only [srtipc_step] at h
    split_ifs at h with ht
    · cases hf : nn_srtipc_feed idle 0 (usock_store w.self w.rd data) (srtipc_input.usock t) with
      | none => simp [hf] at h
      | some r =>
        obtain ⟨s1, e⟩ := r
        simp only [hf, Option.some.injEq] at h
        rw [← h]
        exact sent_matches_sends_feed w none idle 0 _ s1 _ e hf (by simp)
          (usock_store_state _ _ _).1 (usock_store_state _ _ _).2 hk
    · cases hf : nn_srtipc_feed idle 0 w.self (srtipc_input.usock t) with
      | none => simp [hf] at h
      | some r =>
        obtain ⟨s1, e⟩ := r
        simp only [hf, Option.some.injEq] at h
        rw [← h]
        exact sent_matches_sends_feed w w.rd idle 0 _ s1 _ e hf (by simp) rfl rfl hk
  | streamhdr t idle rc =>
    simp only [srtipc_step] at h
    cases hf : nn_srtipc_feed idle rc w.self (srtipc_input.streamhdr t) with
    | none => simp [hf] at h
    | some r =>
      obtain ⟨s1, e⟩ := r
      simp only [hf, Option.some.injEq] at h
      rw [← h]
      exact sent_matches_sends_feed w w.rd idle rc _ s1 _ e hf (by simp) rfl rfl hk
  | send msg =>
    replace h := h.symm
    obtain ⟨k1, k2, k3, k4, k5⟩ := hk
    simp [srtipc_step, nn_srtipc_send] at h
    split_ifs at h
    simp_all [sent_matches_sends, sent_upcalls, srtipc_world_next,
      posted_read, List.count_append, NN_SRTIPC_STATE_IDLE, NN_SRTIPC_STATE_PROTOHDR,
      NN_SRTIPC_STATE_STOPPING_STREAMHDR, NN_SRTIPC_STATE_ACTIVE, NN_SRTIPC_STATE_STOPPING,
      NN_SRTIPC_STATE_DONE, NN_SRTIPC_STATE_SHUTTING_DOWN, NN_SRTIPC_OUTSTATE_IDLE,
      NN_SRTIPC_OUTSTATE_SENDING]
  | recv =>
    replace h := h.symm
    obtain ⟨k1, k2, k3, k4, k5⟩ := hk
    simp [srtipc_step, nn_srtipc_recv] at h
    split_ifs at h
    simp_all [sent_matches_sends, sent_upcalls, srtipc_world_next,
      posted_read, List.count_append, NN_SRTIPC_STATE_IDLE, NN_SRTIPC_STATE_PROTOHDR,
      NN_SRTIPC_STATE_STOPPING_STREAMHDR, NN_SRTIPC_STATE_ACTIVE, NN_SRTIPC_STATE_STOPPING,
      NN_SRTIPC_STATE_DONE, NN_SRTIPC_STATE_SHUTTING_DOWN, NN_SRTIPC_OUTSTATE_IDLE,
      NN_SRTIPC_OUTSTATE_SENDING]

/-- The relation between upcalls and sends is kept along every run without a
new start. -/
theorem srtipc_run_sent_matches_sends (calls : List srtipc_call) :
    ∀ (w w1 : srtipc_world), sent_matches_sends w →
      (∀ c ∈ calls, c.is_start = false) →
      srtipc_run w calls = some w1 → sent_matches_sends w1 := by
  induction calls with
  | nil =>
    intro w w1 hk _ h
    simp only [srtipc_run, Option.some.injEq] at h
    exact h ▸ hk
  | cons c cs ih =>
    intro w w1 hk hns h
    simp only [srtipc_run] at h
    cases hs : srtipc_step w c with
    | none => simp [hs] at h
    | some w0 =>
      simp only [hs] at h
      exact ih w0 w1
        (srtipc_step_sent_matches_sends w w0 c hs (hns c (List.mem_cons_self _ _)) hk)
        (fun c2 hc2 => hns c2 (List.mem_cons_of_mem _ hc2)) h

/-- The first thing a freshly initialised Session accepts is a start. -/
theorem srtipc_step_init (fsm : Nat) (c : srtipc_call) (w : srtipc_world)
    (h : srtipc_step (srtipc_world_init fsm) c = some w) :
    c.is_start = true ∧ sent_matches_sends w := by
  replace h := h.symm
  cases c with
  | start u o =>
    simp [srtipc_step, srtipc_world_init, nn_srtipc_init, nn_srtipc_start, nn_srtipc_handler,
      nn_srtipc_handler_IDLE, NN_SRTIPC_STATE_IDLE] at h
    subst h
    simp [srtipc_call.is_start, sent_matches_sends, sent_upcalls, srtipc_world_next,
      NN_SRTIPC_OUTSTATE_IDLE, NN_SRTIPC_OUTSTATE_SENDING]
  | stop idle =>
    simp [srtipc_step, srtipc_world_init, nn_srtipc_init, nn_srtipc_stop] at h
  | usock t data idle =>
    cases t <;>
      simp [srtipc_step, srtipc_world_init, nn_srtipc_init, nn_srtipc_feed, nn_srtipc_handler,
        nn_srtipc_handler_IDLE, usock_store, NN_SRTIPC_STATE_IDLE, NN_SRTIPC_STATE_STOPPING] at h
  | streamhdr t idle rc =>
    cases t <;>
      simp [srtipc_step, srtipc_world_init, nn_srtipc_init, nn_srtipc_feed, nn_srtipc_handler,
        nn_srtipc_handler_IDLE, NN_SRTIPC_STATE_IDLE, NN_SRTIPC_STATE_STOPPING] at h
  | send msg =>
    simp [srtipc_step, srtipc_world_init, nn_srtipc_init, nn_srtipc_send,
      NN_SRTIPC_STATE_IDLE, NN_SRTIPC_STATE_ACTIVE] at h
  | recv =>
    simp [srtipc_step, srtipc_world_init, nn_srtipc_init, nn_srtipc_recv,
      NN_SRTIPC_STATE_IDLE, NN_SRTIPC_STATE_ACTIVE] at h

/-- C10 (as stated, refuted): a Session that is started, becomes ACTIVE, sends
one message, loses the connection before the Sent completion, is stopped and is
started again for the next connection is ACTIVE with outbound = IDLE after one
send that returned and no `sent` upcall. -/
theorem C10_counterexample :
    (srtipc_run (srtipc_world_init 5)
        [srtipc_call.start 1 { src := 3, fsm := some 9 },
         srtipc_call.streamhdr nn_streamhdr_event.NN_STREAMHDR_OK false 0,
         srtipc_call.streamhdr nn_streamhdr_event.NN_STREAMHDR_STOPPED true 0,
         srtipc_call.send { hdr := [], body := [0x41, 0x42, 0x43] },
         srtipc_call.usock nn_usock_event.NN_USOCK_ERROR [] true,
         srtipc_call.stop true,
         srtipc_call.start 1 { src := 3, fsm := some 9 },
         srtipc_call.streamhdr nn_streamhdr_event.NN_STREAMHDR_OK false 0,
         srtipc_call.streamhdr nn_streamhdr_event.NN_STREAMHDR_STOPPED true 0]).map
      (fun w => (w.self.state, w.self.outstate, sent_upcalls w, w.sends))
      = some (NN_SRTIPC_STATE_ACTIVE, NN_SRTIPC_OUTSTATE_IDLE, 0, 1) := by
  decide

/-- C10 (amended): at every reachable state of a Session that has been started
at most once, the number of `nn_pipebase_sent` upcalls made so far equals the
number of send calls that returned whenever outbound = IDLE, and is exactly one
less whenever outbound = SENDING; at most one outbound message is in flight. -/
theorem C10_sent_matches_sends_single_start (fsm : Nat) (calls : List srtipc_call)
    (w : srtipc_world)
    (hone : (calls.filter srtipc_call.is_start).length ≤ 1)
    (hrun : srtipc_run (srtipc_world_init fsm) calls = some w) :
    (w.self.outstate = NN_SRTIPC_OUTSTATE_IDLE → sent_upcalls w = w.sends)
    ∧ (w.self.outstate = NN_SRTIPC_OUTSTATE_SENDING → sent_upcalls w + 1 = w.sends)
    ∧ sent_upcalls w ≤ w.sends ∧ w.sends ≤ sent_upcalls w + 1 := by
  have hk : sent_matches_sends w := by
    cases calls with
    | nil =>
      simp only [srtipc_run, Option.some.injEq] at hrun
      subst hrun
      simp [sent_matches_sends, sent_upcalls, srtipc_world_init, nn_srtipc_init,
        NN_SRTIPC_OUTSTATE_IDLE, NN_SRTIPC_OUTSTATE_SENDING, NN_SRTIPC_STATE_IDLE,
        NN_SRTIPC_STATE_PROTOHDR, NN_SRTIPC_STATE_STOPPING_STREAMHDR]
    | cons c cs =>
      simp only [srtipc_run] at hrun
      cases hs : srtipc_step (srtipc_world_init fsm) c with
      | none => simp [hs] at hrun
      | some w0 =>
        simp only [hs] at hrun
        obtain ⟨hc, hk0⟩ := srtipc_step_init fsm c w0 hs
        have hns : ∀ c2 ∈ cs, c2.is_start = false := by
          intro c2 hc2
          by_contra hcon
          have hc2s : c2.is_start = true := by simpa using hcon
          have hmem : c2 ∈ cs.filter srtipc_call.is_start := List.mem_filter.mpr ⟨hc2, hc2s⟩
          have hpos : 0 < (cs.filter srtipc_call.is_start).length := List.length_pos_of_mem hmem
          rw [List.filter_cons_of_pos hc, List.length_cons] at hone
          omega
        exact srtipc_run_sent_matches_sends cs w0 w hk0 hns hrun
  exact ⟨hk.2.2.1, hk.2.2.2.1, hk.1, hk.2.1⟩

/-- C10 (witness): one connection with a send and its completion. -/
theorem C10_sent_matches_sends_single_start_witness :
    srtipc_run (srtipc_world_init 5) one_send_calls = some one_send_world
    ∧ (one_send_calls.filter srtipc_call.is_start).length ≤ 1
    ∧ (one_send_world.self.outstate = NN_SRTIPC_OUTSTATE_IDLE →
        sent_upcalls one_send_world = one_send_world.sends)
    ∧ (one_send_world.self.outstate = NN_SRTIPC_OUTSTATE_SENDING →
        sent_upcalls one_send_world + 1 = one_send_world.sends)
    ∧ sent_upcalls one_send_world ≤ one_send_world.sends
    ∧ one_send_world.sends ≤ sent_upcalls one_send_world + 1 :=
  ⟨by rfl, by decide,
    C10_sent_matches_sends_single_start 5 one_send_calls one_send_world (by decide) (by rfl)⟩

/-- A Session whose handshake failed never starts its pipe and never notifies
a received message, whatever follows short of a new start. -/
theorem srtipc_step_pipe_never_started (w w1 : srtipc_world) (c : srtipc_call)
    (h : srtipc_step w c = some w1) (hns : c.is_start = false)
    (hp : pipe_never_started w) : pipe_never_started w1 := by
  replace h := h.symm
  obtain ⟨hst, hp1, hp2⟩ := hp
  cases c with
  | start u o => simp [srtipc_call.is_start] at hns
  | stop idle =>
    simp [srtipc_step, nn_srtipc_stop, nn_srtipc_shutdown] at h
    split_ifs at h <;> simp_all [pipe_never_started, srtipc_world_next, NN_SRTIPC_STATE_IDLE,
      NN_SRTIPC_STATE_PROTOHDR, NN_SRTIPC_STATE_STOPPING_STREAMHDR, NN_SRTIPC_STATE_ACTIVE,
      NN_SRTIPC_STATE_STOPPING, NN_SRTIPC_STATE_DONE, NN_SRTIPC_STATE_SHUTTING_DOWN]
  | usock t data idle =>
    have h1 := (usock_store_state w.self w.rd data).1
    cases t <;> simp [srtipc_step, nn_srtipc_feed, nn_srtipc_shutdown, nn_srtipc_handler,
      nn_srtipc_handler_IDLE, nn_srtipc_handler_PROTOHDR, nn_srtipc_handler_STOPPING_STREAMHDR,
      nn_srtipc_handler_ACTIVE, nn_srtipc_handler_SHUTTING_DOWN, usock_store_state] at h <;>
      split_ifs at h <;> simp_all [pipe_never_started, srtipc_world_next, NN_SRTIPC_STATE_IDLE,
      NN_SRTIPC_STATE_PROTOHDR, NN_SRTIPC_STATE_STOPPING_STREAMHDR, NN_SRTIPC_STATE_ACTIVE,
      NN_SRTIPC_STATE_STOPPING, NN_SRTIPC_STATE_DONE, NN_SRTIPC_STATE_SHUTTING_DOWN]
  | streamhdr t idle rc =>
    cases t <;> simp [srtipc_step, nn_srtipc_feed, nn_srtipc_shutdown, nn_srtipc_handler,
      nn_srtipc_handler_IDLE, nn_srtipc_handler_PROTOHDR, nn_srtipc_handler_STOPPING_STREAMHDR,
      nn_srtipc_handler_ACTIVE, nn_srtipc_handler_SHUTTING_DOWN, usock_store_state] at h <;>
      split_ifs at h <;> simp_all [pipe_never_started, srtipc_world_next, NN_SRTIPC_STATE_IDLE,
      NN_SRTIPC_STATE_PROTOHDR, NN_SRTIPC_STATE_STOPPING_STREAMHDR, NN_SRTIPC_STATE_ACTIVE,
      NN_SRTIPC_STATE_STOPPING, NN_SRTIPC_STATE_DONE, NN_SRTIPC_STATE_SHUTTING_DOWN]
  | send msg =>
    simp [srtipc_step, nn_srtipc_send] at h
    split_ifs at h
    simp_all [pipe_never_started, srtipc_world_next, NN_SRTIPC_STATE_IDLE,
      NN_SRTIPC_STATE_PROTOHDR, NN_SRTIPC_STATE_STOPPING_STREAMHDR, NN_SRTIPC_STATE_ACTIVE,
      NN_SRTIPC_STATE_STOPPING, NN_SRTIPC_STATE_DONE, NN_SRTIPC_STATE_SHUTTING_DOWN]
  | recv =>
    simp [srtipc_step, nn_srtipc_recv] at h
    split_ifs at h
    simp_all [pipe_never_started, srtipc_world_next, NN_SRTIPC_STATE_IDLE,
      NN_SRTIPC_STATE_PROTOHDR, NN_SRTIPC_STATE_STOPPING_STREAMHDR, NN_SRTIPC_STATE_ACTIVE,
      NN_SRTIPC_STATE_STOPPING, NN_SRTIPC_STATE_DONE, NN_SRTIPC_STATE_SHUTTING_DOWN]

/-- Along every run without a new start, a Session whose handshake failed
never starts its pipe and never notifies a received message. -/
theorem srtipc_run_pipe_never_started (calls : List srtipc_call) :
    ∀ (w w1 : srtipc_world), pipe_never_started w →
      (∀ c ∈ calls, c.is_start = false) →
      srtipc_run w calls = some w1 → pipe_never_started w1 := by
  induction calls with
  | nil =>
    intro w w1 hk _ h
    simp only [srtipc_run, Option.some.injEq] at h
    exact h ▸ hk
  | cons c cs ih =>
    intro w w1 hk hns h
    simp only [srtipc_run] at h
    cases hs : srtipc_step w c with
    | none => simp [hs] at h
    | some w0 =>
      simp only [hs] at h
      exact ih w0 w1
        (srtipc_step_pipe_never_started w w0 c hs (hns c (List.mem_cons_self _ _)) hk)
        (fun c2 hc2 => hns c2 (List.mem_cons_of_mem _ hc2)) h

/-- What a StreamHdr in RECEIVING does with a header whose signature is wrong,
and with the timer Stopped event that follows. -/
theorem nn_streamhdr_run_bad_signature (ispeer : Nat → Bool) (idle1 idle2 : Bool)
    (sh : nn_streamhdr) (b : List Nat)
    (hsh : sh.state = NN_STREAMHDR_STATE_RECEIVING)
    (hsig : b.take 4 ≠ [0x00, 0x53, 0x50, 0x00]) :
    nn_streamhdr_run ispeer sh
        [⟨streamhdr_input.usock nn_usock_event.NN_USOCK_RECEIVED, b, idle1⟩,
         ⟨streamhdr_input.timer nn_timer_event.NN_TIMER_STOPPED, [], idle2⟩]
      = some ({ sh with protohdr := b, usock := none, usock_owner := none,
                        state := NN_STREAMHDR_STATE_DONE },
              [Effect.timer_stop, Effect.usock_swap_owner_fsm sh.usock_owner,
               Effect.streamhdr_raise nn_streamhdr_event.NN_STREAMHDR_ERROR]) := by
  simp [nn_streamhdr_run, nn_streamhdr_deliver, nn_streamhdr_handler,
    nn_streamhdr_handler_RECEIVING, nn_streamhdr_handler_STOPPING_TIMER_ERROR, hsh, hsig,
    NN_STREAMHDR_STATE_RECEIVING, NN_STREAMHDR_STATE_STOPPING, NN_STREAMHDR_STATE_IDLE,
    NN_STREAMHDR_STATE_SENDING, NN_STREAMHDR_STATE_STOPPING_TIMER_ERROR]

/-- The world of a freshly initialised Session after `nn_srtipc_start`. -/
theorem srtipc_step_init_start (fsm usock : Nat) (prev : nn_fsm_owner) :
    srtipc_step (srtipc_world_init fsm) (srtipc_call.start usock prev)
      = some { self := { (nn_srtipc_init fsm) with usock := some usock, usock_owner := prev,
                                                   state := NN_SRTIPC_STATE_PROTOHDR },
               rd := none,
               trace := [Effect.usock_swap_owner { src := NN_SRTIPC_SRC_USOCK, fsm := some fsm },
                         Effect.streamhdr_start],
               sends := 0 } := by
  simp [srtipc_step, srtipc_world_init, nn_srtipc_init, nn_srtipc_start, nn_srtipc_handler,
    nn_srtipc_handler_IDLE, NN_SRTIPC_STATE_IDLE, srtipc_world_next, posted_read]

/-- C7: for every peer handshake whose first four bytes differ from
`00 53 50 00`, StreamHdr raises Error; the Session, to which the runtime
delivers that event, moves from PROTOHDR to DONE raising Error to its parent;
and whatever follows for that session (any events, send, recv and stop calls,
short of a new start), neither `nn_pipebase_start` nor `nn_pipebase_received`
is ever invoked. -/
theorem C7_bad_signature_fails_session (ispeer : Nat → Bool) (idle1 idle2 isidle : Bool)
    (rc : Int) (sh : nn_streamhdr) (b : List Nat) (fsm usock : Nat) (prev : nn_fsm_owner)
    (w0 : srtipc_world)
    (hsh : sh.state = NN_STREAMHDR_STATE_RECEIVING)
    (hsig : b.take 4 ≠ [0x00, 0x53, 0x50, 0x00])
    (hw0 : srtipc_step (srtipc_world_init fsm) (srtipc_call.start usock prev) = some w0) :
    nn_streamhdr_run ispeer sh
        [⟨streamhdr_input.usock nn_usock_event.NN_USOCK_RECEIVED, b, idle1⟩,
         ⟨streamhdr_input.timer nn_timer_event.NN_TIMER_STOPPED, [], idle2⟩]
      = some ({ sh with protohdr := b, usock := none, usock_owner := none,
                        state := NN_STREAMHDR_STATE_DONE },
              [Effect.timer_stop, Effect.usock_swap_owner_fsm sh.usock_owner,
               Effect.streamhdr_raise nn_streamhdr_event.NN_STREAMHDR_ERROR])
    ∧ w0.self.state = NN_SRTIPC_STATE_PROTOHDR
    ∧ srtipc_run w0
        (streamhdr_raised isidle rc
          [Effect.timer_stop, Effect.usock_swap_owner_fsm sh.usock_owner,
           Effect.streamhdr_raise nn_streamhdr_event.NN_STREAMHDR_ERROR])
      = some { w0 with self := { w0.self with state := NN_SRTIPC_STATE_DONE },
                       trace := w0.trace ++ [Effect.srtipc_raise NN_SRTIPC_ERROR] }
    ∧ (∀ (rest : List srtipc_call) (w : srtipc_world),
        (∀ c ∈ rest, c.is_start = false) →
        srtipc_run w0
          (streamhdr_raised isidle rc
            [Effect.timer_stop, Effect.usock_swap_owner_fsm sh.usock_owner,
             Effect.streamhdr_raise nn_streamhdr_event.NN_STREAMHDR_ERROR] ++ rest) = some w →
        Effect.pipebase_start ∉ w.trace ∧ Effect.pipebase_received ∉ w.trace) := by
  rw [srtipc_step_init_start] at hw0
  simp only [Option.some.injEq] at hw0
  subst hw0
  have hrun : srtipc_run
      { self := { (nn_srtipc_init fsm) with usock := some usock, usock_owner := prev,
                                            state := NN_SRTIPC_STATE_PROTOHDR },
        rd := none,
        trace := [Effect.usock_swap_owner { src := NN_SRTIPC_SRC_USOCK, fsm := some fsm },
                  Effect.streamhdr_start],
        sends := 0 }
      (streamhdr_raised isidle rc
        [Effect.timer_stop, Effect.usock_swap_owner_fsm sh.usock_owner,
         Effect.streamhdr_raise nn_streamhdr_event.NN_STREAMHDR_ERROR])
      = some { self := { (nn_srtipc_init fsm) with usock := some usock, usock_owner := prev,
                                                   state := NN_SRTIPC_STATE_DONE },
               rd := none,
               trace := [Effect.usock_swap_owner { src := NN_SRTIPC_SRC_USOCK, fsm := some fsm },
                         Effect.streamhdr_start] ++ [Effect.srtipc_raise NN_SRTIPC_ERROR],
               sends := 0 } := by
    simp [streamhdr_raised, srtipc_run, srtipc_step, nn_srtipc_feed, nn_srtipc_handler,
      nn_srtipc_handler_PROTOHDR, NN_SRTIPC_STATE_PROTOHDR, NN_SRTIPC_STATE_STOPPING,
      NN_SRTIPC_STATE_IDLE, srtipc_world_next, posted_read, nn_srtipc_init]
  refine ⟨nn_streamhdr_run_bad_signature ispeer idle1 idle2 sh b hsh hsig, rfl, hrun, ?_⟩
  intro rest w hns hr
  have hsplit : ∀ (cs1 cs2 : List srtipc_call) (wa wb : srtipc_world),
      srtipc_run wa cs1 = some wb → srtipc_run wa (cs1 ++ cs2) = srtipc_run wb cs2 := by
    intro cs1
    induction cs1 with
    | nil =>
      intro cs2 wa wb h
      simp only [srtipc_run, Option.some.injEq] at h
      subst h
      rfl
    | cons c cs ih =>
      intro cs2 wa wb h
      simp only [srtipc_run, List.cons_append] at h ⊢
      cases hs : srtipc_step wa c with
      | none => simp [hs] at h
      | some w1 =>
        simp only [hs] at h ⊢
        exact ih cs2 w1 wb h
  rw [hsplit _ rest _ _ hrun] at hr
  have hp := srtipc_run_pipe_never_started rest _ w
    (by simp [pipe_never_started, nn_srtipc_init]) hns hr
  exact ⟨hp.2.1, hp.2.2⟩

/-- C7 (witness): the peer sends `48 49 00 00 00 01 00 00`; the parent then
stops the Session. -/
theorem C7_bad_signature_fails_session_witness :
    nn_streamhdr_run (fun _ => true)
        { fsm := 7, state := NN_STREAMHDR_STATE_RECEIVING, usock := some 1,
          usock_owner := some 5, pipebase := some 2,
          protohdr := [0x00, 0x53, 0x50, 0x00, 0x00, 0x31, 0x00, 0x00] }
        [⟨streamhdr_input.usock nn_usock_event.NN_USOCK_RECEIVED,
           [0x48, 0x49, 0x00, 0x00, 0x00, 0x01, 0x00, 0x00], false⟩,
         ⟨streamhdr_input.timer nn_timer_event.NN_TIMER_STOPPED, [], true⟩]
      = some ({ fsm := 7, state := NN_STREAMHDR_STATE_DONE, usock := none,
                usock_owner := none, pipebase := some 2,
                protohdr := [0x48, 0x49, 0x00, 0x00, 0x00, 0x01, 0x00, 0x00] },
              [Effect.timer_stop, Effect.usock_swap_owner_fsm (some 5),
               Effect.streamhdr_raise nn_streamhdr_event.NN_STREAMHDR_ERROR])
    ∧ (Effect.pipebase_start ∉
          [Effect.usock_swap_owner { src := 1, fsm := some 5 }, Effect.streamhdr_start,
           Effect.srtipc_raise 1, Effect.pipebase_stop, Effect.streamhdr_stop,
           Effect.usock_swap_owner { src := 3, fsm := some 9 }, Effect.srtipc_stopped 2]
        ∧ Effect.pipebase_received ∉
          [Effect.usock_swap_owner { src := 1, fsm := some 5 }, Effect.streamhdr_start,
           Effect.srtipc_raise 1, Effect.pipebase_stop, Effect.streamhdr_stop,
           Effect.usock_swap_owner { src := 3, fsm := some 9 }, Effect.srtipc_stopped 2]) :=
  have h := C7_bad_signature_fails_session (fun _ => true) false true false 0
    { fsm := 7, state := NN_STREAMHDR_STATE_RECEIVING, usock := some 1,
      usock_owner := some 5, pipebase := some 2,
      protohdr := [0x00, 0x53, 0x50, 0x00, 0x00, 0x31, 0x00, 0x00] }
    [0x48, 0x49, 0x00, 0x00, 0x00, 0x01, 0x00, 0x00] 5 1 { src := 3, fsm := some 9 }
    { self := { (nn_srtipc_init 5) with usock := some 1,
                                        usock_owner := { src := 3, fsm := some 9 },
                                        state := NN_SRTIPC_STATE_PROTOHDR },
      rd := none,
      trace := [Effect.usock_swap_owner { src := 1, fsm := some 5 }, Effect.streamhdr_start],
      sends := 0 }
    rfl (by decide) (by rfl)
  ⟨h.1,
   h.2.2.2 [srtipc_call.stop true]
     { self := { (nn_srtipc_init 5) with usock := none,
                                         usock_owner := { src := -1, fsm := none },
                                         state := NN_SRTIPC_STATE_IDLE },
       rd := none,
       trace := [Effect.usock_swap_owner { src := 1, fsm := some 5 }, Effect.streamhdr_start,
                 Effect.srtipc_raise 1, Effect.pipebase_stop, Effect.streamhdr_stop,
                 Effect.usock_swap_owner { src := 3, fsm := some 9 }, Effect.srtipc_stopped 2],
       sends := 0 }
     (by decide) (by rfl)⟩

/-- C12: `nn_srtipc_recv`, called in ACTIVE with inbound = HASMSG, hands the
current inbound message to the caller unchanged, re-initialises the inbound
slot to an empty message, posts exactly one 9-byte read into the inbound header
buffer, sets inbound = HDR and returns 0; called with inbound other than HASMSG
or outside ACTIVE it fails an assertion. -/
theorem C12_recv_hands_over_message (self : nn_srtipc) :
    ((self.state = NN_SRTIPC_STATE_ACTIVE ∧ self.instate = NN_SRTIPC_INSTATE_HASMSG) →
      nn_srtipc_recv self
        = call_result.returned
            { self with inmsg := { hdr := [], body := [] },
                        instate := NN_SRTIPC_INSTATE_HDR }
            [Effect.usock_recv RecvBuf.inhdr 9]
            (self.inmsg, 0))
    ∧ (¬ (self.state = NN_SRTIPC_STATE_ACTIVE ∧ self.instate = NN_SRTIPC_INSTATE_HASMSG) →
      nn_srtipc_recv self = call_result.aborted self []) := by
  constructor
  · rintro ⟨h1, h2⟩
    simp [nn_srtipc_recv, h1, h2, nn_msg_init]
  · intro h
    by_cases h1 : self.state = NN_SRTIPC_STATE_ACTIVE
    · have h2 : self.instate ≠ NN_SRTIPC_INSTATE_HASMSG := fun h2 => h ⟨h1, h2⟩
      simp [nn_srtipc_recv, h1, h2]
    · simp [nn_srtipc_recv, h1]

/-- C12 (witness): the message `41 42 43` handed to the caller. -/
theorem C12_recv_hands_over_message_witness :
    nn_srtipc_recv
        { (nn_srtipc_init 6) with state := NN_SRTIPC_STATE_ACTIVE,
                                  instate := NN_SRTIPC_INSTATE_HASMSG,
                                  inmsg := { hdr := [], body := [0x41, 0x42, 0x43] } }
      = call_result.returned
          { (nn_srtipc_init 6) with state := NN_SRTIPC_STATE_ACTIVE,
                                    inmsg := { hdr := [], body := [] },
                                    instate := NN_SRTIPC_INSTATE_HDR }
          [Effect.usock_recv RecvBuf.inhdr 9]
          ({ hdr := [], body := [0x41, 0x42, 0x43] }, 0) :=
  (C12_recv_hands_over_message
    { (nn_srtipc_init 6) with state := NN_SRTIPC_STATE_ACTIVE,
                              instate := NN_SRTIPC_INSTATE_HASMSG,
                              inmsg := { hdr := [], body := [0x41, 0x42, 0x43] } }).1
    ⟨rfl, rfl⟩

/-- In ACTIVE with inbound = HDR, the handler returns what
`nn_srtipc_handler_ACTIVE_RECEIVED_HDR` returns, and nothing when that one
fails its assertion. -/
theorem nn_srtipc_handler_received_hdr (rc : Int) (self : nn_srtipc)
    (hst : self.state = NN_SRTIPC_STATE_ACTIVE)
    (hin : self.instate = NN_SRTIPC_INSTATE_HDR) :
    nn_srtipc_handler rc self (srtipc_input.usock nn_usock_event.NN_USOCK_RECEIVED)
      = (nn_srtipc_handler_ACTIVE_RECEIVED_HDR self).to_handler := by
  simp only [nn_srtipc_handler, nn_srtipc_handler_ACTIVE, nn_srtipc_handler_ACTIVE_RECEIVED,
    nn_srtipc_handler_ACTIVE_RECEIVED_HDR, hst, hin]
  simp only [NN_SRTIPC_STATE_ACTIVE, NN_SRTIPC_STATE_IDLE, NN_SRTIPC_STATE_PROTOHDR,
    NN_SRTIPC_STATE_STOPPING_STREAMHDR]
  simp only [Nat.reduceEqDiff, if_false, if_true]
  split_ifs <;> rfl

/-- C13: on Received in ACTIVE with inbound = HDR, the frame header is accepted
only when its first byte equals 1 (MSG_NORMAL); for every other first byte,
2 (MSG_SHMEM) included, the handler fails its assertion before anything is
done: the inbound state and message are as they were, no read is posted and the
pipe is not notified. -/
theorem C13_type_byte_must_be_normal (rc : Int) (self : nn_srtipc)
    (hst : self.state = NN_SRTIPC_STATE_ACTIVE)
    (hin : self.instate = NN_SRTIPC_INSTATE_HDR) :
    (self.inhdr.getD 0 0 ≠ 1 →
      nn_srtipc_handler rc self (srtipc_input.usock nn_usock_event.NN_USOCK_RECEIVED) = none
      ∧ nn_srtipc_handler_ACTIVE_RECEIVED_HDR self = call_result.aborted self [])
    ∧ (self.inhdr.getD 0 0 = NN_SRTIPC_MSG_SHMEM →
      nn_srtipc_handler rc self (srtipc_input.usock nn_usock_event.NN_USOCK_RECEIVED) = none
      ∧ nn_srtipc_handler_ACTIVE_RECEIVED_HDR self = call_result.aborted self [])
    ∧ (self.inhdr.getD 0 0 = 1 →
      ∃ s e, nn_srtipc_handler rc self (srtipc_input.usock nn_usock_event.NN_USOCK_RECEIVED)
        = some (s, e)) := by
  have hlink := nn_srtipc_handler_received_hdr rc self hst hin
  have hbad : self.inhdr.getD 0 0 ≠ 1 →
      nn_srtipc_handler rc self (srtipc_input.usock nn_usock_event.NN_USOCK_RECEIVED) = none
      ∧ nn_srtipc_handler_ACTIVE_RECEIVED_HDR self = call_result.aborted self [] := by
    intro h
    have ha : nn_srtipc_handler_ACTIVE_RECEIVED_HDR self = call_result.aborted self [] := by
      simp only [nn_srtipc_handler_ACTIVE_RECEIVED_HDR, NN_SRTIPC_MSG_NORMAL]
      rw [if_pos h]
    exact ⟨by rw [hlink, ha]; rfl, ha⟩
  refine ⟨hbad, fun h => hbad (by rw [h]; decide), fun h => ?_⟩
  rw [hlink]
  simp only [nn_srtipc_handler_ACTIVE_RECEIVED_HDR, NN_SRTIPC_MSG_NORMAL]
  rw [if_neg (not_not.mpr h)]
  split_ifs <;> exact ⟨_, _, rfl⟩

/-- C13 (witness): a frame header whose type byte is 2 (MSG_SHMEM). -/
theorem C13_type_byte_must_be_normal_witness :
    nn_srtipc_handler 0
        { (nn_srtipc_init 6) with state := NN_SRTIPC_STATE_ACTIVE,
                                  instate := NN_SRTIPC_INSTATE_HDR,
                                  inhdr := [0x02, 0, 0, 0, 0, 0, 0, 0, 0x03] }
        (srtipc_input.usock nn_usock_event.NN_USOCK_RECEIVED) = none
    ∧ nn_srtipc_handler_ACTIVE_RECEIVED_HDR
        { (nn_srtipc_init 6) with state := NN_SRTIPC_STATE_ACTIVE,
                                  instate := NN_SRTIPC_INSTATE_HDR,
                                  inhdr := [0x02, 0, 0, 0, 0, 0, 0, 0, 0x03] }
      = call_result.aborted
        { (nn_srtipc_init 6) with state := NN_SRTIPC_STATE_ACTIVE,
                                  instate := NN_SRTIPC_INSTATE_HDR,
                                  inhdr := [0x02, 0, 0, 0, 0, 0, 0, 0, 0x03] } [] :=
  (C13_type_byte_must_be_normal 0
    { (nn_srtipc_init 6) with state := NN_SRTIPC_STATE_ACTIVE,
                              instate := NN_SRTIPC_INSTATE_HDR,
                              inhdr := [0x02, 0, 0, 0, 0, 0, 0, 0, 0x03] }
    rfl rfl).2.1 rfl

/-- C14: in Session ACTIVE, a socket Shutdown event stops the pipe and enters
SHUTTING_DOWN without raising anything, and the following socket Error raises
Error and enters DONE; a socket Error event in ACTIVE stops the pipe, raises
Error and enters DONE; on either path exactly one Error is raised to the
parent. -/
theorem C14_shutdown_and_error (rc1 rc2 : Int) (self : nn_srtipc)
    (hst : self.state = NN_SRTIPC_STATE_ACTIVE) :
    nn_srtipc_handler rc1 self (srtipc_input.usock nn_usock_event.NN_USOCK_SHUTDOWN)
      = some ({ self with state := NN_SRTIPC_STATE_SHUTTING_DOWN }, [Effect.pipebase_stop])
    ∧ nn_srtipc_handler rc2 { self with state := NN_SRTIPC_STATE_SHUTTING_DOWN }
        (srtipc_input.usock nn_usock_event.NN_USOCK_ERROR)
      = some ({ self with state := NN_SRTIPC_STATE_DONE },
          [Effect.srtipc_raise NN_SRTIPC_ERROR])
    ∧ nn_srtipc_handler rc1 self (srtipc_input.usock nn_usock_event.NN_USOCK_ERROR)
      = some ({ self with state := NN_SRTIPC_STATE_DONE },
          [Effect.pipebase_stop, Effect.srtipc_raise NN_SRTIPC_ERROR])
    ∧ ([Effect.pipebase_stop] ++ [Effect.srtipc_raise NN_SRTIPC_ERROR]).count
        (Effect.srtipc_raise NN_SRTIPC_ERROR) = 1
    ∧ [Effect.pipebase_stop, Effect.srtipc_raise NN_SRTIPC_ERROR].count
        (Effect.srtipc_raise NN_SRTIPC_ERROR) = 1 := by
  refine ⟨?_, ?_, ?_, by decide, by decide⟩
  · simp [nn_srtipc_handler, nn_srtipc_handler_ACTIVE, hst, NN_SRTIPC_STATE_ACTIVE,
      NN_SRTIPC_STATE_IDLE, NN_SRTIPC_STATE_PROTOHDR, NN_SRTIPC_STATE_STOPPING_STREAMHDR]
  · simp [nn_srtipc_handler, nn_srtipc_handler_SHUTTING_DOWN, NN_SRTIPC_STATE_ACTIVE,
      NN_SRTIPC_STATE_IDLE, NN_SRTIPC_STATE_PROTOHDR, NN_SRTIPC_STATE_STOPPING_STREAMHDR,
      NN_SRTIPC_STATE_SHUTTING_DOWN]
  · simp [nn_srtipc_handler, nn_srtipc_handler_ACTIVE, hst, NN_SRTIPC_STATE_ACTIVE,
      NN_SRTIPC_STATE_IDLE, NN_SRTIPC_STATE_PROTOHDR, NN_SRTIPC_STATE_STOPPING_STREAMHDR]

/-- C14 (witness): the peer closes its write side, then the socket fails. -/
theorem C14_shutdown_and_error_witness :
    nn_srtipc_handler 0
        { (nn_srtipc_init 6) with state := NN_SRTIPC_STATE_ACTIVE }
        (srtipc_input.usock nn_usock_event.NN_USOCK_SHUTDOWN)
      = some ({ (nn_srtipc_init 6) with state := NN_SRTIPC_STATE_SHUTTING_DOWN },
          [Effect.pipebase_stop])
    ∧ nn_srtipc_handler 0
        { (nn_srtipc_init 6) with state := NN_SRTIPC_STATE_SHUTTING_DOWN }
        (srtipc_input.usock nn_usock_event.NN_USOCK_ERROR)
      = some ({ (nn_srtipc_init 6) with state := NN_SRTIPC_STATE_DONE },
          [Effect.srtipc_raise NN_SRTIPC_ERROR]) :=
  have h := C14_shutdown_and_error 0 0
    { (nn_srtipc_init 6) with state := NN_SRTIPC_STATE_ACTIVE } rfl
  ⟨h.1, h.2.1⟩

/-- A step other than a new start keeps the socket and the saved owner of a
Session that is not back in IDLE. -/
theorem srtipc_step_keeps_saved_owner (usock : Nat) (prev : nn_fsm_owner)
    (w w1 : srtipc_world) (c : srtipc_call)
    (h : srtipc_step w c = some w1) (hns : c.is_start = false)
    (hk : keeps_saved_owner usock prev w) : keeps_saved_owner usock prev w1 := by
  replace h := h.symm
  unfold keeps_saved_owner at hk ⊢
  cases c with
  | start u o => simp [srtipc_call.is_start] at hns
  | stop idle =>
    simp [srtipc_step, nn_srtipc_stop, nn_srtipc_shutdown] at h
    split_ifs at h <;> simp_all [srtipc_world_next, NN_SRTIPC_STATE_IDLE,
      NN_SRTIPC_STATE_STOPPING]
  | usock t data idle =>
    have h1 := (usock_store_state w.self w.rd data).1
    have h2 : (usock_store w.self w.rd data).usock = w.self.usock
        ∧ (usock_store w.self w.rd data).usock_owner = w.self.usock_owner := by
      unfold usock_store
      split <;> simp
    cases t <;>
      simp [srtipc_step, nn_srtipc_feed, nn_srtipc_shutdown, nn_srtipc_handler,
        nn_srtipc_handler_IDLE, nn_srtipc_handler_PROTOHDR,
        nn_srtipc_handler_STOPPING_STREAMHDR, nn_srtipc_handler_ACTIVE,
        nn_srtipc_handler_ACTIVE_RECEIVED, nn_srtipc_handler_SHUTTING_DOWN] at h <;>
      split_ifs at h <;> simp_all [srtipc_world_next, NN_SRTIPC_STATE_IDLE,
        NN_SRTIPC_STATE_PROTOHDR, NN_SRTIPC_STATE_STOPPING_STREAMHDR, NN_SRTIPC_STATE_ACTIVE,
        NN_SRTIPC_STATE_STOPPING, NN_SRTIPC_STATE_DONE, NN_SRTIPC_STATE_SHUTTING_DOWN]
  | streamhdr t idle rc =>
    cases t <;>
      simp [srtipc_step, nn_srtipc_feed, nn_srtipc_shutdown, nn_srtipc_handler,
        nn_srtipc_handler_IDLE, nn_srtipc_handler_PROTOHDR,
        nn_srtipc_handler_STOPPING_STREAMHDR, nn_srtipc_handler_ACTIVE,
        nn_srtipc_handler_SHUTTING_DOWN] at h <;>
      split_ifs at h <;> simp_all [srtipc_world_next, NN_SRTIPC_STATE_IDLE,
        NN_SRTIPC_STATE_PROTOHDR, NN_SRTIPC_STATE_STOPPING_STREAMHDR, NN_SRTIPC_STATE_ACTIVE,
        NN_SRTIPC_STATE_STOPPING, NN_SRTIPC_STATE_DONE, NN_SRTIPC_STATE_SHUTTING_DOWN]
  | send msg =>
    simp [srtipc_step, nn_srtipc_send] at h
    split_ifs at h
    simp_all [srtipc_world_next, NN_SRTIPC_STATE_IDLE, NN_SRTIPC_STATE_ACTIVE]
  | recv =>
    simp [srtipc_step, nn_srtipc_recv] at h
    split_ifs at h
    simp_all [srtipc_world_next, NN_SRTIPC_STATE_IDLE, NN_SRTIPC_STATE_ACTIVE]

/-- Along every run without a new start, a Session that is not back in IDLE
keeps its socket and the saved owner. -/
theorem srtipc_run_keeps_saved_owner (usock : Nat) (prev : nn_fsm_owner)
    (calls : List srtipc_call) :
    ∀ (w w1 : srtipc_world), keeps_saved_owner usock prev w →
      (∀ c ∈ calls, c.is_start = false) →
      srtipc_run w calls = some w1 → keeps_saved_owner usock prev w1 := by
  induction calls with
  | nil =>
    intro w w1 hk _ h
    simp only [srtipc_run, Option.some.injEq] at h
    exact h ▸ hk
  | cons c cs ih =>
    intro w w1 hk hns h
    simp only [srtipc_run] at h
    cases hs : srtipc_step w c with
    | none => simp [hs] at h
    | some w0 =>
      simp only [hs] at h
      exact ih w0 w1
        (srtipc_step_keeps_saved_owner usock prev w w0 c hs (hns c (List.mem_cons_self _ _)) hk)
        (fun c2 hc2 => hns c2 (List.mem_cons_of_mem _ hc2)) h

/-- C15: for every state in which a started Session can receive Stop
(PROTOHDR, STOPPING_STREAMHDR, ACTIVE, SHUTTING_DOWN, DONE), once the StreamHdr
is idle (at the Stop itself, or at a later event) the Session hands the socket
to the owner that held it before `nn_srtipc_start`, clears its socket pointer
and saved owner, returns to IDLE and raises Stopped; whoever owns the socket at
that time, the StreamHdr included, the owner afterwards is the one from before
the start. -/
theorem C15_stop_restores_owner (fsm usock : Nat) (prev cur : nn_fsm_owner)
    (calls : List srtipc_call) (w : srtipc_world) (rc : Int) (ev : srtipc_input)
    (hns : ∀ c ∈ calls, c.is_start = false)
    (hrun : srtipc_run (srtipc_world_init fsm) (srtipc_call.start usock prev :: calls) = some w)
    (hst : w.self.state = NN_SRTIPC_STATE_PROTOHDR
      ∨ w.self.state = NN_SRTIPC_STATE_STOPPING_STREAMHDR
      ∨ w.self.state = NN_SRTIPC_STATE_ACTIVE
      ∨ w.self.state = NN_SRTIPC_STATE_SHUTTING_DOWN
      ∨ w.self.state = NN_SRTIPC_STATE_DONE)
    (hev : ∀ a, ev ≠ srtipc_input.action a) :
    nn_srtipc_stop true w.self
      = some ({ w.self with usock := none, usock_owner := { src := -1, fsm := none },
                            state := NN_SRTIPC_STATE_IDLE },
          [Effect.pipebase_stop, Effect.streamhdr_stop, Effect.usock_swap_owner prev,
           Effect.srtipc_stopped NN_SRTIPC_STOPPED])
    ∧ session_usock_owner cur
        [Effect.pipebase_stop, Effect.streamhdr_stop, Effect.usock_swap_owner prev,
         Effect.srtipc_stopped NN_SRTIPC_STOPPED] = prev
    ∧ nn_srtipc_stop false w.self
      = some ({ w.self with state := NN_SRTIPC_STATE_STOPPING },
          [Effect.pipebase_stop, Effect.streamhdr_stop])
    ∧ nn_srtipc_feed false rc { w.self with state := NN_SRTIPC_STATE_STOPPING } ev
      = some ({ w.self with state := NN_SRTIPC_STATE_STOPPING }, [])
    ∧ nn_srtipc_feed true rc { w.self with state := NN_SRTIPC_STATE_STOPPING } ev
      = some ({ w.self with usock := none, usock_owner := { src := -1, fsm := none },
                            state := NN_SRTIPC_STATE_IDLE },
          [Effect.usock_swap_owner prev, Effect.srtipc_stopped NN_SRTIPC_STOPPED])
    ∧ session_usock_owner cur
        [Effect.usock_swap_owner prev, Effect.srtipc_stopped NN_SRTIPC_STOPPED] = prev := by
  simp only [srtipc_run, srtipc_step_init_start] at hrun
  have hk := srtipc_run_keeps_saved_owner usock prev calls _ w
    (by simp [keeps_saved_owner, nn_srtipc_init]) hns hrun
  have hnidle : w.self.state ≠ NN_SRTIPC_STATE_IDLE := by
    rcases hst with h | h | h | h | h <;> rw [h] <;> decide
  have hnstop : w.self.state ≠ NN_SRTIPC_STATE_STOPPING := by
    rcases hst with h | h | h | h | h <;> rw [h] <;> decide
  obtain ⟨-, hown⟩ := hk hnidle
  have hevs : ev ≠ srtipc_input.action nn_fsm_action.NN_FSM_STOP := hev _
  refine ⟨?_, rfl, ?_, ?_, ?_, rfl⟩
  · simp [nn_srtipc_stop, nn_srtipc_shutdown, hnidle, hnstop, hown]
  · simp [nn_srtipc_stop, nn_srtipc_shutdown, hnidle, hnstop]
  · simp [nn_srtipc_feed, nn_srtipc_shutdown, hevs]
  · simp [nn_srtipc_feed, nn_srtipc_shutdown, hevs, hown]

/-- C15 (witness): Stop arrives in PROTOHDR, while the StreamHdr (machine 7)
owns the socket; the StreamHdr is idle only when its Stopped event is
delivered. -/
theorem C15_stop_restores_owner_witness :
    nn_srtipc_stop false
        { (nn_srtipc_init 5) with usock := some 1, usock_owner := { src := 3, fsm := some 9 },
                                  state := NN_SRTIPC_STATE_PROTOHDR }
      = some ({ (nn_srtipc_init 5) with usock := some 1,
                                        usock_owner := { src := 3, fsm := some 9 },
                                        state := NN_SRTIPC_STATE_STOPPING },
          [Effect.pipebase_stop, Effect.streamhdr_stop])
    ∧ nn_srtipc_feed true 0
        { (nn_srtipc_init 5) with usock := some 1, usock_owner := { src := 3, fsm := some 9 },
                                  state := NN_SRTIPC_STATE_STOPPING }
        (srtipc_input.streamhdr nn_streamhdr_event.NN_STREAMHDR_STOPPED)
      = some ({ (nn_srtipc_init 5) with usock := none,
                                        usock_owner := { src := -1, fsm := none },
                                        state := NN_SRTIPC_STATE_IDLE },
          [Effect.usock_swap_owner { src := 3, fsm := some 9 },
           Effect.srtipc_stopped NN_SRTIPC_STOPPED])
    ∧ session_usock_owner { src := 2, fsm := some 7 }
        [Effect.usock_swap_owner { src := 3, fsm := some 9 },
         Effect.srtipc_stopped NN_SRTIPC_STOPPED] = { src := 3, fsm := some 9 } :=
  have h := C15_stop_restores_owner 5 1 { src := 3, fsm := some 9 } { src := 2, fsm := some 7 }
    []
    { self := { (nn_srtipc_init 5) with usock := some 1,
                                        usock_owner := { src := 3, fsm := some 9 },
                                        state := NN_SRTIPC_STATE_PROTOHDR },
      rd := none,
      trace := [Effect.usock_swap_owner { src := 1, fsm := some 5 }, Effect.streamhdr_start],
      sends := 0 }
    0 (srtipc_input.streamhdr nn_streamhdr_event.NN_STREAMHDR_STOPPED)
    (by decide) (by rfl) (Or.inl rfl) (by intro a; exact fun h => nomatch h)
  ⟨h.2.2.1, h.2.2.2.2.1, h.2.2.2.2.2⟩

/-- A delivery other than a new start keeps the owner saved by a started
StreamHdr. -/
theorem streamhdr_deliver_keeps_owner (ispeer : Nat → Bool) (prev : Option Nat)
    (s s1 : nn_streamhdr) (d : streamhdr_delivery) (e1 : List Effect)
    (h : nn_streamhdr_deliver ispeer s d = some (s1, e1))
    (hns : d.ev ≠ streamhdr_input.fsm nn_fsm_action.NN_FSM_START)
    (hk : streamhdr_keeps_owner prev s) : streamhdr_keeps_owner prev s1 := by
  rcases d with ⟨ev, data, idle⟩
  replace h := h.symm
  unfold streamhdr_keeps_owner at hk ⊢
  rcases ev with (a | u | t)
  · cases a <;>
      simp [nn_streamhdr_deliver, nn_streamhdr_handler, nn_streamhdr_handler_IDLE,
        nn_streamhdr_handler_SENDING, nn_streamhdr_handler_RECEIVING,
        nn_streamhdr_handler_STOPPING_TIMER_ERROR, nn_streamhdr_handler_STOPPING_TIMER_DONE] at h <;>
      split_ifs at h <;> simp_all [NN_STREAMHDR_STATE_STOPPING_TIMER_DONE,
        NN_STREAMHDR_STATE_IDLE, NN_STREAMHDR_STATE_SENDING, NN_STREAMHDR_STATE_STOPPING,
        NN_STREAMHDR_STATE_RECEIVING, NN_STREAMHDR_STATE_STOPPING_TIMER_ERROR,
        NN_STREAMHDR_STATE_DONE]
  · cases u <;>
      simp [nn_streamhdr_deliver, nn_streamhdr_handler, nn_streamhdr_handler_IDLE,
        nn_streamhdr_handler_SENDING, nn_streamhdr_handler_RECEIVING,
        nn_streamhdr_handler_STOPPING_TIMER_ERROR, nn_streamhdr_handler_STOPPING_TIMER_DONE] at h <;>
      split_ifs at h <;> simp_all [NN_STREAMHDR_STATE_STOPPING_TIMER_DONE,
        NN_STREAMHDR_STATE_IDLE, NN_STREAMHDR_STATE_SENDING, NN_STREAMHDR_STATE_STOPPING,
        NN_STREAMHDR_STATE_RECEIVING, NN_STREAMHDR_STATE_STOPPING_TIMER_ERROR,
        NN_STREAMHDR_STATE_DONE]
  · cases t <;>
      simp [nn_streamhdr_deliver, nn_streamhdr_handler, nn_streamhdr_handler_IDLE,
        nn_streamhdr_handler_SENDING, nn_streamhdr_handler_RECEIVING,
        nn_streamhdr_handler_STOPPING_TIMER_ERROR, nn_streamhdr_handler_STOPPING_TIMER_DONE] at h <;>
      split_ifs at h <;> simp_all [NN_STREAMHDR_STATE_STOPPING_TIMER_DONE,
        NN_STREAMHDR_STATE_IDLE, NN_STREAMHDR_STATE_SENDING, NN_STREAMHDR_STATE_STOPPING,
        NN_STREAMHDR_STATE_RECEIVING, NN_STREAMHDR_STATE_STOPPING_TIMER_ERROR,
        NN_STREAMHDR_STATE_DONE]

/-- Along every run without a new start, a started StreamHdr that has not
finished keeps the saved owner. -/
theorem streamhdr_run_keeps_owner (ispeer : Nat → Bool) (prev : Option Nat)
    (ds : List streamhdr_delivery) :
    ∀ (s s2 : nn_streamhdr) (effs : List Effect),
      streamhdr_keeps_owner prev s →
      (∀ d ∈ ds, d.ev ≠ streamhdr_input.fsm nn_fsm_action.NN_FSM_START) →
      nn_streamhdr_run ispeer s ds = some (s2, effs) →
      streamhdr_keeps_owner prev s2 := by
  induction ds with
  | nil =>
    intro s s2 effs hk _ h
    simp [nn_streamhdr_run] at h
    exact h.1 ▸ hk
  | cons d ds ih =>
    intro s s2 effs hk hns h
    simp only [nn_streamhdr_run] at h
    cases hd : nn_streamhdr_deliver ispeer s d with
    | none => simp [hd] at h
    | some r1 =>
      obtain ⟨s1, e1⟩ := r1
      simp only [hd] at h
      cases hr : nn_streamhdr_run ispeer s1 ds with
      | none => simp [hr] at h
      | some r2 =>
        obtain ⟨s3, e2⟩ := r2
        simp only [hr, Option.some.injEq, Prod.mk.injEq] at h
        obtain ⟨rfl, -⟩ := h
        exact ih s1 s3 e2
          (streamhdr_deliver_keeps_owner ispeer prev s s1 d e1 hd
            (hns d (List.mem_cons_self _ _)) hk)
          (fun d2 hd2 => hns d2 (List.mem_cons_of_mem _ hd2)) hr

/-- C16: on the timer's Stopped event in STOPPING_TIMER_DONE (respectively
STOPPING_TIMER_ERROR), StreamHdr hands the socket back to the owner saved at
start, clears its socket pointer and saved owner, enters DONE and raises
exactly one OK (respectively Error) event to its parent; in DONE every further
event other than stop fails an assertion. -/
theorem C16_timer_stopped_returns_socket (ispeer : Nat → Bool) (idle timer_isidle : Bool)
    (prev : Option Nat) (p : Int) (self s0 s : nn_streamhdr) (usock pipebase : Nat)
    (e0 effs : List Effect) (ds : List streamhdr_delivery)
    (hidle : self.state = NN_STREAMHDR_STATE_IDLE)
    (hstart : nn_streamhdr_start ispeer timer_isidle prev p 4 self usock pipebase
      = some (s0, e0))
    (hns : ∀ d ∈ ds, d.ev ≠ streamhdr_input.fsm nn_fsm_action.NN_FSM_START)
    (hrun : nn_streamhdr_run ispeer s0 ds = some (s, effs)) :
    (s.state = NN_STREAMHDR_STATE_STOPPING_TIMER_DONE →
      nn_streamhdr_handler ispeer idle s (streamhdr_input.timer nn_timer_event.NN_TIMER_STOPPED)
        = some ({ s with usock := none, usock_owner := none, state := NN_STREAMHDR_STATE_DONE },
            [Effect.usock_swap_owner_fsm prev,
             Effect.streamhdr_raise nn_streamhdr_event.NN_STREAMHDR_OK]))
    ∧ (s.state = NN_STREAMHDR_STATE_STOPPING_TIMER_ERROR →
      nn_streamhdr_handler ispeer idle s (streamhdr_input.timer nn_timer_event.NN_TIMER_STOPPED)
        = some ({ s with usock := none, usock_owner := none, state := NN_STREAMHDR_STATE_DONE },
            [Effect.usock_swap_owner_fsm prev,
             Effect.streamhdr_raise nn_streamhdr_event.NN_STREAMHDR_ERROR]))
    ∧ (s.state = NN_STREAMHDR_STATE_DONE →
      ∀ ev, ev ≠ streamhdr_input.fsm nn_fsm_action.NN_FSM_STOP →
        nn_streamhdr_handler ispeer idle s ev = none)
    ∧ (s.state = NN_STREAMHDR_STATE_DONE →
      ∃ s1 e1, nn_streamhdr_handler ispeer idle s
        (streamhdr_input.fsm nn_fsm_action.NN_FSM_STOP) = some (s1, e1)) := by
  have hs0 : streamhdr_keeps_owner prev s0 := by
    by_cases hu : self.usock = none ∧ self.usock_owner = none
    · rw [nn_streamhdr_start_idle ispeer timer_isidle prev p self usock pipebase hidle
        hu.1 hu.2] at hstart
      simp only [Option.some.injEq, Prod.mk.injEq] at hstart
      obtain ⟨rfl, -⟩ := hstart
      simp [streamhdr_keeps_owner]
    · simp [nn_streamhdr_start, hu] at hstart
  have hk := streamhdr_run_keeps_owner ispeer prev ds s0 s effs hs0 hns hrun
  unfold streamhdr_keeps_owner at hk
  refine ⟨fun h => ?_, fun h => ?_, fun h ev hev => ?_, fun h => ?_⟩
  · have ho := hk (Or.inr (Or.inr (Or.inr h)))
    simp [nn_streamhdr_handler, nn_streamhdr_handler_STOPPING_TIMER_DONE, h, ho,
      NN_STREAMHDR_STATE_STOPPING_TIMER_DONE, NN_STREAMHDR_STATE_STOPPING,
      NN_STREAMHDR_STATE_IDLE, NN_STREAMHDR_STATE_SENDING, NN_STREAMHDR_STATE_RECEIVING,
      NN_STREAMHDR_STATE_STOPPING_TIMER_ERROR]
  · have ho := hk (Or.inr (Or.inr (Or.inl h)))
    simp [nn_streamhdr_handler, nn_streamhdr_handler_STOPPING_TIMER_ERROR, h, ho,
      NN_STREAMHDR_STATE_STOPPING_TIMER_DONE, NN_STREAMHDR_STATE_STOPPING,
      NN_STREAMHDR_STATE_IDLE, NN_STREAMHDR_STATE_SENDING, NN_STREAMHDR_STATE_RECEIVING,
      NN_STREAMHDR_STATE_STOPPING_TIMER_ERROR]
  · simp [nn_streamhdr_handler, h, hev, NN_STREAMHDR_STATE_DONE,
      NN_STREAMHDR_STATE_STOPPING_TIMER_DONE, NN_STREAMHDR_STATE_STOPPING,
      NN_STREAMHDR_STATE_IDLE, NN_STREAMHDR_STATE_SENDING, NN_STREAMHDR_STATE_RECEIVING,
      NN_STREAMHDR_STATE_STOPPING_TIMER_ERROR]
  · by_cases hi : idle = false <;>
      simp [nn_streamhdr_handler, hi, NN_STREAMHDR_STATE_STOPPING]

/-- C16 (witness): a StreamHdr started on a socket owned by machine 9 that has
sent its header and received a valid one. -/
theorem C16_timer_stopped_returns_socket_witness :
    nn_streamhdr_handler (fun _ => true) true
        { fsm := 7, state := NN_STREAMHDR_STATE_STOPPING_TIMER_DONE, usock := some 1,
          usock_owner := some 9, pipebase := some 2,
          protohdr := [0x00, 0x53, 0x50, 0x00, 0x00, 0x31, 0x00, 0x00] }
        (streamhdr_input.timer nn_timer_event.NN_TIMER_STOPPED)
      = some ({ fsm := 7, state := NN_STREAMHDR_STATE_DONE, usock := none,
                usock_owner := none, pipebase := some 2,
                protohdr := [0x00, 0x53, 0x50, 0x00, 0x00, 0x31, 0x00, 0x00] },
          [Effect.usock_swap_owner_fsm (some 9),
           Effect.streamhdr_raise nn_streamhdr_event.NN_STREAMHDR_OK]) :=
  (C16_timer_stopped_returns_socket (fun _ => true) true false (some 9) 0x31
    (nn_streamhdr_init 7)
    { fsm := 7, state := NN_STREAMHDR_STATE_SENDING, usock := some 1,
      usock_owner := some 9, pipebase := some 2,
      protohdr := [0x00, 0x53, 0x50, 0x00, 0x00, 0x31, 0x00, 0x00] }
    { fsm := 7, state := NN_STREAMHDR_STATE_STOPPING_TIMER_DONE, usock := some 1,
      usock_owner := some 9, pipebase := some 2,
      protohdr := [0x00, 0x53, 0x50, 0x00, 0x00, 0x31, 0x00, 0x00] }
    1 2
    [Effect.usock_swap_owner_fsm (some 7), Effect.timer_start 1000,
     Effect.usock_send [[0x00, 0x53, 0x50, 0x00, 0x00, 0x31, 0x00, 0x00]]]
    [Effect.usock_recv RecvBuf.protohdr 8, Effect.timer_stop]
    [⟨streamhdr_input.usock nn_usock_event.NN_USOCK_SENT, [], false⟩,
     ⟨streamhdr_input.usock nn_usock_event.NN_USOCK_RECEIVED,
       [0x00, 0x53, 0x50, 0x00, 0x00, 0x31, 0x00, 0x00], false⟩]
    rfl (by rfl) (by decide) (by rfl)).1 rfl

/-- Storing received bytes changes neither the state nor the two sub-states. -/
theorem usock_store_substates (s : nn_srtipc) (rd : Option (RecvBuf × Nat)) (data : List Nat) :
    (usock_store s rd data).state = s.state
      ∧ (usock_store s rd data).instate = s.instate
      ∧ (usock_store s rd data).outstate = s.outstate := by
  unfold usock_store
  split <;> simp

/-- What an event from the socket or from the StreamHdr does to the sub-states
of a Session and which operations it posts. -/
theorem nn_srtipc_feed_io (idle : Bool) (rc : Int) (s s1 : nn_srtipc)
    (ev : srtipc_input) (e : List Effect)
    (h : nn_srtipc_feed idle rc s ev = some (s1, e))
    (hna : ∀ a, ev ≠ srtipc_input.action a) :
    (s1.state ≠ NN_SRTIPC_STATE_ACTIVE ∧ s1.state ≠ NN_SRTIPC_STATE_PROTOHDR
        ∧ s1.state ≠ NN_SRTIPC_STATE_STOPPING_STREAMHDR)
    ∨ ((∃ t, ev = srtipc_input.streamhdr t) ∧ s.state = NN_SRTIPC_STATE_PROTOHDR
        ∧ s1.state = NN_SRTIPC_STATE_STOPPING_STREAMHDR
        ∧ e.countP Effect.is_usock_recv = 0 ∧ e.countP Effect.is_usock_send = 0)
    ∨ ((∃ t, ev = srtipc_input.streamhdr t) ∧ s.state = NN_SRTIPC_STATE_STOPPING_STREAMHDR
        ∧ s1.state = NN_SRTIPC_STATE_ACTIVE ∧ s1.instate = NN_SRTIPC_INSTATE_HDR
        ∧ s1.outstate = NN_SRTIPC_OUTSTATE_IDLE
        ∧ e.countP Effect.is_usock_recv = 1 ∧ e.countP Effect.is_usock_send = 0)
    ∨ (ev = srtipc_input.usock nn_usock_event.NN_USOCK_SENT
        ∧ s.state = NN_SRTIPC_STATE_ACTIVE ∧ s1.state = NN_SRTIPC_STATE_ACTIVE
        ∧ s.outstate = NN_SRTIPC_OUTSTATE_SENDING ∧ s1.outstate = NN_SRTIPC_OUTSTATE_IDLE
        ∧ s1.instate = s.instate
        ∧ e.countP Effect.is_usock_recv = 0 ∧ e.countP Effect.is_usock_send = 0)
    ∨ (ev = srtipc_input.usock nn_usock_event.NN_USOCK_RECEIVED
        ∧ s.state = NN_SRTIPC_STATE_ACTIVE ∧ s1.state = NN_SRTIPC_STATE_ACTIVE
        ∧ (s.instate = NN_SRTIPC_INSTATE_HDR ∨ s.instate = NN_SRTIPC_INSTATE_BODY)
        ∧ s1.outstate = s.outstate ∧ e.countP Effect.is_usock_send = 0
        ∧ ((s1.instate = NN_SRTIPC_INSTATE_HASMSG ∧ e.countP Effect.is_usock_recv = 0)
          ∨ (s1.instate = NN_SRTIPC_INSTATE_BODY ∧ e.countP Effect.is_usock_recv = 1))) := by
  replace h := h.symm
  rcases ev with (a | u | t)
  · exact absurd rfl (hna a)
  · cases u <;> simp [nn_srtipc_feed, nn_srtipc_shutdown, nn_srtipc_handler,
      nn_srtipc_handler_IDLE, nn_srtipc_handler_PROTOHDR, nn_srtipc_handler_STOPPING_STREAMHDR,
      nn_srtipc_handler_ACTIVE, nn_srtipc_handler_ACTIVE_RECEIVED,
      nn_srtipc_handler_SHUTTING_DOWN] at h <;>
      split_ifs at h <;> simp_all [NN_SRTIPC_STATE_IDLE, NN_SRTIPC_STATE_PROTOHDR,
      NN_SRTIPC_STATE_STOPPING_STREAMHDR, NN_SRTIPC_STATE_ACTIVE, NN_SRTIPC_STATE_STOPPING,
      NN_SRTIPC_STATE_DONE, NN_SRTIPC_STATE_SHUTTING_DOWN, NN_SRTIPC_OUTSTATE_IDLE,
      NN_SRTIPC_OUTSTATE_SENDING, NN_SRTIPC_INSTATE_HDR, NN_SRTIPC_INSTATE_BODY,
      NN_SRTIPC_INSTATE_HASMSG, Effect.is_usock_recv, Effect.is_usock_send]
  · cases t <;> simp [nn_srtipc_feed, nn_srtipc_shutdown, nn_srtipc_handler,
      nn_srtipc_handler_IDLE, nn_srtipc_handler_PROTOHDR, nn_srtipc_handler_STOPPING_STREAMHDR,
      nn_srtipc_handler_ACTIVE, nn_srtipc_handler_ACTIVE_RECEIVED,
      nn_srtipc_handler_SHUTTING_DOWN] at h <;>
      split_ifs at h <;> simp_all [NN_SRTIPC_STATE_IDLE, NN_SRTIPC_STATE_PROTOHDR,
      NN_SRTIPC_STATE_STOPPING_STREAMHDR, NN_SRTIPC_STATE_ACTIVE, NN_SRTIPC_STATE_STOPPING,
      NN_SRTIPC_STATE_DONE, NN_SRTIPC_STATE_SHUTTING_DOWN, NN_SRTIPC_OUTSTATE_IDLE,
      NN_SRTIPC_OUTSTATE_SENDING, NN_SRTIPC_INSTATE_HDR, NN_SRTIPC_INSTATE_BODY,
      NN_SRTIPC_INSTATE_HASMSG, Effect.is_usock_recv, Effect.is_usock_send]

/-- The relation between sub-states and outstanding operations is kept by an
event from the socket or from the StreamHdr. -/
theorem io_matches_after_feed (x : srtipc_io) (rd : Option (RecvBuf × Nat))
    (idle : Bool) (rc : Int) (s s1 : nn_srtipc) (ev : srtipc_input) (e : List Effect)
    (reads0 writes0 : Nat)
    (hf : nn_srtipc_feed idle rc s ev = some (s1, e))
    (hna : ∀ a, ev ≠ srtipc_input.action a)
    (hst : s.state = x.w.self.state) (hin : s.instate = x.w.self.instate)
    (hout : s.outstate = x.w.self.outstate)
    (hr : reads0 = if ev = srtipc_input.usock nn_usock_event.NN_USOCK_RECEIVED
      then x.reads - 1 else x.reads)
    (hw : writes0 = if ev = srtipc_input.usock nn_usock_event.NN_USOCK_SENT
      then x.writes - 1 else x.writes)
    (hJ : io_matches_substates x) :
    io_matches_substates
      { w := srtipc_world_next x.w rd s1 e,
        reads := reads0 + e.countP Effect.is_usock_recv,
        writes := writes0 + e.countP Effect.is_usock_send } := by
  obtain ⟨j1, j2⟩ := hJ
  have hself : (srtipc_world_next x.w rd s1 e).self = s1 := rfl
  unfold io_matches_substates
  simp only [hself]
  rcases nn_srtipc_feed_io idle rc s s1 ev e hf hna with
    ⟨n1, n2, n3⟩ | ⟨⟨t, rfl⟩, p1, p2, c1, c2⟩ | ⟨⟨t, rfl⟩, p1, p2, p3, p4, c1, c2⟩
      | ⟨rfl, p1, p2, p3, p4, p5, c1, c2⟩ | ⟨rfl, p1, p2, p3, p4, c2, p5⟩
  · exact ⟨fun h => absurd h n1, fun h => by rcases h with h | h <;> contradiction⟩
  · have hz := j2 (Or.inl (hst ▸ p1))
    simp only [reduceCtorEq, if_false] at hr hw
    subst hr hw
    rw [c1, c2, p2]
    exact ⟨fun h => absurd h (by decide), fun _ => by omega⟩
  · have hz := j2 (Or.inr (hst ▸ p1))
    simp only [reduceCtorEq, if_false] at hr hw
    subst hr hw
    rw [c1, c2, p2, p3, p4]
    refine ⟨fun _ => ⟨Or.inl ⟨Or.inl rfl, by omega⟩, Or.inr ⟨rfl, by omega⟩⟩, fun h => ?_⟩
    rcases h with h | h <;> exact absurd h (by decide)
  · have hj := j1 (hst ▸ p1)
    simp only [reduceCtorEq, if_false, if_true, srtipc_input.usock.injEq] at hr hw
    subst hr hw
    rw [c1, c2, p2, p4, p5, hin]
    have hw1 : x.writes = 1 := by
      rcases hj.2 with ⟨-, h⟩ | ⟨h, -⟩
      · exact h
      · rw [← hout, p3] at h
        exact absurd h (by decide)
    refine ⟨fun _ => ⟨?_, Or.inr ⟨rfl, by omega⟩⟩, fun h => ?_⟩
    · rcases hj.1 with ⟨h1, h2⟩ | ⟨h1, h2⟩
      · exact Or.inl ⟨h1, by omega⟩
      · exact Or.inr ⟨h1, by omega⟩
    · rcases h with h | h <;> exact absurd h (by decide)
  · have hj := j1 (hst ▸ p1)
    simp only [reduceCtorEq, if_false, if_true, srtipc_input.usock.injEq] at hr hw
    subst hr hw
    rw [c2, p2, p4, hout]
    have hr1 : x.reads = 1 := by
      rcases hj.1 with ⟨-, h⟩ | ⟨h, -⟩
      · exact h
      · rw [← hin] at h
        rcases p3 with p3 | p3 <;> rw [p3] at h <;> exact absurd h (by decide)
    refine ⟨fun _ => ⟨?_, ?_⟩, fun h => ?_⟩
    · rcases p5 with ⟨q1, q2⟩ | ⟨q1, q2⟩
      · exact Or.inr ⟨q1, by omega⟩
      · exact Or.inl ⟨Or.inr q1, by omega⟩
    · rcases hj.2 with ⟨h1, h2⟩ | ⟨h1, h2⟩
      · exact Or.inl ⟨h1, by omega⟩
      · exact Or.inr ⟨h1, by omega⟩
    · rcases h with h | h <;> exact absurd h (by decide)

/-- The relation between sub-states and outstanding operations is kept by every
step of the Session in its environment. -/
theorem srtipc_io_step_matches (x x1 : srtipc_io) (c : srtipc_call)
    (h : srtipc_io_step x c = some x1) (hJ : io_matches_substates x) :
    io_matches_substates x1 := by
  unfold srtipc_io_step at h
  cases hs : srtipc_step x.w c with
  | none => simp [hs] at h
  | some w1 =>
    simp only [hs, Option.some.injEq] at h
    subst h
    cases c with
    | start u o =>
      replace hs := hs.symm
      simp [srtipc_step, nn_srtipc_start, nn_srtipc_handler, nn_srtipc_handler_IDLE,
        nn_srtipc_handler_PROTOHDR, nn_srtipc_handler_STOPPING_STREAMHDR,
        nn_srtipc_handler_ACTIVE, nn_srtipc_handler_SHUTTING_DOWN] at hs
      split_ifs at hs
      simp_all [io_matches_substates, srtipc_world_next,
        Effect.is_usock_recv, Effect.is_usock_send, NN_SRTIPC_STATE_IDLE,
        NN_SRTIPC_STATE_PROTOHDR, NN_SRTIPC_STATE_ACTIVE, NN_SRTIPC_STATE_STOPPING_STREAMHDR]
    | stop idle =>
      replace hs := hs.symm
      simp [srtipc_step, nn_srtipc_stop, nn_srtipc_shutdown] at hs
      split_ifs at hs <;> simp_all [io_matches_substates, srtipc_world_next,
        NN_SRTIPC_STATE_IDLE, NN_SRTIPC_STATE_PROTOHDR, NN_SRTIPC_STATE_STOPPING_STREAMHDR,
        NN_SRTIPC_STATE_ACTIVE, NN_SRTIPC_STATE_STOPPING]
    | usock t data idle =>
      simp only [srtipc_step] at hs
      split_ifs at hs with ht
      · subst ht
        cases hf : nn_srtipc_feed idle 0 (usock_store x.w.self x.w.rd data)
            (srtipc_input.usock nn_usock_event.NN_USOCK_RECEIVED) with
        | none => simp [hf] at hs
        | some r =>
          obtain ⟨s1, e⟩ := r
          simp only [hf, Option.some.injEq] at hs
          subst hs
          have hd : List.drop x.w.trace.length (srtipc_world_next x.w none s1 e).trace = e := by
            simp [srtipc_world_next]
          simp only [hd]
          exact io_matches_after_feed x none idle 0 _ s1 _ e _ _ hf (by simp)
            (usock_store_substates _ _ _).1 (usock_store_substates _ _ _).2.1
            (usock_store_substates _ _ _).2.2 (by simp) (by simp) hJ
      · cases hf : nn_srtipc_feed idle 0 x.w.self (srtipc_input.usock t) with
        | none => simp [hf] at hs
        | some r =>
          obtain ⟨s1, e⟩ := r
          simp only [hf, Option.some.injEq] at hs
          subst hs
          have hd : List.drop x.w.trace.length (srtipc_world_next x.w x.w.rd s1 e).trace = e := by
            simp [srtipc_world_next]
          simp only [hd]
          refine io_matches_after_feed x x.w.rd idle 0 _ s1 _ e _ _ hf (by simp)
            rfl rfl rfl ?_ ?_ hJ
          · cases t <;> simp at ht ⊢
          · cases t <;> simp
    | streamhdr t idle rc =>
      simp only [srtipc_step] at hs
      cases hf : nn_srtipc_feed idle rc x.w.self (srtipc_input.streamhdr t) with
      | none => simp [hf] at hs
      | some r =>
        obtain ⟨s1, e⟩ := r
        simp only [hf, Option.some.injEq] at hs
        subst hs
        have hd : List.drop x.w.trace.length (srtipc_world_next x.w x.w.rd s1 e).trace = e := by
          simp [srtipc_world_next]
        simp only [hd]
        exact io_matches_after_feed x x.w.rd idle rc _ s1 _ e _ _ hf (by simp)
          rfl rfl rfl (by simp) (by simp) hJ
    | send msg =>
      replace hs := hs.symm
      obtain ⟨j1, j2⟩ := hJ
      simp [srtipc_step, nn_srtipc_send] at hs
      split_ifs at hs
      simp_all [io_matches_substates, srtipc_world_next, Effect.is_usock_recv,
        Effect.is_usock_send, NN_SRTIPC_STATE_IDLE, NN_SRTIPC_STATE_PROTOHDR,
        NN_SRTIPC_STATE_STOPPING_STREAMHDR, NN_SRTIPC_STATE_ACTIVE, NN_SRTIPC_OUTSTATE_IDLE,
        NN_SRTIPC_OUTSTATE_SENDING]
    | recv =>
      replace hs := hs.symm
      obtain ⟨j1, j2⟩ := hJ
      simp [srtipc_step, nn_srtipc_recv] at hs
      split_ifs at hs
      simp_all [io_matches_substates, srtipc_world_next, Effect.is_usock_recv,
        Effect.is_usock_send, NN_SRTIPC_STATE_IDLE, NN_SRTIPC_STATE_PROTOHDR,
        NN_SRTIPC_STATE_STOPPING_STREAMHDR, NN_SRTIPC_STATE_ACTIVE, NN_SRTIPC_INSTATE_HDR,
        NN_SRTIPC_INSTATE_BODY, NN_SRTIPC_INSTATE_HASMSG]

/-- The relation between sub-states and outstanding operations holds along
every run. -/
theorem srtipc_io_run_matches (calls : List srtipc_call) :
    ∀ (x x1 : srtipc_io), io_matches_substates x →
      srtipc_io_run x calls = some x1 → io_matches_substates x1 := by
  induction calls with
  | nil =>
    intro x x1 hJ h
    simp only [srtipc_io_run, Option.some.injEq] at h
    exact h ▸ hJ
  | cons c cs ih =>
    intro x x1 hJ h
    simp only [srtipc_io_run] at h
    cases hs : srtipc_io_step x c with
    | none => simp [hs] at h
    | some x0 =>
      simp only [hs] at h
      exact ih x0 x1 (srtipc_io_step_matches x x0 c hs hJ) h

/-- C11: at every reachable state of a Session in ACTIVE, at most one read and
at most one write are outstanding on the socket (each posted operation counts
until its Received or Sent completion is delivered): a read is outstanding
exactly when inbound is HDR or BODY, and a write exactly when outbound =
SENDING. -/
theorem C11_one_read_one_write (fsm : Nat) (calls : List srtipc_call) (x : srtipc_io)
    (hrun : srtipc_io_run (srtipc_io_init fsm) calls = some x)
    (hst : x.w.self.state = NN_SRTIPC_STATE_ACTIVE) :
    x.reads ≤ 1 ∧ x.writes ≤ 1
    ∧ (x.reads = 1 ↔ (x.w.self.instate = NN_SRTIPC_INSTATE_HDR
        ∨ x.w.self.instate = NN_SRTIPC_INSTATE_BODY))
    ∧ (x.writes = 1 ↔ x.w.self.outstate = NN_SRTIPC_OUTSTATE_SENDING) := by
  have hJ := srtipc_io_run_matches calls (srtipc_io_init fsm) x
    (by simp [io_matches_substates, srtipc_io_init, srtipc_world_init, nn_srtipc_init,
      NN_SRTIPC_STATE_IDLE, NN_SRTIPC_STATE_ACTIVE, NN_SRTIPC_STATE_PROTOHDR,
      NN_SRTIPC_STATE_STOPPING_STREAMHDR]) hrun
  obtain ⟨⟨hr, hw⟩, -⟩ := And.intro (hJ.1 hst) hJ.2
  refine ⟨?_, ?_, ?_, ?_⟩
  · rcases hr with ⟨-, h⟩ | ⟨-, h⟩ <;> omega
  · rcases hw with ⟨-, h⟩ | ⟨-, h⟩ <;> omega
  · rcases hr with ⟨h1, h2⟩ | ⟨h1, h2⟩
    · exact ⟨fun _ => h1, fun _ => h2⟩
    · refine ⟨fun h => by omega, fun h => ?_⟩
      rcases h with h | h <;> rw [h1] at h <;> exact absurd h (by decide)
  · rcases hw with ⟨h1, h2⟩ | ⟨h1, h2⟩
    · exact ⟨fun _ => h1, fun _ => h2⟩
    · refine ⟨fun h => by omega, fun h => ?_⟩
      rw [h1] at h
      exact absurd h (by decide)

/-- C11 (witness): a Session that has become ACTIVE and has one message being
sent: the header read and the write are outstanding. -/
theorem C11_one_read_one_write_witness :
    srtipc_io_run (srtipc_io_init 5) in_flight_calls = some in_flight_io
    ∧ in_flight_io.reads ≤ 1 ∧ in_flight_io.writes ≤ 1
    ∧ (in_flight_io.reads = 1 ↔ (in_flight_io.w.self.instate = NN_SRTIPC_INSTATE_HDR
        ∨ in_flight_io.w.self.instate = NN_SRTIPC_INSTATE_BODY))
    ∧ (in_flight_io.writes = 1 ↔ in_flight_io.w.self.outstate = NN_SRTIPC_OUTSTATE_SENDING) :=
  ⟨by rfl, C11_one_read_one_write 5 in_flight_calls in_flight_io (by rfl) rfl⟩


/-! ### Shutdown: exactly one Stopped -/

/-- A run over two lists of deliveries is the run over the first followed by
the run over the second. -/
theorem fsm_run_append {S D F : Type} (feed : S → D → Option (S × List F))
    (ds1 ds2 : List D) (s : S) :
    fsm_run feed s (ds1 ++ ds2) =
      match fsm_run feed s ds1 with
      | none => none
      | some (s1, e1) =>
        match fsm_run feed s1 ds2 with
        | none => none
        | some (s2, e2) => some (s2, e1 ++ e2) := by
  induction ds1 generalizing s with
  | nil =>
    simp only [List.nil_append, fsm_run]
    cases fsm_run feed s ds2 with
    | none => rfl
    | some r => simp
  | cons d ds ih =>
    rw [List.cons_append]
    simp only [fsm_run]
    cases hf : feed s d with
    | none => rfl
    | some r =>
      obtain ⟨s1, e1⟩ := r
      simp only
      rw [ih s1]
      cases fsm_run feed s1 ds with
      | none => rfl
      | some r1 =>
        obtain ⟨s2, e2⟩ := r1
        simp only
        cases fsm_run feed s2 ds2 with
        | none => rfl
        | some r2 => simp [List.append_assoc]

/-- Along a run from a machine that is stopping, Stopped has been raised once
if the machine is idle at the end and not at all otherwise, provided every
delivery to a stopping machine either reaches the idle state raising Stopped
once or leaves it stopping raising nothing, and the idle machine accepts
no event. -/
theorem fsm_run_stopped_once {S A V F : Type} (inv : S → Prop) (is_idle : S → Bool)
    (is_action : V → Bool) (is_stopped : F → Bool)
    (feed : A → S → V → Option (S × List F))
    (hfeed : ∀ a s v s1 e1, inv s → is_idle s = false → feed a s v = some (s1, e1) →
      (is_idle s1 = true ∧ e1.countP is_stopped = 1)
      ∨ (is_idle s1 = false ∧ inv s1 ∧ e1.countP is_stopped = 0))
    (hidle : ∀ a s v, is_idle s = true → is_action v = false → feed a s v = none)
    (ds : List (A × V)) (s s1 : S) (e1 : List F)
    (hs : inv s) (hn : is_idle s = false) (hds : ∀ d ∈ ds, is_action d.2 = false)
    (hrun : fsm_run (fun x d => feed d.1 x d.2) s ds = some (s1, e1)) :
    (is_idle s1 = true ∧ e1.countP is_stopped = 1)
    ∨ (is_idle s1 = false ∧ inv s1 ∧ e1.countP is_stopped = 0) := by
  induction ds generalizing s e1 with
  | nil =>
    simp only [fsm_run, Option.some.injEq, Prod.mk.injEq] at hrun
    obtain ⟨h1, h2⟩ := hrun
    subst h1
    subst h2
    exact Or.inr ⟨hn, hs, rfl⟩
  | cons d ds ih =>
    simp only [fsm_run] at hrun
    cases hf : feed d.1 s d.2 with
    | none => simp [hf] at hrun
    | some r =>
      obtain ⟨s2, e2⟩ := r
      simp only [hf] at hrun
      cases hr : fsm_run (fun x d => feed d.1 x d.2) s2 ds with
      | none => simp [hr] at hrun
      | some r2 =>
        obtain ⟨s3, e3⟩ := r2
        simp only [hr, Option.some.injEq, Prod.mk.injEq] at hrun
        obtain ⟨h1, h2⟩ := hrun
        subst h1
        subst h2
        have hds2 : ∀ d ∈ ds, is_action d.2 = false := fun x hx => hds x (List.mem_cons_of_mem _ hx)
        rcases hfeed d.1 s d.2 s2 e2 hs hn hf with ⟨hi, hc⟩ | ⟨hi, hv, hc⟩
        · cases ds with
          | nil =>
            simp only [fsm_run, Option.some.injEq, Prod.mk.injEq] at hr
            obtain ⟨h1, h2⟩ := hr
            subst h1
            subst h2
            exact Or.inl ⟨hi, by simpa using hc⟩
          | cons d2 ds2 =>
            simp only [fsm_run] at hr
            rw [hidle d2.1 s2 d2.2 hi (hds2 d2 (List.mem_cons_self _ _))] at hr
            simp at hr
        · rcases ih s2 e3 hv hi hds2 hr with ⟨hj, hd⟩ | ⟨hj, hw, hd⟩
          · exact Or.inl ⟨hj, by simp [List.countP_append, hc, hd]⟩
          · exact Or.inr ⟨hj, hw, by simp [List.countP_append, hc, hd]⟩

/-- The stop contract follows from three facts about single invocations: the
stop call from a running state, a delivery to a stopping machine, and a
delivery of an event to the idle machine. -/
theorem stops_exactly_once_of_steps {S A V F : Type} (running inv : S → Prop)
    (is_idle : S → Bool) (children_idle : A → Prop) (is_action : V → Bool)
    (is_stopped : F → Bool) (stop : A → S → Option (S × List F))
    (feed : A → S → V → Option (S × List F))
    (hstop : ∀ a s, running s → ∃ s1 e1, stop a s = some (s1, e1) ∧
      ((is_idle s1 = true ∧ e1.countP is_stopped = 1)
        ∨ (is_idle s1 = false ∧ inv s1 ∧ e1.countP is_stopped = 0))
      ∧ (children_idle a → is_idle s1 = true))
    (hfeed : ∀ a s v, inv s → is_idle s = false → ∃ s1 e1, feed a s v = some (s1, e1) ∧
      ((is_idle s1 = true ∧ e1.countP is_stopped = 1)
        ∨ (is_idle s1 = false ∧ inv s1 ∧ e1.countP is_stopped = 0))
      ∧ (children_idle a → is_idle s1 = true))
    (hidle : ∀ a s v, is_idle s = true → is_action v = false → feed a s v = none) :
    stops_exactly_once running is_idle children_idle is_action is_stopped stop feed := by
  intro s a0 hrun
  obtain ⟨s1, e1, hs, hok, hch⟩ := hstop a0 s hrun
  refine ⟨⟨s1, e1, hs, hch⟩, ?_⟩
  intro ds s2 e2 hds hr
  simp only [fsm_stop_run, hs] at hr
  cases hq : fsm_run (fun x d => feed d.1 x d.2) s1 ds with
  | none => simp [hq] at hr
  | some r =>
    obtain ⟨s3, e3⟩ := r
    simp only [hq, Option.some.injEq, Prod.mk.injEq] at hr
    obtain ⟨h1, h2⟩ := hr
    subst h1
    subst h2
    have hfeed2 : ∀ a s v s1 e1, inv s → is_idle s = false → feed a s v = some (s1, e1) →
        (is_idle s1 = true ∧ e1.countP is_stopped = 1)
        ∨ (is_idle s1 = false ∧ inv s1 ∧ e1.countP is_stopped = 0) := by
      intro a s v s1 e1 hv hi hf
      obtain ⟨s4, e4, hf4, hok4, _⟩ := hfeed a s v hv hi
      rw [hf4] at hf
      simp only [Option.some.injEq, Prod.mk.injEq] at hf
      obtain ⟨h1, h2⟩ := hf
      subst h1
      subst h2
      exact hok4
    have hfinal : (is_idle s3 = true ∧ (e1 ++ e3).countP is_stopped = 1)
        ∨ (is_idle s3 = false ∧ inv s3 ∧ (e1 ++ e3).countP is_stopped = 0) := by
      rcases hok with ⟨hi, hc⟩ | ⟨hi, hv, hc⟩
      · cases ds with
        | nil =>
          simp only [fsm_run, Option.some.injEq, Prod.mk.injEq] at hq
          obtain ⟨h1, h2⟩ := hq
          subst h1
          subst h2
          exact Or.inl ⟨hi, by simpa using hc⟩
        | cons d2 ds2 =>
          simp only [fsm_run] at hq
          rw [hidle d2.1 s1 d2.2 hi (hds d2 (List.mem_cons_self _ _))] at hq
          simp at hq
      · rcases fsm_run_stopped_once inv is_idle is_action is_stopped feed hfeed2 hidle
          ds s1 s3 e3 hv hi hds hq with ⟨hj, hd⟩ | ⟨hj, hw, hd⟩
        · exact Or.inl ⟨hj, by simp [List.countP_append, hc, hd]⟩
        · exact Or.inr ⟨hj, hw, by simp [List.countP_append, hc, hd]⟩
    rcases hfinal with ⟨hj, hd⟩ | ⟨hj, hw, hd⟩
    · refine ⟨by simp [hj, hd], ?_⟩
      intro hne
      rw [hj] at hne
      exact absurd hne (by decide)
    · refine ⟨by simp [hj, hd], ?_⟩
      intro _ a v
      obtain ⟨s4, e4, hf4, _, hch4⟩ := hfeed a s3 v hw hj
      exact ⟨s4, e4, hf4, hch4⟩

/-- A result that exists and whose every value has a property gives a value
with the property. -/
theorem exists_result_of_isSome {S F : Type} {o : Option (S × List F)}
    {P : S → List F → Prop} (h1 : o.isSome = true)
    (h2 : ∀ s1 e1, o = some (s1, e1) → P s1 e1) : ∃ s1 e1, o = some (s1, e1) ∧ P s1 e1 := by
  cases o with
  | none => simp at h1
  | some r =>
    obtain ⟨s1, e1⟩ := r
    exact ⟨s1, e1, rfl, h2 s1 e1 rfl⟩

/-- StreamHdr keeps the stop contract: the timer is its only child. -/
theorem nn_streamhdr_stops_exactly_once (ispeer : Nat → Bool) :
    stops_exactly_once nn_streamhdr.running
      (fun s => decide (s.state = NN_STREAMHDR_STATE_IDLE))
      (fun (timer_isidle : Bool) => timer_isidle = true)
      streamhdr_input.is_action Effect.is_stopped
      (fun a s => nn_streamhdr_stop ispeer a s)
      (fun a s v => nn_streamhdr_handler ispeer a s v) := by
  apply stops_exactly_once_of_steps nn_streamhdr.running
    (fun s => s.state = NN_STREAMHDR_STATE_STOPPING)
  · intro a s hs
    apply exists_result_of_isSome
    · cases a <;>
      rcases hs with h | h | h | h | h <;>
      simp [nn_streamhdr_stop, nn_streamhdr_handler, h,
        NN_STREAMHDR_STATE_IDLE, NN_STREAMHDR_STATE_SENDING, NN_STREAMHDR_STATE_RECEIVING,
        NN_STREAMHDR_STATE_STOPPING_TIMER_ERROR, NN_STREAMHDR_STATE_STOPPING_TIMER_DONE,
        NN_STREAMHDR_STATE_DONE, NN_STREAMHDR_STATE_STOPPING]
    · intro s1 e1 h1
      replace h1 := h1.symm
      cases a <;>
      rcases hs with h | h | h | h | h <;>
      simp [nn_streamhdr_stop, nn_streamhdr_handler, h,
        NN_STREAMHDR_STATE_IDLE, NN_STREAMHDR_STATE_SENDING, NN_STREAMHDR_STATE_RECEIVING,
        NN_STREAMHDR_STATE_STOPPING_TIMER_ERROR, NN_STREAMHDR_STATE_STOPPING_TIMER_DONE,
        NN_STREAMHDR_STATE_DONE, NN_STREAMHDR_STATE_STOPPING] at h1 <;>
      obtain ⟨h2, h3⟩ := h1 <;>
      subst h2 <;>
      subst h3 <;>
      simp [Effect.is_stopped, NN_STREAMHDR_STATE_IDLE, NN_STREAMHDR_STATE_STOPPING]
  · intro a s v hs _
    replace hs : s.state = NN_STREAMHDR_STATE_STOPPING := hs
    apply exists_result_of_isSome
    · cases a <;>
      by_cases hv : v = streamhdr_input.fsm nn_fsm_action.NN_FSM_STOP <;>
      simp [nn_streamhdr_handler, hs, hv, NN_STREAMHDR_STATE_IDLE, NN_STREAMHDR_STATE_STOPPING]
    · intro s1 e1 h1
      replace h1 := h1.symm
      cases a <;>
      by_cases hv : v = streamhdr_input.fsm nn_fsm_action.NN_FSM_STOP <;>
      simp [nn_streamhdr_handler, hs, hv, NN_STREAMHDR_STATE_IDLE,
        NN_STREAMHDR_STATE_STOPPING] at h1 <;>
      obtain ⟨h2, h3⟩ := h1 <;>
      subst h2 <;>
      subst h3 <;>
      simp [Effect.is_stopped, NN_STREAMHDR_STATE_IDLE, NN_STREAMHDR_STATE_STOPPING, hs]
  · intro a s v hs hv
    simp only [decide_eq_true_eq] at hs
    cases v with
    | fsm t => simp [streamhdr_input.is_action] at hv
    | usock t =>
      simp [nn_streamhdr_handler, hs, nn_streamhdr_handler_IDLE,
        NN_STREAMHDR_STATE_IDLE, NN_STREAMHDR_STATE_STOPPING]
    | timer t =>
      simp [nn_streamhdr_handler, hs, nn_streamhdr_handler_IDLE,
        NN_STREAMHDR_STATE_IDLE, NN_STREAMHDR_STATE_STOPPING]

/-- The Session keeps the stop contract: the StreamHdr is the child it waits
for. -/
theorem nn_srtipc_stops_exactly_once :
    stops_exactly_once nn_srtipc.running
      (fun s => decide (s.state = NN_SRTIPC_STATE_IDLE))
      (fun (a : Bool × Int) => a.1 = true)
      srtipc_input.is_action Effect.is_stopped
      (fun a s => nn_srtipc_stop a.1 s)
      (fun a s v => nn_srtipc_feed a.1 a.2 s v) := by
  apply stops_exactly_once_of_steps nn_srtipc.running
    (fun s => s.state = NN_SRTIPC_STATE_STOPPING)
  · intro a s hs
    obtain ⟨idle, rc⟩ := a
    apply exists_result_of_isSome
    · cases idle <;>
      rcases hs with h | h | h | h | h <;>
      simp [nn_srtipc_stop, nn_srtipc_shutdown, h,
        NN_SRTIPC_STATE_IDLE, NN_SRTIPC_STATE_PROTOHDR, NN_SRTIPC_STATE_STOPPING_STREAMHDR,
        NN_SRTIPC_STATE_ACTIVE, NN_SRTIPC_STATE_SHUTTING_DOWN, NN_SRTIPC_STATE_DONE,
        NN_SRTIPC_STATE_STOPPING]
    · intro s1 e1 h1
      replace h1 := h1.symm
      cases idle <;>
      rcases hs with h | h | h | h | h <;>
      simp [nn_srtipc_stop, nn_srtipc_shutdown, h,
        NN_SRTIPC_STATE_IDLE, NN_SRTIPC_STATE_PROTOHDR, NN_SRTIPC_STATE_STOPPING_STREAMHDR,
        NN_SRTIPC_STATE_ACTIVE, NN_SRTIPC_STATE_SHUTTING_DOWN, NN_SRTIPC_STATE_DONE,
        NN_SRTIPC_STATE_STOPPING] at h1 <;>
      obtain ⟨h2, h3⟩ := h1 <;>
      subst h2 <;>
      subst h3 <;>
      simp [Effect.is_stopped, NN_SRTIPC_STATE_IDLE, NN_SRTIPC_STATE_STOPPING]
  · intro a s v hs _
    obtain ⟨idle, rc⟩ := a
    replace hs : s.state = NN_SRTIPC_STATE_STOPPING := hs
    apply exists_result_of_isSome
    · cases idle <;>
      by_cases hv : v = srtipc_input.action nn_fsm_action.NN_FSM_STOP <;>
      simp [nn_srtipc_feed, nn_srtipc_shutdown, hs, hv, NN_SRTIPC_STATE_IDLE,
        NN_SRTIPC_STATE_STOPPING]
    · intro s1 e1 h1
      replace h1 := h1.symm
      cases idle <;>
      by_cases hv : v = srtipc_input.action nn_fsm_action.NN_FSM_STOP <;>
      simp [nn_srtipc_feed, nn_srtipc_shutdown, hs, hv, NN_SRTIPC_STATE_IDLE,
        NN_SRTIPC_STATE_STOPPING] at h1 <;>
      obtain ⟨h2, h3⟩ := h1 <;>
      subst h2 <;>
      subst h3 <;>
      simp [Effect.is_stopped, NN_SRTIPC_STATE_IDLE, NN_SRTIPC_STATE_STOPPING, hs]
  · intro a s v hs hv
    simp only [decide_eq_true_eq] at hs
    cases v with
    | action t => simp [srtipc_input.is_action] at hv
    | usock t =>
      simp [nn_srtipc_feed, nn_srtipc_handler, hs, nn_srtipc_handler_IDLE,
        NN_SRTIPC_STATE_IDLE, NN_SRTIPC_STATE_STOPPING]
    | streamhdr t =>
      simp [nn_srtipc_feed, nn_srtipc_handler, hs, nn_srtipc_handler_IDLE,
        NN_SRTIPC_STATE_IDLE, NN_SRTIPC_STATE_STOPPING]

/-- The ConnectEndpoint keeps the stop contract: it waits for the Session, then
for the backoff timer and the socket. -/
theorem nn_crtipc_stops_exactly_once :
    stops_exactly_once nn_crtipc.running
      (fun s => decide (s.state = NN_CRTIPC_STATE_IDLE))
      (fun (env : ep_env) => env.srtipc_isidle = true ∧ env.backoff_isidle = true
        ∧ env.usock_isidle = true)
      crtipc_input.is_action EpEffect.is_stopped
      (fun env s => nn_crtipc_stop env s)
      (fun env s v => nn_crtipc_feed env s v) := by
  apply stops_exactly_once_of_steps nn_crtipc.running
    (fun s => s.state = NN_CRTIPC_STATE_STOPPING_SRTIPC_FINAL
      ∨ s.state = NN_CRTIPC_STATE_STOPPING)
  · intro env s hs
    apply exists_result_of_isSome
    · cases h1 : env.srtipc_isidle <;> cases h2 : env.usock_isidle <;>
      cases h3 : env.backoff_isidle <;> cases h4 : env.srtipc_isidle_at_stop <;>
      rcases hs with h | h | h | h | h | h <;>
      simp [nn_crtipc_stop, nn_crtipc_shutdown, nn_crtipc_shutdown_STOPPING, h, h1, h2, h3, h4,
        NN_CRTIPC_STATE_IDLE, NN_CRTIPC_STATE_CONNECTING, NN_CRTIPC_STATE_ACTIVE,
        NN_CRTIPC_STATE_STOPPING_SRTIPC, NN_CRTIPC_STATE_STOPPING_USOCK,
        NN_CRTIPC_STATE_WAITING, NN_CRTIPC_STATE_STOPPING_BACKOFF,
        NN_CRTIPC_STATE_STOPPING_SRTIPC_FINAL, NN_CRTIPC_STATE_STOPPING]
    · intro s1 e1 h0
      replace h0 := h0.symm
      cases h1 : env.srtipc_isidle <;> cases h2 : env.usock_isidle <;>
      cases h3 : env.backoff_isidle <;> cases h4 : env.srtipc_isidle_at_stop <;>
      rcases hs with h | h | h | h | h | h <;>
      simp [nn_crtipc_stop, nn_crtipc_shutdown, nn_crtipc_shutdown_STOPPING, h, h1, h2, h3, h4,
        NN_CRTIPC_STATE_IDLE, NN_CRTIPC_STATE_CONNECTING, NN_CRTIPC_STATE_ACTIVE,
        NN_CRTIPC_STATE_STOPPING_SRTIPC, NN_CRTIPC_STATE_STOPPING_USOCK,
        NN_CRTIPC_STATE_WAITING, NN_CRTIPC_STATE_STOPPING_BACKOFF,
        NN_CRTIPC_STATE_STOPPING_SRTIPC_FINAL, NN_CRTIPC_STATE_STOPPING] at h0 <;>
      obtain ⟨h5, h6⟩ := h0 <;>
      subst h5 <;>
      subst h6 <;>
      simp [EpEffect.is_stopped, NN_CRTIPC_STATE_IDLE, NN_CRTIPC_STATE_STOPPING_SRTIPC_FINAL,
        NN_CRTIPC_STATE_STOPPING]
  · intro env s v hs _
    replace hs : s.state = NN_CRTIPC_STATE_STOPPING_SRTIPC_FINAL
      ∨ s.state = NN_CRTIPC_STATE_STOPPING := hs
    apply exists_result_of_isSome
    · cases h1 : env.srtipc_isidle <;> cases h2 : env.usock_isidle <;>
      cases h3 : env.backoff_isidle <;> cases h4 : env.srtipc_isidle_at_stop <;>
      by_cases hv : v = crtipc_input.action nn_fsm_action.NN_FSM_STOP <;>
      rcases hs with h | h <;>
      simp [nn_crtipc_feed, nn_crtipc_shutdown, nn_crtipc_shutdown_STOPPING, h, hv, h1, h2, h3,
        h4, NN_CRTIPC_STATE_IDLE, NN_CRTIPC_STATE_STOPPING_SRTIPC_FINAL,
        NN_CRTIPC_STATE_STOPPING]
    · intro s1 e1 h0
      replace h0 := h0.symm
      cases h1 : env.srtipc_isidle <;> cases h2 : env.usock_isidle <;>
      cases h3 : env.backoff_isidle <;> cases h4 : env.srtipc_isidle_at_stop <;>
      by_cases hv : v = crtipc_input.action nn_fsm_action.NN_FSM_STOP <;>
      rcases hs with h | h <;>
      simp [nn_crtipc_feed, nn_crtipc_shutdown, nn_crtipc_shutdown_STOPPING, h, hv, h1, h2, h3,
        h4, NN_CRTIPC_STATE_IDLE, NN_CRTIPC_STATE_STOPPING_SRTIPC_FINAL,
        NN_CRTIPC_STATE_STOPPING] at h0 <;>
      obtain ⟨h5, h6⟩ := h0 <;>
      subst h5 <;>
      subst h6 <;>
      simp [EpEffect.is_stopped, NN_CRTIPC_STATE_IDLE, NN_CRTIPC_STATE_STOPPING_SRTIPC_FINAL,
        NN_CRTIPC_STATE_STOPPING, h]
  · intro env s v hs hv
    simp only [decide_eq_true_eq] at hs
    cases v with
    | action t => simp [crtipc_input.is_action] at hv
    | usock t =>
      simp [nn_crtipc_feed, nn_crtipc_handler, hs, nn_crtipc_handler_IDLE,
        NN_CRTIPC_STATE_IDLE, NN_CRTIPC_STATE_STOPPING_SRTIPC_FINAL, NN_CRTIPC_STATE_STOPPING]
    | reconnect_timer t =>
      simp [nn_crtipc_feed, nn_crtipc_handler, hs, nn_crtipc_handler_IDLE,
        NN_CRTIPC_STATE_IDLE, NN_CRTIPC_STATE_STOPPING_SRTIPC_FINAL, NN_CRTIPC_STATE_STOPPING]
    | srtipc t =>
      simp [nn_crtipc_feed, nn_crtipc_handler, hs, nn_crtipc_handler_IDLE,
        NN_CRTIPC_STATE_IDLE, NN_CRTIPC_STATE_STOPPING_SRTIPC_FINAL, NN_CRTIPC_STATE_STOPPING]

/-- The AcceptSession keeps the stop contract: it waits for the Session, then
for its socket. -/
theorem nn_artipc_stops_exactly_once :
    stops_exactly_once nn_artipc.running
      (fun s => decide (s.state = NN_ARTIPC_STATE_IDLE))
      (fun (env : ep_env) => env.srtipc_isidle = true ∧ env.usock_isidle = true)
      artipc_input.is_action EpEffect.is_stopped
      (fun env s => nn_artipc_stop env s)
      (fun env s v => nn_artipc_feed env s v) := by
  apply stops_exactly_once_of_steps nn_artipc.running
    (fun s => (s.state = NN_ARTIPC_STATE_STOPPING_SRTIPC_FINAL
        ∨ s.state = NN_ARTIPC_STATE_STOPPING)
      ∧ (s.listener ≠ none → s.listener_owner.fsm ≠ none))
  · intro env s hs
    obtain ⟨hs, hl⟩ := hs
    have hl2 : (s.listener = none ∧ True)
        ∨ (s.listener ≠ none ∧ s.listener_owner.fsm ≠ none) := by
      by_cases h : s.listener = none
      · exact Or.inl ⟨h, trivial⟩
      · exact Or.inr ⟨h, hl h⟩
    apply exists_result_of_isSome
    · cases h1 : env.srtipc_isidle <;> cases h2 : env.usock_isidle <;>
      cases h4 : env.srtipc_isidle_at_stop <;>
      rcases hl2 with ⟨h3, h5⟩ | ⟨h3, h5⟩ <;>
      rcases hs with h | h | h | h | h <;>
      simp [nn_artipc_stop, nn_artipc_shutdown, nn_artipc_shutdown_STOPPING, h, h1, h2, h3, h4,
        h5, NN_ARTIPC_STATE_IDLE, NN_ARTIPC_STATE_ACCEPTING, NN_ARTIPC_STATE_ACTIVE,
        NN_ARTIPC_STATE_STOPPING_SRTIPC, NN_ARTIPC_STATE_STOPPING_USOCK,
        NN_ARTIPC_STATE_DONE, NN_ARTIPC_STATE_STOPPING_SRTIPC_FINAL, NN_ARTIPC_STATE_STOPPING]
    · intro s1 e1 h0
      replace h0 := h0.symm
      cases h1 : env.srtipc_isidle <;> cases h2 : env.usock_isidle <;>
      cases h4 : env.srtipc_isidle_at_stop <;>
      rcases hl2 with ⟨h3, h5⟩ | ⟨h3, h5⟩ <;>
      rcases hs with h | h | h | h | h <;>
      simp [nn_artipc_stop, nn_artipc_shutdown, nn_artipc_shutdown_STOPPING, h, h1, h2, h3, h4,
        h5, NN_ARTIPC_STATE_IDLE, NN_ARTIPC_STATE_ACCEPTING, NN_ARTIPC_STATE_ACTIVE,
        NN_ARTIPC_STATE_STOPPING_SRTIPC, NN_ARTIPC_STATE_STOPPING_USOCK,
        NN_ARTIPC_STATE_DONE, NN_ARTIPC_STATE_STOPPING_SRTIPC_FINAL,
        NN_ARTIPC_STATE_STOPPING] at h0 <;>
      obtain ⟨h6, h7⟩ := h0 <;>
      subst h6 <;>
      subst h7 <;>
      simp [EpEffect.is_stopped, NN_ARTIPC_STATE_IDLE, NN_ARTIPC_STATE_STOPPING_SRTIPC_FINAL,
        NN_ARTIPC_STATE_STOPPING, h3, h5]
  · intro env s v hs _
    obtain ⟨hs, hl⟩ := hs
    have hl2 : (s.listener = none ∧ True)
        ∨ (s.listener ≠ none ∧ s.listener_owner.fsm ≠ none) := by
      by_cases h : s.listener = none
      · exact Or.inl ⟨h, trivial⟩
      · exact Or.inr ⟨h, hl h⟩
    apply exists_result_of_isSome
    · cases h1 : env.srtipc_isidle <;> cases h2 : env.usock_isidle <;>
      cases h4 : env.srtipc_isidle_at_stop <;>
      by_cases hv : v = artipc_input.action nn_fsm_action.NN_FSM_STOP <;>
      rcases hl2 with ⟨h3, h5⟩ | ⟨h3, h5⟩ <;>
      rcases hs with h | h <;>
      simp [nn_artipc_feed, nn_artipc_shutdown, nn_artipc_shutdown_STOPPING, h, hv, h1, h2, h3,
        h4, h5, NN_ARTIPC_STATE_IDLE, NN_ARTIPC_STATE_STOPPING_SRTIPC_FINAL,
        NN_ARTIPC_STATE_STOPPING]
    · intro s1 e1 h0
      replace h0 := h0.symm
      cases h1 : env.srtipc_isidle <;> cases h2 : env.usock_isidle <;>
      cases h4 : env.srtipc_isidle_at_stop <;>
      by_cases hv : v = artipc_input.action nn_fsm_action.NN_FSM_STOP <;>
      rcases hl2 with ⟨h3, h5⟩ | ⟨h3, h5⟩ <;>
      rcases hs with h | h <;>
      simp [nn_artipc_feed, nn_artipc_shutdown, nn_artipc_shutdown_STOPPING, h, hv, h1, h2, h3,
        h4, h5, NN_ARTIPC_STATE_IDLE, NN_ARTIPC_STATE_STOPPING_SRTIPC_FINAL,
        NN_ARTIPC_STATE_STOPPING] at h0 <;>
      obtain ⟨h6, h7⟩ := h0 <;>
      subst h6 <;>
      subst h7 <;>
      simp [EpEffect.is_stopped, NN_ARTIPC_STATE_IDLE, NN_ARTIPC_STATE_STOPPING_SRTIPC_FINAL,
        NN_ARTIPC_STATE_STOPPING, h, h3, h5]
  · intro env s v hs hv
    simp only [decide_eq_true_eq] at hs
    cases v with
    | action t => simp [artipc_input.is_action] at hv
    | usock t =>
      simp [nn_artipc_feed, nn_artipc_handler, hs, nn_artipc_handler_IDLE,
        NN_ARTIPC_STATE_IDLE, NN_ARTIPC_STATE_STOPPING_SRTIPC_FINAL, NN_ARTIPC_STATE_STOPPING]
    | srtipc t =>
      simp [nn_artipc_feed, nn_artipc_handler, hs, nn_artipc_handler_IDLE,
        NN_ARTIPC_STATE_IDLE, NN_ARTIPC_STATE_STOPPING_SRTIPC_FINAL, NN_ARTIPC_STATE_STOPPING]
    | listener t =>
      simp [nn_artipc_feed, nn_artipc_handler, hs, nn_artipc_handler_IDLE,
        NN_ARTIPC_STATE_IDLE, NN_ARTIPC_STATE_STOPPING_SRTIPC_FINAL, NN_ARTIPC_STATE_STOPPING]

/-! ### Shutdown of the BindEndpoint -/

/-- Issuing stop to AcceptSessions raises no Stopped. -/
theorem countP_artipc_stop (l : List Nat) :
    (l.map EpEffect.artipc_stop).countP EpEffect.is_stopped = 0 := by
  induction l with
  | nil => rfl
  | cons a l ih => simp [List.countP_cons, ih, EpEffect.is_stopped]

/-- Releasing AcceptSessions raises no Stopped. -/
theorem countP_brtipc_released (l : List Nat) :
    (brtipc_released l).countP EpEffect.is_stopped = 0 := by
  induction l with
  | nil => rfl
  | cons a l ih =>
    have h : brtipc_released (a :: l)
        = [EpEffect.artipc_term a, EpEffect.free a] ++ brtipc_released l := by
      simp [brtipc_released, List.flatMap_cons]
    rw [h, List.countP_append, ih]
    simp [List.countP_cons, EpEffect.is_stopped]

/-- Releasing two lists of AcceptSessions one after the other. -/
theorem brtipc_released_append (l1 l2 : List Nat) :
    brtipc_released (l1 ++ l2) = brtipc_released l1 ++ brtipc_released l2 := by
  simp [brtipc_released, List.flatMap_append]

/-- In the order of the shutdown Stopped has been raised once if the machine is
idle and not at all otherwise. -/
theorem brtipc_shutdown_order_count (p : Nat) (l : List Nat) (s : nn_brtipc)
    (e : List EpEffect) (h : brtipc_shutdown_order p l s e) :
    e.countP EpEffect.is_stopped = (if s.state = NN_BRTIPC_STATE_IDLE then 1 else 0) := by
  rcases h with ⟨h1, _, _, h4⟩ | ⟨h1, _, _, h4⟩ | ⟨h1, _, _, d, _, h4⟩ | ⟨h1, _, _, d, _, h4⟩
  · subst h4
    simp [h1, NN_BRTIPC_STATE_IDLE, NN_BRTIPC_STATE_STOPPING_ARTIPC, EpEffect.is_stopped]
  · subst h4
    simp [h1, NN_BRTIPC_STATE_IDLE, NN_BRTIPC_STATE_STOPPING_USOCK, EpEffect.is_stopped]
  · subst h4
    rw [List.countP_append, List.countP_append, countP_artipc_stop, countP_brtipc_released]
    simp [h1, NN_BRTIPC_STATE_IDLE, NN_BRTIPC_STATE_STOPPING_ARTIPCS, EpEffect.is_stopped]
  · subst h4
    rw [List.countP_append, List.countP_append, List.countP_append, countP_artipc_stop,
      countP_brtipc_released]
    simp [h1, EpEffect.is_stopped]

/-- The block `artipcs_stopping` on a list that is empty or not. -/
theorem nn_brtipc_shutdown_artipcs_stopping_eq (s : nn_brtipc) (e : List EpEffect) :
    (s.artipcs = [] → nn_brtipc_shutdown_artipcs_stopping s e
      = some ({ s with state := NN_BRTIPC_STATE_IDLE },
          e ++ [EpEffect.fsm_stopped_noevent, EpEffect.epbase_stopped]))
    ∧ (s.artipcs ≠ [] → nn_brtipc_shutdown_artipcs_stopping s e = some (s, e)) := by
  constructor
  · intro h
    simp [nn_brtipc_shutdown_artipcs_stopping, h]
  · intro h
    simp [nn_brtipc_shutdown_artipcs_stopping, h]

/-- A delivery of an event to a BindEndpoint that waits for its pending
AcceptSession or for its socket runs the block of its state. -/
theorem nn_brtipc_feed_draining (a : ep_env) (s : nn_brtipc) (v : brtipc_input)
    (hv : v.is_action = false) :
    (s.state = NN_BRTIPC_STATE_STOPPING_ARTIPC →
      nn_brtipc_feed a s v = nn_brtipc_shutdown_STOPPING_ARTIPC a s [])
    ∧ (s.state = NN_BRTIPC_STATE_STOPPING_USOCK →
      nn_brtipc_feed a s v = nn_brtipc_shutdown_STOPPING_USOCK a s [])
    ∧ (s.state = NN_BRTIPC_STATE_STOPPING_ARTIPCS →
      nn_brtipc_feed a s v = nn_brtipc_shutdown_STOPPING_ARTIPCS s v)
    ∧ (s.state = NN_BRTIPC_STATE_IDLE → nn_brtipc_feed a s v = none) := by
  have hne : v ≠ brtipc_input.action nn_fsm_action.NN_FSM_STOP := by
    intro h
    rw [h] at hv
    simp [brtipc_input.is_action] at hv
  refine ⟨?_, ?_, ?_, ?_⟩
  · intro h
    simp [nn_brtipc_feed, nn_brtipc_shutdown, h, hne, NN_BRTIPC_STATE_STOPPING_ARTIPC]
  · intro h
    simp [nn_brtipc_feed, nn_brtipc_shutdown, h, hne, NN_BRTIPC_STATE_STOPPING_ARTIPC,
      NN_BRTIPC_STATE_STOPPING_USOCK]
  · intro h
    simp [nn_brtipc_feed, nn_brtipc_shutdown, h, hne, NN_BRTIPC_STATE_STOPPING_ARTIPC,
      NN_BRTIPC_STATE_STOPPING_USOCK, NN_BRTIPC_STATE_STOPPING_ARTIPCS]
  · intro h
    cases v with
    | action t => simp [brtipc_input.is_action] at hv
    | usock t =>
      simp [nn_brtipc_feed, nn_brtipc_handler, nn_brtipc_handler_IDLE, h,
        NN_BRTIPC_STATE_IDLE, NN_BRTIPC_STATE_STOPPING_ARTIPC, NN_BRTIPC_STATE_STOPPING_USOCK,
        NN_BRTIPC_STATE_STOPPING_ARTIPCS]
    | artipc q t =>
      simp [nn_brtipc_feed, nn_brtipc_handler, nn_brtipc_handler_IDLE, h,
        NN_BRTIPC_STATE_IDLE, NN_BRTIPC_STATE_STOPPING_ARTIPC, NN_BRTIPC_STATE_STOPPING_USOCK,
        NN_BRTIPC_STATE_STOPPING_ARTIPCS]

/-- The stop call to a running BindEndpoint with the pending AcceptSession `p`
issues stop to `p` and runs the block STOPPING_ARTIPC. -/
theorem nn_brtipc_stop_running (a : ep_env) (s : nn_brtipc) (p : Nat)
    (hs : s.state = NN_BRTIPC_STATE_ACTIVE) (hp : s.artipc = some p) :
    nn_brtipc_stop a s = nn_brtipc_shutdown_STOPPING_ARTIPC a
      { s with state := NN_BRTIPC_STATE_STOPPING_ARTIPC } [EpEffect.artipc_stop p] := by
  simp [nn_brtipc_stop, nn_brtipc_shutdown, hs, hp, NN_BRTIPC_STATE_ACTIVE,
    NN_BRTIPC_STATE_IDLE, NN_BRTIPC_STATE_STOPPING_ARTIPC, NN_BRTIPC_STATE_STOPPING_USOCK,
    NN_BRTIPC_STATE_STOPPING_ARTIPCS]

/-- The calls made before the block `artipcs_stopping` are kept in front of the
calls it makes. -/
theorem nn_brtipc_shutdown_artipcs_stopping_shift (s : nn_brtipc) (e : List EpEffect) :
    nn_brtipc_shutdown_artipcs_stopping s e
      = (nn_brtipc_shutdown_artipcs_stopping s []).map (fun r => (r.1, e ++ r.2)) := by
  by_cases h : s.artipcs = []
  · simp [nn_brtipc_shutdown_artipcs_stopping, h]
  · simp [nn_brtipc_shutdown_artipcs_stopping, h]

/-- The calls made before the block STOPPING_USOCK are kept in front of the
calls it makes. -/
theorem nn_brtipc_shutdown_STOPPING_USOCK_shift (a : ep_env) (s : nn_brtipc)
    (e : List EpEffect) :
    nn_brtipc_shutdown_STOPPING_USOCK a s e
      = (nn_brtipc_shutdown_STOPPING_USOCK a s []).map (fun r => (r.1, e ++ r.2)) := by
  cases h1 : a.usock_isidle
  · simp [nn_brtipc_shutdown_STOPPING_USOCK, h1]
  · by_cases h : s.artipcs = []
    · simp [nn_brtipc_shutdown_STOPPING_USOCK, nn_brtipc_shutdown_artipcs_stopping, h1, h]
    · simp [nn_brtipc_shutdown_STOPPING_USOCK, nn_brtipc_shutdown_artipcs_stopping, h1, h]

/-- The calls made before the block STOPPING_ARTIPC are kept in front of the
calls it makes. -/
theorem nn_brtipc_shutdown_STOPPING_ARTIPC_shift (a : ep_env) (s : nn_brtipc)
    (e : List EpEffect) :
    nn_brtipc_shutdown_STOPPING_ARTIPC a s e
      = (nn_brtipc_shutdown_STOPPING_ARTIPC a s []).map (fun r => (r.1, e ++ r.2)) := by
  cases hp : s.artipc with
  | none => simp [nn_brtipc_shutdown_STOPPING_ARTIPC, hp]
  | some p =>
    cases h0 : a.artipc_isidle
    · simp [nn_brtipc_shutdown_STOPPING_ARTIPC, hp, h0]
    · cases h1 : a.usock_isidle
      · simp [nn_brtipc_shutdown_STOPPING_ARTIPC, nn_brtipc_shutdown_STOPPING_USOCK, hp, h0, h1]
      · by_cases h : s.artipcs = []
        · simp [nn_brtipc_shutdown_STOPPING_ARTIPC, nn_brtipc_shutdown_STOPPING_USOCK,
            nn_brtipc_shutdown_artipcs_stopping, hp, h0, h1, h]
        · simp [nn_brtipc_shutdown_STOPPING_ARTIPC, nn_brtipc_shutdown_STOPPING_USOCK,
            nn_brtipc_shutdown_artipcs_stopping, hp, h0, h1, h]

/-- The block STOPPING_USOCK, entered after the pending AcceptSession `p` was
released, keeps the order of the shutdown and is accepted; it reaches the idle
state or STOPPING_ARTIPCS when the socket reports idle. -/
theorem nn_brtipc_shutdown_STOPPING_USOCK_order (a : ep_env) (s : nn_brtipc) (p : Nat)
    (hs : s.state = NN_BRTIPC_STATE_STOPPING_USOCK) (hp : s.artipc = none) :
    ∃ s1 e1, nn_brtipc_shutdown_STOPPING_USOCK a s
        [EpEffect.artipc_stop p, EpEffect.artipc_term p, EpEffect.free p, EpEffect.usock_stop]
        = some (s1, e1)
      ∧ brtipc_shutdown_order p s.artipcs s1 e1
      ∧ s1.artipcs = s.artipcs
      ∧ (a.usock_isidle = true → s1.state = NN_BRTIPC_STATE_STOPPING_ARTIPCS
          ∨ s1.state = NN_BRTIPC_STATE_IDLE) := by
  cases h1 : a.usock_isidle
  · refine ⟨s, [EpEffect.artipc_stop p, EpEffect.artipc_term p, EpEffect.free p, EpEffect.usock_stop],
      by simp [nn_brtipc_shutdown_STOPPING_USOCK, h1], ?_, rfl, by simp⟩
    exact Or.inr (Or.inl ⟨hs, hp, rfl, rfl⟩)
  · by_cases h : s.artipcs = []
    · refine ⟨{ s with state := NN_BRTIPC_STATE_IDLE },
        [EpEffect.artipc_stop p, EpEffect.artipc_term p, EpEffect.free p, EpEffect.usock_stop]
          ++ [EpEffect.fsm_stopped_noevent, EpEffect.epbase_stopped],
        by simp [nn_brtipc_shutdown_STOPPING_USOCK, nn_brtipc_shutdown_artipcs_stopping, h1, h],
        ?_, rfl, by simp⟩
      refine Or.inr (Or.inr (Or.inr ⟨rfl, hp, h, [], ?_, ?_⟩))
      · simp [h]
      · simp [h, brtipc_released]
    · refine ⟨{ s with state := NN_BRTIPC_STATE_STOPPING_ARTIPCS },
        [EpEffect.artipc_stop p, EpEffect.artipc_term p, EpEffect.free p, EpEffect.usock_stop]
          ++ s.artipcs.map EpEffect.artipc_stop,
        by simp [nn_brtipc_shutdown_STOPPING_USOCK, nn_brtipc_shutdown_artipcs_stopping, h1, h],
        ?_, rfl, by simp⟩
      refine Or.inr (Or.inr (Or.inl ⟨rfl, hp, h, [], ?_, ?_⟩))
      · simp
      · simp [brtipc_released]

/-- The block STOPPING_ARTIPC, entered after stop was issued to the pending
AcceptSession `p`, keeps the order of the shutdown and is accepted; it reaches
the idle state or STOPPING_ARTIPCS when the pending AcceptSession and the socket
report idle. -/
theorem nn_brtipc_shutdown_STOPPING_ARTIPC_order (a : ep_env) (s : nn_brtipc) (p : Nat)
    (hs : s.state = NN_BRTIPC_STATE_STOPPING_ARTIPC) (hp : s.artipc = some p) :
    ∃ s1 e1, nn_brtipc_shutdown_STOPPING_ARTIPC a s [EpEffect.artipc_stop p] = some (s1, e1)
      ∧ brtipc_shutdown_order p s.artipcs s1 e1
      ∧ s1.artipcs = s.artipcs
      ∧ (a.artipc_isidle = true → a.usock_isidle = true →
          s1.state = NN_BRTIPC_STATE_STOPPING_ARTIPCS ∨ s1.state = NN_BRTIPC_STATE_IDLE) := by
  cases h0 : a.artipc_isidle
  · refine ⟨s, [EpEffect.artipc_stop p],
      by simp [nn_brtipc_shutdown_STOPPING_ARTIPC, hp, h0], ?_, rfl, by simp⟩
    exact Or.inl ⟨hs, hp, rfl, rfl⟩
  · obtain ⟨s1, e1, h1, h2, h3, h4⟩ := nn_brtipc_shutdown_STOPPING_USOCK_order a
      { s with artipc := none, state := NN_BRTIPC_STATE_STOPPING_USOCK } p rfl rfl
    refine ⟨s1, e1, ?_, h2, h3, fun _ => h4⟩
    simpa [nn_brtipc_shutdown_STOPPING_ARTIPC, hp, h0] using h1

/-- Stopped from the AcceptSession `q` delivered in STOPPING_ARTIPCS: it is
accepted exactly when `q` is in the list, `q` is erased and released, and the
machine becomes idle, raising Stopped and notifying the endpoint, exactly when
the list is empty then. -/
theorem nn_brtipc_feed_stopped (a : ep_env) (s : nn_brtipc) (q : Nat)
    (hs : s.state = NN_BRTIPC_STATE_STOPPING_ARTIPCS) :
    (q ∉ s.artipcs →
      nn_brtipc_feed a s (brtipc_input.artipc q nn_artipc_event.NN_ARTIPC_STOPPED) = none)
    ∧ (q ∈ s.artipcs → s.artipcs.erase q = [] →
      nn_brtipc_feed a s (brtipc_input.artipc q nn_artipc_event.NN_ARTIPC_STOPPED)
        = some ({ s with artipcs := [], state := NN_BRTIPC_STATE_IDLE },
            [EpEffect.artipc_term q, EpEffect.free q, EpEffect.fsm_stopped_noevent,
             EpEffect.epbase_stopped]))
    ∧ (q ∈ s.artipcs → s.artipcs.erase q ≠ [] →
      nn_brtipc_feed a s (brtipc_input.artipc q nn_artipc_event.NN_ARTIPC_STOPPED)
        = some ({ s with artipcs := s.artipcs.erase q },
            [EpEffect.artipc_term q, EpEffect.free q])) := by
  have h0 := (nn_brtipc_feed_draining a s
    (brtipc_input.artipc q nn_artipc_event.NN_ARTIPC_STOPPED) rfl).2.2.1 hs
  rw [h0]
  refine ⟨?_, ?_, ?_⟩
  · intro h
    simp [nn_brtipc_shutdown_STOPPING_ARTIPCS, nn_list_erase, h]
  · intro h h1
    simp [nn_brtipc_shutdown_STOPPING_ARTIPCS, nn_list_erase, h, h1,
      nn_brtipc_shutdown_artipcs_stopping]
  · intro h h1
    simp [nn_brtipc_shutdown_STOPPING_ARTIPCS, nn_list_erase, h, h1,
      nn_brtipc_shutdown_artipcs_stopping]

/-- In STOPPING_ARTIPCS nothing but Stopped from an AcceptSession is accepted. -/
theorem nn_brtipc_feed_stopping_artipcs (a : ep_env) (s s1 : nn_brtipc) (v : brtipc_input)
    (e1 : List EpEffect) (hs : s.state = NN_BRTIPC_STATE_STOPPING_ARTIPCS)
    (hv : v.is_action = false) (h : nn_brtipc_feed a s v = some (s1, e1)) :
    ∃ q, v = brtipc_input.artipc q nn_artipc_event.NN_ARTIPC_STOPPED := by
  rw [(nn_brtipc_feed_draining a s v hv).2.2.1 hs] at h
  cases v with
  | action t => simp [nn_brtipc_shutdown_STOPPING_ARTIPCS] at h
  | usock t => simp [nn_brtipc_shutdown_STOPPING_ARTIPCS] at h
  | artipc q t =>
    cases t with
    | NN_ARTIPC_ACCEPTED => simp [nn_brtipc_shutdown_STOPPING_ARTIPCS] at h
    | NN_ARTIPC_ERROR => simp [nn_brtipc_shutdown_STOPPING_ARTIPCS] at h
    | NN_ARTIPC_STOPPED => exact ⟨q, rfl⟩

/-- A delivery of an event to a stopping BindEndpoint keeps the order of the
shutdown. -/
theorem nn_brtipc_feed_order (a : ep_env) (p : Nat) (l : List Nat) (s s1 : nn_brtipc)
    (v : brtipc_input) (e e1 : List EpEffect) (ho : brtipc_shutdown_order p l s e)
    (hn : s.state ≠ NN_BRTIPC_STATE_IDLE) (hv : v.is_action = false)
    (h : nn_brtipc_feed a s v = some (s1, e1)) :
    brtipc_shutdown_order p l s1 (e ++ e1) := by
  rcases ho with ⟨h1, h2, h3, h4⟩ | ⟨h1, h2, h3, h4⟩ | ⟨h1, h2, h3, d, h4, h5⟩
    | ⟨h1, _⟩
  · rw [(nn_brtipc_feed_draining a s v hv).1 h1] at h
    obtain ⟨s2, e2, h6, h7, _⟩ := nn_brtipc_shutdown_STOPPING_ARTIPC_order a s p h1 h2
    rw [nn_brtipc_shutdown_STOPPING_ARTIPC_shift, h] at h6
    simp only [Option.map_some', Option.some.injEq, Prod.mk.injEq] at h6
    obtain ⟨h8, h9⟩ := h6
    subst h8
    subst h9
    subst h4
    rw [h3] at h7
    exact h7
  · rw [(nn_brtipc_feed_draining a s v hv).2.1 h1] at h
    obtain ⟨s2, e2, h6, h7, _⟩ := nn_brtipc_shutdown_STOPPING_USOCK_order a s p h1 h2
    rw [nn_brtipc_shutdown_STOPPING_USOCK_shift, h] at h6
    simp only [Option.map_some', Option.some.injEq, Prod.mk.injEq] at h6
    obtain ⟨h8, h9⟩ := h6
    subst h8
    subst h9
    subst h4
    rw [h3] at h7
    exact h7
  · obtain ⟨q, hq⟩ := nn_brtipc_feed_stopping_artipcs a s s1 v e1 h1 hv h
    subst hq
    obtain ⟨f1, f2, f3⟩ := nn_brtipc_feed_stopped a s q h1
    by_cases hm : q ∈ s.artipcs
    · have hperm : ((d ++ [q]) ++ s.artipcs.erase q).Perm l := by
        have h6 : (q :: s.artipcs.erase q).Perm s.artipcs := (List.perm_cons_erase hm).symm
        have h7 : ((d ++ [q]) ++ s.artipcs.erase q).Perm (d ++ s.artipcs) := by
          rw [List.append_assoc]
          exact List.Perm.append_left d h6
        exact h7.trans h4
      by_cases he : s.artipcs.erase q = []
      · rw [f2 hm he] at h
        simp only [Option.some.injEq, Prod.mk.injEq] at h
        obtain ⟨h8, h9⟩ := h
        subst h8
        subst h9
        refine Or.inr (Or.inr (Or.inr ⟨rfl, h2, rfl, d ++ [q], ?_, ?_⟩))
        · rw [he] at hperm
          simpa using hperm
        · rw [h5, brtipc_released_append]
          simp [brtipc_released]
      · rw [f3 hm he] at h
        simp only [Option.some.injEq, Prod.mk.injEq] at h
        obtain ⟨h8, h9⟩ := h
        subst h8
        subst h9
        refine Or.inr (Or.inr (Or.inl ⟨h1, h2, he, d ++ [q], hperm, ?_⟩))
        rw [h5, brtipc_released_append]
        simp [brtipc_released]
    · rw [f1 hm] at h
      simp at h
  · exact absurd h1 hn

/-- Along deliveries of events to a stopping BindEndpoint the order of the
shutdown is kept. -/
theorem nn_brtipc_run_order (p : Nat) (l : List Nat) (ds : List (ep_env × brtipc_input))
    (s s1 : nn_brtipc) (e e1 : List EpEffect) (ho : brtipc_shutdown_order p l s e)
    (hds : ∀ d ∈ ds, d.2.is_action = false)
    (h : fsm_run (fun x d => nn_brtipc_feed d.1 x d.2) s ds = some (s1, e1)) :
    brtipc_shutdown_order p l s1 (e ++ e1) := by
  induction ds generalizing s e e1 with
  | nil =>
    simp only [fsm_run, Option.some.injEq, Prod.mk.injEq] at h
    obtain ⟨h1, h2⟩ := h
    subst h1
    subst h2
    simpa using ho
  | cons d ds ih =>
    simp only [fsm_run] at h
    cases hf : nn_brtipc_feed d.1 s d.2 with
    | none => simp [hf] at h
    | some r =>
      obtain ⟨s2, e2⟩ := r
      simp only [hf] at h
      cases hr : fsm_run (fun x d => nn_brtipc_feed d.1 x d.2) s2 ds with
      | none => simp [hr] at h
      | some r2 =>
        obtain ⟨s3, e3⟩ := r2
        simp only [hr, Option.some.injEq, Prod.mk.injEq] at h
        obtain ⟨h1, h2⟩ := h
        subst h1
        subst h2
        have hd : d.2.is_action = false := hds d (List.mem_cons_self _ _)
        have hn : s.state ≠ NN_BRTIPC_STATE_IDLE := by
          intro hi
          rw [(nn_brtipc_feed_draining d.1 s d.2 hd).2.2.2 hi] at hf
          simp at hf
        have ho2 := nn_brtipc_feed_order d.1 p l s s2 d.2 e e2 ho hn hd hf
        have := ih s2 (e ++ e2) e3 ho2 (fun x hx => hds x (List.mem_cons_of_mem _ hx)) hr
        simpa [List.append_assoc] using this

/-- Stopped from every AcceptSession of the list, in any order, brings a
BindEndpoint in STOPPING_ARTIPCS to the idle state. -/
theorem nn_brtipc_run_stopped_from (ms : List (ep_env × Nat)) (s : nn_brtipc)
    (hs : s.state = NN_BRTIPC_STATE_STOPPING_ARTIPCS) (hne : s.artipcs ≠ [])
    (hperm : (ms.map Prod.snd).Perm s.artipcs) :
    ∃ s2 e2, fsm_run (fun x d => nn_brtipc_feed d.1 x d.2) s (brtipc_stopped_from ms)
        = some (s2, e2) ∧ s2.state = NN_BRTIPC_STATE_IDLE := by
  induction ms generalizing s with
  | nil =>
    simp only [List.map_nil] at hperm
    exact absurd (List.Perm.nil_eq hperm).symm hne
  | cons m ms ih =>
    simp only [List.map_cons] at hperm
    obtain ⟨hm, hrest⟩ := List.cons_perm_iff_perm_erase.mp hperm
    obtain ⟨_, f2, f3⟩ := nn_brtipc_feed_stopped m.1 s m.2 hs
    by_cases he : s.artipcs.erase m.2 = []
    · rw [he] at hrest
      have hms : ms = [] := by
        have := List.Perm.eq_nil hrest
        simpa using this
      subst hms
      refine ⟨{ s with artipcs := [], state := NN_BRTIPC_STATE_IDLE },
        [EpEffect.artipc_term m.2, EpEffect.free m.2, EpEffect.fsm_stopped_noevent,
         EpEffect.epbase_stopped] ++ [], ?_, rfl⟩
      simp only [brtipc_stopped_from, List.map_cons, List.map_nil, fsm_run]
      rw [f2 hm he]
    · obtain ⟨s2, e2, h1, h2⟩ := ih { s with artipcs := s.artipcs.erase m.2 } hs he hrest
      refine ⟨s2, [EpEffect.artipc_term m.2, EpEffect.free m.2] ++ e2, ?_, h2⟩
      have hsplit : brtipc_stopped_from (m :: ms)
          = (m.1, brtipc_input.artipc m.2 nn_artipc_event.NN_ARTIPC_STOPPED)
            :: brtipc_stopped_from ms := by
        simp [brtipc_stopped_from]
      rw [hsplit]
      simp only [fsm_run]
      rw [f3 hm he]
      simp only
      rw [h1]

/-- Stopped from every AcceptSession of the list, in any order, brings a
BindEndpoint that has stopped them all, or that is idle with an empty list, to
the idle state. -/
theorem nn_brtipc_run_stopped_from_idle (ms : List (ep_env × Nat)) (s : nn_brtipc)
    (p : Nat) (l : List Nat) (e : List EpEffect) (ho : brtipc_shutdown_order p l s e)
    (hs : s.state = NN_BRTIPC_STATE_STOPPING_ARTIPCS ∨ s.state = NN_BRTIPC_STATE_IDLE)
    (hperm : (ms.map Prod.snd).Perm s.artipcs) :
    ∃ s2 e2, fsm_run (fun x d => nn_brtipc_feed d.1 x d.2) s (brtipc_stopped_from ms)
        = some (s2, e2) ∧ s2.state = NN_BRTIPC_STATE_IDLE := by
  rcases hs with hs | hs
  · have hne : s.artipcs ≠ [] := by
      rcases ho with ⟨h1, _⟩ | ⟨h1, _⟩ | ⟨_, _, h3, _⟩ | ⟨h1, _⟩
      · rw [hs] at h1
        exact absurd h1 (by decide)
      · rw [hs] at h1
        exact absurd h1 (by decide)
      · exact h3
      · rw [hs] at h1
        exact absurd h1 (by decide)
    exact nn_brtipc_run_stopped_from ms s hs hne hperm
  · have hnil : s.artipcs = [] := by
      rcases ho with ⟨h1, _⟩ | ⟨h1, _⟩ | ⟨h1, _⟩ | ⟨_, _, h3, _⟩
      · rw [hs] at h1
        exact absurd h1 (by decide)
      · rw [hs] at h1
        exact absurd h1 (by decide)
      · rw [hs] at h1
        exact absurd h1 (by decide)
      · exact h3
    rw [hnil] at hperm
    have hms : ms = [] := by
      have := List.Perm.eq_nil hperm
      simpa using this
    subst hms
    exact ⟨s, [], rfl, hs⟩

/-- The BindEndpoint keeps its stop contract. -/
theorem nn_brtipc_stops_exactly_once : brtipc_stops_exactly_once := by
  constructor
  · intro s a0 hrun
    obtain ⟨hst, hpn⟩ := hrun
    obtain ⟨p, hp⟩ := Option.ne_none_iff_exists'.mp hpn
    have hstop := nn_brtipc_stop_running a0 s p hst hp
    obtain ⟨s1, e1, h1, h2, h3, h4⟩ := nn_brtipc_shutdown_STOPPING_ARTIPC_order a0
      { s with state := NN_BRTIPC_STATE_STOPPING_ARTIPC } p rfl hp
    rw [← hstop] at h1
    replace h2 : brtipc_shutdown_order p s.artipcs s1 e1 := h2
    replace h3 : s1.artipcs = s.artipcs := h3
    refine ⟨⟨s1, e1, h1⟩, ?_, ?_⟩
    · intro ds s2 e2 hds hr
      simp only [fsm_stop_run, h1] at hr
      cases hq : fsm_run (fun x d => nn_brtipc_feed d.1 x d.2) s1 ds with
      | none => simp [hq] at hr
      | some r =>
        obtain ⟨s3, e3⟩ := r
        simp only [hq, Option.some.injEq, Prod.mk.injEq] at hr
        obtain ⟨h5, h6⟩ := hr
        subst h5
        subst h6
        exact brtipc_shutdown_order_count p s.artipcs s3 (e1 ++ e3)
          (nn_brtipc_run_order p s.artipcs ds s1 s3 e1 e3 h2 hds hq)
    · intro ms hi1 hi2 hperm
      rw [← h3] at hperm
      obtain ⟨s2, e2, h5, h6⟩ := nn_brtipc_run_stopped_from_idle ms s1 p s.artipcs e1 h2
        (h4 hi1 hi2) hperm
      refine ⟨s2, e1 ++ e2, ?_, h6⟩
      simp only [fsm_stop_run, h1, h5]
  · intro s a v hd hv
    have hstep : ∃ p s1 e0 e1, brtipc_shutdown_order p s.artipcs s e0
        ∧ nn_brtipc_feed a s v = some (s1, e1)
        ∧ brtipc_shutdown_order p s.artipcs s1 (e0 ++ e1) ∧ s1.artipcs = s.artipcs
        ∧ (a.artipc_isidle = true → a.usock_isidle = true →
            s1.state = NN_BRTIPC_STATE_STOPPING_ARTIPCS ∨ s1.state = NN_BRTIPC_STATE_IDLE) := by
      rcases hd with ⟨hst, hpn⟩ | ⟨hst, hp⟩
      · obtain ⟨p, hp⟩ := Option.ne_none_iff_exists'.mp hpn
        obtain ⟨s1, e1, h1, h2, h3, h4⟩ := nn_brtipc_shutdown_STOPPING_ARTIPC_order a s p hst hp
        rw [nn_brtipc_shutdown_STOPPING_ARTIPC_shift,
          ← (nn_brtipc_feed_draining a s v hv).1 hst] at h1
        cases hf : nn_brtipc_feed a s v with
        | none => simp [hf] at h1
        | some r =>
          obtain ⟨s2, e2⟩ := r
          simp only [hf, Option.map_some', Option.some.injEq, Prod.mk.injEq] at h1
          obtain ⟨h5, h6⟩ := h1
          subst h5
          subst h6
          exact ⟨p, s2, [EpEffect.artipc_stop p], e2, Or.inl ⟨hst, hp, rfl, rfl⟩, rfl, h2, h3, h4⟩
      · obtain ⟨s1, e1, h1, h2, h3, h4⟩ := nn_brtipc_shutdown_STOPPING_USOCK_order a s 0 hst hp
        rw [nn_brtipc_shutdown_STOPPING_USOCK_shift,
          ← (nn_brtipc_feed_draining a s v hv).2.1 hst] at h1
        cases hf : nn_brtipc_feed a s v with
        | none => simp [hf] at h1
        | some r =>
          obtain ⟨s2, e2⟩ := r
          simp only [hf, Option.map_some', Option.some.injEq, Prod.mk.injEq] at h1
          obtain ⟨h5, h6⟩ := h1
          subst h5
          subst h6
          exact ⟨0, s2, [EpEffect.artipc_stop 0, EpEffect.artipc_term 0, EpEffect.free 0,
            EpEffect.usock_stop], e2, Or.inr (Or.inl ⟨hst, hp, rfl, rfl⟩), rfl, h2, h3,
            fun _ => h4⟩
    obtain ⟨p, s1, e0, e1, ho0, hf, ho, hl, hidle⟩ := hstep
    refine ⟨⟨s1, e1, hf⟩, ?_⟩
    intro ms hi1 hi2 hperm
    rw [← hl] at hperm
    obtain ⟨s2, e2, h5, h6⟩ := nn_brtipc_run_stopped_from_idle ms s1 p s.artipcs (e0 ++ e1) ho
      (hidle hi1 hi2) hperm
    have hrun : fsm_run (fun x d => nn_brtipc_feed d.1 x d.2) s ((a, v) :: brtipc_stopped_from ms)
        = some (s2, e1 ++ e2) := by
      simp only [fsm_run, hf, h5]
    refine ⟨s2, e1 ++ e2, hrun, h6, ?_⟩
    have hds : ∀ d ∈ brtipc_stopped_from ms, d.2.is_action = false := by
      intro d hd
      simp only [brtipc_stopped_from, List.mem_map] at hd
      obtain ⟨m, _, hm⟩ := hd
      rw [← hm]
      rfl
    have hord := nn_brtipc_run_order p s.artipcs (brtipc_stopped_from ms) s1 s2 (e0 ++ e1) e2
      ho hds h5
    have hc := brtipc_shutdown_order_count p s.artipcs s2 (e0 ++ e1 ++ e2) hord
    have hc0 := brtipc_shutdown_order_count p s.artipcs s (e0) ho0
    have hsn : s.state ≠ NN_BRTIPC_STATE_IDLE := by
      intro hi
      rw [(nn_brtipc_feed_draining a s v hv).2.2.2 hi] at hf
      simp at hf
    rw [if_neg hsn] at hc0
    rw [if_pos h6, List.append_assoc, List.countP_append, hc0] at hc
    simpa using hc

/-! ### C17 -/

/-- C17: each of StreamHdr, Session, AcceptSession, ConnectEndpoint and
BindEndpoint keeps the stop contract. From every state of a started machine the
stop call is accepted; along every sequence of events delivered after it,
Stopped has been raised exactly once if the machine is in IDLE and not at all
otherwise; and a machine that is not yet in IDLE accepts the next event and is
in IDLE after it when its children report idle. The children report idle
through the answers of their `isidle` functions; the accepted AcceptSessions of
a BindEndpoint report through their Stopped events, delivered in
STOPPING_ARTIPCS. -/
theorem C17_stop_raises_stopped_once (ispeer : Nat → Bool) :
    stops_exactly_once nn_streamhdr.running
      (fun s => decide (s.state = NN_STREAMHDR_STATE_IDLE))
      (fun (timer_isidle : Bool) => timer_isidle = true)
      streamhdr_input.is_action Effect.is_stopped
      (fun a s => nn_streamhdr_stop ispeer a s)
      (fun a s v => nn_streamhdr_handler ispeer a s v)
    ∧ stops_exactly_once nn_srtipc.running
      (fun s => decide (s.state = NN_SRTIPC_STATE_IDLE))
      (fun (a : Bool × Int) => a.1 = true)
      srtipc_input.is_action Effect.is_stopped
      (fun a s => nn_srtipc_stop a.1 s)
      (fun a s v => nn_srtipc_feed a.1 a.2 s v)
    ∧ stops_exactly_once nn_artipc.running
      (fun s => decide (s.state = NN_ARTIPC_STATE_IDLE))
      (fun (env : ep_env) => env.srtipc_isidle = true ∧ env.usock_isidle = true)
      artipc_input.is_action EpEffect.is_stopped
      (fun env s => nn_artipc_stop env s)
      (fun env s v => nn_artipc_feed env s v)
    ∧ stops_exactly_once nn_crtipc.running
      (fun s => decide (s.state = NN_CRTIPC_STATE_IDLE))
      (fun (env : ep_env) => env.srtipc_isidle = true ∧ env.backoff_isidle = true
        ∧ env.usock_isidle = true)
      crtipc_input.is_action EpEffect.is_stopped
      (fun env s => nn_crtipc_stop env s)
      (fun env s v => nn_crtipc_feed env s v)
    ∧ brtipc_stops_exactly_once :=
  ⟨nn_streamhdr_stops_exactly_once ispeer, nn_srtipc_stops_exactly_once,
    nn_artipc_stops_exactly_once, nn_crtipc_stops_exactly_once, nn_brtipc_stops_exactly_once⟩

/-- C17 (witness): a Session stopped in ACTIVE while its StreamHdr is not idle
has raised nothing after the stop and one more event, and the Stopped event of
the StreamHdr, with the StreamHdr idle, is accepted and leads to IDLE; a
BindEndpoint with the accepted AcceptSessions 7 and 8, stopped with its pending
AcceptSession and its socket idle, is in IDLE after Stopped from 8 and from
7. -/
theorem C17_stop_raises_stopped_once_witness :
    [Effect.pipebase_stop, Effect.streamhdr_stop].countP Effect.is_stopped = 0
    ∧ (∃ s2 e2,
        nn_srtipc_feed true 0 { (nn_srtipc_init 5) with state := NN_SRTIPC_STATE_STOPPING }
          (srtipc_input.streamhdr nn_streamhdr_event.NN_STREAMHDR_STOPPED) = some (s2, e2)
        ∧ decide (s2.state = NN_SRTIPC_STATE_IDLE) = true)
    ∧ ∃ s2 e2,
        fsm_stop_run (nn_brtipc_stop ep_env_idle)
          (fun (x : nn_brtipc) (d : ep_env × brtipc_input) => nn_brtipc_feed d.1 x d.2)
          { fsm := 1, usock := 2, state := NN_BRTIPC_STATE_ACTIVE, artipc := some 10,
            artipcs := [7, 8] }
          (brtipc_stopped_from [(ep_env_busy, 8), (ep_env_busy, 7)]) = some (s2, e2)
        ∧ s2.state = NN_BRTIPC_STATE_IDLE :=
  have h := ((C17_stop_raises_stopped_once (fun _ => true)).2.1
    { (nn_srtipc_init 5) with state := NN_SRTIPC_STATE_ACTIVE } (false, 0)
    (Or.inr (Or.inr (Or.inl rfl)))).2
    [((false, 0), srtipc_input.usock nn_usock_event.NN_USOCK_SENT)]
    { (nn_srtipc_init 5) with state := NN_SRTIPC_STATE_STOPPING }
    [Effect.pipebase_stop, Effect.streamhdr_stop] (by decide) (by rfl)
  ⟨h.1.trans (by decide),
    (match h.2 (by decide) (true, 0)
        (srtipc_input.streamhdr nn_streamhdr_event.NN_STREAMHDR_STOPPED) with
      | ⟨s2, e2, hf, hi⟩ => ⟨s2, e2, hf, hi rfl⟩),
    ((C17_stop_raises_stopped_once (fun _ => true)).2.2.2.2.1
      { fsm := 1, usock := 2, state := NN_BRTIPC_STATE_ACTIVE, artipc := some 10,
        artipcs := [7, 8] } ep_env_idle ⟨rfl, by decide⟩).2.2
      [(ep_env_busy, 8), (ep_env_busy, 7)] rfl rfl (by decide)⟩

/-! ### C19 -/

/-- C19: in BindEndpoint ACTIVE, Accepted from the pending AcceptSession `p`
puts `p` at the end of the list of accepted AcceptSessions, whose other members
keep their order, allocates a new AcceptSession `q`, initialises it and starts
it on the listening socket of the endpoint, makes it the pending one, and the
state remains ACTIVE. -/
theorem C19_accepted_moves_pending (env : ep_env) (self : nn_brtipc) (p q : Nat)
    (hstate : self.state = NN_BRTIPC_STATE_ACTIVE) (hp : self.artipc = some p)
    (halloc : env.alloc = some q) :
    nn_brtipc_feed env self (brtipc_input.artipc p nn_artipc_event.NN_ARTIPC_ACCEPTED)
      = some ({ self with artipcs := self.artipcs ++ [p], artipc := some q },
          [EpEffect.artipc_init q NN_BRTIPC_SRC_ARTIPC self.fsm,
           EpEffect.artipc_start q self.usock])
    ∧ ({ self with artipcs := self.artipcs ++ [p], artipc := some q } : nn_brtipc).state
      = NN_BRTIPC_STATE_ACTIVE := by
  refine ⟨?_, hstate⟩
  simp [nn_brtipc_feed, nn_brtipc_handler, nn_brtipc_handler_ACTIVE, nn_brtipc_start_accepting,
    hstate, hp, halloc, NN_BRTIPC_STATE_ACTIVE, NN_BRTIPC_STATE_IDLE,
    NN_BRTIPC_STATE_STOPPING_ARTIPC, NN_BRTIPC_STATE_STOPPING_USOCK,
    NN_BRTIPC_STATE_STOPPING_ARTIPCS]

/-- C19 (witness): the pending AcceptSession 10 of an endpoint with the
accepted AcceptSessions 7 and 8 reports Accepted; the new one is allocated at
11. -/
theorem C19_accepted_moves_pending_witness :
    nn_brtipc_feed ep_env_idle
        { fsm := 1, usock := 2, state := NN_BRTIPC_STATE_ACTIVE, artipc := some 10,
          artipcs := [7, 8] }
        (brtipc_input.artipc 10 nn_artipc_event.NN_ARTIPC_ACCEPTED)
      = some ({ fsm := 1, usock := 2, state := NN_BRTIPC_STATE_ACTIVE, artipc := some 11,
                artipcs := [7, 8, 10] },
          [EpEffect.artipc_init 11 NN_BRTIPC_SRC_ARTIPC 1, EpEffect.artipc_start 11 2]) :=
  (C19_accepted_moves_pending ep_env_idle
    { fsm := 1, usock := 2, state := NN_BRTIPC_STATE_ACTIVE, artipc := some 10,
      artipcs := [7, 8] } 10 11 rfl rfl rfl).1

/-! ### C20 -/

/-- C20: the shutdown of a BindEndpoint stopped in ACTIVE with the pending
AcceptSession `p` keeps its order along every sequence of events: stop to `p`;
release of `p` and stop of the listening socket; stop to every accepted
AcceptSession; release of those whose Stopped arrived; and only with the list
empty Stopped and then the notification of the endpoint, after which the calls
are exactly these, with every accepted AcceptSession released. While the
pending AcceptSession is not idle nothing is released and the socket is not
stopped; while the socket is not idle stop is issued to no accepted
AcceptSession; and Stopped from `q` in STOPPING_ARTIPCS is accepted if and only
if `q` is in the list and removes `q` and nothing else. -/
theorem C20_bind_shutdown_order (s : nn_brtipc) (p : Nat) (a0 : ep_env)
    (ds : List (ep_env × brtipc_input)) (s1 : nn_brtipc) (e1 : List EpEffect)
    (hs : s.state = NN_BRTIPC_STATE_ACTIVE) (hp : s.artipc = some p)
    (hds : ∀ d ∈ ds, d.2.is_action = false)
    (hrun : fsm_stop_run (nn_brtipc_stop a0) (fun x d => nn_brtipc_feed d.1 x d.2) s ds
      = some (s1, e1)) :
    brtipc_shutdown_order p s.artipcs s1 e1
    ∧ (a0.artipc_isidle = false →
        nn_brtipc_stop a0 s
          = some ({ s with state := NN_BRTIPC_STATE_STOPPING_ARTIPC }, [EpEffect.artipc_stop p]))
    ∧ (∀ (a : ep_env) (v : brtipc_input) (x : nn_brtipc),
        x.state = NN_BRTIPC_STATE_STOPPING_ARTIPC → x.artipc = some p → v.is_action = false →
        a.artipc_isidle = false → nn_brtipc_feed a x v = some (x, []))
    ∧ (∀ (a : ep_env) (v : brtipc_input) (x : nn_brtipc),
        x.state = NN_BRTIPC_STATE_STOPPING_USOCK → v.is_action = false →
        a.usock_isidle = false → nn_brtipc_feed a x v = some (x, []))
    ∧ (∀ (a : ep_env) (x : nn_brtipc) (q : Nat), x.state = NN_BRTIPC_STATE_STOPPING_ARTIPCS →
        (q ∉ x.artipcs →
          nn_brtipc_feed a x (brtipc_input.artipc q nn_artipc_event.NN_ARTIPC_STOPPED) = none)
        ∧ (q ∈ x.artipcs → ∃ x1 e,
          nn_brtipc_feed a x (brtipc_input.artipc q nn_artipc_event.NN_ARTIPC_STOPPED)
            = some (x1, e)
          ∧ x1.artipcs = x.artipcs.erase q
          ∧ (x.artipcs.Nodup → ∀ r, r ∈ x1.artipcs ↔ r ≠ q ∧ r ∈ x.artipcs)
          ∧ (x1.state = NN_BRTIPC_STATE_IDLE ↔ x1.artipcs = [])
          ∧ (EpEffect.fsm_stopped_noevent ∈ e ↔ x1.artipcs = []))) := by
  refine ⟨?_, ?_, ?_, ?_, ?_⟩
  · have hstop := nn_brtipc_stop_running a0 s p hs hp
    obtain ⟨s2, e2, h1, h2, _⟩ := nn_brtipc_shutdown_STOPPING_ARTIPC_order a0
      { s with state := NN_BRTIPC_STATE_STOPPING_ARTIPC } p rfl hp
    rw [← hstop] at h1
    replace h2 : brtipc_shutdown_order p s.artipcs s2 e2 := h2
    simp only [fsm_stop_run, h1] at hrun
    cases hq : fsm_run (fun x d => nn_brtipc_feed d.1 x d.2) s2 ds with
    | none => simp [hq] at hrun
    | some r =>
      obtain ⟨s3, e3⟩ := r
      simp only [hq, Option.some.injEq, Prod.mk.injEq] at hrun
      obtain ⟨h5, h6⟩ := hrun
      subst h5
      subst h6
      exact nn_brtipc_run_order p s.artipcs ds s2 s3 e2 e3 h2 hds hq
  · intro hi
    rw [nn_brtipc_stop_running a0 s p hs hp]
    simp [nn_brtipc_shutdown_STOPPING_ARTIPC, hp, hi]
  · intro a v x hx hxp hv hi
    rw [(nn_brtipc_feed_draining a x v hv).1 hx]
    simp [nn_brtipc_shutdown_STOPPING_ARTIPC, hxp, hi]
  · intro a v x hx hv hi
    rw [(nn_brtipc_feed_draining a x v hv).2.1 hx]
    simp [nn_brtipc_shutdown_STOPPING_USOCK, hi]
  · intro a x q hx
    obtain ⟨f1, f2, f3⟩ := nn_brtipc_feed_stopped a x q hx
    refine ⟨f1, ?_⟩
    intro hm
    by_cases he : x.artipcs.erase q = []
    · refine ⟨_, _, f2 hm he, he.symm, ?_, ?_, ?_⟩
      · intro hnd r
        have h : r ∈ x.artipcs.erase q ↔ r ≠ q ∧ r ∈ x.artipcs := hnd.mem_erase_iff
        rw [he] at h
        exact h
      · simp
      · simp
    · refine ⟨_, _, f3 hm he, rfl, ?_, ?_, ?_⟩
      · intro hnd r
        exact hnd.mem_erase_iff
      · simp [hx, he, NN_BRTIPC_STATE_IDLE, NN_BRTIPC_STATE_STOPPING_ARTIPCS]
      · simp [he]

/-- C20 (witness): an endpoint with the pending AcceptSession 10 and the
accepted AcceptSessions 7 and 8 is stopped while 10 is not idle; 10 reports
Stopped, then the listening socket, then 8 and 7. -/
theorem C20_bind_shutdown_order_witness :
    fsm_stop_run (nn_brtipc_stop ep_env_busy)
        (fun (x : nn_brtipc) (d : ep_env × brtipc_input) => nn_brtipc_feed d.1 x d.2)
        { fsm := 1, usock := 2, state := NN_BRTIPC_STATE_ACTIVE, artipc := some 10,
          artipcs := [7, 8] }
        [({ ep_env_busy with artipc_isidle := true },
            brtipc_input.artipc 10 nn_artipc_event.NN_ARTIPC_STOPPED),
         (ep_env_idle, brtipc_input.usock nn_usock_event.NN_USOCK_STOPPED),
         (ep_env_busy, brtipc_input.artipc 8 nn_artipc_event.NN_ARTIPC_STOPPED),
         (ep_env_busy, brtipc_input.artipc 7 nn_artipc_event.NN_ARTIPC_STOPPED)]
      = some ({ fsm := 1, usock := 2, state := NN_BRTIPC_STATE_IDLE, artipc := none,
                artipcs := [] },
          [EpEffect.artipc_stop 10, EpEffect.artipc_term 10, EpEffect.free 10,
           EpEffect.usock_stop, EpEffect.artipc_stop 7, EpEffect.artipc_stop 8,
           EpEffect.artipc_term 8, EpEffect.free 8, EpEffect.artipc_term 7, EpEffect.free 7,
           EpEffect.fsm_stopped_noevent, EpEffect.epbase_stopped])
    ∧ brtipc_shutdown_order 10 [7, 8]
        { fsm := 1, usock := 2, state := NN_BRTIPC_STATE_IDLE, artipc := none, artipcs := [] }
        [EpEffect.artipc_stop 10, EpEffect.artipc_term 10, EpEffect.free 10,
         EpEffect.usock_stop, EpEffect.artipc_stop 7, EpEffect.artipc_stop 8,
         EpEffect.artipc_term 8, EpEffect.free 8, EpEffect.artipc_term 7, EpEffect.free 7,
         EpEffect.fsm_stopped_noevent, EpEffect.epbase_stopped]
    ∧ nn_brtipc_stop ep_env_busy
        { fsm := 1, usock := 2, state := NN_BRTIPC_STATE_ACTIVE, artipc := some 10,
          artipcs := [7, 8] }
      = some ({ fsm := 1, usock := 2, state := NN_BRTIPC_STATE_STOPPING_ARTIPC,
                artipc := some 10, artipcs := [7, 8] }, [EpEffect.artipc_stop 10]) :=
  have hrun : fsm_stop_run (nn_brtipc_stop ep_env_busy)
        (fun (x : nn_brtipc) (d : ep_env × brtipc_input) => nn_brtipc_feed d.1 x d.2)
        { fsm := 1, usock := 2, state := NN_BRTIPC_STATE_ACTIVE, artipc := some 10,
          artipcs := [7, 8] }
        [({ ep_env_busy with artipc_isidle := true },
            brtipc_input.artipc 10 nn_artipc_event.NN_ARTIPC_STOPPED),
         (ep_env_idle, brtipc_input.usock nn_usock_event.NN_USOCK_STOPPED),
         (ep_env_busy, brtipc_input.artipc 8 nn_artipc_event.NN_ARTIPC_STOPPED),
         (ep_env_busy, brtipc_input.artipc 7 nn_artipc_event.NN_ARTIPC_STOPPED)]
      = some ({ fsm := 1, usock := 2, state := NN_BRTIPC_STATE_IDLE, artipc := none,
                artipcs := [] },
          [EpEffect.artipc_stop 10, EpEffect.artipc_term 10, EpEffect.free 10,
           EpEffect.usock_stop, EpEffect.artipc_stop 7, EpEffect.artipc_stop 8,
           EpEffect.artipc_term 8, EpEffect.free 8, EpEffect.artipc_term 7, EpEffect.free 7,
           EpEffect.fsm_stopped_noevent, EpEffect.epbase_stopped]) := by decide
  have h := C20_bind_shutdown_order
    { fsm := 1, usock := 2, state := NN_BRTIPC_STATE_ACTIVE, artipc := some 10,
      artipcs := [7, 8] } 10 ep_env_busy _ _ _ rfl rfl (by decide) hrun
  ⟨hrun, h.1, h.2.1 rfl⟩


/-! ### Ownership of the listening socket -/

/-- The stop call of an AcceptSession keeps the listener or returns it. -/
theorem nn_artipc_stop_keeps_or_returns (env : ep_env) (a a1 : nn_artipc) (e : List EpEffect)
    (ha : a.listener_states) (h : nn_artipc_stop env a = some (a1, e)) :
    artipc_keeps_or_returns a a1 e := by
  replace h := h.symm
  by_cases h1 : a.state = 1
  · simp [nn_artipc_stop, h1, NN_ARTIPC_STATE_IDLE] at h
  by_cases h2 : a.state = 7
  · simp only [nn_artipc_stop, h2, NN_ARTIPC_STATE_IDLE, NN_ARTIPC_STATE_STOPPING_SRTIPC_FINAL,
      true_or, if_true, Option.some.injEq, Prod.mk.injEq] at h
    simp only [if_neg (show ¬ (7 : Nat) = 1 by decide), Option.some.injEq, Prod.mk.injEq] at h
    obtain ⟨h3, h4⟩ := h
    subst h3
    subst h4
    exact ⟨rfl, ha, Or.inl ⟨rfl, rfl, fun _ => rfl, fun q => by simp [artipc_raised]⟩⟩
  by_cases h3 : a.state = 8
  · simp only [nn_artipc_stop, h3, NN_ARTIPC_STATE_IDLE, NN_ARTIPC_STATE_STOPPING,
      or_true, if_true, Option.some.injEq, Prod.mk.injEq] at h
    simp only [if_neg (show ¬ (8 : Nat) = 1 by decide), Option.some.injEq, Prod.mk.injEq] at h
    obtain ⟨h3, h4⟩ := h
    subst h3
    subst h4
    exact ⟨rfl, ha, Or.inl ⟨rfl, rfl, fun _ => rfl, fun q => by simp [artipc_raised]⟩⟩
  · obtain ⟨ha1, ha2⟩ := ha
    have hl2 : (a.listener = none ∧ True) ∨ (a.listener ≠ none ∧ True) := by
      by_cases hl : a.listener = none
      · exact Or.inl ⟨hl, trivial⟩
      · exact Or.inr ⟨hl, trivial⟩
    by_cases hf : a.listener_owner.fsm = none <;>
    cases h5 : env.srtipc_isidle <;> cases h6 : env.usock_isidle <;>
    cases h7 : env.srtipc_isidle_at_stop <;>
    rcases hl2 with ⟨h8, -⟩ | ⟨h8, -⟩ <;>
    simp [nn_artipc_stop, nn_artipc_shutdown, nn_artipc_shutdown_STOPPING, h1, h2, h3, h5, h6,
      h7, h8, hf, NN_ARTIPC_STATE_IDLE, NN_ARTIPC_STATE_STOPPING_SRTIPC_FINAL,
      NN_ARTIPC_STATE_STOPPING] at h <;>
    obtain ⟨h9, h10⟩ := h <;>
    subst h9 <;>
    subst h10 <;>
    simp [artipc_keeps_or_returns, nn_artipc.listener_states, listener_owner_after,
      artipc_raised, h8, NN_ARTIPC_STATE_IDLE, NN_ARTIPC_STATE_ACCEPTING,
      NN_ARTIPC_STATE_STOPPING_SRTIPC_FINAL, NN_ARTIPC_STATE_STOPPING]

/-- The shutdown handler of an AcceptSession, invoked with an event, keeps the
listener or returns it. -/
theorem nn_artipc_shutdown_keeps_or_returns (env : ep_env) (a a1 : nn_artipc)
    (ev : artipc_input) (e : List EpEffect) (ha : a.listener_states)
    (hev : ev.is_action = false) (hs : a.state = 7 ∨ a.state = 8)
    (h : nn_artipc_shutdown env a ev = some (a1, e)) :
    artipc_keeps_or_returns a a1 e := by
  replace h := h.symm
  have hne : ev ≠ artipc_input.action nn_fsm_action.NN_FSM_STOP := by
    intro h0
    rw [h0] at hev
    simp [artipc_input.is_action] at hev
  obtain ⟨ha1, ha2⟩ := ha
  have hl2 : (a.listener = none ∧ True) ∨ (a.listener ≠ none ∧ True) := by
    by_cases hl : a.listener = none
    · exact Or.inl ⟨hl, trivial⟩
    · exact Or.inr ⟨hl, trivial⟩
  by_cases hf : a.listener_owner.fsm = none <;>
  cases h5 : env.srtipc_isidle <;> cases h6 : env.usock_isidle <;>
  rcases hl2 with ⟨h8, -⟩ | ⟨h8, -⟩ <;>
  rcases hs with h2 | h2 <;>
  simp [nn_artipc_shutdown, nn_artipc_shutdown_STOPPING, hne, h2, h5, h6,
    h8, hf, NN_ARTIPC_STATE_IDLE, NN_ARTIPC_STATE_STOPPING_SRTIPC_FINAL,
    NN_ARTIPC_STATE_STOPPING] at h <;>
  obtain ⟨h9, h10⟩ := h <;>
  subst h9 <;>
  subst h10 <;>
  simp [artipc_keeps_or_returns, nn_artipc.listener_states, listener_owner_after,
    artipc_raised, h8, h2, NN_ARTIPC_STATE_IDLE, NN_ARTIPC_STATE_ACCEPTING,
    NN_ARTIPC_STATE_STOPPING_SRTIPC_FINAL, NN_ARTIPC_STATE_STOPPING]

/-- The handler of an AcceptSession, invoked with an event, keeps the listener
or returns it. -/
theorem nn_artipc_handler_keeps_or_returns (env : ep_env) (a a1 : nn_artipc)
    (ev : artipc_input) (e : List EpEffect) (ha : a.listener_states)
    (hev : ev.is_action = false)
    (h : nn_artipc_handler env a ev = some (a1, e)) :
    artipc_keeps_or_returns a a1 e := by
  replace h := h.symm
  obtain ⟨ha1, ha2⟩ := ha
  simp only [NN_ARTIPC_STATE_ACCEPTING, NN_ARTIPC_STATE_STOPPING_SRTIPC_FINAL,
    NN_ARTIPC_STATE_STOPPING] at ha1 ha2
  by_cases h1 : a.state = 1
  · cases ev <;>
    simp [nn_artipc_handler, nn_artipc_handler_IDLE, h1, NN_ARTIPC_STATE_IDLE,
      artipc_input.is_action] at h hev
  by_cases h2 : a.state = 2
  · have hl := ha2 h2
    cases ev with
    | action t => simp [artipc_input.is_action] at hev
    | srtipc t =>
      simp [nn_artipc_handler, nn_artipc_handler_ACCEPTING, h2, NN_ARTIPC_STATE_IDLE,
        NN_ARTIPC_STATE_ACCEPTING] at h
    | usock t =>
      cases t <;>
      simp [nn_artipc_handler, nn_artipc_handler_ACCEPTING, h2, NN_ARTIPC_STATE_IDLE,
        NN_ARTIPC_STATE_ACCEPTING] at h
      obtain ⟨-, -, h9, h10⟩ := h
      subst h9
      subst h10
      simp [artipc_keeps_or_returns, nn_artipc.listener_states, listener_owner_after,
        artipc_raised, hl, NN_ARTIPC_STATE_ACTIVE, NN_ARTIPC_STATE_ACCEPTING,
        NN_ARTIPC_STATE_STOPPING_SRTIPC_FINAL, NN_ARTIPC_STATE_STOPPING]
    | listener t =>
      cases t <;>
      simp [nn_artipc_handler, nn_artipc_handler_ACCEPTING, h2, NN_ARTIPC_STATE_IDLE,
        NN_ARTIPC_STATE_ACCEPTING] at h
      obtain ⟨h9, h10⟩ := h
      subst h9
      subst h10
      simp [artipc_keeps_or_returns, nn_artipc.listener_states, listener_owner_after,
        artipc_raised, hl, h2, NN_ARTIPC_STATE_ACTIVE, NN_ARTIPC_STATE_ACCEPTING,
        NN_ARTIPC_STATE_STOPPING_SRTIPC_FINAL, NN_ARTIPC_STATE_STOPPING]
  · have hl : a.state = 3 ∨ a.state = 4 ∨ a.state = 5 → a.listener = none := by
      intro h3
      by_contra hc
      have := ha1 hc
      omega
    by_cases h3 : a.state = 3
    · have hl3 := hl (Or.inl h3)
      cases ev with
      | action t => simp [artipc_input.is_action] at hev
      | usock t =>
        simp [nn_artipc_handler, nn_artipc_handler_ACTIVE, h3, NN_ARTIPC_STATE_IDLE,
          NN_ARTIPC_STATE_ACCEPTING, NN_ARTIPC_STATE_ACTIVE] at h
      | listener t =>
        simp [nn_artipc_handler, nn_artipc_handler_ACTIVE, h3, NN_ARTIPC_STATE_IDLE,
          NN_ARTIPC_STATE_ACCEPTING, NN_ARTIPC_STATE_ACTIVE] at h
      | srtipc t =>
        simp [nn_artipc_handler, nn_artipc_handler_ACTIVE, h3, NN_ARTIPC_STATE_IDLE,
          NN_ARTIPC_STATE_ACCEPTING, NN_ARTIPC_STATE_ACTIVE] at h
        obtain ⟨-, h9, h10⟩ := h
        subst h9
        subst h10
        simp [artipc_keeps_or_returns, nn_artipc.listener_states, listener_owner_after,
          artipc_raised, hl3, NN_ARTIPC_STATE_STOPPING_SRTIPC, NN_ARTIPC_STATE_ACCEPTING,
          NN_ARTIPC_STATE_STOPPING_SRTIPC_FINAL, NN_ARTIPC_STATE_STOPPING]
    by_cases h4 : a.state = 4
    · have hl4 := hl (Or.inr (Or.inl h4))
      cases ev with
      | action t => simp [artipc_input.is_action] at hev
      | usock t =>
        simp [nn_artipc_handler, nn_artipc_handler_STOPPING_SRTIPC, h4, NN_ARTIPC_STATE_IDLE,
          NN_ARTIPC_STATE_ACCEPTING, NN_ARTIPC_STATE_ACTIVE, NN_ARTIPC_STATE_STOPPING_SRTIPC] at h
      | listener t =>
        simp [nn_artipc_handler, nn_artipc_handler_STOPPING_SRTIPC, h4, NN_ARTIPC_STATE_IDLE,
          NN_ARTIPC_STATE_ACCEPTING, NN_ARTIPC_STATE_ACTIVE, NN_ARTIPC_STATE_STOPPING_SRTIPC] at h
      | srtipc t =>
        simp [nn_artipc_handler, nn_artipc_handler_STOPPING_SRTIPC, h4, NN_ARTIPC_STATE_IDLE,
          NN_ARTIPC_STATE_ACCEPTING, NN_ARTIPC_STATE_ACTIVE, NN_ARTIPC_STATE_STOPPING_SRTIPC] at h
        split_ifs at h <;>
        simp only [Option.some.injEq, Prod.mk.injEq] at h <;>
        obtain ⟨h9, h10⟩ := h <;>
        subst h9 <;>
        subst h10 <;>
        simp [artipc_keeps_or_returns, nn_artipc.listener_states, listener_owner_after,
          artipc_raised, hl4, h4, NN_ARTIPC_STATE_STOPPING_USOCK, NN_ARTIPC_STATE_ACCEPTING,
          NN_ARTIPC_STATE_STOPPING_SRTIPC_FINAL, NN_ARTIPC_STATE_STOPPING]
    by_cases h5 : a.state = 5
    · have hl5 := hl (Or.inr (Or.inr h5))
      cases ev with
      | action t => simp [artipc_input.is_action] at hev
      | srtipc t =>
        simp [nn_artipc_handler, nn_artipc_handler_STOPPING_USOCK, h5, NN_ARTIPC_STATE_IDLE,
          NN_ARTIPC_STATE_ACCEPTING, NN_ARTIPC_STATE_ACTIVE, NN_ARTIPC_STATE_STOPPING_SRTIPC,
          NN_ARTIPC_STATE_STOPPING_USOCK] at h
      | listener t =>
        simp [nn_artipc_handler, nn_artipc_handler_STOPPING_USOCK, h5, NN_ARTIPC_STATE_IDLE,
          NN_ARTIPC_STATE_ACCEPTING, NN_ARTIPC_STATE_ACTIVE, NN_ARTIPC_STATE_STOPPING_SRTIPC,
          NN_ARTIPC_STATE_STOPPING_USOCK] at h
      | usock t =>
        cases t <;>
        simp [nn_artipc_handler, nn_artipc_handler_STOPPING_USOCK, h5, NN_ARTIPC_STATE_IDLE,
          NN_ARTIPC_STATE_ACCEPTING, NN_ARTIPC_STATE_ACTIVE, NN_ARTIPC_STATE_STOPPING_SRTIPC,
          NN_ARTIPC_STATE_STOPPING_USOCK] at h <;>
        obtain ⟨h9, h10⟩ := h <;>
        subst h9 <;>
        subst h10 <;>
        simp [artipc_keeps_or_returns, nn_artipc.listener_states, listener_owner_after,
          artipc_raised, hl5, h5, NN_ARTIPC_STATE_DONE, NN_ARTIPC_STATE_ACCEPTING,
          NN_ARTIPC_STATE_STOPPING_SRTIPC_FINAL, NN_ARTIPC_STATE_STOPPING]
    · simp [nn_artipc_handler, h1, h2, h3, h4, h5, NN_ARTIPC_STATE_IDLE,
        NN_ARTIPC_STATE_ACCEPTING, NN_ARTIPC_STATE_ACTIVE, NN_ARTIPC_STATE_STOPPING_SRTIPC,
        NN_ARTIPC_STATE_STOPPING_USOCK] at h

/-- A delivery of an event to an AcceptSession keeps the listener or returns
it. -/
theorem nn_artipc_feed_keeps_or_returns (env : ep_env) (a a1 : nn_artipc)
    (ev : artipc_input) (e : List EpEffect) (ha : a.listener_states)
    (hev : ev.is_action = false) (h : nn_artipc_feed env a ev = some (a1, e)) :
    artipc_keeps_or_returns a a1 e := by
  by_cases hs : a.state = 7 ∨ a.state = 8
  · have h2 : nn_artipc_feed env a ev = nn_artipc_shutdown env a ev := by
      simp [nn_artipc_feed, hs, NN_ARTIPC_STATE_STOPPING_SRTIPC_FINAL, NN_ARTIPC_STATE_STOPPING]
    rw [h2] at h
    exact nn_artipc_shutdown_keeps_or_returns env a a1 ev e ha hev hs h
  · have h2 : nn_artipc_feed env a ev = nn_artipc_handler env a ev := by
      simp [nn_artipc_feed, hs, NN_ARTIPC_STATE_STOPPING_SRTIPC_FINAL, NN_ARTIPC_STATE_STOPPING]
    rw [h2] at h
    exact nn_artipc_handler_keeps_or_returns env a a1 ev e ha hev h

/-- The start of a new AcceptSession at `q` on the listener `l`: it holds the
pointer in ACCEPTING, has saved the previous owner, is the owner of the socket
and has raised nothing. -/
theorem nn_artipc_start_new (env : ep_env) (prev : nn_fsm_owner) (q l : Nat) :
    ∃ e, nn_artipc_start env prev (nn_artipc_init q) l
        = some ({ fsm := q, state := NN_ARTIPC_STATE_ACCEPTING, listener := some l,
                  listener_owner := prev }, e)
      ∧ (∀ cur, listener_owner_after cur e = { src := NN_ARTIPC_SRC_LISTENER, fsm := some q })
      ∧ ∀ r, artipc_raised r e = [] := by
  refine ⟨[EpEffect.usock_swap_owner { src := NN_ARTIPC_SRC_LISTENER, fsm := some q },
    EpEffect.usock_accept (some l)], ?_, ?_, ?_⟩
  · simp [nn_artipc_start, nn_artipc_init, nn_artipc_handler, nn_artipc_handler_IDLE,
      NN_ARTIPC_STATE_IDLE]
  · intro cur
    simp [listener_owner_after]
  · intro r
    simp [artipc_raised]

/-- Leaving out more AcceptSessions weakens `owned_but`. -/
theorem bind_world.owned_but_mono (w : bind_world) (t t1 : Nat → Prop)
    (h : w.owned_but t)
    (ht : ∀ p a, w.objs p = some a → a.listener ≠ none → t p → t1 p) :
    w.owned_but t1 := by
  obtain ⟨h1, h2, h3, h4⟩ := h
  refine ⟨h1, ?_, h3, h4⟩
  intro p a hp hl
  obtain ⟨h5, h6, h7⟩ := h2 p a hp hl
  refine ⟨?_, h6, h7⟩
  rcases h5 with h5 | h5
  · exact Or.inl h5
  · exact Or.inr (ht p a hp hl h5)

/-- An invocation of the AcceptSession at `q` that keeps the listener or
returns it keeps the ownership in the world. -/
theorem artipc_absorb_owned_but (w : bind_world) (t : Nat → Prop) (q : Nat)
    (a a1 : nn_artipc) (e : List EpEffect) (h : w.owned_but t) (hq : w.objs q = some a)
    (hk : artipc_keeps_or_returns a a1 e) :
    (artipc_absorb w q a1 e).owned_but t := by
  obtain ⟨h1, h2, h3, h4⟩ := h
  obtain ⟨k1, k2, k3⟩ := hk
  have hfq : a.fsm = q := (h1 q a hq).1
  have hobj : ∀ p, (artipc_absorb w q a1 e).objs p = if p = q then some a1 else w.objs p := by
    intro p
    by_cases hp : p = q
    · subst hp
      simp [artipc_absorb]
    · simp [artipc_absorb, Function.update_noteq hp, hp]
  have hown : (artipc_absorb w q a1 e).owner = listener_owner_after w.owner e := rfl
  have hqu : (artipc_absorb w q a1 e).queue = w.queue ++ artipc_raised q e := rfl
  have hb : (artipc_absorb w q a1 e).b = w.b := rfl
  rcases k3 with ⟨k4, k5, k6, k7⟩ | ⟨k4, k5, k6⟩
  · refine ⟨?_, ?_, ?_, ?_⟩
    · intro p x hp
      rw [hobj] at hp
      by_cases hpq : p = q
      · rw [if_pos hpq] at hp
        simp only [Option.some.injEq] at hp
        subst hp
        exact ⟨by rw [k1, hfq, hpq], k2⟩
      · rw [if_neg hpq] at hp
        exact h1 p x hp
    · intro p x hp hl
      rw [hobj] at hp
      rw [hown, k6, hb]
      by_cases hpq : p = q
      · rw [if_pos hpq] at hp
        simp only [Option.some.injEq] at hp
        subst hp
        rw [k4] at hl
        rw [k5, hpq]
        exact h2 q a hq hl
      · rw [if_neg hpq] at hp
        exact h2 p x hp hl
    · intro hno
      rw [hown, k6, hb]
      apply h3
      intro p x hp
      by_cases hpq : p = q
      · subst hpq
        rw [hq] at hp
        simp only [Option.some.injEq] at hp
        subst hp
        rw [← k4]
        exact hno p a1 (by rw [hobj]; simp)
      · exact hno p x (by rw [hobj, if_neg hpq]; exact hp)
    · intro p x hm hp
      rw [hqu, List.mem_append] at hm
      rw [hobj] at hp
      by_cases hpq : p = q
      · rw [if_pos hpq] at hp
        simp only [Option.some.injEq] at hp
        subst hp
        rcases hm with hm | hm
        · rw [k4]
          exact h4 p a hm (by rw [hpq]; exact hq)
        · exact absurd hm (by rw [hpq]; exact k7 q)
      · rw [if_neg hpq] at hp
        rcases hm with hm | hm
        · exact h4 p x hm hp
        · have hmem : ∀ (es : List EpEffect) (y : Nat × nn_artipc_event),
              y ∈ artipc_raised q es → y.1 = q := by
            intro es
            induction es with
            | nil => intro y hy; simp [artipc_raised] at hy
            | cons z zs ih =>
              intro y hy
              cases z <;> simp only [artipc_raised, List.mem_cons] at hy
              all_goals first
                | exact ih y hy
                | (rcases hy with hy | hy
                   · rw [hy]
                   · exact ih y hy)
          exact absurd (hmem e _ hm) hpq
  · obtain ⟨-, hq6, hq7⟩ := h2 q a hq k4
    have huniq : ∀ p x, w.objs p = some x → x.listener ≠ none → p = q := by
      intro p x hp hl
      obtain ⟨-, hp6, -⟩ := h2 p x hp hl
      rw [hq6] at hp6
      simp only [nn_fsm_owner.mk.injEq, Option.some.injEq, true_and] at hp6
      exact hp6.symm
    have hnone : ∀ p x, (artipc_absorb w q a1 e).objs p = some x → x.listener = none := by
      intro p x hp
      rw [hobj] at hp
      by_cases hpq : p = q
      · rw [if_pos hpq] at hp
        simp only [Option.some.injEq] at hp
        subst hp
        exact k5
      · rw [if_neg hpq] at hp
        by_contra hl
        exact hpq (huniq p x hp hl)
    refine ⟨?_, ?_, ?_, ?_⟩
    · intro p x hp
      rw [hobj] at hp
      by_cases hpq : p = q
      · rw [if_pos hpq] at hp
        simp only [Option.some.injEq] at hp
        subst hp
        exact ⟨by rw [k1, hfq, hpq], k2⟩
      · rw [if_neg hpq] at hp
        exact h1 p x hp
    · intro p x hp hl
      exact absurd (hnone p x hp) hl
    · intro _
      rw [hown, k6, hb]
      exact hq7
    · intro p x _ hp
      exact hnone p x hp

/-- One call of a sequence that creates no AcceptSession, carried out on a
world whose ownership holds but for the AcceptSessions that the sequence is
going to check with `nn_artipc_term`: the same holds for the rest of the
sequence, and an AcceptSession that the rest frees first does not hold the
listener pointer. -/
theorem bind_exec_one_release (envs : Nat → ep_env) (w w1 : bind_world) (x : EpEffect)
    (es : List EpEffect) (hx : x.is_alloc = false) (hnext : x.allows_next es = true)
    (h : w.owned_but (fun p => EpEffect.artipc_term p ∈ x :: es))
    (hfree : ∀ q, x = EpEffect.free q → ∀ a, w.objs q = some a → a.listener = none)
    (hex : bind_exec_one envs w x = some w1) :
    w1.owned_but (fun p => EpEffect.artipc_term p ∈ es) ∧ w1.b = w.b
    ∧ (∀ q es1, es = EpEffect.free q :: es1 → ∀ a, w1.objs q = some a → a.listener = none) := by
  have hnf : ∀ q es1, es = EpEffect.free q :: es1 → x = EpEffect.artipc_term q := by
    intro q es1 he
    rw [he] at hnext
    simpa [EpEffect.allows_next] using hnext
  cases x with
  | artipc_init q s o => simp [EpEffect.is_alloc] at hx
  | artipc_start q l => simp [EpEffect.is_alloc] at hx
  | artipc_stop q =>
    simp only [bind_exec_one] at hex
    cases hq : w.objs q with
    | none => simp [hq] at hex
    | some a =>
      simp only [hq] at hex
      split_ifs at hex with hidle
      · simp only [Option.some.injEq] at hex
        subst hex
        refine ⟨?_, rfl, ?_⟩
        · apply bind_world.owned_but_mono w _ _ h
          intro p x _ _ ht
          simpa using ht
        · intro r es1 he
          exact absurd (hnf r es1 he) (by simp)
      · cases hs : nn_artipc_stop (envs q) a with
        | none => simp [hs] at hex
        | some r =>
          obtain ⟨a1, e⟩ := r
          simp only [hs, Option.some.injEq] at hex
          subst hex
          have hk := nn_artipc_stop_keeps_or_returns (envs q) a a1 e (h.1 q a hq).2 hs
          refine ⟨?_, rfl, ?_⟩
          · apply artipc_absorb_owned_but w _ q a a1 e _ hq hk
            apply bind_world.owned_but_mono w _ _ h
            intro p x _ _ ht
            simpa using ht
          · intro r es1 he
            exact absurd (hnf r es1 he) (by simp)
  | artipc_term q =>
    simp only [bind_exec_one] at hex
    cases hq : w.objs q with
    | none => simp [hq] at hex
    | some a =>
      simp only [hq] at hex
      split_ifs at hex with hidle
      simp only [Option.some.injEq] at hex
      subst hex
      have hnl : a.listener = none := by
        by_contra hl
        have := (h.1 q a hq).2.1 hl
        rw [hidle] at this
        simp [NN_ARTIPC_STATE_IDLE, NN_ARTIPC_STATE_ACCEPTING,
          NN_ARTIPC_STATE_STOPPING_SRTIPC_FINAL, NN_ARTIPC_STATE_STOPPING] at this
      refine ⟨?_, rfl, ?_⟩
      · apply bind_world.owned_but_mono w _ _ h
        intro p x hp hl ht
        simp only [List.mem_cons, EpEffect.artipc_term.injEq] at ht
        rcases ht with ht | ht
        · subst ht
          rw [hq] at hp
          simp only [Option.some.injEq] at hp
          subst hp
          exact absurd hnl hl
        · exact ht
      · intro r es1 he b hb
        have := hnf r es1 he
        simp only [EpEffect.artipc_term.injEq] at this
        subst this
        rw [hq] at hb
        simp only [Option.some.injEq] at hb
        subst hb
        exact hnl
  | free q =>
    simp only [bind_exec_one, Option.some.injEq] at hex
    subst hex
    have hnl := hfree q rfl
    obtain ⟨h1, h2, h3, h4⟩ := h
    have hobj : ∀ p x, (Function.update w.objs q none) p = some x → w.objs p = some x := by
      intro p x hp
      by_cases hpq : p = q
      · subst hpq
        simp at hp
      · rwa [Function.update_noteq hpq] at hp
    refine ⟨⟨?_, ?_, ?_, ?_⟩, rfl, ?_⟩
    · intro p x hp
      exact h1 p x (hobj p x hp)
    · intro p x hp hl
      obtain ⟨h5, h6, h7⟩ := h2 p x (hobj p x hp) hl
      refine ⟨?_, h6, h7⟩
      rcases h5 with h5 | h5
      · exact Or.inl h5
      · exact Or.inr (by simpa using h5)
    · intro hno
      apply h3
      intro p x hp
      by_cases hpq : p = q
      · subst hpq
        exact hnl x hp
      · exact hno p x (by simp only [Function.update_noteq hpq]; exact hp)
    · intro p x hm hp
      exact h4 p x hm (hobj p x hp)
    · intro r es1 he
      exact absurd (hnf r es1 he) (by simp)
  | _ =>
    simp only [bind_exec_one, Option.some.injEq] at hex
    subst hex
    refine ⟨?_, rfl, ?_⟩
    · apply bind_world.owned_but_mono w _ _ h
      intro p x _ _ ht
      simpa using ht
    · intro r es1 he
      exact absurd (hnf r es1 he) (by simp)

/-- A sequence of calls that creates no AcceptSession and frees one only right
after `nn_artipc_term`, carried out on a world whose ownership holds but for
the AcceptSessions that the sequence checks with `nn_artipc_term`, leaves a
world whose ownership holds. -/
theorem bind_exec_release (envs : Nat → ep_env) (es : List EpEffect) (w w1 : bind_world)
    (hs : release_shaped es = true)
    (h : w.owned_but (fun p => EpEffect.artipc_term p ∈ es))
    (hfree : ∀ q es1, es = EpEffect.free q :: es1 → ∀ a, w.objs q = some a → a.listener = none)
    (hex : bind_exec envs w es = some w1) :
    w1.owned ∧ w1.b = w.b := by
  induction es generalizing w with
  | nil =>
    simp only [bind_exec, Option.some.injEq] at hex
    subst hex
    refine ⟨?_, rfl⟩
    apply bind_world.owned_but_mono w _ _ h
    intro p x _ _ ht
    simp at ht
  | cons x es ih =>
    simp only [release_shaped, Bool.and_eq_true, Bool.not_eq_true'] at hs
    obtain ⟨⟨hs1, hs2⟩, hs3⟩ := hs
    simp only [bind_exec] at hex
    cases h1 : bind_exec_one envs w x with
    | none => simp [h1] at hex
    | some w2 =>
      simp only [h1] at hex
      obtain ⟨h2, h3, h4⟩ := bind_exec_one_release envs w w2 x es hs1 hs2 h
        (fun q hq a ha => hfree q es (by rw [hq]) a ha) h1
      obtain ⟨h5, h6⟩ := ih w2 hs3 h2 h4 hex
      exact ⟨h5, by rw [h6, h3]⟩

/-- The creation and the start of a new pending AcceptSession on a world in
which no AcceptSession holds the listener pointer leave a world whose ownership
holds. -/
theorem bind_exec_alloc (envs : Nat → ep_env) (w w1 : bind_world) (q l o : Nat) (s : Int)
    (h : w.owned) (hno : ∀ p a, w.objs p = some a → a.listener = none)
    (hb : w.b.artipc = some q)
    (hex : bind_exec envs w [EpEffect.artipc_init q s o, EpEffect.artipc_start q l]
      = some w1) :
    w1.owned ∧ w1.b = w.b := by
  obtain ⟨h1, h2, h3, h4⟩ := h
  simp only [bind_exec, bind_exec_one] at hex
  split_ifs at hex with hc
  · obtain ⟨e, he1, he2, he3⟩ := nn_artipc_start_new (envs q) w.owner q l
    simp only [Function.update_same, he1, Option.some.injEq] at hex
    subst hex
    obtain ⟨-, hc2⟩ := not_or.mp hc
    have hobj : ∀ p, p ≠ q → ∀ x,
        (Function.update (Function.update w.objs q (some (nn_artipc_init q))) q
          (some { fsm := q, state := NN_ARTIPC_STATE_ACCEPTING, listener := some l,
                  listener_owner := w.owner })) p = some x → w.objs p = some x := by
      intro p hp x hx
      rwa [Function.update_noteq hp, Function.update_noteq hp] at hx
    refine ⟨⟨?_, ?_, ?_, ?_⟩, rfl⟩
    · intro p x hp
      by_cases hpq : p = q
      · subst hpq
        simp only [artipc_absorb, Function.update_same, Option.some.injEq] at hp
        subst hp
        simp [nn_artipc.listener_states]
      · exact h1 p x (hobj p hpq x hp)
    · intro p x hp hl
      by_cases hpq : p = q
      · subst hpq
        simp only [artipc_absorb, Function.update_same, Option.some.injEq] at hp
        subst hp
        refine ⟨Or.inl hb, he2 _, ?_⟩
        exact h3 hno
      · exact absurd (hno p x (hobj p hpq x hp)) hl
    · intro hn
      have := hn q ⟨q, NN_ARTIPC_STATE_ACCEPTING, some l, w.owner⟩ (by simp [artipc_absorb])
      simp at this
    · intro p x hm hp
      simp only [artipc_absorb, he3, List.append_nil] at hm
      by_cases hpq : p = q
      · subst hpq
        exact absurd (List.mem_map_of_mem Prod.fst hm) hc2
      · exact hno p x (hobj p hpq x hp)

/-- Two sequences of calls that create no AcceptSession and free one only right
after `nn_artipc_term`, the second not starting with `nn_free`, make such a
sequence together. -/
theorem release_shaped_append (l1 l2 : List EpEffect) (h1 : release_shaped l1 = true)
    (h2 : release_shaped l2 = true) (h3 : ∀ x : EpEffect, x.allows_next l2 = true) :
    release_shaped (l1 ++ l2) = true ∧ (l1 ≠ [] → ∀ x : EpEffect,
      x.allows_next (l1 ++ l2) = x.allows_next l1) := by
  induction l1 with
  | nil => exact ⟨by simpa using h2, fun h => absurd rfl h⟩
  | cons y ys ih =>
    simp only [release_shaped, Bool.and_eq_true, Bool.not_eq_true'] at h1
    obtain ⟨⟨h4, h5⟩, h6⟩ := h1
    obtain ⟨ih1, ih2⟩ := ih h6
    refine ⟨?_, ?_⟩
    · simp only [List.cons_append, release_shaped, Bool.and_eq_true, Bool.not_eq_true']
      refine ⟨⟨h4, ?_⟩, ih1⟩
      cases ys with
      | nil => simpa using h3 y
      | cons z zs =>
        show y.allows_next (z :: zs ++ l2) = true
        rw [ih2 (by simp)]
        exact h5
    · intro _ x
      cases y <;> rfl

/-- Issuing stop to the AcceptSessions of a list, followed by a sequence that
does not start with `nn_free`, does not start with `nn_free`, and creates no
AcceptSession and frees none if the sequence does not. -/
theorem release_shaped_stops (l : List Nat) (fin : List EpEffect)
    (h2 : release_shaped fin = true) (h3 : ∀ x : EpEffect, x.allows_next fin = true) :
    release_shaped (l.map EpEffect.artipc_stop ++ fin) = true
    ∧ ∀ x : EpEffect, x.allows_next (l.map EpEffect.artipc_stop ++ fin) = true := by
  induction l with
  | nil => exact ⟨by simpa using h2, by simpa using h3⟩
  | cons a l ih =>
    obtain ⟨ih1, ih2⟩ := ih
    refine ⟨?_, ?_⟩
    · simp only [List.map_cons, List.cons_append, release_shaped, Bool.and_eq_true,
        Bool.not_eq_true']
      exact ⟨⟨rfl, ih2 _⟩, ih1⟩
    · intro x
      cases x <;> rfl

/-- The calls of the block STOPPING_USOCK after the ones made before it: they
create no AcceptSession and free none, and the pending AcceptSession is left as
it is. -/
theorem nn_brtipc_shutdown_STOPPING_USOCK_shape (env : ep_env) (s s1 : nn_brtipc)
    (e e1 : List EpEffect) (h : nn_brtipc_shutdown_STOPPING_USOCK env s e = some (s1, e1)) :
    s1.fsm = s.fsm ∧ s1.artipc = s.artipc ∧ ∃ tail, e1 = e ++ tail
      ∧ release_shaped tail = true ∧ ∀ x : EpEffect, x.allows_next tail = true := by
  replace h := h.symm
  cases h1 : env.usock_isidle
  · simp [nn_brtipc_shutdown_STOPPING_USOCK, h1] at h
    obtain ⟨h2, h3⟩ := h
    subst h2
    subst h3
    exact ⟨rfl, rfl, [], by simp, rfl, fun x => by cases x <;> rfl⟩
  · by_cases hl : s.artipcs = []
    · simp [nn_brtipc_shutdown_STOPPING_USOCK, nn_brtipc_shutdown_artipcs_stopping, h1, hl] at h
      obtain ⟨h2, h3⟩ := h
      subst h2
      subst h3
      exact ⟨rfl, rfl, [EpEffect.fsm_stopped_noevent, EpEffect.epbase_stopped], by simp, rfl,
        fun x => by cases x <;> rfl⟩
    · simp [nn_brtipc_shutdown_STOPPING_USOCK, nn_brtipc_shutdown_artipcs_stopping, h1, hl] at h
      obtain ⟨h2, h3⟩ := h
      subst h2
      subst h3
      obtain ⟨h4, h5⟩ := release_shaped_stops s.artipcs [] rfl (fun x => by cases x <;> rfl)
      exact ⟨rfl, rfl, s.artipcs.map EpEffect.artipc_stop ++ [], by simp, h4, h5⟩

/-- The calls of the block STOPPING_ARTIPC after the ones made before it: they
create no AcceptSession and free only the pending one, after `nn_artipc_term`
on it. -/
theorem nn_brtipc_shutdown_STOPPING_ARTIPC_shape (env : ep_env) (s s1 : nn_brtipc)
    (e e1 : List EpEffect) (h : nn_brtipc_shutdown_STOPPING_ARTIPC env s e = some (s1, e1)) :
    s1.fsm = s.fsm ∧ ∃ tail, e1 = e ++ tail
      ∧ release_shaped tail = true ∧ (∀ x : EpEffect, x.allows_next tail = true)
      ∧ (s1.artipc = s.artipc
        ∨ (s1.artipc = none ∧ ∃ p, s.artipc = some p ∧ EpEffect.artipc_term p ∈ tail)) := by
  cases hp : s.artipc with
  | none => simp [nn_brtipc_shutdown_STOPPING_ARTIPC, hp] at h
  | some p =>
    cases h0 : env.artipc_isidle
    · simp [nn_brtipc_shutdown_STOPPING_ARTIPC, hp, h0] at h
      obtain ⟨h2, h3⟩ := h
      subst h2
      subst h3
      exact ⟨rfl, [], by simp, rfl, fun x => by cases x <;> rfl, Or.inl hp⟩
    · simp only [nn_brtipc_shutdown_STOPPING_ARTIPC, hp, h0] at h
      simp only [Bool.true_eq_false, if_false] at h
      obtain ⟨h2, h3, tail, h4, h5, h6⟩ := nn_brtipc_shutdown_STOPPING_USOCK_shape env _ s1 _ e1 h
      refine ⟨h2, [EpEffect.artipc_term p, EpEffect.free p, EpEffect.usock_stop] ++ tail,
        by rw [h4]; simp, ?_, fun x => by cases x <;> rfl, Or.inr ⟨h3, p, rfl, by simp⟩⟩
      exact (release_shaped_append _ tail (by simp [release_shaped, EpEffect.is_alloc,
        EpEffect.allows_next]) h5 h6).1

/-- The calls a BindEndpoint makes on an event: either it puts the pending
AcceptSession, whose Accepted event this is, into the list and creates and
starts a new pending one; or it creates no AcceptSession, frees one only right
after `nn_artipc_term` on it, and leaves the pending one as it is or releases
it. -/
theorem nn_brtipc_feed_shape (env : ep_env) (b b1 : nn_brtipc) (v : brtipc_input)
    (es : List EpEffect) (hv : v.is_action = false)
    (h : nn_brtipc_feed env b v = some (b1, es)) :
    b1.fsm = b.fsm
    ∧ ((∃ q p, es = [EpEffect.artipc_init q NN_BRTIPC_SRC_ARTIPC b.fsm,
                     EpEffect.artipc_start q b.usock]
        ∧ b1.artipc = some q
        ∧ v = brtipc_input.artipc p nn_artipc_event.NN_ARTIPC_ACCEPTED ∧ b.artipc = some p)
      ∨ (release_shaped es = true ∧ (∀ q es1, es ≠ EpEffect.free q :: es1)
        ∧ (b1.artipc = b.artipc
          ∨ (b1.artipc = none ∧ ∃ p, b.artipc = some p ∧ EpEffect.artipc_term p ∈ es)))) := by
  obtain ⟨f3, f4, f5, f1⟩ := nn_brtipc_feed_draining env b v hv
  by_cases h1 : b.state = NN_BRTIPC_STATE_IDLE
  · rw [f1 h1] at h
    simp at h
  by_cases h3 : b.state = NN_BRTIPC_STATE_STOPPING_ARTIPC
  · rw [f3 h3] at h
    obtain ⟨h6, tail, h7, h8, h9, h10⟩ := nn_brtipc_shutdown_STOPPING_ARTIPC_shape env b b1 [] es h
    simp only [List.nil_append] at h7
    subst h7
    refine ⟨h6, Or.inr ⟨h8, ?_, h10⟩⟩
    intro q es1 he
    have := h9 EpEffect.usock_stop
    rw [he] at this
    simp [EpEffect.allows_next] at this
  by_cases h4 : b.state = NN_BRTIPC_STATE_STOPPING_USOCK
  · rw [f4 h4] at h
    obtain ⟨h6, h6b, tail, h7, h8, h9⟩ := nn_brtipc_shutdown_STOPPING_USOCK_shape env b b1 [] es h
    simp only [List.nil_append] at h7
    subst h7
    refine ⟨h6, Or.inr ⟨h8, ?_, Or.inl h6b⟩⟩
    intro q es1 he
    have := h9 EpEffect.usock_stop
    rw [he] at this
    simp [EpEffect.allows_next] at this
  by_cases h5 : b.state = NN_BRTIPC_STATE_STOPPING_ARTIPCS
  · obtain ⟨q, hq⟩ := nn_brtipc_feed_stopping_artipcs env b b1 v es h5 hv h
    subst hq
    obtain ⟨g1, g2, g3⟩ := nn_brtipc_feed_stopped env b q h5
    by_cases hm : q ∈ b.artipcs
    · by_cases he : b.artipcs.erase q = []
      · rw [g2 hm he] at h
        simp only [Option.some.injEq, Prod.mk.injEq] at h
        obtain ⟨h6, h7⟩ := h
        subst h6
        subst h7
        exact ⟨rfl, Or.inr ⟨by simp [release_shaped, EpEffect.is_alloc, EpEffect.allows_next],
          by simp, Or.inl rfl⟩⟩
      · rw [g3 hm he] at h
        simp only [Option.some.injEq, Prod.mk.injEq] at h
        obtain ⟨h6, h7⟩ := h
        subst h6
        subst h7
        exact ⟨rfl, Or.inr ⟨by simp [release_shaped, EpEffect.is_alloc, EpEffect.allows_next],
          by simp, Or.inl rfl⟩⟩
    · rw [g1 hm] at h
      simp at h
  by_cases h2 : b.state = NN_BRTIPC_STATE_ACTIVE
  · have hfeed : nn_brtipc_feed env b v = nn_brtipc_handler_ACTIVE env b v := by
      simp [nn_brtipc_feed, nn_brtipc_handler, h2, NN_BRTIPC_STATE_ACTIVE, NN_BRTIPC_STATE_IDLE,
        NN_BRTIPC_STATE_STOPPING_ARTIPC, NN_BRTIPC_STATE_STOPPING_USOCK,
        NN_BRTIPC_STATE_STOPPING_ARTIPCS]
    rw [hfeed] at h
    replace h := h.symm
    cases v with
    | action t => simp [brtipc_input.is_action] at hv
    | usock t => simp [nn_brtipc_handler_ACTIVE] at h
    | artipc p t =>
      by_cases hp : some p = b.artipc
      · cases t with
        | NN_ARTIPC_ACCEPTED =>
          cases ha : env.alloc with
          | none => simp [nn_brtipc_handler_ACTIVE, hp, nn_brtipc_start_accepting, ha] at h
          | some q =>
            simp [nn_brtipc_handler_ACTIVE, hp, nn_brtipc_start_accepting, ha] at h
            obtain ⟨h6, h7⟩ := h
            subst h6
            subst h7
            exact ⟨rfl, Or.inl ⟨q, p, rfl, rfl, rfl, hp.symm⟩⟩
        | NN_ARTIPC_ERROR => simp [nn_brtipc_handler_ACTIVE, hp] at h
        | NN_ARTIPC_STOPPED => simp [nn_brtipc_handler_ACTIVE, hp] at h
      · cases t with
        | NN_ARTIPC_ACCEPTED => simp [nn_brtipc_handler_ACTIVE, hp] at h
        | NN_ARTIPC_ERROR =>
          simp [nn_brtipc_handler_ACTIVE, hp] at h
          obtain ⟨h6, h7⟩ := h
          subst h6
          subst h7
          exact ⟨rfl, Or.inr ⟨by simp [release_shaped, EpEffect.is_alloc,
            EpEffect.allows_next], by simp, Or.inl rfl⟩⟩
        | NN_ARTIPC_STOPPED =>
          by_cases hm : p ∈ b.artipcs
          · simp [nn_brtipc_handler_ACTIVE, hp, nn_list_erase, hm] at h
            obtain ⟨h6, h7⟩ := h
            subst h6
            subst h7
            exact ⟨rfl, Or.inr ⟨by simp [release_shaped, EpEffect.is_alloc,
              EpEffect.allows_next], by simp, Or.inl rfl⟩⟩
          · simp [nn_brtipc_handler_ACTIVE, hp, nn_list_erase, hm] at h
  · simp [nn_brtipc_feed, nn_brtipc_handler, h1, h2, h3, h4, h5] at h

/-- The calls a BindEndpoint makes on the stop call: it creates no
AcceptSession, frees one only right after `nn_artipc_term` on it, and leaves
the pending one as it is or releases it. -/
theorem nn_brtipc_stop_shape (env : ep_env) (b b1 : nn_brtipc) (es : List EpEffect)
    (h : nn_brtipc_stop env b = some (b1, es)) :
    b1.fsm = b.fsm ∧ release_shaped es = true ∧ (∀ q es1, es ≠ EpEffect.free q :: es1)
    ∧ (b1.artipc = b.artipc
      ∨ (b1.artipc = none ∧ ∃ p, b.artipc = some p ∧ EpEffect.artipc_term p ∈ es)) := by
  by_cases h1 : b.state = NN_BRTIPC_STATE_IDLE
  · simp [nn_brtipc_stop, h1] at h
  by_cases h3 : b.state = NN_BRTIPC_STATE_STOPPING_ARTIPC ∨ b.state = NN_BRTIPC_STATE_STOPPING_USOCK
      ∨ b.state = NN_BRTIPC_STATE_STOPPING_ARTIPCS
  · simp only [nn_brtipc_stop, h1, h3, if_true, if_false, Option.some.injEq, Prod.mk.injEq] at h
    obtain ⟨h6, h7⟩ := h
    subst h6
    subst h7
    exact ⟨rfl, rfl, by simp, Or.inl rfl⟩
  · cases hp : b.artipc with
    | none => simp [nn_brtipc_stop, nn_brtipc_shutdown, h1, h3, hp] at h
    | some p =>
      have hstop : nn_brtipc_stop env b = nn_brtipc_shutdown_STOPPING_ARTIPC env
          { b with state := NN_BRTIPC_STATE_STOPPING_ARTIPC } [EpEffect.artipc_stop p] := by
        simp [nn_brtipc_stop, nn_brtipc_shutdown, h1, h3, hp]
      rw [hstop] at h
      obtain ⟨h6, tail, h7, h8, h9, h10⟩ := nn_brtipc_shutdown_STOPPING_ARTIPC_shape env _ b1 _ es h
      subst h7
      refine ⟨h6, ?_, by simp, ?_⟩
      · exact (release_shaped_append [EpEffect.artipc_stop p] tail
          (by simp [release_shaped, EpEffect.is_alloc, EpEffect.allows_next]) h8 h9).1
      · rcases h10 with h10 | ⟨h10, q, h11, h12⟩
        · exact Or.inl (h10.trans hp)
        · exact Or.inr ⟨h10, q, hp.symm.trans h11, by simp [h12]⟩

/-- The calls a BindEndpoint makes when it is started: it opens the listening
socket and creates and starts the first pending AcceptSession. -/
theorem nn_brtipc_feed_start_shape (env : ep_env) (b b1 : nn_brtipc) (es : List EpEffect)
    (hs : b.state = NN_BRTIPC_STATE_IDLE)
    (h : nn_brtipc_feed env b (brtipc_input.action nn_fsm_action.NN_FSM_START)
      = some (b1, es)) :
    b1.fsm = b.fsm ∧ b.artipc = none ∧ ∃ q, b1.artipc = some q
      ∧ es = [EpEffect.unlink env.addr, EpEffect.usock_start, EpEffect.usock_bind env.addr,
              EpEffect.usock_listen NN_BRTIPC_BACKLOG,
              EpEffect.artipc_init q NN_BRTIPC_SRC_ARTIPC b.fsm,
              EpEffect.artipc_start q b.usock] := by
  replace h := h.symm
  have hfeed : nn_brtipc_feed env b (brtipc_input.action nn_fsm_action.NN_FSM_START)
      = nn_brtipc_handler_IDLE env b (brtipc_input.action nn_fsm_action.NN_FSM_START) := by
    simp [nn_brtipc_feed, nn_brtipc_handler, hs, NN_BRTIPC_STATE_IDLE,
      NN_BRTIPC_STATE_STOPPING_ARTIPC, NN_BRTIPC_STATE_STOPPING_USOCK,
      NN_BRTIPC_STATE_STOPPING_ARTIPCS]
  rw [hfeed] at h
  cases hl : nn_brtipc_start_listening env with
  | none => simp [nn_brtipc_handler_IDLE, hl] at h
  | some e1 =>
    have he1 : e1 = [EpEffect.unlink env.addr, EpEffect.usock_start, EpEffect.usock_bind env.addr,
        EpEffect.usock_listen NN_BRTIPC_BACKLOG] := by
      unfold nn_brtipc_start_listening at hl
      split_ifs at hl
      simpa using hl.symm
    by_cases hp : b.artipc = none
    · cases ha : env.alloc with
      | none => simp [nn_brtipc_handler_IDLE, hl, nn_brtipc_start_accepting, hp, ha] at h
      | some q =>
        simp [nn_brtipc_handler_IDLE, hl, nn_brtipc_start_accepting, hp, ha] at h
        obtain ⟨h6, h7⟩ := h
        subst h6
        subst h7
        exact ⟨rfl, hp, q, rfl, by rw [he1]; rfl⟩
    · simp [nn_brtipc_handler_IDLE, hl, nn_brtipc_start_accepting, hp] at h

/-- Calls of the BindEndpoint that create no AcceptSession keep the ownership
in the world. -/
theorem bind_exec_release_owned (envs : Nat → ep_env) (w w1 : bind_world) (b1 : nn_brtipc)
    (es : List EpEffect) (h : w.owned) (hf : b1.fsm = w.b.fsm)
    (hs : release_shaped es = true) (hnf : ∀ q es1, es ≠ EpEffect.free q :: es1)
    (hp : b1.artipc = w.b.artipc
      ∨ (b1.artipc = none ∧ ∃ p, w.b.artipc = some p ∧ EpEffect.artipc_term p ∈ es))
    (hex : bind_exec envs { w with b := b1 } es = some w1) :
    w1.owned ∧ w1.b = b1 := by
  obtain ⟨h1, h2, h3, h4⟩ := h
  have hk : ({ w with b := b1 } : bind_world).owned_but
      (fun p => EpEffect.artipc_term p ∈ es) := by
    refine ⟨h1, ?_, ?_, h4⟩
    · intro p a hpa hl
      obtain ⟨h5, h6, h7⟩ := h2 p a hpa hl
      refine ⟨?_, h6, by rw [h7]; simp [hf]⟩
      rcases h5 with h5 | h5
      · rcases hp with hp | ⟨-, r, hr, hm⟩
        · exact Or.inl (hp.trans h5)
        · rw [h5] at hr
          simp only [Option.some.injEq] at hr
          subst hr
          exact Or.inr hm
      · exact absurd h5 id
    · intro hno
      rw [h3 hno]
      simp [hf]
  exact bind_exec_release envs es _ w1 hs hk (fun q es1 he => absurd he (hnf q es1)) hex

/-- The creation and the start of a new pending AcceptSession by the
BindEndpoint, when no AcceptSession holds the listener pointer, keep the
ownership in the world. -/
theorem bind_exec_alloc_owned (envs : Nat → ep_env) (w w1 : bind_world) (b1 : nn_brtipc)
    (q l o : Nat) (s : Int) (h : w.owned) (hf : b1.fsm = w.b.fsm)
    (hno : ∀ p a, w.objs p = some a → a.listener = none) (hq : b1.artipc = some q)
    (hex : bind_exec envs { w with b := b1 }
      [EpEffect.artipc_init q s o, EpEffect.artipc_start q l] = some w1) :
    w1.owned ∧ w1.b = b1 := by
  obtain ⟨h1, h2, h3, h4⟩ := h
  have hk : ({ w with b := b1 } : bind_world).owned := by
    refine ⟨h1, ?_, ?_, h4⟩
    · intro p a hpa hl
      exact absurd (hno p a hpa) hl
    · intro hn
      rw [h3 hn]
      simp [hf]
  exact bind_exec_alloc envs _ w1 q l o s hk hno hq hex

/-- Dropping the oldest undelivered event keeps the ownership in the world. -/
theorem bind_world.owned_queue_tail (w : bind_world) (x : Nat × nn_artipc_event)
    (rest : List (Nat × nn_artipc_event)) (h : w.owned) (hq : w.queue = x :: rest) :
    ({ w with queue := rest } : bind_world).owned := by
  obtain ⟨h1, h2, h3, h4⟩ := h
  refine ⟨h1, h2, h3, ?_⟩
  intro p a hm hp
  exact h4 p a (by rw [hq]; exact List.mem_cons_of_mem _ hm) hp

/-- Every step of the world keeps the ownership of the listening socket and the
address of the endpoint. -/
theorem bind_step_owned (w w1 : bind_world) (c : bind_call) (h : w.owned)
    (hstep : bind_step w c = some w1) : w1.owned ∧ w1.b.fsm = w.b.fsm := by
  cases c with
  | create env envs =>
    simp only [bind_step] at hstep
    split_ifs at hstep with hs
    cases hr : nn_brtipc_feed env w.b (brtipc_input.action nn_fsm_action.NN_FSM_START) with
    | none => simp [hr, bind_apply] at hstep
    | some r =>
      obtain ⟨b1, es⟩ := r
      obtain ⟨h1, h2, q, h3, h4⟩ := nn_brtipc_feed_start_shape env w.b b1 es hs hr
      subst h4
      simp only [hr, bind_apply, bind_exec, bind_exec_one] at hstep
      have hno : ∀ p a, w.objs p = some a → a.listener = none := by
        intro p a hp
        by_contra hl
        obtain ⟨h5, -⟩ := h.2.1 p a hp hl
        rcases h5 with h5 | h5
        · rw [h2] at h5
          simp at h5
        · exact h5
      obtain ⟨h6, h7⟩ := bind_exec_alloc_owned envs w w1 b1 q w.b.usock w.b.fsm
        NN_BRTIPC_SRC_ARTIPC h h1 hno h3 (by simpa [bind_exec, bind_exec_one] using hstep)
      exact ⟨h6, by rw [h7, h1]⟩
  | stop env envs =>
    simp only [bind_step] at hstep
    cases hr : nn_brtipc_stop
        { env with artipc_isidle := w.pending_isidle_after_stop envs } w.b with
    | none => simp [hr, bind_apply] at hstep
    | some r =>
      obtain ⟨b1, es⟩ := r
      obtain ⟨h1, h2, h3, h4⟩ := nn_brtipc_stop_shape _ w.b b1 es hr
      simp only [hr, bind_apply] at hstep
      obtain ⟨h6, h7⟩ := bind_exec_release_owned envs w w1 b1 es h h1 h2 h3 h4 hstep
      exact ⟨h6, by rw [h7, h1]⟩
  | deliver env envs =>
    simp only [bind_step] at hstep
    cases hq : w.queue with
    | nil => simp [hq] at hstep
    | cons x rest =>
      obtain ⟨p, t⟩ := x
      simp only [hq] at hstep
      cases hr : nn_brtipc_feed { env with artipc_isidle := w.pending_isidle } w.b
          (brtipc_input.artipc p t) with
      | none => simp [hr, bind_apply] at hstep
      | some r =>
        obtain ⟨b1, es⟩ := r
        simp only [hr, bind_apply] at hstep
        have h0 := bind_world.owned_queue_tail w (p, t) rest h hq
        obtain ⟨h1, h2⟩ := nn_brtipc_feed_shape _ w.b b1 (brtipc_input.artipc p t) es rfl hr
        rcases h2 with ⟨q, p1, h3, h4, h5, h6⟩ | ⟨h3, h4, h5⟩
        · simp only [brtipc_input.artipc.injEq] at h5
          obtain ⟨h7, h8⟩ := h5
          subst h7
          subst h8
          subst h3
          have hno : ∀ r a, w.objs r = some a → a.listener = none := by
            intro r a hp
            by_contra hl
            obtain ⟨h9, -⟩ := h.2.1 r a hp hl
            rcases h9 with h9 | h9
            · rw [h6] at h9
              simp only [Option.some.injEq] at h9
              subst h9
              exact hl (h.2.2.2 p a (by rw [hq]; exact List.mem_cons_self _ _) hp)
            · exact h9
          obtain ⟨h10, h11⟩ := bind_exec_alloc_owned envs { w with queue := rest } w1 b1 q
            w.b.usock w.b.fsm NN_BRTIPC_SRC_ARTIPC h0 h1 hno h4 hstep
          exact ⟨h10, by rw [h11, h1]⟩
        · obtain ⟨h10, h11⟩ := bind_exec_release_owned envs { w with queue := rest } w1 b1 es
            h0 h1 h3 h4 h5 hstep
          exact ⟨h10, by rw [h11, h1]⟩
  | usock type env envs =>
    simp only [bind_step] at hstep
    cases hr : nn_brtipc_feed { env with artipc_isidle := w.pending_isidle } w.b
        (brtipc_input.usock type) with
    | none => simp [hr, bind_apply] at hstep
    | some r =>
      obtain ⟨b1, es⟩ := r
      simp only [hr, bind_apply] at hstep
      obtain ⟨h1, h2⟩ := nn_brtipc_feed_shape _ w.b b1 (brtipc_input.usock type) es rfl hr
      rcases h2 with ⟨q, p1, h3, h4, h5, h6⟩ | ⟨h3, h4, h5⟩
      · simp at h5
      · obtain ⟨h10, h11⟩ := bind_exec_release_owned envs w w1 b1 es h h1 h3 h4 h5 hstep
        exact ⟨h10, by rw [h11, h1]⟩
  | child p ev env =>
    simp only [bind_step] at hstep
    split_ifs at hstep with hev
    cases hp : w.objs p with
    | none => simp [hp] at hstep
    | some a =>
      simp only [hp] at hstep
      cases hr : nn_artipc_feed env a ev with
      | none => simp [hr] at hstep
      | some r =>
        obtain ⟨a1, e⟩ := r
        simp only [hr, Option.some.injEq] at hstep
        subst hstep
        have hk := nn_artipc_feed_keeps_or_returns env a a1 ev e (h.1 p a hp).2
          (by simpa using hev) hr
        exact ⟨artipc_absorb_owned_but w _ p a a1 e h hp hk, rfl⟩

/-- The world before the endpoint is started: the endpoint owns the listening
socket and no AcceptSession exists. -/
theorem bind_world_init_owned (fsm usock : Nat) : (bind_world_init fsm usock).owned := by
  refine ⟨?_, ?_, ?_, ?_⟩
  · intro p a hp
    simp [bind_world_init] at hp
  · intro p a hp
    simp [bind_world_init] at hp
  · intro _
    rfl
  · intro p a hm
    simp [bind_world_init] at hm

/-- Every run of the world keeps the ownership of the listening socket and the
address of the endpoint. -/
theorem bind_run_owned (cs : List bind_call) (w w1 : bind_world) (h : w.owned)
    (hrun : bind_run w cs = some w1) : w1.owned ∧ w1.b.fsm = w.b.fsm := by
  induction cs generalizing w with
  | nil =>
    simp only [bind_run, Option.some.injEq] at hrun
    subst hrun
    exact ⟨h, rfl⟩
  | cons c cs ih =>
    simp only [bind_run] at hrun
    cases hs : bind_step w c with
    | none => simp [hs] at hrun
    | some w2 =>
      simp only [hs] at hrun
      obtain ⟨h1, h2⟩ := bind_step_owned w w2 c h hs
      obtain ⟨h3, h4⟩ := ih w2 h1 hrun
      exact ⟨h3, by rw [h4, h2]⟩

/-! ### C18 -/

/-- C18: in every world reached from the creation of a BindEndpoint by starts,
stops and deliveries of events, an allocated AcceptSession holds the listener
pointer if and only if it is the owner of the listening socket, and the
endpoint is the owner if and only if no AcceptSession holds the pointer; an
AcceptSession that holds the pointer is the pending one and is in ACCEPTING or,
stopped from there, in STOPPING_SRTIPC_FINAL or STOPPING, and in ACCEPTING it
holds the pointer; in ACTIVE, STOPPING_SRTIPC, STOPPING_USOCK, DONE and IDLE it
does not hold it; and no two AcceptSessions hold it. -/
theorem C18_listener_ownership (fsm usock : Nat) (cs : List bind_call) (w : bind_world)
    (hrun : bind_run (bind_world_init fsm usock) cs = some w) :
    (∀ p a, w.objs p = some a →
      (a.listener ≠ none ↔ w.owner = { src := NN_ARTIPC_SRC_LISTENER, fsm := some p }))
    ∧ ((∀ p a, w.objs p = some a → a.listener = none)
      ↔ w.owner = { src := NN_BRTIPC_SRC_USOCK, fsm := some fsm })
    ∧ (∀ p a, w.objs p = some a → a.listener ≠ none →
      w.b.artipc = some p
      ∧ (a.state = NN_ARTIPC_STATE_ACCEPTING ∨ a.state = NN_ARTIPC_STATE_STOPPING_SRTIPC_FINAL
        ∨ a.state = NN_ARTIPC_STATE_STOPPING))
    ∧ (∀ p a, w.objs p = some a → a.state = NN_ARTIPC_STATE_ACCEPTING → a.listener ≠ none)
    ∧ (∀ p a, w.objs p = some a →
      a.state = NN_ARTIPC_STATE_ACTIVE ∨ a.state = NN_ARTIPC_STATE_STOPPING_SRTIPC
        ∨ a.state = NN_ARTIPC_STATE_STOPPING_USOCK ∨ a.state = NN_ARTIPC_STATE_DONE
        ∨ a.state = NN_ARTIPC_STATE_IDLE →
      a.listener = none)
    ∧ (∀ p q a a1, w.objs p = some a → w.objs q = some a1 → a.listener ≠ none →
      a1.listener ≠ none → p = q) := by
  obtain ⟨⟨h1, h2, h3, _⟩, hfsm⟩ := bind_run_owned cs (bind_world_init fsm usock) w
    (bind_world_init_owned fsm usock) hrun
  have hf : w.b.fsm = fsm := hfsm
  rw [hf] at h2 h3
  have huniq : ∀ p q a a1, w.objs p = some a → w.objs q = some a1 → a.listener ≠ none →
      a1.listener ≠ none → p = q := by
    intro p q a a1 hp hq hl hl1
    obtain ⟨-, h5, -⟩ := h2 p a hp hl
    obtain ⟨-, h6, -⟩ := h2 q a1 hq hl1
    rw [h5] at h6
    simpa using h6
  have hsrc : ∀ p : Nat, ({ src := NN_ARTIPC_SRC_LISTENER, fsm := some p } : nn_fsm_owner)
      ≠ { src := NN_BRTIPC_SRC_USOCK, fsm := some fsm } := by
    intro p h
    simp [NN_ARTIPC_SRC_LISTENER, NN_BRTIPC_SRC_USOCK] at h
  refine ⟨?_, ?_, ?_, ?_, ?_, huniq⟩
  · intro p a hp
    constructor
    · intro hl
      exact (h2 p a hp hl).2.1
    · intro ho hl
      by_cases hex : ∀ r x, w.objs r = some x → x.listener = none
      · rw [h3 hex] at ho
        exact hsrc p ho.symm
      · push_neg at hex
        obtain ⟨r, x, hr, hx⟩ := hex
        obtain ⟨-, h5, -⟩ := h2 r x hr hx
        rw [ho] at h5
        simp only [nn_fsm_owner.mk.injEq, Option.some.injEq, true_and] at h5
        subst h5
        rw [hp] at hr
        simp only [Option.some.injEq] at hr
        subst hr
        exact hx hl
  · constructor
    · exact h3
    · intro ho p a hp
      by_contra hl
      obtain ⟨-, h5, -⟩ := h2 p a hp hl
      rw [ho] at h5
      exact hsrc p h5.symm
  · intro p a hp hl
    obtain ⟨h5, -, -⟩ := h2 p a hp hl
    refine ⟨?_, (h1 p a hp).2.1 hl⟩
    rcases h5 with h5 | h5
    · exact h5
    · exact absurd h5 id
  · intro p a hp hs
    exact (h1 p a hp).2.2 hs
  · intro p a hp hs
    by_contra hl
    have := (h1 p a hp).2.1 hl
    simp only [NN_ARTIPC_STATE_ACTIVE, NN_ARTIPC_STATE_STOPPING_SRTIPC,
      NN_ARTIPC_STATE_STOPPING_USOCK, NN_ARTIPC_STATE_DONE, NN_ARTIPC_STATE_IDLE] at hs
    simp only [NN_ARTIPC_STATE_ACCEPTING, NN_ARTIPC_STATE_STOPPING_SRTIPC_FINAL,
      NN_ARTIPC_STATE_STOPPING] at this
    omega

/-- C18 (witness): the endpoint at 1 with the listening socket 2 is created and
allocates its first AcceptSession at 11; the socket of 11 reports Accepted, 11
returns the listening socket; the Accepted event of 11 is delivered and the
endpoint allocates the next AcceptSession at 12, which is the owner then. -/
theorem C18_listener_ownership_witness :
    ∃ w, bind_run (bind_world_init 1 2)
        [bind_call.create ep_env_idle (fun _ => ep_env_busy),
         bind_call.child 11 (artipc_input.usock nn_usock_event.NN_USOCK_ACCEPTED) ep_env_idle,
         bind_call.deliver { ep_env_idle with alloc := some 12 } (fun _ => ep_env_busy)]
        = some w
      ∧ w.b.artipc = some 12 ∧ w.b.artipcs = [11]
      ∧ w.owner = { src := NN_ARTIPC_SRC_LISTENER, fsm := some 12 }
      ∧ (w.objs 11).map (fun a => (a.state, a.listener)) = some (NN_ARTIPC_STATE_ACTIVE, none)
      ∧ (w.objs 12).map (fun a => (a.state, a.listener))
        = some (NN_ARTIPC_STATE_ACCEPTING, some 2)
      ∧ (∀ p a, w.objs p = some a →
        (a.listener ≠ none ↔ w.owner = { src := NN_ARTIPC_SRC_LISTENER, fsm := some p })) :=
  have hs : (bind_run (bind_world_init 1 2)
        [bind_call.create ep_env_idle (fun _ => ep_env_busy),
         bind_call.child 11 (artipc_input.usock nn_usock_event.NN_USOCK_ACCEPTED) ep_env_idle,
         bind_call.deliver { ep_env_idle with alloc := some 12 } (fun _ => ep_env_busy)]).isSome
      = true := by decide
  ⟨Option.get _ hs, (Option.some_get hs).symm, rfl, rfl, rfl, rfl, rfl,
    (C18_listener_ownership 1 2 _ _ (Option.some_get hs).symm).1⟩


/-! ### C21 -/

/-- C21: in AcceptSession ACCEPTING, the listener's `NN_USOCK_ACCEPT_ERROR`
records the errno of the listener on the endpoint, increments ACCEPT_ERRORS by
1 and no other counter of the endpoint, posts the accept again on the same
listener, and leaves the AcceptSession as it is: in ACCEPTING, with the
listener pointer and the saved owner; no owner is swapped and nothing is raised
to the parent. -/
theorem C21_accept_error_retries (env : ep_env) (self : nn_artipc)
    (hs : self.state = NN_ARTIPC_STATE_ACCEPTING) :
    nn_artipc_feed env self (artipc_input.listener nn_usock_event.NN_USOCK_ACCEPT_ERROR)
      = some (self,
          [EpEffect.epbase_set_error env.usock_errno,
           EpEffect.epbase_stat_increment nn_stat.NN_STAT_ACCEPT_ERRORS 1,
           EpEffect.usock_accept self.listener])
    ∧ stat_sum nn_stat.NN_STAT_ACCEPT_ERRORS
        [EpEffect.epbase_set_error env.usock_errno,
         EpEffect.epbase_stat_increment nn_stat.NN_STAT_ACCEPT_ERRORS 1,
         EpEffect.usock_accept self.listener] = 1
    ∧ (∀ q, artipc_raised q
        [EpEffect.epbase_set_error env.usock_errno,
         EpEffect.epbase_stat_increment nn_stat.NN_STAT_ACCEPT_ERRORS 1,
         EpEffect.usock_accept self.listener] = [])
    ∧ (∀ cur, listener_owner_after cur
        [EpEffect.epbase_set_error env.usock_errno,
         EpEffect.epbase_stat_increment nn_stat.NN_STAT_ACCEPT_ERRORS 1,
         EpEffect.usock_accept self.listener] = cur) := by
  refine ⟨?_, ?_, ?_, ?_⟩
  · simp [nn_artipc_feed, nn_artipc_handler, nn_artipc_handler_ACCEPTING, hs,
      NN_ARTIPC_STATE_ACCEPTING, NN_ARTIPC_STATE_IDLE, NN_ARTIPC_STATE_STOPPING_SRTIPC_FINAL,
      NN_ARTIPC_STATE_STOPPING]
  · simp [stat_sum]
  · intro q
    simp [artipc_raised]
  · intro cur
    simp [listener_owner_after]

/-- C21 (witness): the AcceptSession at 11 borrows the listener 2 of the
endpoint at 1; accept fails with errno 24. -/
theorem C21_accept_error_retries_witness :
    nn_artipc_feed { ep_env_idle with usock_errno := 24 }
        { fsm := 11, state := NN_ARTIPC_STATE_ACCEPTING, listener := some 2,
          listener_owner := { src := 1, fsm := some 1 } }
        (artipc_input.listener nn_usock_event.NN_USOCK_ACCEPT_ERROR)
      = some ({ fsm := 11, state := NN_ARTIPC_STATE_ACCEPTING, listener := some 2,
                listener_owner := { src := 1, fsm := some 1 } },
          [EpEffect.epbase_set_error 24,
           EpEffect.epbase_stat_increment nn_stat.NN_STAT_ACCEPT_ERRORS 1,
           EpEffect.usock_accept (some 2)]) :=
  (C21_accept_error_retries { ep_env_idle with usock_errno := 24 }
    { fsm := 11, state := NN_ARTIPC_STATE_ACCEPTING, listener := some 2,
      listener_owner := { src := 1, fsm := some 1 } } rfl).1

/-! ### C23 -/

/-- C23: `nn_crtipc_create` initialises the backoff with the initial interval
`reconnect_ivl` and the maximum `reconnect_ivl_max`, except that the maximum is
`reconnect_ivl` when `reconnect_ivl_max` is 0; this is its first call on a
collaborator that is recorded, and it is made whenever the creation succeeds. -/
theorem C23_create_backoff_intervals (env : ep_env) (ivl ivl_max : Int) (sz sz_max : Nat)
    (s : nn_crtipc) (e : List EpEffect)
    (h : nn_crtipc_create env ivl sz ivl_max sz_max = some (s, e)) :
    ∃ e1, e = EpEffect.backoff_init ivl (if ivl_max = 0 then ivl else ivl_max) :: e1
      ∧ (∀ a b, EpEffect.backoff_init a b ∉ e1)
      ∧ nn_crtipc_start_connecting env { fsm := s.fsm, state := NN_CRTIPC_STATE_IDLE }
          = some (s, e1) := by
  have hh : ∀ self, nn_crtipc_handler env { fsm := self, state := NN_CRTIPC_STATE_IDLE }
      (crtipc_input.action nn_fsm_action.NN_FSM_START)
      = nn_crtipc_start_connecting env { fsm := self, state := NN_CRTIPC_STATE_IDLE } := by
    intro self
    simp [nn_crtipc_handler, nn_crtipc_handler_IDLE]
  have hconn : ∀ self s1 e1,
      nn_crtipc_start_connecting env { fsm := self, state := NN_CRTIPC_STATE_IDLE }
        = some (s1, e1) → s1.fsm = self ∧ ∀ a b, EpEffect.backoff_init a b ∉ e1 := by
    intro self s1 e1 hc
    unfold nn_crtipc_start_connecting at hc
    split_ifs at hc <;> simp at hc <;> obtain ⟨h5, h6⟩ := hc <;> subst h5 <;> subst h6 <;> simp
  cases ha : env.alloc with
  | none => simp [nn_crtipc_create, ha] at h
  | some self =>
    by_cases h1 : sz = 4
    · by_cases h2 : sz_max = 4
      · simp only [nn_crtipc_create, ha, h1, h2, hh, ne_eq, not_true_eq_false, if_false] at h
        cases hc : nn_crtipc_start_connecting env
            { fsm := self, state := NN_CRTIPC_STATE_IDLE } with
        | none => simp [hc] at h
        | some r =>
          obtain ⟨s1, e1⟩ := r
          simp only [hc, Option.some.injEq, Prod.mk.injEq] at h
          obtain ⟨h3, h4⟩ := h
          subst h3
          subst h4
          obtain ⟨hfsm, hno⟩ := hconn self s1 e1 hc
          exact ⟨e1, rfl, hno, by rw [hfsm]; exact hc⟩
      · simp [nn_crtipc_create, ha, h1, h2] at h
    · simp [nn_crtipc_create, ha, h1] at h

/-- C23 (witness): intervals 100 and 0 give the backoff 100 and 100; intervals
100 and 5000 give 100 and 5000. -/
theorem C23_create_backoff_intervals_witness :
    (∃ e1, [EpEffect.backoff_init 100 100, EpEffect.usock_start,
            EpEffect.usock_setsockopt nn_sockopt.SO_SNDBUF 131072,
            EpEffect.usock_setsockopt nn_sockopt.SO_RCVBUF 131072,
            EpEffect.usock_connect [47, 116],
            EpEffect.epbase_stat_increment nn_stat.NN_STAT_INPROGRESS_CONNECTIONS 1]
        = EpEffect.backoff_init 100 (if (0 : Int) = 0 then 100 else 0) :: e1
      ∧ (∀ a b, EpEffect.backoff_init a b ∉ e1)
      ∧ nn_crtipc_start_connecting ep_env_idle { fsm := 11, state := NN_CRTIPC_STATE_IDLE }
          = some ({ fsm := 11, state := NN_CRTIPC_STATE_CONNECTING }, e1))
    ∧ nn_crtipc_create ep_env_idle 100 4 5000 4
      = some ({ fsm := 11, state := NN_CRTIPC_STATE_CONNECTING },
          [EpEffect.backoff_init 100 5000, EpEffect.usock_start,
           EpEffect.usock_setsockopt nn_sockopt.SO_SNDBUF 131072,
           EpEffect.usock_setsockopt nn_sockopt.SO_RCVBUF 131072,
           EpEffect.usock_connect [47, 116],
           EpEffect.epbase_stat_increment nn_stat.NN_STAT_INPROGRESS_CONNECTIONS 1]) :=
  ⟨C23_create_backoff_intervals ep_env_idle 100 0 4 4
      { fsm := 11, state := NN_CRTIPC_STATE_CONNECTING } _ (by decide), by decide⟩

/-! ### C30 -/

/-- C30: `nn_streamhdr_start` on an idle StreamHdr starts the timer with 1000
ms, posts one write, of the 8 bytes of the protocol header, and enters SENDING;
the socket's Sent event in SENDING posts one read of 8 bytes into the buffer of
the protocol header, stops nothing, and enters RECEIVING. -/
theorem C30_start_and_sent (ispeer : Nat → Bool) (idle1 idle2 : Bool)
    (prev_owner : Option Nat) (p : Int) (self : nn_streamhdr) (usock pipebase : Nat)
    (hidle : self.state = NN_STREAMHDR_STATE_IDLE)
    (husock : self.usock = none) (howner : self.usock_owner = none) :
    nn_streamhdr_start ispeer idle1 prev_owner p 4 self usock pipebase
      = some ({ self with usock_owner := prev_owner, usock := some usock,
                          pipebase := some pipebase, protohdr := handshake_header p,
                          state := NN_STREAMHDR_STATE_SENDING },
          [Effect.usock_swap_owner_fsm (some self.fsm), Effect.timer_start 1000,
           Effect.usock_send [handshake_header p]])
    ∧ (handshake_header p).length = 8
    ∧ nn_streamhdr_handler ispeer idle2
        { self with usock_owner := prev_owner, usock := some usock,
                    pipebase := some pipebase, protohdr := handshake_header p,
                    state := NN_STREAMHDR_STATE_SENDING }
        (streamhdr_input.usock nn_usock_event.NN_USOCK_SENT)
      = some ({ self with usock_owner := prev_owner, usock := some usock,
                          pipebase := some pipebase, protohdr := handshake_header p,
                          state := NN_STREAMHDR_STATE_RECEIVING },
          [Effect.usock_recv RecvBuf.protohdr 8]) := by
  refine ⟨nn_streamhdr_start_idle ispeer idle1 prev_owner p self usock pipebase
    hidle husock howner, by simp [handshake_header], ?_⟩
  simp [nn_streamhdr_handler, nn_streamhdr_handler_SENDING, NN_STREAMHDR_STATE_SENDING,
    NN_STREAMHDR_STATE_STOPPING, NN_STREAMHDR_STATE_IDLE, NN_STREAMHDR_STATE_RECEIVING]

/-- C30 (witness): a freshly initialised StreamHdr started with protocol
`0x0010`, then the Sent event. -/
theorem C30_start_and_sent_witness :
    nn_streamhdr_start (fun _ => true) false (some 5) 0x0010 4 (nn_streamhdr_init 7) 1 2
      = some ({ fsm := 7, state := NN_STREAMHDR_STATE_SENDING, usock := some 1,
                usock_owner := some 5, pipebase := some 2,
                protohdr := [0x00, 0x53, 0x50, 0x00, 0x00, 0x10, 0x00, 0x00] },
          [Effect.usock_swap_owner_fsm (some 7), Effect.timer_start 1000,
           Effect.usock_send [[0x00, 0x53, 0x50, 0x00, 0x00, 0x10, 0x00, 0x00]]])
    ∧ nn_streamhdr_handler (fun _ => true) false
        { fsm := 7, state := NN_STREAMHDR_STATE_SENDING, usock := some 1,
          usock_owner := some 5, pipebase := some 2,
          protohdr := [0x00, 0x53, 0x50, 0x00, 0x00, 0x10, 0x00, 0x00] }
        (streamhdr_input.usock nn_usock_event.NN_USOCK_SENT)
      = some ({ fsm := 7, state := NN_STREAMHDR_STATE_RECEIVING, usock := some 1,
                usock_owner := some 5, pipebase := some 2,
                protohdr := [0x00, 0x53, 0x50, 0x00, 0x00, 0x10, 0x00, 0x00] },
          [Effect.usock_recv RecvBuf.protohdr 8]) :=
  have h := C30_start_and_sent (fun _ => true) false false (some 5) 0x0010
    (nn_streamhdr_init 7) 1 2 rfl rfl rfl
  ⟨h.1, h.2.2⟩

/-! ### C24 -/

/-- Two StreamHdr states that differ at most in the bytes of `protohdr`, and a
delivery that is not the Start action, which would post `protohdr` as it is:
the handler accepts both or none, makes the same calls and reaches states that
differ at most in `protohdr`. A Received event stores the same bytes in both. -/
theorem nn_streamhdr_deliver_protohdr (ispeer : Nat → Bool) (s : nn_streamhdr)
    (h1 h2 : List Nat) (d : streamhdr_delivery)
    (hd : d.ev ≠ streamhdr_input.fsm nn_fsm_action.NN_FSM_START) :
    (nn_streamhdr_deliver ispeer { s with protohdr := h1 } d).map
        (fun r => (({ r.1 with protohdr := [] } : nn_streamhdr), r.2))
      = (nn_streamhdr_deliver ispeer { s with protohdr := h2 } d).map
        (fun r => (({ r.1 with protohdr := [] } : nn_streamhdr), r.2)) := by
  obtain ⟨ev, data, idle⟩ := d
  simp only at hd
  by_cases hrecv : ev = streamhdr_input.usock nn_usock_event.NN_USOCK_RECEIVED
  · subst hrecv
    simp [nn_streamhdr_deliver]
  · simp only [nn_streamhdr_deliver, hrecv, if_false]
    by_cases hstop : ev = streamhdr_input.fsm nn_fsm_action.NN_FSM_STOP
    · subst hstop
      cases idle <;> simp [nn_streamhdr_handler]
    · by_cases h7 : s.state = 7
      · cases idle <;>
        simp [nn_streamhdr_handler, hstop, h7, NN_STREAMHDR_STATE_STOPPING]
      by_cases h1s : s.state = 1
      · cases ev with
        | fsm t =>
          cases t <;>
          simp_all [nn_streamhdr_handler, nn_streamhdr_handler_IDLE,
            NN_STREAMHDR_STATE_STOPPING, NN_STREAMHDR_STATE_IDLE]
        | usock t =>
          simp [nn_streamhdr_handler, nn_streamhdr_handler_IDLE, h1s,
            NN_STREAMHDR_STATE_STOPPING, NN_STREAMHDR_STATE_IDLE]
        | timer t =>
          simp [nn_streamhdr_handler, nn_streamhdr_handler_IDLE, h1s,
            NN_STREAMHDR_STATE_STOPPING, NN_STREAMHDR_STATE_IDLE]
      by_cases h2s : s.state = 2
      · cases ev with
        | fsm t =>
          simp [nn_streamhdr_handler, nn_streamhdr_handler_SENDING, h2s, hstop,
            NN_STREAMHDR_STATE_STOPPING, NN_STREAMHDR_STATE_IDLE, NN_STREAMHDR_STATE_SENDING]
        | usock t =>
          cases t <;>
          simp [nn_streamhdr_handler, nn_streamhdr_handler_SENDING, h2s,
            NN_STREAMHDR_STATE_STOPPING, NN_STREAMHDR_STATE_IDLE, NN_STREAMHDR_STATE_SENDING]
        | timer t =>
          cases t <;>
          simp [nn_streamhdr_handler, nn_streamhdr_handler_SENDING, h2s,
            NN_STREAMHDR_STATE_STOPPING, NN_STREAMHDR_STATE_IDLE, NN_STREAMHDR_STATE_SENDING]
      by_cases h3s : s.state = 3
      · cases ev with
        | fsm t =>
          simp [nn_streamhdr_handler, nn_streamhdr_handler_RECEIVING, h3s, hstop,
            NN_STREAMHDR_STATE_STOPPING, NN_STREAMHDR_STATE_IDLE, NN_STREAMHDR_STATE_SENDING,
            NN_STREAMHDR_STATE_RECEIVING]
        | usock t =>
          cases t <;>
          simp_all [nn_streamhdr_handler, nn_streamhdr_handler_RECEIVING,
            NN_STREAMHDR_STATE_STOPPING, NN_STREAMHDR_STATE_IDLE, NN_STREAMHDR_STATE_SENDING,
            NN_STREAMHDR_STATE_RECEIVING]
        | timer t =>
          cases t <;>
          simp [nn_streamhdr_handler, nn_streamhdr_handler_RECEIVING, h3s,
            NN_STREAMHDR_STATE_STOPPING, NN_STREAMHDR_STATE_IDLE, NN_STREAMHDR_STATE_SENDING,
            NN_STREAMHDR_STATE_RECEIVING]
      by_cases h4s : s.state = 4
      · cases ev with
        | fsm t =>
          simp [nn_streamhdr_handler, nn_streamhdr_handler_STOPPING_TIMER_ERROR, h4s, hstop,
            NN_STREAMHDR_STATE_STOPPING, NN_STREAMHDR_STATE_IDLE, NN_STREAMHDR_STATE_SENDING,
            NN_STREAMHDR_STATE_RECEIVING, NN_STREAMHDR_STATE_STOPPING_TIMER_ERROR]
        | usock t =>
          simp [nn_streamhdr_handler, nn_streamhdr_handler_STOPPING_TIMER_ERROR, h4s,
            NN_STREAMHDR_STATE_STOPPING, NN_STREAMHDR_STATE_IDLE, NN_STREAMHDR_STATE_SENDING,
            NN_STREAMHDR_STATE_RECEIVING, NN_STREAMHDR_STATE_STOPPING_TIMER_ERROR]
        | timer t =>
          cases t <;>
          simp [nn_streamhdr_handler, nn_streamhdr_handler_STOPPING_TIMER_ERROR, h4s,
            NN_STREAMHDR_STATE_STOPPING, NN_STREAMHDR_STATE_IDLE, NN_STREAMHDR_STATE_SENDING,
            NN_STREAMHDR_STATE_RECEIVING, NN_STREAMHDR_STATE_STOPPING_TIMER_ERROR]
      by_cases h5s : s.state = 5
      · cases ev with
        | fsm t =>
          simp [nn_streamhdr_handler, nn_streamhdr_handler_STOPPING_TIMER_DONE, h5s, hstop,
            NN_STREAMHDR_STATE_STOPPING, NN_STREAMHDR_STATE_IDLE, NN_STREAMHDR_STATE_SENDING,
            NN_STREAMHDR_STATE_RECEIVING, NN_STREAMHDR_STATE_STOPPING_TIMER_ERROR,
            NN_STREAMHDR_STATE_STOPPING_TIMER_DONE]
        | usock t =>
          simp [nn_streamhdr_handler, nn_streamhdr_handler_STOPPING_TIMER_DONE, h5s,
            NN_STREAMHDR_STATE_STOPPING, NN_STREAMHDR_STATE_IDLE, NN_STREAMHDR_STATE_SENDING,
            NN_STREAMHDR_STATE_RECEIVING, NN_STREAMHDR_STATE_STOPPING_TIMER_ERROR,
            NN_STREAMHDR_STATE_STOPPING_TIMER_DONE]
        | timer t =>
          cases t <;>
          simp [nn_streamhdr_handler, nn_streamhdr_handler_STOPPING_TIMER_DONE, h5s,
            NN_STREAMHDR_STATE_STOPPING, NN_STREAMHDR_STATE_IDLE, NN_STREAMHDR_STATE_SENDING,
            NN_STREAMHDR_STATE_RECEIVING, NN_STREAMHDR_STATE_STOPPING_TIMER_ERROR,
            NN_STREAMHDR_STATE_STOPPING_TIMER_DONE]
      · simp [nn_streamhdr_handler, hstop, h7, h1s, h2s, h3s, h4s, h5s,
          NN_STREAMHDR_STATE_STOPPING, NN_STREAMHDR_STATE_IDLE, NN_STREAMHDR_STATE_SENDING,
          NN_STREAMHDR_STATE_RECEIVING, NN_STREAMHDR_STATE_STOPPING_TIMER_ERROR,
          NN_STREAMHDR_STATE_STOPPING_TIMER_DONE]

/-- Deliveries without a Start action to two StreamHdr states that differ at
most in the bytes of `protohdr`: the runs are accepted together, make the same
calls and end in states that differ at most in `protohdr`. -/
theorem nn_streamhdr_run_protohdr (ispeer : Nat → Bool) (ds : List streamhdr_delivery)
    (a b : nn_streamhdr)
    (hab : ({ a with protohdr := [] } : nn_streamhdr) = { b with protohdr := [] })
    (hds : ∀ d ∈ ds, d.ev ≠ streamhdr_input.fsm nn_fsm_action.NN_FSM_START) :
    (nn_streamhdr_run ispeer a ds).map
        (fun r => (({ r.1 with protohdr := [] } : nn_streamhdr), r.2))
      = (nn_streamhdr_run ispeer b ds).map
        (fun r => (({ r.1 with protohdr := [] } : nn_streamhdr), r.2)) := by
  induction ds generalizing a b with
  | nil => simp [nn_streamhdr_run, hab]
  | cons d ds ih =>
    have hb : b = { a with protohdr := b.protohdr } := by
      cases a
      cases b
      injection hab with x1 x2 x3 x4 x5 x6
      subst x1 x2 x3 x4 x5
      rfl
    have ha : a = { a with protohdr := a.protohdr } := rfl
    have hstep := nn_streamhdr_deliver_protohdr ispeer a a.protohdr b.protohdr d
      (hds d (List.mem_cons_self _ _))
    rw [← hb, ← ha] at hstep
    cases h1 : nn_streamhdr_deliver ispeer a d with
    | none =>
      cases h2 : nn_streamhdr_deliver ispeer b d with
      | none => simp only [nn_streamhdr_run, h1, h2]
      | some r2 => simp [h1, h2] at hstep
    | some r1 =>
      cases h2 : nn_streamhdr_deliver ispeer b d with
      | none => simp [h1, h2] at hstep
      | some r2 =>
        obtain ⟨s1, e1⟩ := r1
        obtain ⟨s2, e2⟩ := r2
        simp only [h1, h2, Option.map_some', Option.some.injEq, Prod.mk.injEq] at hstep
        obtain ⟨h3, h4⟩ := hstep
        subst h4
        have hrec := ih s1 s2 h3 (fun x hx => hds x (List.mem_cons_of_mem _ hx))
        cases h5 : nn_streamhdr_run ispeer s1 ds with
        | none =>
          cases h6 : nn_streamhdr_run ispeer s2 ds with
          | none => simp only [nn_streamhdr_run, h1, h2, h5, h6]
          | some r6 => simp [h5, h6] at hrec
        | some r5 =>
          cases h6 : nn_streamhdr_run ispeer s2 ds with
          | none => simp [h5, h6] at hrec
          | some r6 =>
            obtain ⟨s5, e5⟩ := r5
            obtain ⟨s6, e6⟩ := r6
            simp only [h5, h6, Option.map_some', Option.some.injEq, Prod.mk.injEq] at hrec
            simp only [nn_streamhdr_run, h1, h2, h5, h6, Option.map_some', Option.some.injEq,
              Prod.mk.injEq]
            exact ⟨hrec.1, by rw [hrec.2]⟩

/-- C24: two headers that agree on the bytes 0 to 5, received by a StreamHdr in
RECEIVING: the next state is the same, STOPPING_TIMER_DONE or
STOPPING_TIMER_ERROR, the timer is stopped in both cases, and along every later
sequence of deliveries without a new start the calls made, the events raised
among them, and the states, but for the bytes kept in `protohdr`, are the
same. -/
theorem C24_reserved_bytes_ignored (ispeer : Nat → Bool) (self : nn_streamhdr)
    (h1 h2 : List Nat) (idle : Bool) (ds : List streamhdr_delivery)
    (hst : self.state = NN_STREAMHDR_STATE_RECEIVING)
    (h06 : h1.take 6 = h2.take 6)
    (hds : ∀ d ∈ ds, d.ev ≠ streamhdr_input.fsm nn_fsm_action.NN_FSM_START) :
    (∃ st, (st = NN_STREAMHDR_STATE_STOPPING_TIMER_DONE
          ∨ st = NN_STREAMHDR_STATE_STOPPING_TIMER_ERROR)
      ∧ nn_streamhdr_deliver ispeer self
          ⟨streamhdr_input.usock nn_usock_event.NN_USOCK_RECEIVED, h1, idle⟩
        = some ({ self with protohdr := h1, state := st }, [Effect.timer_stop])
      ∧ nn_streamhdr_deliver ispeer self
          ⟨streamhdr_input.usock nn_usock_event.NN_USOCK_RECEIVED, h2, idle⟩
        = some ({ self with protohdr := h2, state := st }, [Effect.timer_stop]))
    ∧ (nn_streamhdr_run ispeer self
          (⟨streamhdr_input.usock nn_usock_event.NN_USOCK_RECEIVED, h1, idle⟩ :: ds)).map
        (fun r => (({ r.1 with protohdr := [] } : nn_streamhdr), r.2))
      = (nn_streamhdr_run ispeer self
          (⟨streamhdr_input.usock nn_usock_event.NN_USOCK_RECEIVED, h2, idle⟩ :: ds)).map
        (fun r => (({ r.1 with protohdr := [] } : nn_streamhdr), r.2)) := by
  have h4 : h1.take 4 = h2.take 4 := by
    have := congrArg (List.take 4) h06
    simpa [List.take_take] using this
  have hget : ∀ i, i < 6 → h1.getD i 0 = h2.getD i 0 := by
    intro i hi
    have := congrArg (fun l => l.getD i 0) h06
    simp only [List.getD_eq_getElem?_getD, List.getElem?_take, hi, if_true] at this
    simpa [List.getD_eq_getElem?_getD] using this
  have hgets : nn_gets h1 4 = nn_gets h2 4 := by
    simp only [nn_gets]
    rw [hget 4 (by decide), hget 5 (by decide)]
  have hstep : ∃ st, (st = NN_STREAMHDR_STATE_STOPPING_TIMER_DONE
        ∨ st = NN_STREAMHDR_STATE_STOPPING_TIMER_ERROR)
      ∧ nn_streamhdr_deliver ispeer self
          ⟨streamhdr_input.usock nn_usock_event.NN_USOCK_RECEIVED, h1, idle⟩
        = some ({ self with protohdr := h1, state := st }, [Effect.timer_stop])
      ∧ nn_streamhdr_deliver ispeer self
          ⟨streamhdr_input.usock nn_usock_event.NN_USOCK_RECEIVED, h2, idle⟩
        = some ({ self with protohdr := h2, state := st }, [Effect.timer_stop]) := by
    by_cases hsig : h1.take 4 = [0x00, 0x53, 0x50, 0x00]
    · cases hp : ispeer (nn_gets h1 4)
      · refine ⟨NN_STREAMHDR_STATE_STOPPING_TIMER_ERROR, Or.inr rfl, ?_, ?_⟩
        · simp [nn_streamhdr_deliver, nn_streamhdr_handler, nn_streamhdr_handler_RECEIVING, hst,
            hsig, hp, NN_STREAMHDR_STATE_RECEIVING, NN_STREAMHDR_STATE_STOPPING,
            NN_STREAMHDR_STATE_IDLE, NN_STREAMHDR_STATE_SENDING]
        · simp [nn_streamhdr_deliver, nn_streamhdr_handler, nn_streamhdr_handler_RECEIVING, hst,
            ← h4, hsig, ← hgets, hp, NN_STREAMHDR_STATE_RECEIVING, NN_STREAMHDR_STATE_STOPPING,
            NN_STREAMHDR_STATE_IDLE, NN_STREAMHDR_STATE_SENDING]
      · refine ⟨NN_STREAMHDR_STATE_STOPPING_TIMER_DONE, Or.inl rfl, ?_, ?_⟩
        · simp [nn_streamhdr_deliver, nn_streamhdr_handler, nn_streamhdr_handler_RECEIVING, hst,
            hsig, hp, NN_STREAMHDR_STATE_RECEIVING, NN_STREAMHDR_STATE_STOPPING,
            NN_STREAMHDR_STATE_IDLE, NN_STREAMHDR_STATE_SENDING]
        · simp [nn_streamhdr_deliver, nn_streamhdr_handler, nn_streamhdr_handler_RECEIVING, hst,
            ← h4, hsig, ← hgets, hp, NN_STREAMHDR_STATE_RECEIVING, NN_STREAMHDR_STATE_STOPPING,
            NN_STREAMHDR_STATE_IDLE, NN_STREAMHDR_STATE_SENDING]
    · refine ⟨NN_STREAMHDR_STATE_STOPPING_TIMER_ERROR, Or.inr rfl, ?_, ?_⟩
      · simp [nn_streamhdr_deliver, nn_streamhdr_handler, nn_streamhdr_handler_RECEIVING, hst,
          hsig, NN_STREAMHDR_STATE_RECEIVING, NN_STREAMHDR_STATE_STOPPING,
          NN_STREAMHDR_STATE_IDLE, NN_STREAMHDR_STATE_SENDING]
      · simp [nn_streamhdr_deliver, nn_streamhdr_handler, nn_streamhdr_handler_RECEIVING, hst,
          ← h4, hsig, NN_STREAMHDR_STATE_RECEIVING, NN_STREAMHDR_STATE_STOPPING,
          NN_STREAMHDR_STATE_IDLE, NN_STREAMHDR_STATE_SENDING]
  refine ⟨hstep, ?_⟩
  obtain ⟨st, -, hd1, hd2⟩ := hstep
  have hrec := nn_streamhdr_run_protohdr ispeer ds
    { self with protohdr := h1, state := st } { self with protohdr := h2, state := st } rfl hds
  cases h5 : nn_streamhdr_run ispeer { self with protohdr := h1, state := st } ds with
  | none =>
    cases h6 : nn_streamhdr_run ispeer { self with protohdr := h2, state := st } ds with
    | none => simp only [nn_streamhdr_run, hd1, hd2, h5, h6]
    | some r6 => simp [h5, h6] at hrec
  | some r5 =>
    cases h6 : nn_streamhdr_run ispeer { self with protohdr := h2, state := st } ds with
    | none => simp [h5, h6] at hrec
    | some r6 =>
      obtain ⟨s5, e5⟩ := r5
      obtain ⟨s6, e6⟩ := r6
      simp only [h5, h6, Option.map_some', Option.some.injEq, Prod.mk.injEq] at hrec
      simp only [nn_streamhdr_run, hd1, hd2, h5, h6, Option.map_some', Option.some.injEq,
        Prod.mk.injEq]
      exact ⟨hrec.1, by rw [hrec.2]⟩

/-- C24 (witness): the header `00 53 50 00 00 10` followed by `00 00` and by
`ff 07`, for a pipe whose peer is protocol 16; the timer's Stopped event
follows, and both raise OK. -/
theorem C24_reserved_bytes_ignored_witness :
    nn_streamhdr_run (fun p => decide (p = 16))
        { (nn_streamhdr_init 7) with state := NN_STREAMHDR_STATE_RECEIVING, usock := some 1,
                                     usock_owner := some 5 }
        [⟨streamhdr_input.usock nn_usock_event.NN_USOCK_RECEIVED,
            [0x00, 0x53, 0x50, 0x00, 0x00, 0x10, 0xff, 0x07], false⟩,
         ⟨streamhdr_input.timer nn_timer_event.NN_TIMER_STOPPED, [], true⟩]
      = some ({ fsm := 7, state := NN_STREAMHDR_STATE_DONE, usock := none, usock_owner := none,
                pipebase := none, protohdr := [0x00, 0x53, 0x50, 0x00, 0x00, 0x10, 0xff, 0x07] },
          [Effect.timer_stop, Effect.usock_swap_owner_fsm (some 5),
           Effect.streamhdr_raise nn_streamhdr_event.NN_STREAMHDR_OK])
    ∧ (nn_streamhdr_run (fun p => decide (p = 16))
          { (nn_streamhdr_init 7) with state := NN_STREAMHDR_STATE_RECEIVING, usock := some 1,
                                       usock_owner := some 5 }
          [⟨streamhdr_input.usock nn_usock_event.NN_USOCK_RECEIVED,
              [0x00, 0x53, 0x50, 0x00, 0x00, 0x10, 0x00, 0x00], false⟩,
           ⟨streamhdr_input.timer nn_timer_event.NN_TIMER_STOPPED, [], true⟩]).map
        (fun r => (({ r.1 with protohdr := [] } : nn_streamhdr), r.2))
      = (nn_streamhdr_run (fun p => decide (p = 16))
          { (nn_streamhdr_init 7) with state := NN_STREAMHDR_STATE_RECEIVING, usock := some 1,
                                       usock_owner := some 5 }
          [⟨streamhdr_input.usock nn_usock_event.NN_USOCK_RECEIVED,
              [0x00, 0x53, 0x50, 0x00, 0x00, 0x10, 0xff, 0x07], false⟩,
           ⟨streamhdr_input.timer nn_timer_event.NN_TIMER_STOPPED, [], true⟩]).map
        (fun r => (({ r.1 with protohdr := [] } : nn_streamhdr), r.2)) :=
  ⟨by decide,
    (C24_reserved_bytes_ignored (fun p => decide (p = 16))
      { (nn_streamhdr_init 7) with state := NN_STREAMHDR_STATE_RECEIVING, usock := some 1,
                                   usock_owner := some 5 }
      [0x00, 0x53, 0x50, 0x00, 0x00, 0x10, 0x00, 0x00]
      [0x00, 0x53, 0x50, 0x00, 0x00, 0x10, 0xff, 0x07] false
      [⟨streamhdr_input.timer nn_timer_event.NN_TIMER_STOPPED, [], true⟩]
      rfl (by decide) (by decide)).2⟩

/-- One delivery, not an action of the owner, to a running ConnectEndpoint: it
is running afterwards; CONNECTING is entered only from STOPPING_BACKOFF on the
Stopped event of the backoff, STOPPING_BACKOFF only on the Timeout of the
backoff; the backoff is started once when WAITING is entered and not
otherwise; what lay between the old state and CONNECTING lies between the
new state and CONNECTING, but for the new state itself; and the increments of
INPROGRESS_CONNECTIONS sum to 1 on entering CONNECTING, to -1 on leaving it and
to 0 otherwise. -/
theorem nn_crtipc_feed_step (env : ep_env) (s s1 : nn_crtipc) (ev : crtipc_input)
    (e : List EpEffect) (hs : s.running) (hev : ev.is_action = false)
    (h : nn_crtipc_feed env s ev = some (s1, e)) :
    s1.running
    ∧ (s1.state = NN_CRTIPC_STATE_CONNECTING →
        s.state = NN_CRTIPC_STATE_STOPPING_BACKOFF
        ∧ ev = crtipc_input.reconnect_timer nn_backoff_event.NN_BACKOFF_STOPPED)
    ∧ (s1.state = NN_CRTIPC_STATE_STOPPING_BACKOFF →
        s.state = NN_CRTIPC_STATE_WAITING
        ∧ ev = crtipc_input.reconnect_timer nn_backoff_event.NN_BACKOFF_TIMEOUT)
    ∧ e.count EpEffect.backoff_start = (if s1.state = NN_CRTIPC_STATE_WAITING then 1 else 0)
    ∧ (s1.state ≠ NN_CRTIPC_STATE_CONNECTING →
        (crtipc_need s.state).Sublist (s1.state :: crtipc_need s1.state))
    ∧ stat_sum nn_stat.NN_STAT_INPROGRESS_CONNECTIONS e
        = (if s1.state = NN_CRTIPC_STATE_CONNECTING then 1 else 0)
          - (if s.state = NN_CRTIPC_STATE_CONNECTING then 1 else 0) := by
  obtain ⟨fsm, st⟩ := s
  replace h := h.symm
  simp only [nn_crtipc.running] at hs
  rcases hs with hs | hs | hs | hs | hs | hs <;> subst hs
  · cases ev with
    | usock t =>
      cases t <;>
        simp [nn_crtipc_feed, nn_crtipc_handler, nn_crtipc_handler_CONNECTING,
          NN_CRTIPC_STATE_IDLE, NN_CRTIPC_STATE_CONNECTING, NN_CRTIPC_STATE_ACTIVE,
          NN_CRTIPC_STATE_STOPPING_SRTIPC, NN_CRTIPC_STATE_STOPPING_USOCK,
          NN_CRTIPC_STATE_WAITING, NN_CRTIPC_STATE_STOPPING_BACKOFF,
          NN_CRTIPC_STATE_STOPPING_SRTIPC_FINAL, NN_CRTIPC_STATE_STOPPING] at h <;>
        obtain ⟨h1, h2⟩ := h <;> subst h1 <;> subst h2 <;>
        simp [nn_crtipc.running, crtipc_need, stat_sum, NN_CRTIPC_STATE_IDLE, NN_CRTIPC_STATE_CONNECTING,
          NN_CRTIPC_STATE_ACTIVE, NN_CRTIPC_STATE_STOPPING_SRTIPC,
          NN_CRTIPC_STATE_STOPPING_USOCK, NN_CRTIPC_STATE_WAITING,
          NN_CRTIPC_STATE_STOPPING_BACKOFF]
    | action t => simp [crtipc_input.is_action] at hev
    | _ =>
      simp [nn_crtipc_feed, nn_crtipc_handler, nn_crtipc_handler_CONNECTING,
        NN_CRTIPC_STATE_IDLE, NN_CRTIPC_STATE_CONNECTING, NN_CRTIPC_STATE_ACTIVE,
        NN_CRTIPC_STATE_STOPPING_SRTIPC, NN_CRTIPC_STATE_STOPPING_USOCK,
        NN_CRTIPC_STATE_WAITING, NN_CRTIPC_STATE_STOPPING_BACKOFF,
        NN_CRTIPC_STATE_STOPPING_SRTIPC_FINAL, NN_CRTIPC_STATE_STOPPING] at h
  · cases ev with
    | srtipc t =>
      simp [nn_crtipc_feed, nn_crtipc_handler, nn_crtipc_handler_ACTIVE,
        NN_CRTIPC_STATE_IDLE, NN_CRTIPC_STATE_CONNECTING, NN_CRTIPC_STATE_ACTIVE,
        NN_CRTIPC_STATE_STOPPING_SRTIPC, NN_CRTIPC_STATE_STOPPING_USOCK,
        NN_CRTIPC_STATE_WAITING, NN_CRTIPC_STATE_STOPPING_BACKOFF,
        NN_CRTIPC_STATE_STOPPING_SRTIPC_FINAL, NN_CRTIPC_STATE_STOPPING] at h
      obtain ⟨-, h1, h2⟩ := h
      subst h1
      subst h2
      simp [nn_crtipc.running, crtipc_need, stat_sum, NN_CRTIPC_STATE_IDLE, NN_CRTIPC_STATE_CONNECTING,
        NN_CRTIPC_STATE_ACTIVE, NN_CRTIPC_STATE_STOPPING_SRTIPC,
        NN_CRTIPC_STATE_STOPPING_USOCK, NN_CRTIPC_STATE_WAITING,
        NN_CRTIPC_STATE_STOPPING_BACKOFF]
    | action t => simp [crtipc_input.is_action] at hev
    | _ =>
      simp [nn_crtipc_feed, nn_crtipc_handler, nn_crtipc_handler_ACTIVE,
        NN_CRTIPC_STATE_IDLE, NN_CRTIPC_STATE_CONNECTING, NN_CRTIPC_STATE_ACTIVE,
        NN_CRTIPC_STATE_STOPPING_SRTIPC, NN_CRTIPC_STATE_STOPPING_USOCK,
        NN_CRTIPC_STATE_WAITING, NN_CRTIPC_STATE_STOPPING_BACKOFF,
        NN_CRTIPC_STATE_STOPPING_SRTIPC_FINAL, NN_CRTIPC_STATE_STOPPING] at h
  · cases ev with
    | srtipc t =>
      simp only [nn_crtipc_feed, nn_crtipc_handler, nn_crtipc_handler_STOPPING_SRTIPC,
        NN_CRTIPC_STATE_IDLE, NN_CRTIPC_STATE_CONNECTING, NN_CRTIPC_STATE_ACTIVE,
        NN_CRTIPC_STATE_STOPPING_SRTIPC, NN_CRTIPC_STATE_STOPPING_USOCK,
        NN_CRTIPC_STATE_WAITING, NN_CRTIPC_STATE_STOPPING_BACKOFF,
        NN_CRTIPC_STATE_STOPPING_SRTIPC_FINAL, NN_CRTIPC_STATE_STOPPING] at h
      simp only [show ¬ ((4 : Nat) = 8 ∨ (4 : Nat) = 9) by decide, if_false,
        show ¬ ((4 : Nat) = 1) by decide, show ¬ ((4 : Nat) = 2) by decide,
        show ¬ ((4 : Nat) = 3) by decide, if_true] at h
      split_ifs at h with c1 c2
      · simp only [Option.some.injEq, Prod.mk.injEq] at h
        obtain ⟨h1, h2⟩ := h
        subst h1
        subst h2
        simp [nn_crtipc.running, crtipc_need, stat_sum, NN_CRTIPC_STATE_IDLE,
          NN_CRTIPC_STATE_CONNECTING, NN_CRTIPC_STATE_ACTIVE, NN_CRTIPC_STATE_STOPPING_SRTIPC,
          NN_CRTIPC_STATE_STOPPING_USOCK, NN_CRTIPC_STATE_WAITING,
          NN_CRTIPC_STATE_STOPPING_BACKOFF]
      · simp only [Option.some.injEq, Prod.mk.injEq] at h
        obtain ⟨h1, h2⟩ := h
        subst h1
        subst h2
        simp [nn_crtipc.running, crtipc_need, stat_sum, NN_CRTIPC_STATE_IDLE,
          NN_CRTIPC_STATE_CONNECTING, NN_CRTIPC_STATE_ACTIVE, NN_CRTIPC_STATE_STOPPING_SRTIPC,
          NN_CRTIPC_STATE_STOPPING_USOCK, NN_CRTIPC_STATE_WAITING,
          NN_CRTIPC_STATE_STOPPING_BACKOFF]
    | action t => simp [crtipc_input.is_action] at hev
    | _ =>
      simp [nn_crtipc_feed, nn_crtipc_handler, nn_crtipc_handler_STOPPING_SRTIPC,
        NN_CRTIPC_STATE_IDLE, NN_CRTIPC_STATE_CONNECTING, NN_CRTIPC_STATE_ACTIVE,
        NN_CRTIPC_STATE_STOPPING_SRTIPC, NN_CRTIPC_STATE_STOPPING_USOCK,
        NN_CRTIPC_STATE_WAITING, NN_CRTIPC_STATE_STOPPING_BACKOFF,
        NN_CRTIPC_STATE_STOPPING_SRTIPC_FINAL, NN_CRTIPC_STATE_STOPPING] at h
  · cases ev with
    | usock t =>
      cases t <;>
        simp [nn_crtipc_feed, nn_crtipc_handler, nn_crtipc_handler_STOPPING_USOCK,
          NN_CRTIPC_STATE_IDLE, NN_CRTIPC_STATE_CONNECTING, NN_CRTIPC_STATE_ACTIVE,
          NN_CRTIPC_STATE_STOPPING_SRTIPC, NN_CRTIPC_STATE_STOPPING_USOCK,
          NN_CRTIPC_STATE_WAITING, NN_CRTIPC_STATE_STOPPING_BACKOFF,
          NN_CRTIPC_STATE_STOPPING_SRTIPC_FINAL, NN_CRTIPC_STATE_STOPPING] at h <;>
        obtain ⟨h1, h2⟩ := h <;> subst h1 <;> subst h2 <;>
        simp [nn_crtipc.running, crtipc_need, stat_sum, NN_CRTIPC_STATE_IDLE, NN_CRTIPC_STATE_CONNECTING,
          NN_CRTIPC_STATE_ACTIVE, NN_CRTIPC_STATE_STOPPING_SRTIPC,
          NN_CRTIPC_STATE_STOPPING_USOCK, NN_CRTIPC_STATE_WAITING,
          NN_CRTIPC_STATE_STOPPING_BACKOFF]
    | action t => simp [crtipc_input.is_action] at hev
    | _ =>
      simp [nn_crtipc_feed, nn_crtipc_handler, nn_crtipc_handler_STOPPING_USOCK,
        NN_CRTIPC_STATE_IDLE, NN_CRTIPC_STATE_CONNECTING, NN_CRTIPC_STATE_ACTIVE,
        NN_CRTIPC_STATE_STOPPING_SRTIPC, NN_CRTIPC_STATE_STOPPING_USOCK,
        NN_CRTIPC_STATE_WAITING, NN_CRTIPC_STATE_STOPPING_BACKOFF,
        NN_CRTIPC_STATE_STOPPING_SRTIPC_FINAL, NN_CRTIPC_STATE_STOPPING] at h
  · cases ev with
    | reconnect_timer t =>
      cases t with
      | NN_BACKOFF_TIMEOUT =>
        simp [nn_crtipc_feed, nn_crtipc_handler, nn_crtipc_handler_WAITING,
          NN_CRTIPC_STATE_IDLE, NN_CRTIPC_STATE_CONNECTING, NN_CRTIPC_STATE_ACTIVE,
          NN_CRTIPC_STATE_STOPPING_SRTIPC, NN_CRTIPC_STATE_STOPPING_USOCK,
          NN_CRTIPC_STATE_WAITING, NN_CRTIPC_STATE_STOPPING_BACKOFF,
          NN_CRTIPC_STATE_STOPPING_SRTIPC_FINAL, NN_CRTIPC_STATE_STOPPING] at h
        obtain ⟨h1, h2⟩ := h
        subst h1
        subst h2
        simp [nn_crtipc.running, crtipc_need, stat_sum, NN_CRTIPC_STATE_IDLE, NN_CRTIPC_STATE_CONNECTING,
          NN_CRTIPC_STATE_ACTIVE, NN_CRTIPC_STATE_STOPPING_SRTIPC,
          NN_CRTIPC_STATE_STOPPING_USOCK, NN_CRTIPC_STATE_WAITING,
          NN_CRTIPC_STATE_STOPPING_BACKOFF]
      | NN_BACKOFF_STOPPED =>
        simp [nn_crtipc_feed, nn_crtipc_handler, nn_crtipc_handler_WAITING,
          NN_CRTIPC_STATE_IDLE, NN_CRTIPC_STATE_CONNECTING, NN_CRTIPC_STATE_ACTIVE,
          NN_CRTIPC_STATE_STOPPING_SRTIPC, NN_CRTIPC_STATE_STOPPING_USOCK,
          NN_CRTIPC_STATE_WAITING, NN_CRTIPC_STATE_STOPPING_BACKOFF,
          NN_CRTIPC_STATE_STOPPING_SRTIPC_FINAL, NN_CRTIPC_STATE_STOPPING] at h
    | action t => simp [crtipc_input.is_action] at hev
    | _ =>
      simp [nn_crtipc_feed, nn_crtipc_handler, nn_crtipc_handler_WAITING,
        NN_CRTIPC_STATE_IDLE, NN_CRTIPC_STATE_CONNECTING, NN_CRTIPC_STATE_ACTIVE,
        NN_CRTIPC_STATE_STOPPING_SRTIPC, NN_CRTIPC_STATE_STOPPING_USOCK,
        NN_CRTIPC_STATE_WAITING, NN_CRTIPC_STATE_STOPPING_BACKOFF,
        NN_CRTIPC_STATE_STOPPING_SRTIPC_FINAL, NN_CRTIPC_STATE_STOPPING] at h
  · cases ev with
    | reconnect_timer t =>
      cases t with
      | NN_BACKOFF_TIMEOUT =>
        simp [nn_crtipc_feed, nn_crtipc_handler, nn_crtipc_handler_STOPPING_BACKOFF,
          NN_CRTIPC_STATE_IDLE, NN_CRTIPC_STATE_CONNECTING, NN_CRTIPC_STATE_ACTIVE,
          NN_CRTIPC_STATE_STOPPING_SRTIPC, NN_CRTIPC_STATE_STOPPING_USOCK,
          NN_CRTIPC_STATE_WAITING, NN_CRTIPC_STATE_STOPPING_BACKOFF,
          NN_CRTIPC_STATE_STOPPING_SRTIPC_FINAL, NN_CRTIPC_STATE_STOPPING] at h
      | NN_BACKOFF_STOPPED =>
        simp only [nn_crtipc_feed, nn_crtipc_handler, nn_crtipc_handler_STOPPING_BACKOFF,
          nn_crtipc_start_connecting,
          NN_CRTIPC_STATE_IDLE, NN_CRTIPC_STATE_CONNECTING, NN_CRTIPC_STATE_ACTIVE,
          NN_CRTIPC_STATE_STOPPING_SRTIPC, NN_CRTIPC_STATE_STOPPING_USOCK,
          NN_CRTIPC_STATE_WAITING, NN_CRTIPC_STATE_STOPPING_BACKOFF,
          NN_CRTIPC_STATE_STOPPING_SRTIPC_FINAL, NN_CRTIPC_STATE_STOPPING] at h
        simp only [show ¬ ((7 : Nat) = 8 ∨ (7 : Nat) = 9) by decide, if_false,
          show ¬ ((7 : Nat) = 1) by decide, show ¬ ((7 : Nat) = 2) by decide,
          show ¬ ((7 : Nat) = 3) by decide, show ¬ ((7 : Nat) = 4) by decide,
          show ¬ ((7 : Nat) = 5) by decide, show ¬ ((7 : Nat) = 6) by decide, if_true] at h
        split_ifs at h
        · simp only [Option.some.injEq, Prod.mk.injEq] at h
          obtain ⟨h1, h2⟩ := h
          subst h1
          subst h2
          simp [nn_crtipc.running, crtipc_need, stat_sum, NN_CRTIPC_STATE_IDLE, NN_CRTIPC_STATE_CONNECTING,
          NN_CRTIPC_STATE_ACTIVE, NN_CRTIPC_STATE_STOPPING_SRTIPC,
          NN_CRTIPC_STATE_STOPPING_USOCK, NN_CRTIPC_STATE_WAITING,
          NN_CRTIPC_STATE_STOPPING_BACKOFF]
        · simp only [Option.some.injEq, Prod.mk.injEq] at h
          obtain ⟨h1, h2⟩ := h
          subst h1
          subst h2
          simp [nn_crtipc.running, crtipc_need, stat_sum, NN_CRTIPC_STATE_IDLE, NN_CRTIPC_STATE_CONNECTING,
          NN_CRTIPC_STATE_ACTIVE, NN_CRTIPC_STATE_STOPPING_SRTIPC,
          NN_CRTIPC_STATE_STOPPING_USOCK, NN_CRTIPC_STATE_WAITING,
          NN_CRTIPC_STATE_STOPPING_BACKOFF]
    | action t => simp [crtipc_input.is_action] at hev
    | _ =>
      simp [nn_crtipc_feed, nn_crtipc_handler, nn_crtipc_handler_STOPPING_BACKOFF,
        NN_CRTIPC_STATE_IDLE, NN_CRTIPC_STATE_CONNECTING, NN_CRTIPC_STATE_ACTIVE,
        NN_CRTIPC_STATE_STOPPING_SRTIPC, NN_CRTIPC_STATE_STOPPING_USOCK,
        NN_CRTIPC_STATE_WAITING, NN_CRTIPC_STATE_STOPPING_BACKOFF,
        NN_CRTIPC_STATE_STOPPING_SRTIPC_FINAL, NN_CRTIPC_STATE_STOPPING] at h

/-- Along deliveries, none an action of the owner, to a running
ConnectEndpoint: each step enters CONNECTING only on the Stopped event of the
backoff and STOPPING_BACKOFF only on its Timeout, and starts the backoff once
when it enters WAITING and not otherwise; and when CONNECTING is entered, what
lay between the first state and CONNECTING is passed, in order, before. -/
theorem crtipc_trace_need (ds : List (ep_env × crtipc_input)) (s : nn_crtipc)
    (tr : List (crtipc_input × Nat × List EpEffect)) (hs : s.running)
    (hds : ∀ d ∈ ds, d.2.is_action = false) (htr : crtipc_trace s ds = some tr) :
    (∀ x ∈ tr,
        (x.2.1 = NN_CRTIPC_STATE_CONNECTING →
          x.1 = crtipc_input.reconnect_timer nn_backoff_event.NN_BACKOFF_STOPPED)
        ∧ (x.2.1 = NN_CRTIPC_STATE_STOPPING_BACKOFF →
          x.1 = crtipc_input.reconnect_timer nn_backoff_event.NN_BACKOFF_TIMEOUT)
        ∧ x.2.2.count EpEffect.backoff_start
            = (if x.2.1 = NN_CRTIPC_STATE_WAITING then 1 else 0))
    ∧ (NN_CRTIPC_STATE_CONNECTING ∈ crtipc_states tr →
        (crtipc_need s.state).Sublist
          ((crtipc_states tr).takeWhile (fun st => decide (st ≠ NN_CRTIPC_STATE_CONNECTING)))) := by
  induction ds generalizing s tr with
  | nil =>
    simp only [crtipc_trace, Option.some.injEq] at htr
    subst htr
    simp [crtipc_states]
  | cons d ds ih =>
    simp only [crtipc_trace] at htr
    cases hf : nn_crtipc_feed d.1 s d.2 with
    | none => simp [hf] at htr
    | some r =>
      obtain ⟨s1, e1⟩ := r
      simp only [hf] at htr
      cases ht : crtipc_trace s1 ds with
      | none => simp [ht] at htr
      | some tr1 =>
        simp only [ht, Option.some.injEq] at htr
        subst htr
        obtain ⟨k1, k2, k3, k4, k5, -⟩ := nn_crtipc_feed_step d.1 s s1 d.2 e1 hs
          (hds d (List.mem_cons_self _ _)) hf
        obtain ⟨i1, i2⟩ := ih s1 tr1 k1 (fun x hx => hds x (List.mem_cons_of_mem _ hx)) ht
        refine ⟨?_, ?_⟩
        · intro x hx
          rcases List.mem_cons.mp hx with hx | hx
          · subst hx
            exact ⟨fun h => (k2 h).2, fun h => (k3 h).2, k4⟩
          · exact i1 x hx
        · intro hC
          by_cases hc : s1.state = NN_CRTIPC_STATE_CONNECTING
          · have h7 := (k2 hc).1
            rw [h7]
            simp [crtipc_need, NN_CRTIPC_STATE_IDLE, NN_CRTIPC_STATE_CONNECTING,
              NN_CRTIPC_STATE_ACTIVE, NN_CRTIPC_STATE_STOPPING_SRTIPC,
              NN_CRTIPC_STATE_STOPPING_USOCK, NN_CRTIPC_STATE_WAITING,
              NN_CRTIPC_STATE_STOPPING_BACKOFF]
          · have hC1 : NN_CRTIPC_STATE_CONNECTING ∈ crtipc_states tr1 := by
              simp only [crtipc_states, List.map_cons, List.mem_cons] at hC
              rcases hC with hC | hC
              · exact absurd hC.symm hc
              · exact hC
            have h8 := i2 hC1
            have h9 : (crtipc_states ((d.2, s1.state, e1) :: tr1)).takeWhile
                (fun st => decide (st ≠ NN_CRTIPC_STATE_CONNECTING))
                = s1.state :: (crtipc_states tr1).takeWhile
                    (fun st => decide (st ≠ NN_CRTIPC_STATE_CONNECTING)) := by
              simp [crtipc_states, List.takeWhile_cons, hc]
            rw [h9]
            exact (k5 hc).trans (List.Sublist.cons₂ _ h8)

/-- C22: a ConnectEndpoint whose connection fails, by the Error of the socket in
CONNECTING or by the Error of the Session in ACTIVE, and the deliveries that
follow, none an action of the owner: when CONNECTING is entered again,
STOPPING_USOCK, WAITING and STOPPING_BACKOFF have been passed before, in this
order; the backoff is started once by each step that enters WAITING and by no
other step; STOPPING_BACKOFF is entered on the Timeout of the backoff and
CONNECTING on its Stopped event. And whatever is delivered, the owner's actions
included, CONNECTING is entered only from IDLE on the Start action and from
STOPPING_BACKOFF on the Stopped event of the backoff. -/
theorem C22_reconnect_through_backoff (s : nn_crtipc) (env0 : ep_env) (ev0 : crtipc_input)
    (ds : List (ep_env × crtipc_input)) (tr : List (crtipc_input × Nat × List EpEffect))
    (hfail : (s.state = NN_CRTIPC_STATE_CONNECTING
          ∧ ev0 = crtipc_input.usock nn_usock_event.NN_USOCK_ERROR)
        ∨ (s.state = NN_CRTIPC_STATE_ACTIVE ∧ ev0 = crtipc_input.srtipc NN_SRTIPC_ERROR))
    (hds : ∀ d ∈ ds, d.2.is_action = false)
    (htr : crtipc_trace s ((env0, ev0) :: ds) = some tr) :
    (NN_CRTIPC_STATE_CONNECTING ∈ crtipc_states tr →
        [NN_CRTIPC_STATE_STOPPING_USOCK, NN_CRTIPC_STATE_WAITING,
          NN_CRTIPC_STATE_STOPPING_BACKOFF].Sublist
          ((crtipc_states tr).takeWhile (fun st => decide (st ≠ NN_CRTIPC_STATE_CONNECTING))))
    ∧ (∀ x ∈ tr,
        (x.2.1 = NN_CRTIPC_STATE_CONNECTING →
          x.1 = crtipc_input.reconnect_timer nn_backoff_event.NN_BACKOFF_STOPPED)
        ∧ (x.2.1 = NN_CRTIPC_STATE_STOPPING_BACKOFF →
          x.1 = crtipc_input.reconnect_timer nn_backoff_event.NN_BACKOFF_TIMEOUT)
        ∧ x.2.2.count EpEffect.backoff_start
            = (if x.2.1 = NN_CRTIPC_STATE_WAITING then 1 else 0))
    ∧ (∀ (env : ep_env) (a a1 : nn_crtipc) (ev : crtipc_input) (e : List EpEffect),
        nn_crtipc_feed env a ev = some (a1, e) → a1.state = NN_CRTIPC_STATE_CONNECTING →
          (a.state = NN_CRTIPC_STATE_IDLE ∧ ev = crtipc_input.action nn_fsm_action.NN_FSM_START)
          ∨ (a.state = NN_CRTIPC_STATE_STOPPING_BACKOFF
            ∧ ev = crtipc_input.reconnect_timer nn_backoff_event.NN_BACKOFF_STOPPED)) := by
  have hrun : s.running := by
    rcases hfail with h | h
    · exact Or.inl h.1
    · exact Or.inr (Or.inl h.1)
  have hall : ∀ d ∈ (env0, ev0) :: ds, d.2.is_action = false := by
    intro d hd
    rcases List.mem_cons.mp hd with hd | hd
    · subst hd
      rcases hfail with h | h <;> rw [h.2] <;> rfl
    · exact hds d hd
  obtain ⟨i1, i2⟩ := crtipc_trace_need ((env0, ev0) :: ds) s tr hrun hall htr
  refine ⟨?_, i1, ?_⟩
  · intro hC
    have h1 := i2 hC
    rcases hfail with h | h
    · rw [h.1] at h1
      simpa [crtipc_need] using h1
    · rw [h.1] at h1
      have h2 : (crtipc_need NN_CRTIPC_STATE_ACTIVE) = NN_CRTIPC_STATE_STOPPING_SRTIPC ::
          [NN_CRTIPC_STATE_STOPPING_USOCK, NN_CRTIPC_STATE_WAITING,
            NN_CRTIPC_STATE_STOPPING_BACKOFF] := by decide
      rw [h2] at h1
      exact (List.sublist_cons_self _ _).trans h1
  · intro env a a1 ev e h hc
    obtain ⟨fsm, st⟩ := a
    by_cases hst : st = 8 ∨ st = 9
    · exfalso
      replace h := h.symm
      rcases hst with hst | hst <;> subst hst <;> cases ev with
      | action t =>
        cases t <;> cases h5 : env.srtipc_isidle <;> cases h6 : env.backoff_isidle <;>
          cases h7 : env.usock_isidle <;> cases h8 : env.srtipc_isidle_at_stop <;>
          simp [nn_crtipc_feed, nn_crtipc_shutdown, nn_crtipc_shutdown_STOPPING, h5, h6, h7, h8,
            NN_CRTIPC_STATE_IDLE, NN_CRTIPC_STATE_STOPPING_SRTIPC_FINAL,
            NN_CRTIPC_STATE_STOPPING] at h <;>
          (obtain ⟨h1, h2⟩ := h
           subst h1
           simp [NN_CRTIPC_STATE_CONNECTING, NN_CRTIPC_STATE_IDLE,
             NN_CRTIPC_STATE_STOPPING_SRTIPC_FINAL, NN_CRTIPC_STATE_STOPPING] at hc)
      | _ =>
        cases h5 : env.srtipc_isidle <;> cases h6 : env.backoff_isidle <;>
          cases h7 : env.usock_isidle <;> cases h8 : env.srtipc_isidle_at_stop <;>
          simp [nn_crtipc_feed, nn_crtipc_shutdown, nn_crtipc_shutdown_STOPPING, h5, h6, h7, h8,
            NN_CRTIPC_STATE_IDLE, NN_CRTIPC_STATE_STOPPING_SRTIPC_FINAL,
            NN_CRTIPC_STATE_STOPPING] at h <;>
          (obtain ⟨h1, h2⟩ := h
           subst h1
           simp [NN_CRTIPC_STATE_CONNECTING, NN_CRTIPC_STATE_IDLE,
             NN_CRTIPC_STATE_STOPPING_SRTIPC_FINAL, NN_CRTIPC_STATE_STOPPING] at hc)
    · by_cases hidle : st = 1
      · subst hidle
        left
        refine ⟨rfl, ?_⟩
        cases ev with
        | action t =>
          cases t with
          | NN_FSM_START => rfl
          | NN_FSM_STOP =>
            simp [nn_crtipc_feed, nn_crtipc_handler, nn_crtipc_handler_IDLE,
              NN_CRTIPC_STATE_IDLE, NN_CRTIPC_STATE_STOPPING_SRTIPC_FINAL,
              NN_CRTIPC_STATE_STOPPING] at h
        | _ =>
          simp [nn_crtipc_feed, nn_crtipc_handler, nn_crtipc_handler_IDLE,
            NN_CRTIPC_STATE_IDLE, NN_CRTIPC_STATE_STOPPING_SRTIPC_FINAL,
            NN_CRTIPC_STATE_STOPPING] at h
      · right
        by_cases hr : (⟨fsm, st⟩ : nn_crtipc).running
        · cases ev with
          | action t =>
            exfalso
            replace h := h.symm
            simp only [nn_crtipc.running] at hr
            cases t with
            | NN_FSM_START =>
              rcases hr with hr | hr | hr | hr | hr | hr <;> subst hr <;>
                simp [nn_crtipc_feed, nn_crtipc_handler, nn_crtipc_handler_CONNECTING,
                  nn_crtipc_handler_ACTIVE, nn_crtipc_handler_STOPPING_SRTIPC,
                  nn_crtipc_handler_STOPPING_USOCK, nn_crtipc_handler_WAITING,
                  nn_crtipc_handler_STOPPING_BACKOFF,
                  NN_CRTIPC_STATE_IDLE, NN_CRTIPC_STATE_CONNECTING, NN_CRTIPC_STATE_ACTIVE,
                  NN_CRTIPC_STATE_STOPPING_SRTIPC, NN_CRTIPC_STATE_STOPPING_USOCK,
                  NN_CRTIPC_STATE_WAITING, NN_CRTIPC_STATE_STOPPING_BACKOFF,
                  NN_CRTIPC_STATE_STOPPING_SRTIPC_FINAL, NN_CRTIPC_STATE_STOPPING] at h
            | NN_FSM_STOP =>
              rcases hr with hr | hr | hr | hr | hr | hr <;> subst hr <;>
                simp [nn_crtipc_feed, nn_crtipc_handler, nn_crtipc_handler_CONNECTING,
                  nn_crtipc_handler_ACTIVE, nn_crtipc_handler_STOPPING_SRTIPC,
                  nn_crtipc_handler_STOPPING_USOCK, nn_crtipc_handler_WAITING,
                  nn_crtipc_handler_STOPPING_BACKOFF,
                  NN_CRTIPC_STATE_IDLE, NN_CRTIPC_STATE_CONNECTING, NN_CRTIPC_STATE_ACTIVE,
                  NN_CRTIPC_STATE_STOPPING_SRTIPC, NN_CRTIPC_STATE_STOPPING_USOCK,
                  NN_CRTIPC_STATE_WAITING, NN_CRTIPC_STATE_STOPPING_BACKOFF,
                  NN_CRTIPC_STATE_STOPPING_SRTIPC_FINAL, NN_CRTIPC_STATE_STOPPING] at h
          | usock t =>
            exact (nn_crtipc_feed_step env ⟨fsm, st⟩ a1 (crtipc_input.usock t) e hr rfl h).2.1 hc
          | reconnect_timer t =>
            exact (nn_crtipc_feed_step env ⟨fsm, st⟩ a1 (crtipc_input.reconnect_timer t) e hr rfl h).2.1 hc
          | srtipc t =>
            exact (nn_crtipc_feed_step env ⟨fsm, st⟩ a1 (crtipc_input.srtipc t) e hr rfl h).2.1 hc
        · exfalso
          simp only [nn_crtipc.running, NN_CRTIPC_STATE_CONNECTING, NN_CRTIPC_STATE_ACTIVE,
            NN_CRTIPC_STATE_STOPPING_SRTIPC, NN_CRTIPC_STATE_STOPPING_USOCK,
            NN_CRTIPC_STATE_WAITING, NN_CRTIPC_STATE_STOPPING_BACKOFF, not_or] at hr
          obtain ⟨r2, r3, r4, r5, r6, r7⟩ := hr
          simp [nn_crtipc_feed, nn_crtipc_handler, hst, hidle, r2, r3, r4, r5, r6, r7,
            NN_CRTIPC_STATE_IDLE, NN_CRTIPC_STATE_CONNECTING, NN_CRTIPC_STATE_ACTIVE,
            NN_CRTIPC_STATE_STOPPING_SRTIPC, NN_CRTIPC_STATE_STOPPING_USOCK,
            NN_CRTIPC_STATE_WAITING, NN_CRTIPC_STATE_STOPPING_BACKOFF,
            NN_CRTIPC_STATE_STOPPING_SRTIPC_FINAL, NN_CRTIPC_STATE_STOPPING] at h

/-- C22 (witness): the connection fails in CONNECTING; the socket reports
Shutdown and Stopped, the backoff its Timeout and its Stopped event, and
CONNECTING is entered again. -/
theorem C22_reconnect_through_backoff_witness :
    crtipc_trace { fsm := 3, state := NN_CRTIPC_STATE_CONNECTING }
        ((ep_env_idle, crtipc_input.usock nn_usock_event.NN_USOCK_ERROR)
          :: crtipc_retry_deliveries)
      = some crtipc_retry_trace
    ∧ [NN_CRTIPC_STATE_STOPPING_USOCK, NN_CRTIPC_STATE_WAITING,
        NN_CRTIPC_STATE_STOPPING_BACKOFF].Sublist
        ((crtipc_states crtipc_retry_trace).takeWhile
          (fun st => decide (st ≠ NN_CRTIPC_STATE_CONNECTING))) :=
  ⟨by decide,
    (C22_reconnect_through_backoff { fsm := 3, state := NN_CRTIPC_STATE_CONNECTING }
      ep_env_idle (crtipc_input.usock nn_usock_event.NN_USOCK_ERROR)
      crtipc_retry_deliveries crtipc_retry_trace
      (Or.inl ⟨rfl, rfl⟩) (by decide) (by decide)).1 (by decide)⟩

/-! ### C25 -/

/-- The handler of the BindEndpoint evaluated on the Stopped event of the
accepted AcceptSession 11 in each of its states: the blocks of STOPPING_ARTIPC,
whose pending AcceptSession is not idle yet, and of STOPPING_USOCK, whose socket
is not idle yet, do not look at the event and leave the list as it is, where
ACTIVE and STOPPING_ARTIPCS erase the member; with an idle pending AcceptSession
the block of STOPPING_ARTIPC goes on and the member stays in the list as well.
`bind_late_stopped_calls` brings such an event to the endpoint in
STOPPING_ARTIPC by carrying out the stop of the endpoint between the handler
that queued the event and its delivery; the runtime does not take the calls in
that order, while it takes the first seven of them. -/
theorem nn_brtipc_feed_stopped_in_each_state :
    nn_brtipc_feed ep_env_busy
        { fsm := 1, usock := 2, state := NN_BRTIPC_STATE_STOPPING_ARTIPC, artipc := some 12,
          artipcs := [11] }
        (brtipc_input.artipc 11 nn_artipc_event.NN_ARTIPC_STOPPED)
      = some ({ fsm := 1, usock := 2, state := NN_BRTIPC_STATE_STOPPING_ARTIPC,
                artipc := some 12, artipcs := [11] }, [])
    ∧ nn_brtipc_feed ep_env_busy
        { fsm := 1, usock := 2, state := NN_BRTIPC_STATE_STOPPING_USOCK, artipc := none,
          artipcs := [11] }
        (brtipc_input.artipc 11 nn_artipc_event.NN_ARTIPC_STOPPED)
      = some ({ fsm := 1, usock := 2, state := NN_BRTIPC_STATE_STOPPING_USOCK,
                artipc := none, artipcs := [11] }, [])
    ∧ nn_brtipc_feed ep_env_idle
        { fsm := 1, usock := 2, state := NN_BRTIPC_STATE_STOPPING_ARTIPC, artipc := some 12,
          artipcs := [11] }
        (brtipc_input.artipc 11 nn_artipc_event.NN_ARTIPC_STOPPED)
      = some ({ fsm := 1, usock := 2, state := NN_BRTIPC_STATE_STOPPING_ARTIPCS,
                artipc := none, artipcs := [11] },
          [EpEffect.artipc_term 12, EpEffect.free 12, EpEffect.usock_stop,
           EpEffect.artipc_stop 11])
    ∧ nn_brtipc_feed ep_env_busy
        { fsm := 1, usock := 2, state := NN_BRTIPC_STATE_ACTIVE, artipc := some 12,
          artipcs := [11] }
        (brtipc_input.artipc 11 nn_artipc_event.NN_ARTIPC_STOPPED)
      = some ({ fsm := 1, usock := 2, state := NN_BRTIPC_STATE_ACTIVE, artipc := some 12,
                artipcs := [] },
          [EpEffect.artipc_term 11, EpEffect.free 11])
    ∧ nn_brtipc_feed ep_env_busy
        { fsm := 1, usock := 2, state := NN_BRTIPC_STATE_STOPPING_ARTIPCS, artipc := none,
          artipcs := [11] }
        (brtipc_input.artipc 11 nn_artipc_event.NN_ARTIPC_STOPPED)
      = some ({ fsm := 1, usock := 2, state := NN_BRTIPC_STATE_IDLE, artipc := none,
                artipcs := [] },
          [EpEffect.artipc_term 11, EpEffect.free 11, EpEffect.fsm_stopped_noevent,
           EpEffect.epbase_stopped])
    ∧ (bind_run (bind_world_init 1 2) (bind_late_stopped_calls.take 8)).map bind_world.observe
      = some (NN_BRTIPC_STATE_STOPPING_ARTIPC, some 12, [11], some NN_ARTIPC_STATE_IDLE,
          [(11, nn_artipc_event.NN_ARTIPC_STOPPED)])
    ∧ (bind_run (bind_world_init 1 2) bind_late_stopped_calls).map bind_world.observe
      = some (NN_BRTIPC_STATE_STOPPING_ARTIPCS, none, [11], some NN_ARTIPC_STATE_IDLE, [])
    ∧ bind_schedule (bind_world_init 1 2) (bind_late_stopped_calls.take 7) = true
    ∧ bind_schedule (bind_world_init 1 2) (bind_late_stopped_calls.take 8) = false
    ∧ bind_schedule (bind_world_init 1 2) bind_late_stopped_calls = false := by
  refine ⟨by decide, by decide, by decide, by decide, by decide, rfl, rfl, by decide, by decide,
    by decide⟩

/-! ### C27, C28: the code at the inputs where it departs from the claim -/

/-- C27 (the code at the failing input): a StreamHdr in SENDING, and one in
RECEIVING, that holds the socket 1 with the saved owner 5 is stopped while its
timer runs; after the Stopped event of the timer it is in IDLE, having raised
Stopped, with `usock` and `usock_owner` as they were and without a call of
`nn_usock_swap_owner`, and `nn_streamhdr_start` on it fails its assertion. The
Stopped event of the timer in STOPPING_TIMER_ERROR clears both fields and gives
the socket back. -/
theorem C27_stop_keeps_socket_fields :
    (nn_streamhdr_stop (fun _ => true) false
        { fsm := 7, state := NN_STREAMHDR_STATE_SENDING, usock := some 1, usock_owner := some 5,
          pipebase := some 2, protohdr := [0x00, 0x53, 0x50, 0x00, 0x00, 0x10, 0x00, 0x00] }).bind
      (fun r => (nn_streamhdr_run (fun _ => true) r.1
          [⟨streamhdr_input.timer nn_timer_event.NN_TIMER_STOPPED, [], true⟩]).map
        (fun r2 => (r2.1, r.2 ++ r2.2)))
      = some ({ fsm := 7, state := NN_STREAMHDR_STATE_IDLE, usock := some 1,
                usock_owner := some 5, pipebase := some 2,
                protohdr := [0x00, 0x53, 0x50, 0x00, 0x00, 0x10, 0x00, 0x00] },
          [Effect.timer_stop,
           Effect.streamhdr_stopped nn_streamhdr_event.NN_STREAMHDR_STOPPED])
    ∧ (nn_streamhdr_stop (fun _ => true) false
        { fsm := 7, state := NN_STREAMHDR_STATE_RECEIVING, usock := some 1,
          usock_owner := some 5, pipebase := some 2,
          protohdr := [0x00, 0x53, 0x50, 0x00, 0x00, 0x10, 0x00, 0x00] }).bind
      (fun r => (nn_streamhdr_run (fun _ => true) r.1
          [⟨streamhdr_input.timer nn_timer_event.NN_TIMER_STOPPED, [], true⟩]).map
        (fun r2 => (r2.1, r.2 ++ r2.2)))
      = some ({ fsm := 7, state := NN_STREAMHDR_STATE_IDLE, usock := some 1,
                usock_owner := some 5, pipebase := some 2,
                protohdr := [0x00, 0x53, 0x50, 0x00, 0x00, 0x10, 0x00, 0x00] },
          [Effect.timer_stop,
           Effect.streamhdr_stopped nn_streamhdr_event.NN_STREAMHDR_STOPPED])
    ∧ nn_streamhdr_start (fun _ => true) false (some 5) 0x0010 4
        { fsm := 7, state := NN_STREAMHDR_STATE_IDLE, usock := some 1, usock_owner := some 5,
          pipebase := some 2, protohdr := [0x00, 0x53, 0x50, 0x00, 0x00, 0x10, 0x00, 0x00] } 1 2
      = none
    ∧ nn_streamhdr_handler (fun _ => true) true
        { fsm := 7, state := NN_STREAMHDR_STATE_STOPPING_TIMER_ERROR, usock := some 1,
          usock_owner := some 5, pipebase := some 2,
          protohdr := [0x00, 0x53, 0x50, 0x00, 0x00, 0x10, 0x00, 0x00] }
        (streamhdr_input.timer nn_timer_event.NN_TIMER_STOPPED)
      = some ({ fsm := 7, state := NN_STREAMHDR_STATE_DONE, usock := none, usock_owner := none,
                pipebase := some 2,
                protohdr := [0x00, 0x53, 0x50, 0x00, 0x00, 0x10, 0x00, 0x00] },
          [Effect.usock_swap_owner_fsm (some 5),
           Effect.streamhdr_raise nn_streamhdr_event.NN_STREAMHDR_ERROR]) := by
  refine ⟨by decide, by decide, by decide, by decide⟩

/-- C28 (the code at the failing input): a ConnectEndpoint is created and is
CONNECTING, having incremented INPROGRESS_CONNECTIONS by 1; it is stopped while
the socket is not idle yet and is in STOPPING, and after the Stopped event of
the socket it is in IDLE: the increments of INPROGRESS_CONNECTIONS it has
emitted sum to 1 in both states. The Error of the socket in CONNECTING takes
the increment back. -/
theorem C28_stop_while_connecting_keeps_inprogress :
    (nn_crtipc_create ep_env_idle 100 4 0 4).map
        (fun r => (r.1.state, stat_sum nn_stat.NN_STAT_INPROGRESS_CONNECTIONS r.2))
      = some (NN_CRTIPC_STATE_CONNECTING, 1)
    ∧ ((nn_crtipc_create ep_env_idle 100 4 0 4).bind
        (fun r => (nn_crtipc_stop { ep_env_idle with usock_isidle := false } r.1).map
          (fun r2 => (r2.1.state, r2.2,
            stat_sum nn_stat.NN_STAT_INPROGRESS_CONNECTIONS (r.2 ++ r2.2)))))
      = some (NN_CRTIPC_STATE_STOPPING, [EpEffect.backoff_stop, EpEffect.usock_stop], 1)
    ∧ ((nn_crtipc_create ep_env_idle 100 4 0 4).bind
        (fun r => (nn_crtipc_stop { ep_env_idle with usock_isidle := false } r.1).bind
          (fun r2 => (nn_crtipc_feed ep_env_idle r2.1
              (crtipc_input.usock nn_usock_event.NN_USOCK_STOPPED)).map
            (fun r3 => (r3.1.state, r3.2,
              stat_sum nn_stat.NN_STAT_INPROGRESS_CONNECTIONS (r.2 ++ r2.2 ++ r3.2))))))
      = some (NN_CRTIPC_STATE_IDLE, [EpEffect.fsm_stopped_noevent, EpEffect.epbase_stopped], 1)
    ∧ ((nn_crtipc_create ep_env_idle 100 4 0 4).bind
        (fun r => (nn_crtipc_feed ep_env_idle r.1
            (crtipc_input.usock nn_usock_event.NN_USOCK_ERROR)).map
          (fun r2 => (r2.1.state,
            stat_sum nn_stat.NN_STAT_INPROGRESS_CONNECTIONS (r.2 ++ r2.2)))))
      = some (NN_CRTIPC_STATE_STOPPING_USOCK, 0) := by
  refine ⟨by decide, by decide, by decide, by decide⟩


/-! ### C29: losses are counted once -/

/-- One delivery that is not an action to a StreamHdr, seen from outside: it is
accepted outside IDLE and DONE only; DONE is entered on the Stopped event of
the timer only, with one verdict raised; IDLE is entered only when the timer
reports idle, with Stopped raised; nothing is raised otherwise; and the timer
is left as it is on the way into DONE or IDLE. -/
theorem nn_streamhdr_deliver_outcome (ispeer : Nat → Bool) (h h1 : nn_streamhdr)
    (d : streamhdr_delivery) (e : List Effect) (t : Nat)
    (hd : ∀ a, d.ev ≠ streamhdr_input.fsm a)
    (hr : nn_streamhdr_deliver ispeer h d = some (h1, e)) :
    h.state ≠ NN_STREAMHDR_STATE_IDLE ∧ h.state ≠ NN_STREAMHDR_STATE_DONE
    ∧ (h1.state = NN_STREAMHDR_STATE_DONE →
        d.ev = streamhdr_input.timer nn_timer_event.NN_TIMER_STOPPED ∧ timer_after t e = t
        ∧ count_verdicts (streamhdr_events e) = 1)
    ∧ (h1.state = NN_STREAMHDR_STATE_IDLE →
        d.timer_isidle = true ∧ timer_after t e = t
        ∧ streamhdr_events e = [nn_streamhdr_event.NN_STREAMHDR_STOPPED])
    ∧ (h1.state ≠ NN_STREAMHDR_STATE_DONE → h1.state ≠ NN_STREAMHDR_STATE_IDLE →
        streamhdr_events e = []) := by
  obtain ⟨ev, data, idle⟩ := d
  obtain ⟨fsm, st, us, uo, pb, ph⟩ := h
  replace hr := hr.symm
  by_cases c7 : st = 7
  · subst c7
    cases ev with
    | fsm a => exact absurd rfl (hd a)
    | _ =>
      cases idle <;>
        simp [nn_streamhdr_deliver, nn_streamhdr_handler, NN_STREAMHDR_STATE_STOPPING,
          NN_STREAMHDR_STATE_IDLE] at hr <;>
        (try split_ifs at hr) <;>
        (try simp only [Option.some.injEq, Prod.mk.injEq] at hr) <;>
        obtain ⟨h3, h4⟩ := hr <;> subst h3 <;> subst h4 <;>
        simp [timer_after, streamhdr_events, count_verdicts, NN_STREAMHDR_STATE_STOPPING,
          NN_STREAMHDR_STATE_IDLE, NN_STREAMHDR_STATE_DONE]
  · by_cases c1 : st = 1
    · subst c1
      exfalso
      cases ev with
      | fsm a => exact absurd rfl (hd a)
      | usock a =>
        cases a <;>
          simp [nn_streamhdr_deliver, nn_streamhdr_handler, nn_streamhdr_handler_IDLE,
            NN_STREAMHDR_STATE_STOPPING, NN_STREAMHDR_STATE_IDLE] at hr
      | timer a =>
        cases a <;>
          simp [nn_streamhdr_deliver, nn_streamhdr_handler, nn_streamhdr_handler_IDLE,
            NN_STREAMHDR_STATE_STOPPING, NN_STREAMHDR_STATE_IDLE] at hr
    · by_cases c2 : st = 2
      · subst c2
        cases ev with
        | fsm a => exact absurd rfl (hd a)
        | usock a =>
          cases a <;>
            simp [nn_streamhdr_deliver, nn_streamhdr_handler, nn_streamhdr_handler_SENDING,
              NN_STREAMHDR_STATE_STOPPING, NN_STREAMHDR_STATE_IDLE,
              NN_STREAMHDR_STATE_SENDING] at hr <;>
            obtain ⟨h3, h4⟩ := hr <;> subst h3 <;> subst h4 <;>
            simp [timer_after, streamhdr_events, count_verdicts, NN_STREAMHDR_STATE_STOPPING,
              NN_STREAMHDR_STATE_IDLE, NN_STREAMHDR_STATE_DONE, NN_STREAMHDR_STATE_RECEIVING,
              NN_STREAMHDR_STATE_STOPPING_TIMER_ERROR]
        | timer a =>
          cases a with
          | NN_TIMER_TIMEOUT =>
            simp [nn_streamhdr_deliver, nn_streamhdr_handler, nn_streamhdr_handler_SENDING,
              NN_STREAMHDR_STATE_STOPPING, NN_STREAMHDR_STATE_IDLE,
              NN_STREAMHDR_STATE_SENDING] at hr
            obtain ⟨h3, h4⟩ := hr
            subst h3
            subst h4
            simp [timer_after, streamhdr_events, count_verdicts, NN_STREAMHDR_STATE_STOPPING,
              NN_STREAMHDR_STATE_IDLE, NN_STREAMHDR_STATE_DONE, NN_STREAMHDR_STATE_RECEIVING,
              NN_STREAMHDR_STATE_STOPPING_TIMER_ERROR]
          | NN_TIMER_STOPPED =>
            simp [nn_streamhdr_deliver, nn_streamhdr_handler, nn_streamhdr_handler_SENDING,
              NN_STREAMHDR_STATE_STOPPING, NN_STREAMHDR_STATE_IDLE,
              NN_STREAMHDR_STATE_SENDING] at hr
      · by_cases c3 : st = 3
        · subst c3
          cases ev with
          | fsm a => exact absurd rfl (hd a)
          | usock a =>
            cases a <;>
              simp [nn_streamhdr_deliver, nn_streamhdr_handler, nn_streamhdr_handler_RECEIVING,
                NN_STREAMHDR_STATE_STOPPING, NN_STREAMHDR_STATE_IDLE,
                NN_STREAMHDR_STATE_SENDING, NN_STREAMHDR_STATE_RECEIVING] at hr <;>
              (try split_ifs at hr) <;>
              (try simp only [Option.some.injEq, Prod.mk.injEq] at hr) <;>
              obtain ⟨h3, h4⟩ := hr <;> subst h3 <;> subst h4 <;>
              simp [timer_after, streamhdr_events, count_verdicts, NN_STREAMHDR_STATE_STOPPING,
                NN_STREAMHDR_STATE_IDLE, NN_STREAMHDR_STATE_DONE, NN_STREAMHDR_STATE_RECEIVING,
                NN_STREAMHDR_STATE_STOPPING_TIMER_ERROR, NN_STREAMHDR_STATE_STOPPING_TIMER_DONE]
          | timer a =>
            cases a with
            | NN_TIMER_TIMEOUT =>
              simp [nn_streamhdr_deliver, nn_streamhdr_handler, nn_streamhdr_handler_RECEIVING,
                NN_STREAMHDR_STATE_STOPPING, NN_STREAMHDR_STATE_IDLE,
                NN_STREAMHDR_STATE_SENDING, NN_STREAMHDR_STATE_RECEIVING] at hr
              obtain ⟨h3, h4⟩ := hr
              subst h3
              subst h4
              simp [timer_after, streamhdr_events, count_verdicts, NN_STREAMHDR_STATE_STOPPING,
                NN_STREAMHDR_STATE_IDLE, NN_STREAMHDR_STATE_DONE, NN_STREAMHDR_STATE_RECEIVING,
                NN_STREAMHDR_STATE_STOPPING_TIMER_ERROR]
            | NN_TIMER_STOPPED =>
              simp [nn_streamhdr_deliver, nn_streamhdr_handler, nn_streamhdr_handler_RECEIVING,
                NN_STREAMHDR_STATE_STOPPING, NN_STREAMHDR_STATE_IDLE,
                NN_STREAMHDR_STATE_SENDING, NN_STREAMHDR_STATE_RECEIVING] at hr
        · by_cases c4 : st = 4
          · subst c4
            cases ev with
            | fsm a => exact absurd rfl (hd a)
            | usock a =>
              cases a <;>
                simp [nn_streamhdr_deliver, nn_streamhdr_handler,
                  nn_streamhdr_handler_STOPPING_TIMER_ERROR,
                  NN_STREAMHDR_STATE_STOPPING, NN_STREAMHDR_STATE_IDLE,
                  NN_STREAMHDR_STATE_SENDING, NN_STREAMHDR_STATE_RECEIVING,
                  NN_STREAMHDR_STATE_STOPPING_TIMER_ERROR] at hr
            | timer a =>
              cases a <;>
                simp [nn_streamhdr_deliver, nn_streamhdr_handler,
                  nn_streamhdr_handler_STOPPING_TIMER_ERROR,
                  NN_STREAMHDR_STATE_STOPPING, NN_STREAMHDR_STATE_IDLE,
                  NN_STREAMHDR_STATE_SENDING, NN_STREAMHDR_STATE_RECEIVING,
                  NN_STREAMHDR_STATE_STOPPING_TIMER_ERROR] at hr
              obtain ⟨h3, h4⟩ := hr
              subst h3
              subst h4
              simp [timer_after, streamhdr_events, count_verdicts, NN_STREAMHDR_STATE_STOPPING,
                NN_STREAMHDR_STATE_IDLE, NN_STREAMHDR_STATE_DONE]
          · by_cases c5 : st = 5
            · subst c5
              cases ev with
              | fsm a => exact absurd rfl (hd a)
              | usock a =>
                cases a <;>
                  simp [nn_streamhdr_deliver, nn_streamhdr_handler,
                    nn_streamhdr_handler_STOPPING_TIMER_DONE,
                    NN_STREAMHDR_STATE_STOPPING, NN_STREAMHDR_STATE_IDLE,
                    NN_STREAMHDR_STATE_SENDING, NN_STREAMHDR_STATE_RECEIVING,
                    NN_STREAMHDR_STATE_STOPPING_TIMER_ERROR,
                    NN_STREAMHDR_STATE_STOPPING_TIMER_DONE] at hr
              | timer a =>
                cases a <;>
                  simp [nn_streamhdr_deliver, nn_streamhdr_handler,
                    nn_streamhdr_handler_STOPPING_TIMER_DONE,
                    NN_STREAMHDR_STATE_STOPPING, NN_STREAMHDR_STATE_IDLE,
                    NN_STREAMHDR_STATE_SENDING, NN_STREAMHDR_STATE_RECEIVING,
                    NN_STREAMHDR_STATE_STOPPING_TIMER_ERROR,
                    NN_STREAMHDR_STATE_STOPPING_TIMER_DONE] at hr
                obtain ⟨h3, h4⟩ := hr
                subst h3
                subst h4
                simp [timer_after, streamhdr_events, count_verdicts, NN_STREAMHDR_STATE_STOPPING,
                  NN_STREAMHDR_STATE_IDLE, NN_STREAMHDR_STATE_DONE]
            · exfalso
              cases ev with
              | fsm a => exact absurd rfl (hd a)
              | usock a =>
                cases a <;>
                  simp [nn_streamhdr_deliver, nn_streamhdr_handler, c1, c2, c3, c4, c5, c7,
                    NN_STREAMHDR_STATE_STOPPING, NN_STREAMHDR_STATE_IDLE,
                    NN_STREAMHDR_STATE_SENDING, NN_STREAMHDR_STATE_RECEIVING,
                    NN_STREAMHDR_STATE_STOPPING_TIMER_ERROR,
                    NN_STREAMHDR_STATE_STOPPING_TIMER_DONE] at hr
              | timer a =>
                cases a <;>
                  simp [nn_streamhdr_deliver, nn_streamhdr_handler, c1, c2, c3, c4, c5, c7,
                    NN_STREAMHDR_STATE_STOPPING, NN_STREAMHDR_STATE_IDLE,
                    NN_STREAMHDR_STATE_SENDING, NN_STREAMHDR_STATE_RECEIVING,
                    NN_STREAMHDR_STATE_STOPPING_TIMER_ERROR,
                    NN_STREAMHDR_STATE_STOPPING_TIMER_DONE] at hr

/-- One delivery that is not an action to a Session that is not stopping, seen
from outside: it is accepted outside IDLE and DONE only, and in PROTOHDR only
when it is a verdict of the StreamHdr; the Session is not left in IDLE,
PROTOHDR or STOPPING; on OK in PROTOHDR the only call is the stop of the
StreamHdr, and otherwise the StreamHdr is neither started nor stopped and Error
is raised exactly on the way into DONE. -/
theorem nn_srtipc_feed_outcome (idle : Bool) (rc : Int) (s s1 : nn_srtipc) (ev : srtipc_input)
    (e : List Effect) (hs : s.state ≠ NN_SRTIPC_STATE_STOPPING) (hev : ev.is_action = false)
    (hr : nn_srtipc_feed idle rc s ev = some (s1, e)) :
    s.state ≠ NN_SRTIPC_STATE_IDLE ∧ s.state ≠ NN_SRTIPC_STATE_DONE
    ∧ s1.state ≠ NN_SRTIPC_STATE_IDLE ∧ s1.state ≠ NN_SRTIPC_STATE_STOPPING
    ∧ s1.state ≠ NN_SRTIPC_STATE_PROTOHDR
    ∧ (s.state = NN_SRTIPC_STATE_PROTOHDR →
        ∃ t, ev = srtipc_input.streamhdr t ∧ t ≠ nn_streamhdr_event.NN_STREAMHDR_STOPPED)
    ∧ ((s.state = NN_SRTIPC_STATE_PROTOHDR
          ∧ ev = srtipc_input.streamhdr nn_streamhdr_event.NN_STREAMHDR_OK
          ∧ e = [Effect.streamhdr_stop] ∧ s1.state = NN_SRTIPC_STATE_STOPPING_STREAMHDR)
      ∨ (Effect.streamhdr_start ∉ e ∧ Effect.streamhdr_stop ∉ e
        ∧ srtipc_events e
            = (if s1.state = NN_SRTIPC_STATE_DONE then [NN_SRTIPC_ERROR] else []))) := by
  replace hr := hr.symm
  simp only [NN_SRTIPC_STATE_STOPPING] at hs
  by_cases c1 : s.state = 1
  · exfalso
    cases ev with
    | action a => simp [srtipc_input.is_action] at hev
    | _ =>
      simp [nn_srtipc_feed, nn_srtipc_handler, nn_srtipc_handler_IDLE, c1,
        NN_SRTIPC_STATE_IDLE, NN_SRTIPC_STATE_STOPPING] at hr
  · by_cases c2 : s.state = 2
    · cases ev with
      | action a => simp [srtipc_input.is_action] at hev
      | usock a =>
        simp [nn_srtipc_feed, nn_srtipc_handler, nn_srtipc_handler_PROTOHDR, c2,
          NN_SRTIPC_STATE_IDLE, NN_SRTIPC_STATE_STOPPING, NN_SRTIPC_STATE_PROTOHDR] at hr
      | streamhdr a =>
        cases a with
        | NN_STREAMHDR_OK =>
          simp [nn_srtipc_feed, nn_srtipc_handler, nn_srtipc_handler_PROTOHDR, c2,
            NN_SRTIPC_STATE_IDLE, NN_SRTIPC_STATE_STOPPING, NN_SRTIPC_STATE_PROTOHDR] at hr
          obtain ⟨h3, h4⟩ := hr
          subst h3
          subst h4
          simp [c2, NN_SRTIPC_STATE_IDLE, NN_SRTIPC_STATE_STOPPING, NN_SRTIPC_STATE_PROTOHDR,
            NN_SRTIPC_STATE_DONE, NN_SRTIPC_STATE_STOPPING_STREAMHDR]
        | NN_STREAMHDR_ERROR =>
          simp [nn_srtipc_feed, nn_srtipc_handler, nn_srtipc_handler_PROTOHDR, c2,
            NN_SRTIPC_STATE_IDLE, NN_SRTIPC_STATE_STOPPING, NN_SRTIPC_STATE_PROTOHDR] at hr
          obtain ⟨h3, h4⟩ := hr
          subst h3
          subst h4
          simp [c2, srtipc_events, NN_SRTIPC_STATE_IDLE, NN_SRTIPC_STATE_STOPPING,
            NN_SRTIPC_STATE_PROTOHDR, NN_SRTIPC_STATE_DONE, NN_SRTIPC_STATE_STOPPING_STREAMHDR]
        | NN_STREAMHDR_STOPPED =>
          simp [nn_srtipc_feed, nn_srtipc_handler, nn_srtipc_handler_PROTOHDR, c2,
            NN_SRTIPC_STATE_IDLE, NN_SRTIPC_STATE_STOPPING, NN_SRTIPC_STATE_PROTOHDR] at hr
    · by_cases c3 : s.state = 3
      · cases ev with
        | action a => simp [srtipc_input.is_action] at hev
        | usock a =>
          simp [nn_srtipc_feed, nn_srtipc_handler, nn_srtipc_handler_STOPPING_STREAMHDR, c3,
            NN_SRTIPC_STATE_IDLE, NN_SRTIPC_STATE_STOPPING, NN_SRTIPC_STATE_PROTOHDR,
            NN_SRTIPC_STATE_STOPPING_STREAMHDR] at hr
        | streamhdr a =>
          cases a with
          | NN_STREAMHDR_STOPPED =>
            simp only [nn_srtipc_feed, nn_srtipc_handler, nn_srtipc_handler_STOPPING_STREAMHDR,
              c3, NN_SRTIPC_STATE_IDLE, NN_SRTIPC_STATE_STOPPING, NN_SRTIPC_STATE_PROTOHDR,
              NN_SRTIPC_STATE_STOPPING_STREAMHDR] at hr
            simp only [show ¬ ((3 : Nat) = 7) by decide, show ¬ ((3 : Nat) = 1) by decide,
              show ¬ ((3 : Nat) = 2) by decide, if_false, if_true] at hr
            split_ifs at hr
            · simp only [Option.some.injEq, Prod.mk.injEq] at hr
              obtain ⟨h3, h4⟩ := hr
              subst h3
              subst h4
              simp [c3, srtipc_events, NN_SRTIPC_STATE_IDLE, NN_SRTIPC_STATE_STOPPING,
                NN_SRTIPC_STATE_PROTOHDR, NN_SRTIPC_STATE_DONE]
            · simp only [Option.some.injEq, Prod.mk.injEq] at hr
              obtain ⟨h3, h4⟩ := hr
              subst h3
              subst h4
              simp [c3, srtipc_events, NN_SRTIPC_STATE_IDLE, NN_SRTIPC_STATE_STOPPING,
                NN_SRTIPC_STATE_PROTOHDR, NN_SRTIPC_STATE_DONE, NN_SRTIPC_STATE_ACTIVE]
          | _ =>
            simp [nn_srtipc_feed, nn_srtipc_handler, nn_srtipc_handler_STOPPING_STREAMHDR, c3,
              NN_SRTIPC_STATE_IDLE, NN_SRTIPC_STATE_STOPPING, NN_SRTIPC_STATE_PROTOHDR,
              NN_SRTIPC_STATE_STOPPING_STREAMHDR] at hr
      · by_cases c4 : s.state = 4
        · cases ev with
          | action a => simp [srtipc_input.is_action] at hev
          | streamhdr a =>
            simp [nn_srtipc_feed, nn_srtipc_handler, nn_srtipc_handler_ACTIVE, c4,
              NN_SRTIPC_STATE_IDLE, NN_SRTIPC_STATE_STOPPING, NN_SRTIPC_STATE_PROTOHDR,
              NN_SRTIPC_STATE_STOPPING_STREAMHDR, NN_SRTIPC_STATE_ACTIVE] at hr
          | usock a =>
            simp only [nn_srtipc_feed, nn_srtipc_handler, c4,
              NN_SRTIPC_STATE_IDLE, NN_SRTIPC_STATE_STOPPING, NN_SRTIPC_STATE_PROTOHDR,
              NN_SRTIPC_STATE_STOPPING_STREAMHDR, NN_SRTIPC_STATE_ACTIVE] at hr
            simp only [show ¬ ((4 : Nat) = 7) by decide, show ¬ ((4 : Nat) = 1) by decide,
              show ¬ ((4 : Nat) = 2) by decide, show ¬ ((4 : Nat) = 3) by decide,
              if_false, if_true] at hr
            cases a <;>
              simp only [nn_srtipc_handler_ACTIVE, nn_srtipc_handler_ACTIVE_RECEIVED,
                reduceCtorEq] at hr <;>
              (try split_ifs at hr) <;>
              (try simp only [Option.some.injEq, Prod.mk.injEq, reduceCtorEq] at hr) <;>
              (try (obtain ⟨h3, h4⟩ := hr
                    subst h3
                    subst h4
                    simp [c4, srtipc_events, NN_SRTIPC_STATE_IDLE, NN_SRTIPC_STATE_STOPPING,
                      NN_SRTIPC_STATE_PROTOHDR, NN_SRTIPC_STATE_DONE, NN_SRTIPC_STATE_ACTIVE,
                      NN_SRTIPC_STATE_SHUTTING_DOWN]))
        · by_cases c5 : s.state = 5
          · cases ev with
            | action a => simp [srtipc_input.is_action] at hev
            | streamhdr a =>
              simp [nn_srtipc_feed, nn_srtipc_handler, nn_srtipc_handler_SHUTTING_DOWN, c5,
                NN_SRTIPC_STATE_IDLE, NN_SRTIPC_STATE_STOPPING, NN_SRTIPC_STATE_PROTOHDR,
                NN_SRTIPC_STATE_STOPPING_STREAMHDR, NN_SRTIPC_STATE_ACTIVE,
                NN_SRTIPC_STATE_SHUTTING_DOWN] at hr
            | usock a =>
              cases a <;>
                simp [nn_srtipc_feed, nn_srtipc_handler, nn_srtipc_handler_SHUTTING_DOWN, c5,
                  NN_SRTIPC_STATE_IDLE, NN_SRTIPC_STATE_STOPPING, NN_SRTIPC_STATE_PROTOHDR,
                  NN_SRTIPC_STATE_STOPPING_STREAMHDR, NN_SRTIPC_STATE_ACTIVE,
                  NN_SRTIPC_STATE_SHUTTING_DOWN] at hr
              obtain ⟨h3, h4⟩ := hr
              subst h3
              subst h4
              simp [c5, srtipc_events, NN_SRTIPC_STATE_IDLE, NN_SRTIPC_STATE_STOPPING,
                NN_SRTIPC_STATE_PROTOHDR, NN_SRTIPC_STATE_DONE]
          · exfalso
            simp [nn_srtipc_feed, nn_srtipc_handler, c1, c2, c3, c4, c5, hs,
              NN_SRTIPC_STATE_IDLE, NN_SRTIPC_STATE_STOPPING, NN_SRTIPC_STATE_PROTOHDR,
              NN_SRTIPC_STATE_STOPPING_STREAMHDR, NN_SRTIPC_STATE_ACTIVE,
              NN_SRTIPC_STATE_SHUTTING_DOWN] at hr

/-- Calls of the Session that neither start nor stop the StreamHdr only queue
what the Session raises. -/
theorem link_exec_plain (env : link_env) (e : List Effect) (w : link_world)
    (h1 : Effect.streamhdr_start ∉ e) (h2 : Effect.streamhdr_stop ∉ e) :
    link_exec env w e = some { w with qs := w.qs ++ srtipc_events e } := by
  induction e generalizing w with
  | nil => simp [link_exec, srtipc_events]
  | cons x es ih =>
    have h3 : Effect.streamhdr_start ∉ es := fun hx => h1 (List.mem_cons_of_mem _ hx)
    have h4 : Effect.streamhdr_stop ∉ es := fun hx => h2 (List.mem_cons_of_mem _ hx)
    cases x with
    | streamhdr_start => exact absurd (List.mem_cons_self _ _) h1
    | streamhdr_stop => exact absurd (List.mem_cons_self _ _) h2
    | srtipc_raise t =>
      simp only [link_exec, link_exec_one, srtipc_events]
      rw [ih _ h3 h4]
      simp
    | srtipc_stopped t =>
      simp only [link_exec, link_exec_one, srtipc_events]
      rw [ih _ h3 h4]
      simp
    | _ =>
      simp only [link_exec, link_exec_one, srtipc_events]
      rw [ih _ h3 h4]

/-- The verdicts of two queues, one after the other. -/
theorem count_verdicts_append (a b : List nn_streamhdr_event) :
    count_verdicts (a ++ b) = count_verdicts a + count_verdicts b := by
  simp [count_verdicts, List.countP_append]

/-- A queue without its oldest event holds no more verdicts, and one less when
that event is a verdict. -/
theorem count_verdicts_cons (t : nn_streamhdr_event) (q : List nn_streamhdr_event) :
    count_verdicts (t :: q)
      = count_verdicts q + (if t = nn_streamhdr_event.NN_STREAMHDR_STOPPED then 0 else 1) := by
  cases t <;> simp [count_verdicts, List.countP_cons]

/-- Stop issued to a StreamHdr that is in IDLE or in DONE with an idle timer:
the StreamHdr is idle afterwards, and the timer too; what was queued stays
queued, followed at most by Stopped events. -/
theorem link_exec_one_stop_settled (env : link_env) (w : link_world)
    (hh : w.h.state = NN_STREAMHDR_STATE_IDLE ∨ w.h.state = NN_STREAMHDR_STATE_DONE)
    (ht : w.timer = 0) :
    w.streamhdr_isidle_after_stop env = true
    ∧ ∃ w1, link_exec_one env w Effect.streamhdr_stop = some w1
      ∧ w1.s = w.s ∧ w1.h.state = NN_STREAMHDR_STATE_IDLE ∧ w1.timer = 0 ∧ w1.qs = w.qs
      ∧ count_verdicts w1.qh = count_verdicts w.qh := by
  rcases hh with hh | hh
  · refine ⟨by simp [link_world.streamhdr_isidle_after_stop, hh], w, ?_, rfl, hh, ht, rfl, rfl⟩
    simp [link_exec_one, hh]
  · have hs : nn_streamhdr_stop env.ispeer (decide (w.timer = 0)) w.h
        = some ({ w.h with state := NN_STREAMHDR_STATE_IDLE },
            [Effect.timer_stop,
             Effect.streamhdr_stopped nn_streamhdr_event.NN_STREAMHDR_STOPPED]) := by
      simp [nn_streamhdr_stop, nn_streamhdr_handler, hh, ht, NN_STREAMHDR_STATE_IDLE,
        NN_STREAMHDR_STATE_DONE, NN_STREAMHDR_STATE_STOPPING]
    refine ⟨?_, w.absorb_h { w.h with state := NN_STREAMHDR_STATE_IDLE }
        [Effect.timer_stop, Effect.streamhdr_stopped nn_streamhdr_event.NN_STREAMHDR_STOPPED],
      ?_, ?_, ?_, ?_, ?_, ?_⟩
    · simp [link_world.streamhdr_isidle_after_stop, hh, hs, NN_STREAMHDR_STATE_IDLE,
        NN_STREAMHDR_STATE_DONE]
    · simp [link_exec_one, hh, hs, NN_STREAMHDR_STATE_IDLE, NN_STREAMHDR_STATE_DONE]
    · rfl
    · rfl
    · simp [link_world.absorb_h, timer_after, ht]
    · rfl
    · show count_verdicts (w.qh ++ streamhdr_events
          [Effect.timer_stop, Effect.streamhdr_stopped nn_streamhdr_event.NN_STREAMHDR_STOPPED])
        = count_verdicts w.qh
      rw [count_verdicts_append]
      rfl

/-- The world stays settled when the StreamHdr takes a step of its own. -/
theorem settled_absorb_h (act : Bool) (w : link_world) (h1 : nn_streamhdr) (e : List Effect)
    (hw : w.settled act)
    (h0 : w.h.state ≠ NN_STREAMHDR_STATE_IDLE ∧ w.h.state ≠ NN_STREAMHDR_STATE_DONE)
    (hD : h1.state = NN_STREAMHDR_STATE_DONE →
      w.timer = 0 ∧ timer_after w.timer e = w.timer
      ∧ count_verdicts (streamhdr_events e) = 1)
    (hI : h1.state = NN_STREAMHDR_STATE_IDLE →
      w.timer = 0 ∧ timer_after w.timer e = w.timer
      ∧ streamhdr_events e = [nn_streamhdr_event.NN_STREAMHDR_STOPPED])
    (hN : h1.state ≠ NN_STREAMHDR_STATE_DONE → h1.state ≠ NN_STREAMHDR_STATE_IDLE →
      streamhdr_events e = []) :
    (w.absorb_h h1 e).settled act := by
  obtain ⟨ka, kb, kc, kd, ke, kf, kg, kh⟩ := hw
  have hS : w.s.state = NN_SRTIPC_STATE_PROTOHDR := by
    by_contra hc
    rcases kb hc with h | h
    · exact h0.1 h
    · exact h0.2 h
  have hq : count_verdicts w.qh = 0 := by
    have : count_verdicts w.qh ≠ 1 := fun hc => h0.2 (kf hc).1
    omega
  refine ⟨?_, ?_, kc, kd, ?_, ?_, kg, kh⟩
  · intro hh
    show timer_after w.timer e = 0
    rcases hh with hh | hh
    · obtain ⟨h2, h3, -⟩ := hI hh
      rw [h3, h2]
    · obtain ⟨h2, h3, -⟩ := hD hh
      rw [h3, h2]
  · intro hc
    exact absurd hS hc
  · show count_verdicts (w.qh ++ streamhdr_events e) ≤ 1
    rw [count_verdicts_append, hq]
    by_cases c1 : h1.state = NN_STREAMHDR_STATE_DONE
    · rw [(hD c1).2.2]
    · by_cases c2 : h1.state = NN_STREAMHDR_STATE_IDLE
      · rw [(hI c2).2.2]
        decide
      · rw [hN c1 c2]
        decide
  · intro hc
    show h1.state = NN_STREAMHDR_STATE_DONE ∧ w.s.state = NN_SRTIPC_STATE_PROTOHDR
    refine ⟨?_, hS⟩
    by_contra c1
    have hc2 : count_verdicts (w.qh ++ streamhdr_events e) = 1 := hc
    rw [count_verdicts_append, hq] at hc2
    by_cases c2 : h1.state = NN_STREAMHDR_STATE_IDLE
    · rw [(hI c2).2.2] at hc2
      exact absurd hc2 (by decide)
    · rw [hN c1 c2] at hc2
      exact absurd hc2 (by decide)

/-- The world stays settled when the Session handles a delivery that is not an
action: `wb` is the world `w` without the event delivered, when it came from
the queue of the StreamHdr, and `sf` the Session with the bytes the socket
stored. -/
theorem link_apply_feed_settled (env : link_env) (act : Bool) (w wb w1 : link_world)
    (sf : nn_srtipc) (idle : Bool) (rc : Int) (ev : srtipc_input)
    (hw : w.settled act) (hbh : wb.h = w.h) (hbt : wb.timer = w.timer) (hbq : wb.qs = w.qs)
    (hsf : sf.state = w.s.state)
    (hq1 : ∀ t, ev = srtipc_input.streamhdr t → w.qh = t :: wb.qh)
    (hq2 : (∀ t, ev ≠ srtipc_input.streamhdr t) → wb.qh = w.qh)
    (hev : ev.is_action = false)
    (hr : link_apply env wb (nn_srtipc_feed idle rc sf ev) = some w1) : w1.settled act := by
  obtain ⟨ka, kb, kc, kd, ke, kf, kg, kh⟩ := hw
  cases hf : nn_srtipc_feed idle rc sf ev with
  | none => simp [hf, link_apply] at hr
  | some r =>
    obtain ⟨s1, e⟩ := r
    simp only [hf, link_apply] at hr
    obtain ⟨o1, o2, o3, o4, o5, o6, o7⟩ :=
      nn_srtipc_feed_outcome idle rc sf s1 ev e (by rw [hsf]; exact kc) hev hf
    rw [hsf] at o1 o2 o6 o7
    have hact : act = true := by
      cases act
      · exact absurd (kd rfl) o1
      · rfl
    have hE : w.qs.count NN_SRTIPC_ERROR = 0 := by
      have : w.qs.count NN_SRTIPC_ERROR ≠ 1 := fun hc => o2 (kh hc).1
      omega
    have hle : count_verdicts wb.qh ≤ count_verdicts w.qh := by
      cases ev with
      | streamhdr t =>
        rw [hq1 t rfl, count_verdicts_cons]
        omega
      | action a => rw [hq2 (fun t => by simp)]
      | usock a => rw [hq2 (fun t => by simp)]
    have hP : w.s.state = NN_SRTIPC_STATE_PROTOHDR →
        w.h.state = NN_STREAMHDR_STATE_DONE ∧ count_verdicts wb.qh = 0 := by
      intro hp
      obtain ⟨t, ht, htn⟩ := o6 hp
      have h1 : count_verdicts w.qh = count_verdicts wb.qh + 1 := by
        rw [hq1 t ht, count_verdicts_cons]
        simp [htn]
      have h2 : count_verdicts w.qh = 1 := by omega
      exact ⟨(kf h2).1, by omega⟩
    have hV : count_verdicts wb.qh = 0 := by
      by_cases hp : w.s.state = NN_SRTIPC_STATE_PROTOHDR
      · exact (hP hp).2
      · have : count_verdicts w.qh ≠ 1 := fun hc => hp (kf hc).2
        omega
    have hH : w.h.state = NN_STREAMHDR_STATE_IDLE ∨ w.h.state = NN_STREAMHDR_STATE_DONE := by
      by_cases hp : w.s.state = NN_SRTIPC_STATE_PROTOHDR
      · exact Or.inr (hP hp).1
      · exact kb hp
    rcases o7 with ⟨p1, p2, p3, p4⟩ | ⟨p1, p2, p3⟩
    · subst p3
      obtain ⟨-, w3, h3, h4, h5, h6, h7, h8⟩ :=
        link_exec_one_stop_settled env { wb with s := s1 }
          (by show wb.h.state = _ ∨ wb.h.state = _; rw [hbh]; exact hH)
          (by show wb.timer = 0; rw [hbt]; exact ka hH)
      simp only [link_exec, h3, Option.some.injEq] at hr
      subst hr
      refine ⟨fun _ => h6, fun _ => Or.inl h5, ?_, ?_, ?_, ?_, ?_, ?_⟩
      · rw [h4]
        exact o4
      · intro hc
        rw [hact] at hc
        exact absurd hc (by decide)
      · rw [h8]
        show count_verdicts wb.qh ≤ 1
        omega
      · intro hc
        rw [h8] at hc
        have : count_verdicts wb.qh = 1 := hc
        omega
      · rw [h7]
        show wb.qs.count NN_SRTIPC_ERROR ≤ 1
        rw [hbq]
        exact kg
      · intro hc
        rw [h7] at hc
        have : wb.qs.count NN_SRTIPC_ERROR = 1 := hc
        rw [hbq] at this
        omega
    · rw [link_exec_plain env e _ p1 p2, Option.some.injEq] at hr
      subst hr
      refine ⟨?_, ?_, o4, ?_, ?_, ?_, ?_, ?_⟩
      · intro hh
        show wb.timer = 0
        rw [hbt]
        exact ka hH
      · intro _
        show wb.h.state = _ ∨ wb.h.state = _
        rw [hbh]
        exact hH
      · intro hc
        rw [hact] at hc
        exact absurd hc (by decide)
      · show count_verdicts wb.qh ≤ 1
        omega
      · intro hc
        have : count_verdicts wb.qh = 1 := hc
        omega
      · show (wb.qs ++ srtipc_events e).count NN_SRTIPC_ERROR ≤ 1
        rw [hbq, List.count_append, hE, p3]
        split_ifs <;> simp
      · intro hc
        have hc2 : (wb.qs ++ srtipc_events e).count NN_SRTIPC_ERROR = 1 := hc
        rw [hbq, List.count_append, hE, p3] at hc2
        refine ⟨?_, hact⟩
        show s1.state = NN_SRTIPC_STATE_DONE
        by_contra hn
        simp [hn] at hc2

/-- A world in which the Session changes but keeps its state stays settled. -/
theorem settled_same_state (act : Bool) (w : link_world) (s1 : nn_srtipc)
    (hw : w.settled act) (hs : s1.state = w.s.state) :
    ({ w with s := s1 } : link_world).settled act := by
  obtain ⟨ka, kb, kc, kd, ke, kf, kg, kh⟩ := hw
  refine ⟨ka, ?_, ?_, ?_, ke, ?_, kg, ?_⟩
  · intro hc
    exact kb (by rw [← hs]; exact hc)
  · show s1.state ≠ _
    rw [hs]
    exact kc
  · intro hc
    show s1.state = _
    rw [hs]
    exact kd hc
  · intro hc
    obtain ⟨h1, h2⟩ := kf hc
    exact ⟨h1, by show s1.state = _; rw [hs]; exact h2⟩
  · intro hc
    obtain ⟨h1, h2⟩ := kh hc
    exact ⟨by show s1.state = _; rw [hs]; exact h1, h2⟩

/-- The world stays settled along the steps below the owner. -/
theorem link_step_settled (env : link_env) (act : Bool) (w w1 : link_world) (c : link_call)
    (hw : w.settled act) (hr : link_step env w c = some w1) : w1.settled act := by
  cases c with
  | send msg =>
    simp only [link_step] at hr
    cases hx : nn_srtipc_send w.s msg with
    | aborted s1 e => simp [hx] at hr
    | returned s1 e v =>
      simp only [hx, Option.some.injEq] at hr
      subst hr
      refine settled_same_state act w s1 hw ?_
      simp only [nn_srtipc_send] at hx
      split_ifs at hx
      simp only [call_result.returned.injEq] at hx
      obtain ⟨h1, -, -⟩ := hx
      subst h1
      rfl
  | recv =>
    simp only [link_step] at hr
    cases hx : nn_srtipc_recv w.s with
    | aborted s1 e => simp [hx] at hr
    | returned s1 e v =>
      simp only [hx, Option.some.injEq] at hr
      subst hr
      refine settled_same_state act w s1 hw ?_
      simp only [nn_srtipc_recv] at hx
      split_ifs at hx
      simp only [call_result.returned.injEq] at hx
      obtain ⟨h1, -, -⟩ := hx
      subst h1
      rfl
  | usock_s type inhdr inmsg =>
    simp only [link_step] at hr
    exact link_apply_feed_settled env act w w w1 { w.s with inhdr := inhdr, inmsg := inmsg }
      (decide (w.h.state = NN_STREAMHDR_STATE_IDLE)) env.pipebase_start_rc
      (srtipc_input.usock type) hw rfl rfl rfl rfl
      (fun t ht => by simp at ht) (fun _ => rfl) rfl hr
  | deliver_h =>
    simp only [link_step] at hr
    cases hq : w.qh with
    | nil => simp [hq] at hr
    | cons t rest =>
      simp only [hq] at hr
      exact link_apply_feed_settled env act w { w with qh := rest } w1 w.s
        (decide (w.h.state = NN_STREAMHDR_STATE_IDLE)) env.pipebase_start_rc
        (srtipc_input.streamhdr t) hw rfl rfl rfl rfl
        (fun t2 ht => by
          simp only [srtipc_input.streamhdr.injEq] at ht
          subst ht
          exact hq)
        (fun hx => absurd rfl (hx t)) rfl hr
  | usock_h type data =>
    simp only [link_step] at hr
    cases hd : nn_streamhdr_deliver env.ispeer w.h
        ⟨streamhdr_input.usock type, data, decide (w.timer = 0)⟩ with
    | none => simp [hd] at hr
    | some r =>
      obtain ⟨h1, e⟩ := r
      simp only [hd, Option.some.injEq] at hr
      subst hr
      obtain ⟨o1, o2, o3, o4, o5⟩ := nn_streamhdr_deliver_outcome env.ispeer w.h h1 _ e w.timer
        (fun a => by simp) hd
      refine settled_absorb_h act w h1 e hw ⟨o1, o2⟩ ?_ ?_ o5
      · intro hh
        exact absurd (o3 hh).1 (by simp)
      · intro hh
        obtain ⟨p1, p2, p3⟩ := o4 hh
        exact ⟨by simpa using p1, p2, p3⟩
  | timeout =>
    simp only [link_step] at hr
    split_ifs at hr with ht
    cases hd : nn_streamhdr_deliver env.ispeer w.h
        ⟨streamhdr_input.timer nn_timer_event.NN_TIMER_TIMEOUT, [], false⟩ with
    | none => simp [hd] at hr
    | some r =>
      obtain ⟨h1, e⟩ := r
      simp only [hd, Option.some.injEq] at hr
      subst hr
      obtain ⟨o1, o2, o3, o4, o5⟩ := nn_streamhdr_deliver_outcome env.ispeer w.h h1 _ e w.timer
        (fun a => by simp) hd
      refine settled_absorb_h act w h1 e hw ⟨o1, o2⟩ ?_ ?_ o5
      · intro hh
        exact absurd (o3 hh).1 (by simp)
      · intro hh
        exact absurd (o4 hh).1 (by simp)
  | timer_stopped =>
    simp only [link_step] at hr
    split_ifs at hr with ht
    cases hd : nn_streamhdr_deliver env.ispeer w.h
        ⟨streamhdr_input.timer nn_timer_event.NN_TIMER_STOPPED, [], true⟩ with
    | none => simp [hd] at hr
    | some r =>
      obtain ⟨h1, e⟩ := r
      simp only [hd, Option.some.injEq] at hr
      subst hr
      obtain ⟨o1, o2, o3, o4, o5⟩ := nn_streamhdr_deliver_outcome env.ispeer w.h h1 _ e 0
        (fun a => by simp) hd
      have hw0 : ({ w with timer := 0 } : link_world).settled act := by
        obtain ⟨ka, kb, kc, kd, ke, kf, kg, kh⟩ := hw
        exact ⟨fun _ => rfl, kb, kc, kd, ke, kf, kg, kh⟩
      refine settled_absorb_h act { w with timer := 0 } h1 e hw0 ⟨o1, o2⟩ ?_ ?_ o5
      · intro hh
        exact ⟨rfl, (o3 hh).2.1, (o3 hh).2.2⟩
      · intro hh
        exact ⟨rfl, (o4 hh).2.1, (o4 hh).2.2⟩

/-- The start of the Session by an owner that enters ACTIVE, in a settled world
in which the owner was not ACTIVE: the world is settled for an ACTIVE owner. -/
theorem link_start_settled (env : link_env) (w w1 : link_world) (hw : w.settled false)
    (hr : link_start env w = some w1) : w1.settled true := by
  obtain ⟨ka, kb, kc, kd, ke, kf, kg, kh⟩ := hw
  have hS : w.s.state = NN_SRTIPC_STATE_IDLE := kd rfl
  have hH : w.h.state = NN_STREAMHDR_STATE_IDLE ∨ w.h.state = NN_STREAMHDR_STATE_DONE :=
    kb (by rw [hS]; decide)
  have hV : count_verdicts w.qh ≠ 1 := fun hc => by
    have := (kf hc).2
    rw [hS] at this
    exact absurd this (by decide)
  have hE : w.qs.count NN_SRTIPC_ERROR ≠ 1 := fun hc => by
    have := (kh hc).1
    rw [hS] at this
    exact absurd this (by decide)
  simp only [link_start] at hr
  cases hf : nn_srtipc_start env.usock_owner w.s env.usock with
  | none => simp [hf, link_apply] at hr
  | some r =>
    obtain ⟨s1, e⟩ := r
    simp only [hf, link_apply] at hr
    have hf2 := hf.symm
    simp only [nn_srtipc_start] at hf2
    split_ifs at hf2 with c1
    simp only [nn_srtipc_handler, hS, NN_SRTIPC_STATE_IDLE, if_true, nn_srtipc_handler_IDLE,
      Option.some.injEq, Prod.mk.injEq] at hf2
    obtain ⟨h3, h4⟩ := hf2
    subst h3
    subst h4
    simp only [List.singleton_append, link_exec, link_exec_one] at hr
    cases hst : nn_streamhdr_start env.ispeer (decide (w.timer = 0)) (some w.s.fsm)
        env.protocol env.protocol_sz w.h env.usock env.pipebase with
    | none => simp [hst] at hr
    | some r2 =>
      obtain ⟨h1, e1⟩ := r2
      simp only [hst, Option.some.injEq] at hr
      subst hr
      have hst2 := hst.symm
      simp only [nn_streamhdr_start] at hst2
      split_ifs at hst2 with c2 c3
      rcases hH with hH | hH
      · simp only [nn_streamhdr_fsm_start, nn_streamhdr_handler, hH, NN_STREAMHDR_STATE_IDLE,
          NN_STREAMHDR_STATE_STOPPING, nn_streamhdr_handler_IDLE] at hst2
        simp at hst2
        obtain ⟨h5, h6⟩ := hst2
        subst h5
        subst h6
        refine ⟨?_, ?_, ?_, ?_, ?_, ?_, kg, ?_⟩
        · intro hh
          simp [link_world.absorb_h, NN_STREAMHDR_STATE_IDLE, NN_STREAMHDR_STATE_DONE,
            NN_STREAMHDR_STATE_SENDING] at hh
        · intro hh
          simp [link_world.absorb_h, NN_SRTIPC_STATE_PROTOHDR] at hh
        · simp [link_world.absorb_h, NN_SRTIPC_STATE_PROTOHDR, NN_SRTIPC_STATE_STOPPING]
        · intro hh
          exact absurd hh (by decide)
        · simp only [link_world.absorb_h, streamhdr_events, List.append_nil]
          exact ke
        · intro hc
          simp only [link_world.absorb_h, streamhdr_events, List.append_nil] at hc
          exact absurd hc hV
        · intro hc
          exact absurd hc hE
      · exfalso
        simp [nn_streamhdr_fsm_start, nn_streamhdr_handler, hH, NN_STREAMHDR_STATE_IDLE,
          NN_STREAMHDR_STATE_STOPPING, NN_STREAMHDR_STATE_DONE, NN_STREAMHDR_STATE_SENDING,
          NN_STREAMHDR_STATE_RECEIVING, NN_STREAMHDR_STATE_STOPPING_TIMER_ERROR,
          NN_STREAMHDR_STATE_STOPPING_TIMER_DONE] at hst2

/-- The stop of the Session by an ACTIVE owner that has taken the Error of the
Session from the queue, in a settled world: the Session is in DONE, its stop
completes at once, and the world is settled for an owner that is not ACTIVE. -/
theorem link_stop_settled (env : link_env) (w w1 : link_world) (rest : List Int)
    (hw : w.settled true) (hq : w.qs = NN_SRTIPC_ERROR :: rest)
    (hr : link_stop env { w with qs := rest } = some w1) :
    w1.settled false ∧ w1.s.state = NN_SRTIPC_STATE_IDLE := by
  obtain ⟨ka, kb, kc, kd, ke, kf, kg, kh⟩ := hw
  have hc1 : w.qs.count NN_SRTIPC_ERROR = rest.count NN_SRTIPC_ERROR + 1 := by
    rw [hq, List.count_cons_self]
  have hE : rest.count NN_SRTIPC_ERROR = 0 := by omega
  have hS : w.s.state = NN_SRTIPC_STATE_DONE := (kh (by omega)).1
  have hH : w.h.state = NN_STREAMHDR_STATE_IDLE ∨ w.h.state = NN_STREAMHDR_STATE_DONE :=
    kb (by rw [hS]; decide)
  have hV : count_verdicts w.qh = 0 := by
    have : count_verdicts w.qh ≠ 1 := fun hc => by
      have := (kf hc).2
      rw [hS] at this
      exact absurd this (by decide)
    omega
  have hidle := (link_exec_one_stop_settled env { w with qs := rest } hH (ka hH)).1
  simp only [link_stop, hS, NN_SRTIPC_STATE_DONE, NN_SRTIPC_STATE_IDLE,
    show ¬ ((6 : Nat) = 1) by decide, if_false, hidle] at hr
  have hst : nn_srtipc_stop true w.s
      = some ({ w.s with usock := none, usock_owner := { src := -1, fsm := none },
                         state := NN_SRTIPC_STATE_IDLE },
          [Effect.pipebase_stop, Effect.streamhdr_stop,
           Effect.usock_swap_owner w.s.usock_owner,
           Effect.srtipc_stopped NN_SRTIPC_STOPPED]) := by
    simp [nn_srtipc_stop, nn_srtipc_shutdown, hS, NN_SRTIPC_STATE_DONE, NN_SRTIPC_STATE_IDLE,
      NN_SRTIPC_STATE_STOPPING]
  simp only [hst, link_apply, link_exec] at hr
  obtain ⟨-, w3, h3, h4, h5, h6, h7, h8⟩ :=
    link_exec_one_stop_settled env
      { ({ w with qs := rest } : link_world) with
        s := { w.s with usock := none, usock_owner := { src := -1, fsm := none },
                        state := NN_SRTIPC_STATE_IDLE } } hH (ka hH)
  simp only [link_exec_one] at hr h3
  simp only [h3, Option.some.injEq] at hr
  subst hr
  refine ⟨⟨fun _ => h6, fun _ => Or.inl h5, ?_, ?_, ?_, ?_, ?_, ?_⟩, ?_⟩
  · show w3.s.state ≠ _
    rw [h4]
    simp [NN_SRTIPC_STATE_IDLE, NN_SRTIPC_STATE_STOPPING]
  · intro _
    show w3.s.state = _
    rw [h4]
  · show count_verdicts w3.qh ≤ 1
    rw [h8]
    show count_verdicts w.qh ≤ 1
    omega
  · intro hc
    have hc2 : count_verdicts w3.qh = 1 := hc
    rw [h8] at hc2
    have hc3 : count_verdicts w.qh = 1 := hc2
    omega
  · show (w3.qs ++ [NN_SRTIPC_STOPPED]).count NN_SRTIPC_ERROR ≤ 1
    rw [h7, List.count_append]
    show rest.count NN_SRTIPC_ERROR + _ ≤ 1
    rw [hE]
    decide
  · intro hc
    have hc2 : (w3.qs ++ [NN_SRTIPC_STOPPED]).count NN_SRTIPC_ERROR = 1 := hc
    rw [h7, List.count_append] at hc2
    have hc3 : rest.count NN_SRTIPC_ERROR + [NN_SRTIPC_STOPPED].count NN_SRTIPC_ERROR = 1 := hc2
    rw [hE] at hc3
    exact absurd hc3 (by decide)
  · show w3.s.state = _
    rw [h4]

/-- A settled world stays settled when the oldest event of the Session is
taken from the queue. -/
theorem settled_queue_tail (act : Bool) (w : link_world) (t : Int) (rest : List Int)
    (hw : w.settled act) (hq : w.qs = t :: rest) :
    ({ w with qs := rest } : link_world).settled act := by
  obtain ⟨ka, kb, kc, kd, ke, kf, kg, kh⟩ := hw
  have hle : rest.count NN_SRTIPC_ERROR ≤ w.qs.count NN_SRTIPC_ERROR := by
    rw [hq, List.count_cons]
    omega
  refine ⟨ka, kb, kc, kd, ke, kf, ?_, ?_⟩
  · show rest.count NN_SRTIPC_ERROR ≤ 1
    omega
  · intro hc
    have hc2 : rest.count NN_SRTIPC_ERROR = 1 := hc
    exact kh (by omega)

/-- The world of a Session and a StreamHdr that are initialised is settled. -/
theorem link_world_init_settled (a b : Nat) : (link_world_init a b).settled false := by
  refine ⟨fun _ => rfl, fun _ => Or.inl rfl, ?_, fun _ => rfl, ?_, ?_, ?_, ?_⟩
  · simp [link_world_init, nn_srtipc_init, NN_SRTIPC_STATE_IDLE, NN_SRTIPC_STATE_STOPPING]
  · simp [link_world_init, count_verdicts]
  · intro hc
    simp [link_world_init, count_verdicts] at hc
  · simp [link_world_init]
  · intro hc
    simp [link_world_init] at hc

/-- The losses counted along calls made one after the other. -/
theorem loss_count_append (t e : List EpEffect) (acc : Int) :
    loss_count acc (t ++ e) = loss_count (loss_count acc t) e := by
  induction t generalizing acc with
  | nil => rfl
  | cons x xs ih =>
    cases x with
    | srtipc_start => exact ih 0
    | epbase_stat_increment n d => exact ih _
    | _ => exact ih acc

/-- Only the start and the stop of the Session among the calls of an endpoint
machine change the world of the Session. -/
theorem link_exec_ep_filter (env : link_env) (e : List EpEffect) (w : link_world) :
    link_exec_ep env w e
      = link_exec_ep env w
          (e.filter (fun x => decide (x = EpEffect.srtipc_start ∨ x = EpEffect.srtipc_stop))) := by
  induction e generalizing w with
  | nil => rfl
  | cons x xs ih =>
    cases x with
    | srtipc_start =>
      simp only [List.filter, true_or, decide_True, link_exec_ep]
      cases link_start env w with
      | none => rfl
      | some w1 => exact ih w1
    | srtipc_stop =>
      simp only [List.filter, or_true, decide_True, link_exec_ep]
      cases link_stop env w with
      | none => rfl
      | some w1 => exact ih w1
    | _ =>
      simp only [List.filter, reduceCtorEq, or_self, decide_False, link_exec_ep]
      exact ih w

/-- An endpoint machine that counts losses once keeps its world settled along
every step. -/
theorem ep_step_settled {P V : Type} (running stopped active : P → Prop)
    (stop : ep_env → P → Option (P × List EpEffect))
    (feed : ep_env → P → V → Option (P × List EpEffect)) (is_ext : V → Bool)
    (of_srtipc : Int → V)
    (hc : counts_loss_once running stopped active stop feed is_ext of_srtipc)
    (w w1 : ep_world P) (c : ep_call V) (hw : w.settled running stopped active)
    (hr : ep_step stop feed is_ext of_srtipc w c = some w1) :
    w1.settled running stopped active := by
  obtain ⟨c1, c2, c3, c4, c5, c6⟩ := hc
  obtain ⟨k1, k2, k3⟩ := hw
  cases c with
  | link c lenv =>
    simp only [ep_step] at hr
    cases hl : link_step lenv w.l c with
    | none => simp [hl] at hr
    | some l1 =>
      simp only [hl, Option.some.injEq] at hr
      subst hr
      refine ⟨k1, k2, ?_⟩
      rcases k3 with k3 | ⟨k3, k4, k5⟩
      · exact Or.inl k3
      · exact Or.inr ⟨k3, fun ha => ⟨link_step_settled lenv true w.l l1 c (k4 ha).1 hl, (k4 ha).2⟩,
          fun ha => link_step_settled lenv false w.l l1 c (k5 ha) hl⟩
  | event v env lenv =>
    simp only [ep_step] at hr
    split_ifs at hr with hv
    cases hf : feed { env with srtipc_isidle_at_stop := w.l.srtipc_isidle,
                               srtipc_isidle := w.l.srtipc_isidle } w.p v with
    | none => simp [hf, ep_apply] at hr
    | some r =>
      obtain ⟨p1, e⟩ := r
      simp only [hf, ep_apply] at hr
      cases hx : link_exec_ep lenv w.l e with
      | none => simp [hx] at hr
      | some l1 =>
        simp only [hx, Option.some.injEq] at hr
        subst hr
        show 0 ≤ loss_count 0 (w.trace ++ e) ∧ loss_count 0 (w.trace ++ e) ≤ 1 ∧ _
        rw [loss_count_append]
        rcases k3 with k3 | ⟨k3, k4, k5⟩
        · obtain ⟨d1, -, d3⟩ := c5 _ w.p v p1 e k3 (Or.inl hv) hf
          rw [d3]
          exact ⟨k1, k2, Or.inl d1⟩
        · obtain ⟨d1, d2, d3⟩ := c2 _ w.p v p1 e k3 hv hf
          rw [link_exec_ep_filter] at hx
          rcases d3 with ⟨d4, d5, d6⟩ | ⟨d4, d5, d6⟩
          · rw [d6]
            rw [d5] at hx
            simp only [link_exec_ep, Option.some.injEq] at hx
            subst hx
            exact ⟨k1, k2, Or.inr ⟨d2, fun ha => absurd ha d4, fun _ => k5 d1⟩⟩
          · rw [d6]
            rw [d5] at hx
            simp only [link_exec_ep] at hx
            cases hs : link_start lenv w.l with
            | none => simp [hs] at hx
            | some l2 =>
              simp only [hs, Option.some.injEq] at hx
              subst hx
              exact ⟨le_refl 0, by decide, Or.inr ⟨d2,
                fun _ => ⟨link_start_settled lenv w.l l2 (k5 d1) hs, rfl⟩,
                fun hn => absurd d4 hn⟩⟩
  | deliver env lenv =>
    simp only [ep_step] at hr
    cases hq : w.l.qs with
    | nil => simp [hq] at hr
    | cons t rest =>
      simp only [hq] at hr
      cases hf : feed { env with srtipc_isidle_at_stop := w.l.srtipc_isidle,
                                 srtipc_isidle := w.l.srtipc_isidle } w.p (of_srtipc t) with
      | none => simp [hf, ep_apply] at hr
      | some r =>
        obtain ⟨p1, e⟩ := r
        simp only [hf, ep_apply] at hr
        cases hx : link_exec_ep lenv { w.l with qs := rest } e with
        | none => simp [hx] at hr
        | some l1 =>
          simp only [hx, Option.some.injEq] at hr
          subst hr
          show 0 ≤ loss_count 0 (w.trace ++ e) ∧ loss_count 0 (w.trace ++ e) ≤ 1 ∧ _
          rw [loss_count_append]
          rcases k3 with k3 | ⟨k3, k4, k5⟩
          · obtain ⟨d1, -, d3⟩ := c5 _ w.p (of_srtipc t) p1 e k3 (Or.inr ⟨t, rfl⟩) hf
            rw [d3]
            exact ⟨k1, k2, Or.inl d1⟩
          · obtain ⟨d1, d2, d3⟩ := c3 _ w.p t p1 e k3 hf
            rw [link_exec_ep_filter] at hx
            rcases d3 with ⟨d4, d5, d6, d7⟩ | ⟨d4, d5, d6⟩
            · rw [d7, (k4 d4).2]
              rw [d6] at hx
              simp only [link_exec_ep] at hx
              cases hs : link_stop lenv { w.l with qs := rest } with
              | none => simp [hs] at hx
              | some l2 =>
                simp only [hs, Option.some.injEq] at hx
                subst hx
                subst d5
                exact ⟨by decide, by decide, Or.inr ⟨d1, fun ha => absurd ha d2,
                  fun _ => (link_stop_settled lenv w.l l2 rest (k4 d4).1 hq hs).1⟩⟩
            · rw [d6]
              rw [d5] at hx
              simp only [link_exec_ep, Option.some.injEq] at hx
              subst hx
              exact ⟨k1, k2, Or.inr ⟨d1, fun ha => absurd ha d2,
                fun _ => settled_queue_tail false w.l t rest (k5 d4) hq⟩⟩
  | stop env lenv =>
    simp only [ep_step] at hr
    cases hf : stop { env with srtipc_isidle_at_stop := w.l.srtipc_isidle,
                               srtipc_isidle := w.l.srtipc_isidle_after_stop lenv } w.p with
    | none => simp [hf, ep_apply] at hr
    | some r =>
      obtain ⟨p1, e⟩ := r
      simp only [hf, ep_apply] at hr
      cases hx : link_exec_ep lenv w.l e with
      | none => simp [hx] at hr
      | some l1 =>
        simp only [hx, Option.some.injEq] at hr
        subst hr
        show 0 ≤ loss_count 0 (w.trace ++ e) ∧ loss_count 0 (w.trace ++ e) ≤ 1 ∧ _
        rw [loss_count_append]
        rcases k3 with k3 | ⟨k3, k4, k5⟩
        · obtain ⟨d1, -, d3⟩ := c6 _ w.p p1 e k3 hf
          rw [d3]
          exact ⟨k1, k2, Or.inl d1⟩
        · obtain ⟨d1, -, d3⟩ := c4 _ w.p p1 e k3 hf
          rw [d3]
          refine ⟨?_, ?_, Or.inl d1⟩
          · split_ifs <;> omega
          · show loss_count 0 w.trace + (if w.l.srtipc_isidle = false then 1 else 0) ≤ 1
            by_cases hi : w.l.srtipc_isidle = false
            · have ha : active w.p := by
                by_contra hn
                have := (k5 hn).2.2.2.1 rfl
                simp [link_world.srtipc_isidle, this] at hi
              rw [(k4 ha).2]
              simp [hi]
            · rw [if_neg hi]
              omega

/-- An endpoint machine that counts losses once keeps its world settled along
every run. -/
theorem ep_run_settled {P V : Type} (running stopped active : P → Prop)
    (stop : ep_env → P → Option (P × List EpEffect))
    (feed : ep_env → P → V → Option (P × List EpEffect)) (is_ext : V → Bool)
    (of_srtipc : Int → V)
    (hc : counts_loss_once running stopped active stop feed is_ext of_srtipc)
    (cs : List (ep_call V)) (w w1 : ep_world P) (hw : w.settled running stopped active)
    (hr : ep_run stop feed is_ext of_srtipc w cs = some w1) :
    w1.settled running stopped active := by
  induction cs generalizing w with
  | nil =>
    simp only [ep_run, Option.some.injEq] at hr
    subst hr
    exact hw
  | cons c cs ih =>
    simp only [ep_run] at hr
    cases hs : ep_step stop feed is_ext of_srtipc w c with
    | none => simp [hs] at hr
    | some w2 =>
      simp only [hs] at hr
      exact ih w2 (ep_step_settled running stopped active stop feed is_ext of_srtipc hc
        w w2 c hw hs) hr

/-- The ConnectEndpoint counts losses once. -/
theorem nn_crtipc_counts_loss_once :
    counts_loss_once nn_crtipc.running nn_crtipc.stopped
      (fun p => p.state = NN_CRTIPC_STATE_ACTIVE) nn_crtipc_stop nn_crtipc_feed
      crtipc_input.is_ext crtipc_input.srtipc := by
  refine ⟨?_, ?_, ?_, ?_, ?_, ?_⟩
  · intro p hp
    exact Or.inr (Or.inl hp)
  · intro env p v p1 e hp hv h
    obtain ⟨fsm, st⟩ := p
    replace h := h.symm
    simp only [nn_crtipc.running] at hp
    cases v with
    | action a => simp [crtipc_input.is_ext] at hv
    | srtipc t => simp [crtipc_input.is_ext] at hv
    | usock a =>
      rcases hp with hp | hp | hp | hp | hp | hp <;> subst hp <;> cases a <;>
        simp [nn_crtipc_feed, nn_crtipc_handler, nn_crtipc_handler_CONNECTING,
          nn_crtipc_handler_ACTIVE, nn_crtipc_handler_STOPPING_SRTIPC,
          nn_crtipc_handler_STOPPING_USOCK, nn_crtipc_handler_WAITING,
          nn_crtipc_handler_STOPPING_BACKOFF,
          NN_CRTIPC_STATE_IDLE, NN_CRTIPC_STATE_CONNECTING, NN_CRTIPC_STATE_ACTIVE,
          NN_CRTIPC_STATE_STOPPING_SRTIPC, NN_CRTIPC_STATE_STOPPING_USOCK,
          NN_CRTIPC_STATE_WAITING, NN_CRTIPC_STATE_STOPPING_BACKOFF,
          NN_CRTIPC_STATE_STOPPING_SRTIPC_FINAL, NN_CRTIPC_STATE_STOPPING] at h <;>
        obtain ⟨h1, h2⟩ := h <;> subst h1 <;> subst h2 <;>
        simp [nn_crtipc.running, loss_count, List.filter, NN_CRTIPC_STATE_IDLE,
          NN_CRTIPC_STATE_CONNECTING, NN_CRTIPC_STATE_ACTIVE, NN_CRTIPC_STATE_STOPPING_SRTIPC,
          NN_CRTIPC_STATE_STOPPING_USOCK, NN_CRTIPC_STATE_WAITING,
          NN_CRTIPC_STATE_STOPPING_BACKOFF]
    | reconnect_timer a =>
      rcases hp with hp | hp | hp | hp | hp | hp <;> subst hp <;> cases a <;>
        simp only [nn_crtipc_feed, nn_crtipc_handler, nn_crtipc_handler_CONNECTING,
          nn_crtipc_handler_ACTIVE, nn_crtipc_handler_STOPPING_SRTIPC,
          nn_crtipc_handler_STOPPING_USOCK, nn_crtipc_handler_WAITING,
          nn_crtipc_handler_STOPPING_BACKOFF, nn_crtipc_start_connecting,
          NN_CRTIPC_STATE_IDLE, NN_CRTIPC_STATE_CONNECTING, NN_CRTIPC_STATE_ACTIVE,
          NN_CRTIPC_STATE_STOPPING_SRTIPC, NN_CRTIPC_STATE_STOPPING_USOCK,
          NN_CRTIPC_STATE_WAITING, NN_CRTIPC_STATE_STOPPING_BACKOFF,
          NN_CRTIPC_STATE_STOPPING_SRTIPC_FINAL, NN_CRTIPC_STATE_STOPPING] at h <;>
        (try simp only [Nat.reduceEqDiff, or_self, if_false, if_true, reduceCtorEq] at h) <;>
        (try split_ifs at h) <;>
        (try simp only [Option.some.injEq, Prod.mk.injEq, reduceCtorEq] at h) <;>
        (try (obtain ⟨h1, h2⟩ := h
              subst h1
              subst h2
              simp [nn_crtipc.running, loss_count, List.filter, NN_CRTIPC_STATE_IDLE,
                NN_CRTIPC_STATE_CONNECTING, NN_CRTIPC_STATE_ACTIVE,
                NN_CRTIPC_STATE_STOPPING_SRTIPC, NN_CRTIPC_STATE_STOPPING_USOCK,
                NN_CRTIPC_STATE_WAITING, NN_CRTIPC_STATE_STOPPING_BACKOFF]))
  · intro env p t p1 e hp h
    obtain ⟨fsm, st⟩ := p
    replace h := h.symm
    simp only [nn_crtipc.running] at hp
    rcases hp with hp | hp | hp | hp | hp | hp <;> subst hp <;>
      simp only [nn_crtipc_feed, nn_crtipc_handler, nn_crtipc_handler_CONNECTING,
        nn_crtipc_handler_ACTIVE, nn_crtipc_handler_STOPPING_SRTIPC,
        nn_crtipc_handler_STOPPING_USOCK, nn_crtipc_handler_WAITING,
        nn_crtipc_handler_STOPPING_BACKOFF,
        NN_CRTIPC_STATE_IDLE, NN_CRTIPC_STATE_CONNECTING, NN_CRTIPC_STATE_ACTIVE,
        NN_CRTIPC_STATE_STOPPING_SRTIPC, NN_CRTIPC_STATE_STOPPING_USOCK,
        NN_CRTIPC_STATE_WAITING, NN_CRTIPC_STATE_STOPPING_BACKOFF,
        NN_CRTIPC_STATE_STOPPING_SRTIPC_FINAL, NN_CRTIPC_STATE_STOPPING] at h <;>
      (try simp only [Nat.reduceEqDiff, or_self, if_false, if_true, reduceCtorEq] at h) <;>
      (try split_ifs at h with q1) <;>
      (try simp only [Option.some.injEq, Prod.mk.injEq, reduceCtorEq] at h) <;>
      (try (obtain ⟨h1, h2⟩ := h
            subst h1
            subst h2
            simp [nn_crtipc.running, loss_count, List.filter, NN_CRTIPC_STATE_IDLE,
              NN_CRTIPC_STATE_CONNECTING, NN_CRTIPC_STATE_ACTIVE,
              NN_CRTIPC_STATE_STOPPING_SRTIPC, NN_CRTIPC_STATE_STOPPING_USOCK,
              NN_CRTIPC_STATE_WAITING, NN_CRTIPC_STATE_STOPPING_BACKOFF]))
    exact q1
  · intro env p p1 e hp h
    obtain ⟨fsm, st⟩ := p
    replace h := h.symm
    simp only [nn_crtipc.running] at hp
    rcases hp with hp | hp | hp | hp | hp | hp <;> subst hp <;>
      cases h5 : env.srtipc_isidle <;> cases h6 : env.backoff_isidle <;>
      cases h7 : env.usock_isidle <;> cases h8 : env.srtipc_isidle_at_stop <;>
      simp [nn_crtipc_stop, nn_crtipc_shutdown, nn_crtipc_shutdown_STOPPING, h5, h6, h7, h8,
        NN_CRTIPC_STATE_IDLE, NN_CRTIPC_STATE_CONNECTING, NN_CRTIPC_STATE_ACTIVE,
        NN_CRTIPC_STATE_STOPPING_SRTIPC, NN_CRTIPC_STATE_STOPPING_USOCK,
        NN_CRTIPC_STATE_WAITING, NN_CRTIPC_STATE_STOPPING_BACKOFF,
        NN_CRTIPC_STATE_STOPPING_SRTIPC_FINAL, NN_CRTIPC_STATE_STOPPING] at h <;>
      obtain ⟨h1, h2⟩ := h <;> subst h1 <;> subst h2 <;>
      simp [nn_crtipc.stopped, loss_count, List.filter, NN_CRTIPC_STATE_IDLE,
        NN_CRTIPC_STATE_STOPPING_SRTIPC_FINAL, NN_CRTIPC_STATE_STOPPING]
  · intro env p v p1 e hp hv h
    obtain ⟨fsm, st⟩ := p
    replace h := h.symm
    simp only [nn_crtipc.stopped] at hp
    have hv2 : v ≠ crtipc_input.action nn_fsm_action.NN_FSM_STOP
        ∧ v ≠ crtipc_input.action nn_fsm_action.NN_FSM_START := by
      rcases hv with hv | ⟨t, hv⟩
      · cases v with
        | action a => simp [crtipc_input.is_ext] at hv
        | _ => simp
      · subst hv
        simp
    rcases hp with hp | hp | hp <;> subst hp
    · cases h5 : env.srtipc_isidle <;> cases h6 : env.backoff_isidle <;>
        cases h7 : env.usock_isidle <;>
        simp [nn_crtipc_feed, nn_crtipc_shutdown, nn_crtipc_shutdown_STOPPING, h5, h6, h7, hv2.1,
          NN_CRTIPC_STATE_IDLE, NN_CRTIPC_STATE_STOPPING_SRTIPC_FINAL,
          NN_CRTIPC_STATE_STOPPING] at h <;>
        obtain ⟨h1, h2⟩ := h <;> subst h1 <;> subst h2 <;>
        simp [nn_crtipc.stopped, loss_count, List.filter, NN_CRTIPC_STATE_IDLE,
          NN_CRTIPC_STATE_STOPPING_SRTIPC_FINAL, NN_CRTIPC_STATE_STOPPING]
    · cases h5 : env.srtipc_isidle <;> cases h6 : env.backoff_isidle <;>
        cases h7 : env.usock_isidle <;>
        simp [nn_crtipc_feed, nn_crtipc_shutdown, nn_crtipc_shutdown_STOPPING, h5, h6, h7, hv2.1,
          NN_CRTIPC_STATE_IDLE, NN_CRTIPC_STATE_STOPPING_SRTIPC_FINAL,
          NN_CRTIPC_STATE_STOPPING] at h <;>
        obtain ⟨h1, h2⟩ := h <;> subst h1 <;> subst h2 <;>
        simp [nn_crtipc.stopped, loss_count, List.filter, NN_CRTIPC_STATE_IDLE,
          NN_CRTIPC_STATE_STOPPING_SRTIPC_FINAL, NN_CRTIPC_STATE_STOPPING]
    · exfalso
      cases v with
      | action a =>
        cases a
        · exact hv2.2 rfl
        · exact hv2.1 rfl
      | _ =>
        simp [nn_crtipc_feed, nn_crtipc_handler, nn_crtipc_handler_IDLE, NN_CRTIPC_STATE_IDLE,
          NN_CRTIPC_STATE_STOPPING_SRTIPC_FINAL, NN_CRTIPC_STATE_STOPPING] at h
  · intro env p p1 e hp h
    obtain ⟨fsm, st⟩ := p
    replace h := h.symm
    simp only [nn_crtipc.stopped] at hp
    rcases hp with hp | hp | hp <;> subst hp <;>
      simp [nn_crtipc_stop, NN_CRTIPC_STATE_IDLE, NN_CRTIPC_STATE_STOPPING_SRTIPC_FINAL,
        NN_CRTIPC_STATE_STOPPING] at h <;>
      obtain ⟨h1, h2⟩ := h <;> subst h1 <;> subst h2 <;>
      simp [nn_crtipc.stopped, loss_count, NN_CRTIPC_STATE_IDLE,
        NN_CRTIPC_STATE_STOPPING_SRTIPC_FINAL, NN_CRTIPC_STATE_STOPPING]

/-- The last block of the shutdown of the AcceptSession leaves it stopped,
starts nothing and counts nothing. -/
theorem nn_artipc_shutdown_STOPPING_loss (env : ep_env) (s p1 : nn_artipc) (x e : List EpEffect)
    (hs : s.state = NN_ARTIPC_STATE_STOPPING)
    (h : nn_artipc_shutdown_STOPPING env s x = some (p1, e)) :
    p1.stopped ∧ ∃ y, e = x ++ y
      ∧ y.filter (fun z => decide (z = EpEffect.srtipc_start)) = []
      ∧ ∀ acc, loss_count acc y = acc := by
  simp only [nn_artipc_shutdown_STOPPING] at h
  split_ifs at h <;> simp only [Option.some.injEq, Prod.mk.injEq] at h <;>
    obtain ⟨h1, h2⟩ := h <;> subst h1 <;> subst h2
  · exact ⟨Or.inr (Or.inl hs), [], by simp, rfl, fun _ => rfl⟩
  · exact ⟨Or.inr (Or.inr rfl), _, rfl, rfl, fun _ => rfl⟩
  · exact ⟨Or.inr (Or.inr rfl), _, rfl, rfl, fun _ => rfl⟩

/-- The AcceptSession counts losses once. -/
theorem nn_artipc_counts_loss_once :
    counts_loss_once nn_artipc.started nn_artipc.stopped
      (fun p => p.state = NN_ARTIPC_STATE_ACTIVE) nn_artipc_stop nn_artipc_feed
      artipc_input.is_ext artipc_input.srtipc := by
  refine ⟨?_, ?_, ?_, ?_, ?_, ?_⟩
  · intro p hp
    exact Or.inr (Or.inl hp)
  · intro env p v p1 e hp hv h
    obtain ⟨fsm, st, li, lo⟩ := p
    replace h := h.symm
    simp only [nn_artipc.started] at hp
    cases v with
    | action a => simp [artipc_input.is_ext] at hv
    | srtipc t => simp [artipc_input.is_ext] at hv
    | usock a =>
      rcases hp with hp | hp | hp | hp | hp <;> subst hp <;> cases a <;>
        simp only [nn_artipc_feed, nn_artipc_handler, nn_artipc_handler_ACCEPTING,
          nn_artipc_handler_ACTIVE, nn_artipc_handler_STOPPING_SRTIPC,
          nn_artipc_handler_STOPPING_USOCK,
          NN_ARTIPC_STATE_IDLE, NN_ARTIPC_STATE_ACCEPTING, NN_ARTIPC_STATE_ACTIVE,
          NN_ARTIPC_STATE_STOPPING_SRTIPC, NN_ARTIPC_STATE_STOPPING_USOCK,
          NN_ARTIPC_STATE_DONE, NN_ARTIPC_STATE_STOPPING_SRTIPC_FINAL,
          NN_ARTIPC_STATE_STOPPING] at h <;>
        (try simp only [Nat.reduceEqDiff, or_self, if_false, if_true, reduceCtorEq] at h) <;>
        (try split_ifs at h) <;>
        (try simp only [Option.some.injEq, Prod.mk.injEq, reduceCtorEq] at h) <;>
        (try (obtain ⟨h1, h2⟩ := h
              subst h1
              subst h2
              simp [nn_artipc.started, loss_count, List.filter, NN_ARTIPC_STATE_IDLE,
                NN_ARTIPC_STATE_ACCEPTING, NN_ARTIPC_STATE_ACTIVE,
                NN_ARTIPC_STATE_STOPPING_SRTIPC, NN_ARTIPC_STATE_STOPPING_USOCK,
                NN_ARTIPC_STATE_DONE]))
    | listener a =>
      rcases hp with hp | hp | hp | hp | hp <;> subst hp <;> cases a <;>
        simp only [nn_artipc_feed, nn_artipc_handler, nn_artipc_handler_ACCEPTING,
          nn_artipc_handler_ACTIVE, nn_artipc_handler_STOPPING_SRTIPC,
          nn_artipc_handler_STOPPING_USOCK,
          NN_ARTIPC_STATE_IDLE, NN_ARTIPC_STATE_ACCEPTING, NN_ARTIPC_STATE_ACTIVE,
          NN_ARTIPC_STATE_STOPPING_SRTIPC, NN_ARTIPC_STATE_STOPPING_USOCK,
          NN_ARTIPC_STATE_DONE, NN_ARTIPC_STATE_STOPPING_SRTIPC_FINAL,
          NN_ARTIPC_STATE_STOPPING] at h <;>
        (try simp only [Nat.reduceEqDiff, or_self, if_false, if_true, reduceCtorEq] at h)
      simp only [Option.some.injEq, Prod.mk.injEq] at h
      obtain ⟨h1, h2⟩ := h
      subst h1
      subst h2
      simp [nn_artipc.started, loss_count, List.filter, NN_ARTIPC_STATE_IDLE,
        NN_ARTIPC_STATE_ACCEPTING, NN_ARTIPC_STATE_ACTIVE,
        NN_ARTIPC_STATE_STOPPING_SRTIPC, NN_ARTIPC_STATE_STOPPING_USOCK,
        NN_ARTIPC_STATE_DONE]
  · intro env p t p1 e hp h
    obtain ⟨fsm, st, li, lo⟩ := p
    replace h := h.symm
    simp only [nn_artipc.started] at hp
    rcases hp with hp | hp | hp | hp | hp <;> subst hp <;>
      simp only [nn_artipc_feed, nn_artipc_handler, nn_artipc_handler_ACCEPTING,
        nn_artipc_handler_ACTIVE, nn_artipc_handler_STOPPING_SRTIPC,
        nn_artipc_handler_STOPPING_USOCK,
        NN_ARTIPC_STATE_IDLE, NN_ARTIPC_STATE_ACCEPTING, NN_ARTIPC_STATE_ACTIVE,
        NN_ARTIPC_STATE_STOPPING_SRTIPC, NN_ARTIPC_STATE_STOPPING_USOCK,
        NN_ARTIPC_STATE_DONE, NN_ARTIPC_STATE_STOPPING_SRTIPC_FINAL,
        NN_ARTIPC_STATE_STOPPING] at h <;>
      (try simp only [Nat.reduceEqDiff, or_self, if_false, if_true, reduceCtorEq] at h) <;>
      (try split_ifs at h with q1) <;>
      (try simp only [Option.some.injEq, Prod.mk.injEq, reduceCtorEq] at h) <;>
      (try (obtain ⟨h1, h2⟩ := h
            subst h1
            subst h2
            simp [nn_artipc.started, loss_count, List.filter, NN_ARTIPC_STATE_IDLE,
              NN_ARTIPC_STATE_ACCEPTING, NN_ARTIPC_STATE_ACTIVE,
              NN_ARTIPC_STATE_STOPPING_SRTIPC, NN_ARTIPC_STATE_STOPPING_USOCK,
              NN_ARTIPC_STATE_DONE]))
    exact q1
  · intro env p p1 e hp h
    have hne : p.state ≠ NN_ARTIPC_STATE_IDLE ∧ p.state ≠ NN_ARTIPC_STATE_STOPPING_SRTIPC_FINAL
        ∧ p.state ≠ NN_ARTIPC_STATE_STOPPING := by
      simp only [nn_artipc.started] at hp
      rcases hp with hp | hp | hp | hp | hp <;> rw [hp] <;> decide
    simp only [nn_artipc_stop, hne.1, hne.2.1, hne.2.2, or_self, if_false,
      nn_artipc_shutdown, decide_True, if_true] at h
    cases h8 : env.srtipc_isidle_at_stop <;> cases h5 : env.srtipc_isidle <;>
      simp only [h8, h5, Bool.true_eq_false, if_false, if_true, List.nil_append] at h
    · simp only [Option.some.injEq, Prod.mk.injEq] at h
      obtain ⟨h1, h2⟩ := h
      subst h1
      subst h2
      exact ⟨Or.inl rfl, rfl, fun acc => by simp [loss_count]⟩
    · obtain ⟨d1, y, d2, d3, d4⟩ := nn_artipc_shutdown_STOPPING_loss env _ p1 _ e rfl h
      subst d2
      refine ⟨d1, ?_, fun acc => ?_⟩
      · simp [List.filter_append, d3, List.filter]
      · rw [loss_count_append, d4]
        simp [loss_count]
    · simp only [Option.some.injEq, Prod.mk.injEq] at h
      obtain ⟨h1, h2⟩ := h
      subst h1
      subst h2
      exact ⟨Or.inl rfl, rfl, fun acc => by simp [loss_count]⟩
    · obtain ⟨d1, y, d2, d3, d4⟩ := nn_artipc_shutdown_STOPPING_loss env _ p1 _ e rfl h
      subst d2
      refine ⟨d1, ?_, fun acc => ?_⟩
      · simp [List.filter_append, d3, List.filter]
      · rw [loss_count_append, d4]
        simp [loss_count]
  · intro env p v p1 e hp hv h
    have hv2 : decide (v = artipc_input.action nn_fsm_action.NN_FSM_STOP) = false
        ∧ v ≠ artipc_input.action nn_fsm_action.NN_FSM_START := by
      rcases hv with hv | ⟨t, hv⟩
      · cases v with
        | action a => simp [artipc_input.is_ext] at hv
        | _ => simp
      · subst hv
        simp
    simp only [nn_artipc.stopped] at hp
    rcases hp with hp | hp | hp
    · simp only [nn_artipc_feed, hp, true_or, if_true, nn_artipc_shutdown, hv2.1,
        Bool.false_eq_true, if_false] at h
      cases h5 : env.srtipc_isidle <;>
        simp only [h5, Bool.true_eq_false, if_false, if_true, List.nil_append] at h
      · simp only [Option.some.injEq, Prod.mk.injEq] at h
        obtain ⟨h1, h2⟩ := h
        subst h1
        subst h2
        exact ⟨Or.inl hp, rfl, fun acc => rfl⟩
      · obtain ⟨d1, y, d2, d3, d4⟩ := nn_artipc_shutdown_STOPPING_loss env _ p1 _ e rfl h
        subst d2
        refine ⟨d1, ?_, fun acc => ?_⟩
        · simp [List.filter_append, d3, List.filter]
        · rw [loss_count_append, d4]
          simp [loss_count]
    · simp only [nn_artipc_feed, hp, or_true, if_true, nn_artipc_shutdown, hv2.1,
        Bool.false_eq_true, if_false, NN_ARTIPC_STATE_STOPPING,
        NN_ARTIPC_STATE_STOPPING_SRTIPC_FINAL, show ¬ ((8 : Nat) = 7) by decide] at h
      obtain ⟨d1, y, d2, d3, d4⟩ := nn_artipc_shutdown_STOPPING_loss env p p1 [] e hp h
      subst d2
      exact ⟨d1, by simpa using d3, fun acc => by simpa using d4 acc⟩
    · exfalso
      cases v with
      | action a =>
        cases a
        · exact hv2.2 rfl
        · simp at hv2
      | _ =>
        simp [nn_artipc_feed, nn_artipc_handler, nn_artipc_handler_IDLE, hp,
          NN_ARTIPC_STATE_IDLE, NN_ARTIPC_STATE_STOPPING_SRTIPC_FINAL,
          NN_ARTIPC_STATE_STOPPING] at h
  · intro env p p1 e hp h
    simp only [nn_artipc.stopped] at hp
    rcases hp with hp | hp | hp
    · simp only [nn_artipc_stop, hp, NN_ARTIPC_STATE_IDLE, NN_ARTIPC_STATE_STOPPING_SRTIPC_FINAL,
        show ¬ ((7 : Nat) = 1) by decide, if_false, true_or, if_true, Option.some.injEq,
        Prod.mk.injEq] at h
      obtain ⟨h1, h2⟩ := h
      subst h1
      subst h2
      exact ⟨Or.inl hp, rfl, fun acc => rfl⟩
    · simp only [nn_artipc_stop, hp, NN_ARTIPC_STATE_IDLE, NN_ARTIPC_STATE_STOPPING,
        show ¬ ((8 : Nat) = 1) by decide, if_false, or_true, if_true, Option.some.injEq,
        Prod.mk.injEq] at h
      obtain ⟨h1, h2⟩ := h
      subst h1
      subst h2
      exact ⟨Or.inr (Or.inl hp), rfl, fun acc => rfl⟩
    · simp [nn_artipc_stop, hp] at h

/-- The world of a ConnectEndpoint that `nn_crtipc_create` returned is
settled. -/
theorem connect_world_init_settled (env : ep_env) (ivl ivl_max : Int) (sz sz_max : Nat)
    (c0 : nn_crtipc) (ec : List EpEffect)
    (hc : nn_crtipc_create env ivl sz ivl_max sz_max = some (c0, ec)) :
    (connect_world_init c0 ec).settled nn_crtipc.running nn_crtipc.stopped
      (fun p => p.state = NN_CRTIPC_STATE_ACTIVE) := by
  have h : (c0.state = NN_CRTIPC_STATE_CONNECTING ∨ c0.state = NN_CRTIPC_STATE_WAITING)
      ∧ loss_count 0 ec = 0 := by
    replace hc := hc.symm
    simp only [nn_crtipc_create] at hc
    cases ha : env.alloc with
    | none => simp [ha] at hc
    | some q =>
      simp only [ha] at hc
      split_ifs at hc
      all_goals
        cases hh : nn_crtipc_handler env { fsm := q, state := NN_CRTIPC_STATE_IDLE }
            (crtipc_input.action nn_fsm_action.NN_FSM_START) with
        | none => simp [hh] at hc
        | some r =>
          obtain ⟨s1, e1⟩ := r
          simp only [hh, Option.some.injEq, Prod.mk.injEq] at hc
          obtain ⟨h1, h2⟩ := hc
          subst h1
          subst h2
          replace hh := hh.symm
          simp only [nn_crtipc_handler, NN_CRTIPC_STATE_IDLE, if_true, nn_crtipc_handler_IDLE,
            nn_crtipc_start_connecting] at hh
          split_ifs at hh <;> simp only [Option.some.injEq, Prod.mk.injEq] at hh <;>
            obtain ⟨h1, h2⟩ := hh <;> subst h1 <;> subst h2 <;>
            simp [loss_count, NN_CRTIPC_STATE_CONNECTING, NN_CRTIPC_STATE_WAITING]
  obtain ⟨h1, h2⟩ := h
  refine ⟨by show 0 ≤ loss_count 0 ec; omega, by show loss_count 0 ec ≤ 1; omega, Or.inr ⟨?_, ?_, ?_⟩⟩
  · rcases h1 with h1 | h1
    · exact Or.inl h1
    · exact Or.inr (Or.inr (Or.inr (Or.inr (Or.inl h1))))
  · intro ha
    exfalso
    have ha2 : c0.state = NN_CRTIPC_STATE_ACTIVE := ha
    rcases h1 with h1 | h1 <;> rw [h1] at ha2 <;> exact absurd ha2 (by decide)
  · intro _
    exact link_world_init_settled _ _

/-- The world of an AcceptSession that `nn_artipc_start` returned is settled. -/
theorem accept_world_init_settled (env : ep_env) (prev_owner : nn_fsm_owner) (q listener : Nat)
    (a0 : nn_artipc) (ea : List EpEffect)
    (ha : nn_artipc_start env prev_owner (nn_artipc_init q) listener = some (a0, ea)) :
    (accept_world_init a0 ea).settled nn_artipc.started nn_artipc.stopped
      (fun p => p.state = NN_ARTIPC_STATE_ACTIVE) := by
  have h : a0.state = NN_ARTIPC_STATE_ACCEPTING ∧ loss_count 0 ea = 0 := by
    replace ha := ha.symm
    simp [nn_artipc_start, nn_artipc_init, nn_artipc_handler, nn_artipc_handler_IDLE,
      NN_ARTIPC_STATE_IDLE] at ha
    obtain ⟨h1, h2⟩ := ha
    subst h1
    subst h2
    simp [loss_count]
  obtain ⟨h1, h2⟩ := h
  refine ⟨by show 0 ≤ loss_count 0 ea; omega, by show loss_count 0 ea ≤ 1; omega, Or.inr ⟨?_, ?_, ?_⟩⟩
  · exact Or.inl h1
  · intro hx
    exfalso
    have hx2 : a0.state = NN_ARTIPC_STATE_ACTIVE := hx
    rw [h1] at hx2
    exact absurd hx2 (by decide)
  · intro _
    exact link_world_init_settled _ _

/-- C29: a ConnectEndpoint that `nn_crtipc_create` returned and an
AcceptSession that `nn_artipc_start` started, each with its Session, the
StreamHdr of the Session and the timer, along every sequence of stops, events
of the sockets and of the backoff, deliveries of the queued events of the
Session and the StreamHdr, firings of the timer, and sends and receives of
the user of the pipe: the increments of
BROKEN_CONNECTIONS and DROPPED_CONNECTIONS since the last start of the Session
sum to 0 or 1; and while the machine has not been stopped and is not ACTIVE,
which is where it is after it counted a broken connection, its Session is
idle, so that a stop then counts nothing. -/
theorem C29_loss_counted_once (env : ep_env) (ivl ivl_max : Int) (sz sz_max : Nat)
    (c0 : nn_crtipc) (ec : List EpEffect) (env2 : ep_env) (prev_owner : nn_fsm_owner)
    (q listener : Nat) (a0 : nn_artipc) (ea : List EpEffect)
    (ccalls : List (ep_call crtipc_input)) (wc : ep_world nn_crtipc)
    (acalls : List (ep_call artipc_input)) (wa : ep_world nn_artipc)
    (hc : nn_crtipc_create env ivl sz ivl_max sz_max = some (c0, ec))
    (ha : nn_artipc_start env2 prev_owner (nn_artipc_init q) listener = some (a0, ea))
    (hrc : connect_run (connect_world_init c0 ec) ccalls = some wc)
    (hra : accept_run (accept_world_init a0 ea) acalls = some wa) :
    (0 ≤ loss_count 0 wc.trace ∧ loss_count 0 wc.trace ≤ 1
      ∧ (wc.p.running → wc.p.state ≠ NN_CRTIPC_STATE_ACTIVE →
          wc.l.s.state = NN_SRTIPC_STATE_IDLE
          ∧ ∀ (env3 : ep_env) p1 e, nn_crtipc_stop
              { env3 with srtipc_isidle_at_stop := wc.l.srtipc_isidle } wc.p = some (p1, e) →
            ∀ acc, loss_count acc e = acc))
    ∧ (0 ≤ loss_count 0 wa.trace ∧ loss_count 0 wa.trace ≤ 1
      ∧ (wa.p.started → wa.p.state ≠ NN_ARTIPC_STATE_ACTIVE →
          wa.l.s.state = NN_SRTIPC_STATE_IDLE
          ∧ ∀ (env3 : ep_env) p1 e, nn_artipc_stop
              { env3 with srtipc_isidle_at_stop := wa.l.srtipc_isidle } wa.p = some (p1, e) →
            ∀ acc, loss_count acc e = acc)) := by
  have h1 := ep_run_settled nn_crtipc.running nn_crtipc.stopped
    (fun p => p.state = NN_CRTIPC_STATE_ACTIVE) nn_crtipc_stop nn_crtipc_feed
    crtipc_input.is_ext crtipc_input.srtipc nn_crtipc_counts_loss_once ccalls _ wc
    (connect_world_init_settled env ivl ivl_max sz sz_max c0 ec hc) hrc
  have h2 := ep_run_settled nn_artipc.started nn_artipc.stopped
    (fun p => p.state = NN_ARTIPC_STATE_ACTIVE) nn_artipc_stop nn_artipc_feed
    artipc_input.is_ext artipc_input.srtipc nn_artipc_counts_loss_once acalls _ wa
    (accept_world_init_settled env2 prev_owner q listener a0 ea ha) hra
  obtain ⟨a1, a2, a3⟩ := h1
  obtain ⟨b1, b2, b3⟩ := h2
  refine ⟨⟨a1, a2, ?_⟩, ⟨b1, b2, ?_⟩⟩
  · intro hr hn
    have hS : wc.l.s.state = NN_SRTIPC_STATE_IDLE := by
      rcases a3 with a3 | ⟨-, -, a5⟩
      · exfalso
        simp only [nn_crtipc.running, nn_crtipc.stopped] at hr a3
        rcases a3 with a3 | a3 | a3 <;> rw [a3] at hr <;> revert hr <;> decide
      · exact (a5 hn).2.2.2.1 rfl
    refine ⟨hS, ?_⟩
    intro env3 p1 e hst acc
    have := (nn_crtipc_counts_loss_once.2.2.2.1 _ wc.p p1 e hr hst).2.2 acc
    rw [this]
    simp [link_world.srtipc_isidle, hS]
  · intro hr hn
    have hS : wa.l.s.state = NN_SRTIPC_STATE_IDLE := by
      rcases b3 with b3 | ⟨-, -, b5⟩
      · exfalso
        simp only [nn_artipc.started, nn_artipc.stopped] at hr b3
        rcases b3 with b3 | b3 | b3 <;> rw [b3] at hr <;> revert hr <;> decide
      · exact (b5 hn).2.2.2.1 rfl
    refine ⟨hS, ?_⟩
    intro env3 p1 e hst acc
    have := (nn_artipc_counts_loss_once.2.2.2.1 _ wa.p p1 e hr hst).2.2 acc
    rw [this]
    simp [link_world.srtipc_isidle, hS]

/-- C29 (witness): a ConnectEndpoint and an AcceptSession whose connection
breaks after the handshake and that are stopped before the Stopped event of the
Session is delivered: one loss is counted for each. -/
theorem C29_loss_counted_once_witness :
    ∃ wc wa,
      nn_crtipc_create ep_env_idle 100 4 0 4
        = some ({ fsm := 11, state := NN_CRTIPC_STATE_CONNECTING },
            [EpEffect.backoff_init 100 100, EpEffect.usock_start,
             EpEffect.usock_setsockopt nn_sockopt.SO_SNDBUF 131072,
             EpEffect.usock_setsockopt nn_sockopt.SO_RCVBUF 131072,
             EpEffect.usock_connect [47, 116],
             EpEffect.epbase_stat_increment nn_stat.NN_STAT_INPROGRESS_CONNECTIONS 1])
      ∧ nn_artipc_start ep_env_idle { src := 2, fsm := some 1 } (nn_artipc_init 21) 2
        = some ({ fsm := 21, state := NN_ARTIPC_STATE_ACCEPTING, listener := some 2,
                  listener_owner := { src := 2, fsm := some 1 } },
            [EpEffect.usock_swap_owner { src := 3, fsm := some 21 },
             EpEffect.usock_accept (some 2)])
      ∧ connect_run (connect_world_init { fsm := 11, state := NN_CRTIPC_STATE_CONNECTING }
            [EpEffect.backoff_init 100 100, EpEffect.usock_start,
             EpEffect.usock_setsockopt nn_sockopt.SO_SNDBUF 131072,
             EpEffect.usock_setsockopt nn_sockopt.SO_RCVBUF 131072,
             EpEffect.usock_connect [47, 116],
             EpEffect.epbase_stat_increment nn_stat.NN_STAT_INPROGRESS_CONNECTIONS 1])
          connect_broken_calls = some wc
      ∧ accept_run (accept_world_init
            { fsm := 21, state := NN_ARTIPC_STATE_ACCEPTING, listener := some 2,
              listener_owner := { src := 2, fsm := some 1 } }
            [EpEffect.usock_swap_owner { src := 3, fsm := some 21 },
             EpEffect.usock_accept (some 2)])
          accept_broken_calls = some wa
      ∧ loss_count 0 wc.trace = 1 ∧ loss_count 0 wa.trace = 1
      ∧ loss_count 0 wc.trace ≤ 1 ∧ loss_count 0 wa.trace ≤ 1 :=
  have hc : (connect_run (connect_world_init { fsm := 11, state := NN_CRTIPC_STATE_CONNECTING }
            [EpEffect.backoff_init 100 100, EpEffect.usock_start,
             EpEffect.usock_setsockopt nn_sockopt.SO_SNDBUF 131072,
             EpEffect.usock_setsockopt nn_sockopt.SO_RCVBUF 131072,
             EpEffect.usock_connect [47, 116],
             EpEffect.epbase_stat_increment nn_stat.NN_STAT_INPROGRESS_CONNECTIONS 1])
          connect_broken_calls).isSome = true := by rfl
  have ha : (accept_run (accept_world_init
            { fsm := 21, state := NN_ARTIPC_STATE_ACCEPTING, listener := some 2,
              listener_owner := { src := 2, fsm := some 1 } }
            [EpEffect.usock_swap_owner { src := 3, fsm := some 21 },
             EpEffect.usock_accept (some 2)])
          accept_broken_calls).isSome = true := by rfl
  have h := C29_loss_counted_once ep_env_idle 100 0 4 4 _ _ ep_env_idle { src := 2, fsm := some 1 }
    21 2 _ _ connect_broken_calls (Option.get _ hc) accept_broken_calls (Option.get _ ha)
    (by decide) (by decide) (Option.some_get hc).symm (Option.some_get ha).symm
  ⟨Option.get _ hc, Option.get _ ha, by decide, by decide, (Option.some_get hc).symm,
    (Option.some_get ha).symm, rfl, rfl, h.1.2.1, h.2.2.1⟩


/-! ### C31 -/

/-- A buffer of bytes holds a byte at every offset (zero past its end). -/
theorem getD_byte (buf : List Nat) (h : ∀ b ∈ buf, b < 256) (i : Nat) : buf.getD i 0 < 256 := by
  rw [List.getD_eq_getElem?_getD]
  cases hi : buf[i]? with
  | none => simp
  | some b =>
    simp only [Option.getD_some]
    obtain ⟨hlt, hb⟩ := List.getElem?_eq_some.mp hi
    rw [← hb]
    exact h _ (List.getElem_mem hlt)

/-- The length decoded from a frame header of bytes fits `size_t`. -/
theorem nn_getll_lt (buf : List Nat) (h : ∀ b ∈ buf, b < 256) (off : Nat) :
    nn_getll buf off < 2 ^ 64 := by
  have h0 := getD_byte buf h off
  have h1 := getD_byte buf h (off + 1)
  have h2 := getD_byte buf h (off + 2)
  have h3 := getD_byte buf h (off + 3)
  have h4 := getD_byte buf h (off + 4)
  have h5 := getD_byte buf h (off + 5)
  have h6 := getD_byte buf h (off + 6)
  have h7 := getD_byte buf h (off + 7)
  simp only [nn_getll]
  omega

/-- C31: on Received in ACTIVE with inbound = HDR, first byte 1 and decoded
big-endian length N > 0, the Session replaces the inbound message by a fresh
message with a body of exactly N bytes, posts one read of exactly N bytes into
that body and sets inbound = BODY without notifying the pipe; on the next
Received, with inbound = BODY, it sets inbound = HASMSG and notifies
`nn_pipebase_received` exactly once, posting no read. -/
theorem C31_header_then_body (rc1 rc2 : Int) (self s : nn_srtipc)
    (hst : self.state = NN_SRTIPC_STATE_ACTIVE)
    (hin : self.instate = NN_SRTIPC_INSTATE_HDR)
    (hbytes : ∀ b ∈ self.inhdr, b < 256)
    (htype : self.inhdr.getD 0 0 = 1)
    (hsize : 0 < nn_getll self.inhdr 1)
    (hs : s.state = NN_SRTIPC_STATE_ACTIVE)
    (hsi : s.instate = NN_SRTIPC_INSTATE_BODY) :
    nn_srtipc_handler rc1 self (srtipc_input.usock nn_usock_event.NN_USOCK_RECEIVED)
      = some ({ self with inmsg := nn_msg_init (nn_getll self.inhdr 1),
                          instate := NN_SRTIPC_INSTATE_BODY },
              [Effect.usock_recv RecvBuf.inmsg_body (nn_getll self.inhdr 1)])
    ∧ (nn_msg_init (nn_getll self.inhdr 1)).body.length = nn_getll self.inhdr 1
    ∧ posted_read [Effect.usock_recv RecvBuf.inmsg_body (nn_getll self.inhdr 1)]
        = some (RecvBuf.inmsg_body, nn_getll self.inhdr 1)
    ∧ [Effect.usock_recv RecvBuf.inmsg_body (nn_getll self.inhdr 1)].countP Effect.is_usock_recv
        = 1
    ∧ Effect.pipebase_received ∉ [Effect.usock_recv RecvBuf.inmsg_body (nn_getll self.inhdr 1)]
    ∧ nn_srtipc_handler rc2 s (srtipc_input.usock nn_usock_event.NN_USOCK_RECEIVED)
      = some ({ s with instate := NN_SRTIPC_INSTATE_HASMSG }, [Effect.pipebase_received])
    ∧ posted_read [Effect.pipebase_received] = none
    ∧ [Effect.pipebase_received].count Effect.pipebase_received = 1 := by
  have hlt := nn_getll_lt self.inhdr hbytes 1
  have hmod : nn_getll self.inhdr 1 % 2 ^ 64 = nn_getll self.inhdr 1 := Nat.mod_eq_of_lt hlt
  have hne : nn_getll self.inhdr 1 ≠ 0 := Nat.pos_iff_ne_zero.mp hsize
  refine ⟨?_, by simp [nn_msg_init], rfl, rfl, by simp, ?_, rfl, by decide⟩
  · simp only [nn_srtipc_handler, nn_srtipc_handler_ACTIVE, nn_srtipc_handler_ACTIVE_RECEIVED,
      hst, hin, htype, cast_size_t, hmod, hne]
    simp [NN_SRTIPC_STATE_ACTIVE, NN_SRTIPC_STATE_IDLE, NN_SRTIPC_STATE_PROTOHDR,
      NN_SRTIPC_STATE_STOPPING_STREAMHDR, NN_SRTIPC_MSG_NORMAL]
  · simp [nn_srtipc_handler, nn_srtipc_handler_ACTIVE, nn_srtipc_handler_ACTIVE_RECEIVED,
      hs, hsi, NN_SRTIPC_STATE_ACTIVE, NN_SRTIPC_STATE_IDLE, NN_SRTIPC_STATE_PROTOHDR,
      NN_SRTIPC_STATE_STOPPING_STREAMHDR, NN_SRTIPC_INSTATE_BODY, NN_SRTIPC_INSTATE_HDR]

/-- C31 (witness): the frame header `01 | 00 00 00 00 00 00 00 03` announces a
body of three bytes. -/
theorem C31_header_then_body_witness :
    nn_srtipc_handler 0
        { (nn_srtipc_init 6) with state := NN_SRTIPC_STATE_ACTIVE,
                                  instate := NN_SRTIPC_INSTATE_HDR,
                                  inhdr := [0x01, 0, 0, 0, 0, 0, 0, 0, 0x03] }
        (srtipc_input.usock nn_usock_event.NN_USOCK_RECEIVED)
      = some ({ (nn_srtipc_init 6) with state := NN_SRTIPC_STATE_ACTIVE,
                                        inhdr := [0x01, 0, 0, 0, 0, 0, 0, 0, 0x03],
                                        inmsg := { hdr := [], body := [0, 0, 0] },
                                        instate := NN_SRTIPC_INSTATE_BODY },
              [Effect.usock_recv RecvBuf.inmsg_body 3])
    ∧ nn_srtipc_handler 0
        { (nn_srtipc_init 6) with state := NN_SRTIPC_STATE_ACTIVE,
                                  inhdr := [0x01, 0, 0, 0, 0, 0, 0, 0, 0x03],
                                  inmsg := { hdr := [], body := [0x41, 0x42, 0x43] },
                                  instate := NN_SRTIPC_INSTATE_BODY }
        (srtipc_input.usock nn_usock_event.NN_USOCK_RECEIVED)
      = some ({ (nn_srtipc_init 6) with state := NN_SRTIPC_STATE_ACTIVE,
                                        inhdr := [0x01, 0, 0, 0, 0, 0, 0, 0, 0x03],
                                        inmsg := { hdr := [], body := [0x41, 0x42, 0x43] },
                                        instate := NN_SRTIPC_INSTATE_HASMSG },
              [Effect.pipebase_received]) :=
  have h := C31_header_then_body 0 0
    { (nn_srtipc_init 6) with state := NN_SRTIPC_STATE_ACTIVE,
                              instate := NN_SRTIPC_INSTATE_HDR,
                              inhdr := [0x01, 0, 0, 0, 0, 0, 0, 0, 0x03] }
    { (nn_srtipc_init 6) with state := NN_SRTIPC_STATE_ACTIVE,
                              inhdr := [0x01, 0, 0, 0, 0, 0, 0, 0, 0x03],
                              inmsg := { hdr := [], body := [0x41, 0x42, 0x43] },
                              instate := NN_SRTIPC_INSTATE_BODY }
    rfl rfl (by decide) rfl (by decide) rfl rfl
  ⟨h.1, h.2.2.2.2.2.1⟩

/-! ### C32 -/

/-- C32: in Session PROTOHDR, StreamHdr OK stops the StreamHdr and enters
STOPPING_STREAMHDR; there, on StreamHdr Stopped, the Session starts the pipe:
if the start fails it raises Error and enters DONE without posting any read,
and if it succeeds it posts exactly one 9-byte read into the inbound header
buffer, sets inbound = HDR and outbound = IDLE and enters ACTIVE, whatever the
inbound and outbound sub-states were before. -/
theorem C32_handshake_ok_starts_pipe (rc0 rc : Int) (self s : nn_srtipc)
    (hst : self.state = NN_SRTIPC_STATE_PROTOHDR)
    (hs : s.state = NN_SRTIPC_STATE_STOPPING_STREAMHDR) :
    nn_srtipc_handler rc0 self (srtipc_input.streamhdr nn_streamhdr_event.NN_STREAMHDR_OK)
      = some ({ self with state := NN_SRTIPC_STATE_STOPPING_STREAMHDR }, [Effect.streamhdr_stop])
    ∧ (rc < 0 →
        nn_srtipc_handler rc s (srtipc_input.streamhdr nn_streamhdr_event.NN_STREAMHDR_STOPPED)
          = some ({ s with state := NN_SRTIPC_STATE_DONE },
              [Effect.pipebase_start, Effect.srtipc_raise NN_SRTIPC_ERROR]))
    ∧ [Effect.pipebase_start, Effect.srtipc_raise NN_SRTIPC_ERROR].countP Effect.is_usock_recv = 0
    ∧ (0 ≤ rc →
        nn_srtipc_handler rc s (srtipc_input.streamhdr nn_streamhdr_event.NN_STREAMHDR_STOPPED)
          = some ({ s with instate := NN_SRTIPC_INSTATE_HDR,
                           outstate := NN_SRTIPC_OUTSTATE_IDLE,
                           state := NN_SRTIPC_STATE_ACTIVE },
              [Effect.pipebase_start, Effect.usock_recv RecvBuf.inhdr 9]))
    ∧ [Effect.pipebase_start, Effect.usock_recv RecvBuf.inhdr 9].countP Effect.is_usock_recv = 1
    ∧ posted_read [Effect.pipebase_start, Effect.usock_recv RecvBuf.inhdr 9]
        = some (RecvBuf.inhdr, 9) := by
  refine ⟨?_, fun hrc => ?_, rfl, fun hrc => ?_, rfl, rfl⟩
  · simp [nn_srtipc_handler, nn_srtipc_handler_PROTOHDR, hst, NN_SRTIPC_STATE_IDLE,
      NN_SRTIPC_STATE_PROTOHDR]
  · simp [nn_srtipc_handler, nn_srtipc_handler_STOPPING_STREAMHDR, hs, hrc, NN_SRTIPC_STATE_IDLE,
      NN_SRTIPC_STATE_PROTOHDR, NN_SRTIPC_STATE_STOPPING_STREAMHDR]
  · have hn : ¬ rc < 0 := not_lt.mpr hrc
    simp [nn_srtipc_handler, nn_srtipc_handler_STOPPING_STREAMHDR, hs, hn, NN_SRTIPC_STATE_IDLE,
      NN_SRTIPC_STATE_PROTOHDR, NN_SRTIPC_STATE_STOPPING_STREAMHDR]

/-- C32 (witness): a Session whose sub-states are left over from an earlier
connection (inbound = HASMSG, outbound = SENDING) and whose pipe starts. -/
theorem C32_handshake_ok_starts_pipe_witness :
    nn_srtipc_handler 0
        { (nn_srtipc_init 6) with state := NN_SRTIPC_STATE_STOPPING_STREAMHDR,
                                  instate := NN_SRTIPC_INSTATE_HASMSG,
                                  outstate := NN_SRTIPC_OUTSTATE_SENDING }
        (srtipc_input.streamhdr nn_streamhdr_event.NN_STREAMHDR_STOPPED)
      = some ({ (nn_srtipc_init 6) with state := NN_SRTIPC_STATE_ACTIVE,
                                        instate := NN_SRTIPC_INSTATE_HDR,
                                        outstate := NN_SRTIPC_OUTSTATE_IDLE },
              [Effect.pipebase_start, Effect.usock_recv RecvBuf.inhdr 9]) :=
  (C32_handshake_ok_starts_pipe 0 0
    { (nn_srtipc_init 6) with state := NN_SRTIPC_STATE_PROTOHDR }
    { (nn_srtipc_init 6) with state := NN_SRTIPC_STATE_STOPPING_STREAMHDR,
                              instate := NN_SRTIPC_INSTATE_HASMSG,
                              outstate := NN_SRTIPC_OUTSTATE_SENDING }
    rfl rfl).2.2.2.1 (by decide)

/-! ### C33 -/

/-- C33: in AcceptSession ACCEPTING, the Accepted event of the child socket
applies SNDBUF and RCVBUF to the child socket, returns the listener to its
original owner and clears the borrowed listener pointer, raises Accepted to
the parent, activates the child socket, starts the Session over the child
socket, increments ACCEPTED_CONNECTIONS by exactly 1 and enters ACTIVE; the
listener is returned before the Session is started. -/
theorem C33_accepted_hands_back_listener (env : ep_env) (self : nn_artipc)
    (hst : self.state = NN_ARTIPC_STATE_ACCEPTING)
    (hsnd : env.sndbuf_sz = 4) (hrcv : env.rcvbuf_sz = 4) :
    nn_artipc_handler env self (artipc_input.usock nn_usock_event.NN_USOCK_ACCEPTED)
      = some ({ self with listener := none, listener_owner := { src := -1, fsm := none },
                          state := NN_ARTIPC_STATE_ACTIVE },
          [EpEffect.epbase_clear_error,
           EpEffect.usock_setsockopt nn_sockopt.SO_SNDBUF env.sndbuf,
           EpEffect.usock_setsockopt nn_sockopt.SO_RCVBUF env.rcvbuf]
          ++ [EpEffect.usock_swap_owner self.listener_owner]
          ++ [EpEffect.artipc_raise nn_artipc_event.NN_ARTIPC_ACCEPTED, EpEffect.usock_activate]
          ++ [EpEffect.srtipc_start]
          ++ [EpEffect.epbase_stat_increment nn_stat.NN_STAT_ACCEPTED_CONNECTIONS 1])
    ∧ EpEffect.srtipc_start ∉
        [EpEffect.epbase_clear_error,
         EpEffect.usock_setsockopt nn_sockopt.SO_SNDBUF env.sndbuf,
         EpEffect.usock_setsockopt nn_sockopt.SO_RCVBUF env.rcvbuf,
         EpEffect.usock_swap_owner self.listener_owner]
    ∧ stat_sum nn_stat.NN_STAT_ACCEPTED_CONNECTIONS
        [EpEffect.epbase_clear_error,
         EpEffect.usock_setsockopt nn_sockopt.SO_SNDBUF env.sndbuf,
         EpEffect.usock_setsockopt nn_sockopt.SO_RCVBUF env.rcvbuf,
         EpEffect.usock_swap_owner self.listener_owner,
         EpEffect.artipc_raise nn_artipc_event.NN_ARTIPC_ACCEPTED,
         EpEffect.usock_activate,
         EpEffect.srtipc_start,
         EpEffect.epbase_stat_increment nn_stat.NN_STAT_ACCEPTED_CONNECTIONS 1] = 1 := by
  refine ⟨?_, by simp, by simp [stat_sum]⟩
  simp [nn_artipc_handler, nn_artipc_handler_ACCEPTING, hst, hsnd, hrcv, NN_ARTIPC_STATE_IDLE,
    NN_ARTIPC_STATE_ACCEPTING]

/-- C33 (witness): a pending AcceptSession that borrowed the listening socket 2
from the owner `(1, 7)`. -/
theorem C33_accepted_hands_back_listener_witness :
    nn_artipc_handler ep_env_idle
        { fsm := 20, state := NN_ARTIPC_STATE_ACCEPTING, listener := some 2,
          listener_owner := { src := 1, fsm := some 7 } }
        (artipc_input.usock nn_usock_event.NN_USOCK_ACCEPTED)
      = some ({ fsm := 20, state := NN_ARTIPC_STATE_ACTIVE, listener := none,
                listener_owner := { src := -1, fsm := none } },
          [EpEffect.epbase_clear_error,
           EpEffect.usock_setsockopt nn_sockopt.SO_SNDBUF ep_env_idle.sndbuf,
           EpEffect.usock_setsockopt nn_sockopt.SO_RCVBUF ep_env_idle.rcvbuf,
           EpEffect.usock_swap_owner { src := 1, fsm := some 7 },
           EpEffect.artipc_raise nn_artipc_event.NN_ARTIPC_ACCEPTED,
           EpEffect.usock_activate,
           EpEffect.srtipc_start,
           EpEffect.epbase_stat_increment nn_stat.NN_STAT_ACCEPTED_CONNECTIONS 1]) :=
  (C33_accepted_hands_back_listener ep_env_idle
    { fsm := 20, state := NN_ARTIPC_STATE_ACCEPTING, listener := some 2,
      listener_owner := { src := 1, fsm := some 7 } } rfl rfl rfl).1

/-! ### C34 -/

/-- C34: from AcceptSession ACTIVE, the event sequence Session Error, Session
Stopped, child-socket Stopped leads through STOPPING_SRTIPC and STOPPING_USOCK
to DONE, issuing stop to the Session and then to the child socket,
incrementing BROKEN_CONNECTIONS exactly once and raising exactly one Error to
the parent, which is raised only in the step that handles the Stopped event of
the child socket. The constants `NN_USOCK_SHUTDOWN` and `NN_SRTIPC_STOPPED` are
labels of one `switch` in STOPPING_SRTIPC, hence different. -/
theorem C34_session_error_path (env1 env2 env3 : ep_env) (self : nn_artipc)
    (hst : self.state = NN_ARTIPC_STATE_ACTIVE)
    (hcode : env2.usock_shutdown_code ≠ NN_SRTIPC_STOPPED) :
    nn_artipc_feed env1 self (artipc_input.srtipc NN_SRTIPC_ERROR)
      = some ({ self with state := NN_ARTIPC_STATE_STOPPING_SRTIPC },
          [EpEffect.srtipc_stop,
           EpEffect.epbase_stat_increment nn_stat.NN_STAT_BROKEN_CONNECTIONS 1])
    ∧ nn_artipc_feed env2 { self with state := NN_ARTIPC_STATE_STOPPING_SRTIPC }
        (artipc_input.srtipc NN_SRTIPC_STOPPED)
      = some ({ self with state := NN_ARTIPC_STATE_STOPPING_USOCK }, [EpEffect.usock_stop])
    ∧ nn_artipc_feed env3 { self with state := NN_ARTIPC_STATE_STOPPING_USOCK }
        (artipc_input.usock nn_usock_event.NN_USOCK_STOPPED)
      = some ({ self with state := NN_ARTIPC_STATE_DONE },
          [EpEffect.artipc_raise nn_artipc_event.NN_ARTIPC_ERROR])
    ∧ fsm_run (fun s (d : ep_env × artipc_input) => nn_artipc_feed d.1 s d.2) self
        [(env1, artipc_input.srtipc NN_SRTIPC_ERROR),
         (env2, artipc_input.srtipc NN_SRTIPC_STOPPED),
         (env3, artipc_input.usock nn_usock_event.NN_USOCK_STOPPED)]
      = some ({ self with state := NN_ARTIPC_STATE_DONE },
          [EpEffect.srtipc_stop,
           EpEffect.epbase_stat_increment nn_stat.NN_STAT_BROKEN_CONNECTIONS 1,
           EpEffect.usock_stop,
           EpEffect.artipc_raise nn_artipc_event.NN_ARTIPC_ERROR])
    ∧ stat_sum nn_stat.NN_STAT_BROKEN_CONNECTIONS
        [EpEffect.srtipc_stop,
         EpEffect.epbase_stat_increment nn_stat.NN_STAT_BROKEN_CONNECTIONS 1,
         EpEffect.usock_stop,
         EpEffect.artipc_raise nn_artipc_event.NN_ARTIPC_ERROR] = 1
    ∧ [EpEffect.srtipc_stop,
       EpEffect.epbase_stat_increment nn_stat.NN_STAT_BROKEN_CONNECTIONS 1,
       EpEffect.usock_stop,
       EpEffect.artipc_raise nn_artipc_event.NN_ARTIPC_ERROR].count
        (EpEffect.artipc_raise nn_artipc_event.NN_ARTIPC_ERROR) = 1 := by
  have h1 : nn_artipc_feed env1 self (artipc_input.srtipc NN_SRTIPC_ERROR)
      = some ({ self with state := NN_ARTIPC_STATE_STOPPING_SRTIPC },
          [EpEffect.srtipc_stop,
           EpEffect.epbase_stat_increment nn_stat.NN_STAT_BROKEN_CONNECTIONS 1]) := by
    simp [nn_artipc_feed, nn_artipc_handler, nn_artipc_handler_ACTIVE, hst,
      NN_ARTIPC_STATE_IDLE, NN_ARTIPC_STATE_ACCEPTING, NN_ARTIPC_STATE_ACTIVE,
      NN_ARTIPC_STATE_STOPPING_SRTIPC_FINAL, NN_ARTIPC_STATE_STOPPING]
  have hc : ¬ (NN_SRTIPC_STOPPED = env2.usock_shutdown_code) := fun h => hcode h.symm
  have h2 : nn_artipc_feed env2 { self with state := NN_ARTIPC_STATE_STOPPING_SRTIPC }
        (artipc_input.srtipc NN_SRTIPC_STOPPED)
      = some ({ self with state := NN_ARTIPC_STATE_STOPPING_USOCK }, [EpEffect.usock_stop]) := by
    simp [nn_artipc_feed, nn_artipc_handler, nn_artipc_handler_STOPPING_SRTIPC, hc,
      NN_ARTIPC_STATE_IDLE, NN_ARTIPC_STATE_ACCEPTING, NN_ARTIPC_STATE_ACTIVE,
      NN_ARTIPC_STATE_STOPPING_SRTIPC, NN_ARTIPC_STATE_STOPPING_SRTIPC_FINAL,
      NN_ARTIPC_STATE_STOPPING]
  have h3 : nn_artipc_feed env3 { self with state := NN_ARTIPC_STATE_STOPPING_USOCK }
        (artipc_input.usock nn_usock_event.NN_USOCK_STOPPED)
      = some ({ self with state := NN_ARTIPC_STATE_DONE },
          [EpEffect.artipc_raise nn_artipc_event.NN_ARTIPC_ERROR]) := by
    simp [nn_artipc_feed, nn_artipc_handler, nn_artipc_handler_STOPPING_USOCK,
      NN_ARTIPC_STATE_IDLE, NN_ARTIPC_STATE_ACCEPTING, NN_ARTIPC_STATE_ACTIVE,
      NN_ARTIPC_STATE_STOPPING_SRTIPC, NN_ARTIPC_STATE_STOPPING_USOCK,
      NN_ARTIPC_STATE_STOPPING_SRTIPC_FINAL, NN_ARTIPC_STATE_STOPPING]
  refine ⟨h1, h2, h3, ?_, by simp [stat_sum], by simp⟩
  simp only [fsm_run, h1, h2, h3]
  rfl

/-- C34 (witness): an accepted connection breaks. -/
theorem C34_session_error_path_witness :
    fsm_run (fun s (d : ep_env × artipc_input) => nn_artipc_feed d.1 s d.2)
        { fsm := 20, state := NN_ARTIPC_STATE_ACTIVE, listener := none,
          listener_owner := { src := -1, fsm := none } }
        [(ep_env_busy, artipc_input.srtipc NN_SRTIPC_ERROR),
         (ep_env_busy, artipc_input.srtipc NN_SRTIPC_STOPPED),
         (ep_env_busy, artipc_input.usock nn_usock_event.NN_USOCK_STOPPED)]
      = some ({ fsm := 20, state := NN_ARTIPC_STATE_DONE, listener := none,
                listener_owner := { src := -1, fsm := none } },
          [EpEffect.srtipc_stop,
           EpEffect.epbase_stat_increment nn_stat.NN_STAT_BROKEN_CONNECTIONS 1,
           EpEffect.usock_stop,
           EpEffect.artipc_raise nn_artipc_event.NN_ARTIPC_ERROR]) :=
  (C34_session_error_path ep_env_busy ep_env_busy ep_env_busy
    { fsm := 20, state := NN_ARTIPC_STATE_ACTIVE, listener := none,
      listener_owner := { src := -1, fsm := none } } rfl (by decide)).2.2.2.1

/-! ### C36 -/

/-- C36: `nn_crtipc_start_connecting`: if opening the socket fails it starts
the backoff and enters WAITING without posting a connect and without changing
INPROGRESS_CONNECTIONS; if it succeeds it applies SNDBUF and RCVBUF, posts one
connect to the configured path, enters CONNECTING and increments
INPROGRESS_CONNECTIONS by exactly 1. -/
theorem C36_start_connecting (env : ep_env) (self : nn_crtipc)
    (hsnd : env.sndbuf_sz = 4) (hrcv : env.rcvbuf_sz = 4)
    (haddr : env.addr.length < env.sun_path_size) :
    (env.usock_start_rc < 0 →
      nn_crtipc_start_connecting env self
        = some ({ self with state := NN_CRTIPC_STATE_WAITING },
            [EpEffect.usock_start, EpEffect.backoff_start]))
    ∧ (∀ a, EpEffect.usock_connect a ∉ [EpEffect.usock_start, EpEffect.backoff_start])
    ∧ stat_sum nn_stat.NN_STAT_INPROGRESS_CONNECTIONS
        [EpEffect.usock_start, EpEffect.backoff_start] = 0
    ∧ (0 ≤ env.usock_start_rc →
      nn_crtipc_start_connecting env self
        = some ({ self with state := NN_CRTIPC_STATE_CONNECTING },
            [EpEffect.usock_start,
             EpEffect.usock_setsockopt nn_sockopt.SO_SNDBUF env.sndbuf,
             EpEffect.usock_setsockopt nn_sockopt.SO_RCVBUF env.rcvbuf,
             EpEffect.usock_connect env.addr,
             EpEffect.epbase_stat_increment nn_stat.NN_STAT_INPROGRESS_CONNECTIONS 1]))
    ∧ (∀ a, [EpEffect.usock_start,
             EpEffect.usock_setsockopt nn_sockopt.SO_SNDBUF env.sndbuf,
             EpEffect.usock_setsockopt nn_sockopt.SO_RCVBUF env.rcvbuf,
             EpEffect.usock_connect env.addr,
             EpEffect.epbase_stat_increment nn_stat.NN_STAT_INPROGRESS_CONNECTIONS 1].count
            (EpEffect.usock_connect a) = if a = env.addr then 1 else 0)
    ∧ stat_sum nn_stat.NN_STAT_INPROGRESS_CONNECTIONS
        [EpEffect.usock_start,
         EpEffect.usock_setsockopt nn_sockopt.SO_SNDBUF env.sndbuf,
         EpEffect.usock_setsockopt nn_sockopt.SO_RCVBUF env.rcvbuf,
         EpEffect.usock_connect env.addr,
         EpEffect.epbase_stat_increment nn_stat.NN_STAT_INPROGRESS_CONNECTIONS 1] = 1 := by
  refine ⟨fun hrc => ?_, by simp, by simp [stat_sum], fun hrc => ?_, fun a => ?_,
    by simp [stat_sum]⟩
  · simp [nn_crtipc_start_connecting, hrc]
  · have hn : ¬ env.usock_start_rc < 0 := not_lt.mpr hrc
    simp [nn_crtipc_start_connecting, hn, hsnd, hrcv, haddr]
  · by_cases ha : a = env.addr
    · subst ha
      simp
    · have ha2 : ¬ env.addr = a := fun h => ha h.symm
      simp [ha, ha2]

/-- C36 (witness): the socket opens and the connect to the path `"a"` is
posted. -/
theorem C36_start_connecting_witness :
    nn_crtipc_start_connecting
        { ep_env_idle with usock_start_rc := 0, sndbuf_sz := 4, rcvbuf_sz := 4,
                           addr := [0x61], sun_path_size := 108 }
        { fsm := 30, state := NN_CRTIPC_STATE_IDLE }
      = some ({ fsm := 30, state := NN_CRTIPC_STATE_CONNECTING },
          [EpEffect.usock_start,
           EpEffect.usock_setsockopt nn_sockopt.SO_SNDBUF ep_env_idle.sndbuf,
           EpEffect.usock_setsockopt nn_sockopt.SO_RCVBUF ep_env_idle.rcvbuf,
           EpEffect.usock_connect [0x61],
           EpEffect.epbase_stat_increment nn_stat.NN_STAT_INPROGRESS_CONNECTIONS 1]) :=
  (C36_start_connecting
    { ep_env_idle with usock_start_rc := 0, sndbuf_sz := 4, rcvbuf_sz := 4,
                       addr := [0x61], sun_path_size := 108 }
    { fsm := 30, state := NN_CRTIPC_STATE_IDLE } rfl rfl (by decide)).2.2.2.1 (by decide)

/-! ### C40 -/

/-- C40: while StreamHdr is in STOPPING_TIMER_ERROR or STOPPING_TIMER_DONE the
only event (an input from the socket or the timer, as opposed to an action of
the owner) the handler accepts is the Stopped event of the timer; every socket
event and the Timeout event of the timer fail an assertion there, such as the
Sent completion of the write that was still posted when the timer fired in
SENDING. -/
theorem C40_stopping_timer_accepts_only_timer_stopped (ispeer : Nat → Bool)
    (timer_isidle idle1 idle2 : Bool) (self s : nn_streamhdr) (ev : streamhdr_input)
    (hst : self.state = NN_STREAMHDR_STATE_STOPPING_TIMER_ERROR
      ∨ self.state = NN_STREAMHDR_STATE_STOPPING_TIMER_DONE)
    (hs : s.state = NN_STREAMHDR_STATE_SENDING) :
    (ev.is_action = false →
      ((nn_streamhdr_handler ispeer timer_isidle self ev).isSome = true
        ↔ ev = streamhdr_input.timer nn_timer_event.NN_TIMER_STOPPED))
    ∧ (∀ t : nn_usock_event,
        nn_streamhdr_handler ispeer timer_isidle self (streamhdr_input.usock t) = none)
    ∧ nn_streamhdr_handler ispeer timer_isidle self
        (streamhdr_input.timer nn_timer_event.NN_TIMER_TIMEOUT) = none
    ∧ nn_streamhdr_run ispeer s
        [{ ev := streamhdr_input.timer nn_timer_event.NN_TIMER_TIMEOUT, data := [],
           timer_isidle := idle1 }]
      = some ({ s with state := NN_STREAMHDR_STATE_STOPPING_TIMER_ERROR }, [Effect.timer_stop])
    ∧ nn_streamhdr_run ispeer s
        [{ ev := streamhdr_input.timer nn_timer_event.NN_TIMER_TIMEOUT, data := [],
           timer_isidle := idle1 },
         { ev := streamhdr_input.usock nn_usock_event.NN_USOCK_SENT, data := [],
           timer_isidle := idle2 }]
      = none := by
  have husock : ∀ t : nn_usock_event,
      nn_streamhdr_handler ispeer timer_isidle self (streamhdr_input.usock t) = none := by
    intro t
    rcases hst with h | h
    · simp [nn_streamhdr_handler, nn_streamhdr_handler_STOPPING_TIMER_ERROR, h,
        NN_STREAMHDR_STATE_STOPPING, NN_STREAMHDR_STATE_IDLE, NN_STREAMHDR_STATE_SENDING,
        NN_STREAMHDR_STATE_RECEIVING, NN_STREAMHDR_STATE_STOPPING_TIMER_ERROR]
    · simp [nn_streamhdr_handler, nn_streamhdr_handler_STOPPING_TIMER_DONE, h,
        NN_STREAMHDR_STATE_STOPPING, NN_STREAMHDR_STATE_IDLE, NN_STREAMHDR_STATE_SENDING,
        NN_STREAMHDR_STATE_RECEIVING, NN_STREAMHDR_STATE_STOPPING_TIMER_ERROR,
        NN_STREAMHDR_STATE_STOPPING_TIMER_DONE]
  have htimeout : nn_streamhdr_handler ispeer timer_isidle self
      (streamhdr_input.timer nn_timer_event.NN_TIMER_TIMEOUT) = none := by
    rcases hst with h | h
    · simp [nn_streamhdr_handler, nn_streamhdr_handler_STOPPING_TIMER_ERROR, h,
        NN_STREAMHDR_STATE_STOPPING, NN_STREAMHDR_STATE_IDLE, NN_STREAMHDR_STATE_SENDING,
        NN_STREAMHDR_STATE_RECEIVING, NN_STREAMHDR_STATE_STOPPING_TIMER_ERROR]
    · simp [nn_streamhdr_handler, nn_streamhdr_handler_STOPPING_TIMER_DONE, h,
        NN_STREAMHDR_STATE_STOPPING, NN_STREAMHDR_STATE_IDLE, NN_STREAMHDR_STATE_SENDING,
        NN_STREAMHDR_STATE_RECEIVING, NN_STREAMHDR_STATE_STOPPING_TIMER_ERROR,
        NN_STREAMHDR_STATE_STOPPING_TIMER_DONE]
  have hstopped : (nn_streamhdr_handler ispeer timer_isidle self
      (streamhdr_input.timer nn_timer_event.NN_TIMER_STOPPED)).isSome = true := by
    rcases hst with h | h
    · simp [nn_streamhdr_handler, nn_streamhdr_handler_STOPPING_TIMER_ERROR, h,
        NN_STREAMHDR_STATE_STOPPING, NN_STREAMHDR_STATE_IDLE, NN_STREAMHDR_STATE_SENDING,
        NN_STREAMHDR_STATE_RECEIVING, NN_STREAMHDR_STATE_STOPPING_TIMER_ERROR]
    · simp [nn_streamhdr_handler, nn_streamhdr_handler_STOPPING_TIMER_DONE, h,
        NN_STREAMHDR_STATE_STOPPING, NN_STREAMHDR_STATE_IDLE, NN_STREAMHDR_STATE_SENDING,
        NN_STREAMHDR_STATE_RECEIVING, NN_STREAMHDR_STATE_STOPPING_TIMER_ERROR,
        NN_STREAMHDR_STATE_STOPPING_TIMER_DONE]
  have h1 : nn_streamhdr_deliver ispeer s
      { ev := streamhdr_input.timer nn_timer_event.NN_TIMER_TIMEOUT, data := [],
        timer_isidle := idle1 }
      = some ({ s with state := NN_STREAMHDR_STATE_STOPPING_TIMER_ERROR },
          [Effect.timer_stop]) := by
    simp [nn_streamhdr_deliver, nn_streamhdr_handler, nn_streamhdr_handler_SENDING, hs,
      NN_STREAMHDR_STATE_STOPPING, NN_STREAMHDR_STATE_IDLE, NN_STREAMHDR_STATE_SENDING]
  have h2 : nn_streamhdr_deliver ispeer { s with state := NN_STREAMHDR_STATE_STOPPING_TIMER_ERROR }
      { ev := streamhdr_input.usock nn_usock_event.NN_USOCK_SENT, data := [],
        timer_isidle := idle2 } = none := by
    simp [nn_streamhdr_deliver, nn_streamhdr_handler, nn_streamhdr_handler_STOPPING_TIMER_ERROR,
      NN_STREAMHDR_STATE_STOPPING, NN_STREAMHDR_STATE_IDLE, NN_STREAMHDR_STATE_SENDING,
      NN_STREAMHDR_STATE_RECEIVING, NN_STREAMHDR_STATE_STOPPING_TIMER_ERROR]
  refine ⟨fun hev => ?_, husock, htimeout, ?_, ?_⟩
  · cases ev with
    | fsm a => simp [streamhdr_input.is_action] at hev
    | usock t => simp [husock t]
    | timer t =>
      cases t with
      | NN_TIMER_TIMEOUT => simp [htimeout]
      | NN_TIMER_STOPPED => simp [hstopped]
  · simp only [nn_streamhdr_run, h1]
    rfl
  · simp only [nn_streamhdr_run, h1, h2]

/-- C40 (witness): the handshake timer fires while the write of the header is
still posted; the Sent completion of that write then reaches the handler in
STOPPING_TIMER_ERROR. -/
theorem C40_stopping_timer_accepts_only_timer_stopped_witness :
    nn_streamhdr_handler (fun _ => true) false
        { (nn_streamhdr_init 3) with state := NN_STREAMHDR_STATE_STOPPING_TIMER_ERROR }
        (streamhdr_input.usock nn_usock_event.NN_USOCK_SENT) = none
    ∧ nn_streamhdr_run (fun _ => true)
        { (nn_streamhdr_init 3) with state := NN_STREAMHDR_STATE_SENDING }
        [{ ev := streamhdr_input.timer nn_timer_event.NN_TIMER_TIMEOUT, data := [],
           timer_isidle := false },
         { ev := streamhdr_input.usock nn_usock_event.NN_USOCK_SENT, data := [],
           timer_isidle := false }]
      = none :=
  have h := C40_stopping_timer_accepts_only_timer_stopped (fun _ => true) false false false
    { (nn_streamhdr_init 3) with state := NN_STREAMHDR_STATE_STOPPING_TIMER_ERROR }
    { (nn_streamhdr_init 3) with state := NN_STREAMHDR_STATE_SENDING }
    (streamhdr_input.usock nn_usock_event.NN_USOCK_SENT) (Or.inl rfl) rfl
  ⟨h.2.1 nn_usock_event.NN_USOCK_SENT, h.2.2.2.2⟩

/-! ### C35 -/

/-- The stop call on a started AcceptSession runs its shutdown handler with the
Stop action. -/
theorem nn_artipc_stop_started (env : ep_env) (self : nn_artipc) (h : self.started) :
    nn_artipc_stop env self
      = nn_artipc_shutdown env self (artipc_input.action nn_fsm_action.NN_FSM_STOP) := by
  rcases h with h | h | h | h | h <;>
    simp [nn_artipc_stop, h, NN_ARTIPC_STATE_IDLE, NN_ARTIPC_STATE_ACCEPTING,
      NN_ARTIPC_STATE_ACTIVE, NN_ARTIPC_STATE_STOPPING_SRTIPC, NN_ARTIPC_STATE_STOPPING_USOCK,
      NN_ARTIPC_STATE_DONE, NN_ARTIPC_STATE_STOPPING_SRTIPC_FINAL, NN_ARTIPC_STATE_STOPPING]

/-- The last block of the shutdown of an AcceptSession: nothing happens until
the child socket is idle; then the listener is returned if it is still
borrowed, the state is IDLE and Stopped is raised. -/
theorem nn_artipc_shutdown_STOPPING_outcome (env : ep_env) (s : nn_artipc) (e : List EpEffect)
    (hso : s.listener ≠ none → s.listener_owner.fsm ≠ none) :
    nn_artipc_shutdown_STOPPING env s e
      = some (if env.usock_isidle = false then (s, e)
          else ({ s with listener := none,
                         listener_owner := if s.listener ≠ none then { src := -1, fsm := none }
                                           else s.listener_owner,
                         state := NN_ARTIPC_STATE_IDLE },
                e ++ (if s.listener ≠ none then [EpEffect.usock_swap_owner s.listener_owner]
                      else [])
                  ++ [EpEffect.artipc_stopped nn_artipc_event.NN_ARTIPC_STOPPED])) := by
  cases hu : env.usock_isidle with
  | false => simp [nn_artipc_shutdown_STOPPING, hu]
  | true =>
    by_cases hl : s.listener = none
    · simp [nn_artipc_shutdown_STOPPING, hu, hl]
    · have ho := hso hl
      simp [nn_artipc_shutdown_STOPPING, hu, hl, ho]

/-- C35: on Stop, an AcceptSession increments DROPPED_CONNECTIONS by exactly 1
and stops its Session if and only if the Session is non-idle; it stops the
child socket only once the Session is idle, and only once the child socket is
idle does it return the listener to its original owner (if and only if the
listener is still borrowed), enter IDLE and raise Stopped. The first part is
the stop call on a started AcceptSession, the second part a later event that
reaches the AcceptSession during its shutdown. -/
theorem C35_accept_stop_cascade (env : ep_env) (self s : nn_artipc) (v : artipc_input)
    (hrun : self.running)
    (hs : s.state = NN_ARTIPC_STATE_STOPPING_SRTIPC_FINAL ∨ s.state = NN_ARTIPC_STATE_STOPPING)
    (hso : s.listener ≠ none → s.listener_owner.fsm ≠ none)
    (hv : v.is_action = false) :
    (nn_artipc_stop env self).isSome = true
    ∧ (∀ s1 e1, nn_artipc_stop env self = some (s1, e1) →
        stat_sum nn_stat.NN_STAT_DROPPED_CONNECTIONS e1
          = (if env.srtipc_isidle_at_stop = false then 1 else 0)
        ∧ e1.count EpEffect.srtipc_stop = (if env.srtipc_isidle_at_stop = false then 1 else 0)
        ∧ e1.count EpEffect.usock_stop = (if env.srtipc_isidle = true then 1 else 0)
        ∧ (s1.state = NN_ARTIPC_STATE_IDLE
            ↔ env.srtipc_isidle = true ∧ env.usock_isidle = true)
        ∧ (s1.state ≠ NN_ARTIPC_STATE_IDLE →
            s1.state = (if env.srtipc_isidle = true then NN_ARTIPC_STATE_STOPPING
                        else NN_ARTIPC_STATE_STOPPING_SRTIPC_FINAL)
            ∧ s1.listener = self.listener ∧ s1.listener_owner = self.listener_owner)
        ∧ e1.countP EpEffect.is_stopped = (if s1.state = NN_ARTIPC_STATE_IDLE then 1 else 0)
        ∧ (EpEffect.usock_swap_owner self.listener_owner ∈ e1
            ↔ s1.state = NN_ARTIPC_STATE_IDLE ∧ self.listener ≠ none)
        ∧ (s1.state = NN_ARTIPC_STATE_IDLE → s1.listener = none))
    ∧ (nn_artipc_feed env s v).isSome = true
    ∧ (∀ s2 e2, nn_artipc_feed env s v = some (s2, e2) →
        stat_sum nn_stat.NN_STAT_DROPPED_CONNECTIONS e2 = 0
        ∧ e2.count EpEffect.srtipc_stop = 0
        ∧ e2.count EpEffect.usock_stop
            = (if s.state = NN_ARTIPC_STATE_STOPPING_SRTIPC_FINAL ∧ env.srtipc_isidle = true
               then 1 else 0)
        ∧ (s2.state = NN_ARTIPC_STATE_IDLE
            ↔ (s.state = NN_ARTIPC_STATE_STOPPING_SRTIPC_FINAL → env.srtipc_isidle = true)
              ∧ env.usock_isidle = true)
        ∧ (s2.state ≠ NN_ARTIPC_STATE_IDLE →
            s2.listener = s.listener ∧ s2.listener_owner = s.listener_owner)
        ∧ e2.countP EpEffect.is_stopped = (if s2.state = NN_ARTIPC_STATE_IDLE then 1 else 0)
        ∧ (EpEffect.usock_swap_owner s.listener_owner ∈ e2
            ↔ s2.state = NN_ARTIPC_STATE_IDLE ∧ s.listener ≠ none)
        ∧ (s2.state = NN_ARTIPC_STATE_IDLE → s2.listener = none)) := by
  obtain ⟨hst, hown⟩ := hrun
  have hstop := nn_artipc_stop_started env self hst
  have hvne : v ≠ artipc_input.action nn_fsm_action.NN_FSM_STOP := by
    intro h
    rw [h] at hv
    simp [artipc_input.is_action] at hv
  have hcall : nn_artipc_stop env self
      = if env.srtipc_isidle = false then
          some ({ self with state := NN_ARTIPC_STATE_STOPPING_SRTIPC_FINAL },
            if env.srtipc_isidle_at_stop = false then
              [EpEffect.epbase_stat_increment nn_stat.NN_STAT_DROPPED_CONNECTIONS 1,
               EpEffect.srtipc_stop]
            else [])
        else
          nn_artipc_shutdown_STOPPING env { self with state := NN_ARTIPC_STATE_STOPPING }
            ((if env.srtipc_isidle_at_stop = false then
              [EpEffect.epbase_stat_increment nn_stat.NN_STAT_DROPPED_CONNECTIONS 1,
               EpEffect.srtipc_stop]
            else []) ++ [EpEffect.usock_stop]) := by
    rw [hstop]
    simp [nn_artipc_shutdown]
  have hfeed : nn_artipc_feed env s v
      = if s.state = NN_ARTIPC_STATE_STOPPING_SRTIPC_FINAL then
          (if env.srtipc_isidle = false then some (s, [])
           else nn_artipc_shutdown_STOPPING env { s with state := NN_ARTIPC_STATE_STOPPING }
             [EpEffect.usock_stop])
        else nn_artipc_shutdown_STOPPING env s [] := by
    rcases hs with h | h
    · simp [nn_artipc_feed, nn_artipc_shutdown, h, hvne]
    · simp [nn_artipc_feed, nn_artipc_shutdown, h, hvne, NN_ARTIPC_STATE_STOPPING,
        NN_ARTIPC_STATE_STOPPING_SRTIPC_FINAL]
  rw [hcall, hfeed]
  rw [nn_artipc_shutdown_STOPPING_outcome env { self with state := NN_ARTIPC_STATE_STOPPING } _
    hown]
  rw [nn_artipc_shutdown_STOPPING_outcome env { s with state := NN_ARTIPC_STATE_STOPPING } _ hso]
  rw [nn_artipc_shutdown_STOPPING_outcome env s _ hso]
  refine ⟨?_, ?_, ?_, ?_⟩
  · split_ifs <;> rfl
  · intro s1 e1 h
    cases h1 : env.srtipc_isidle_at_stop <;> cases h2 : env.srtipc_isidle <;>
      cases h3 : env.usock_isidle <;> by_cases hl : self.listener = none <;>
      simp [h1, h2, h3, hl] at h <;> obtain ⟨hs1, he1⟩ := h <;> subst hs1 <;> subst he1 <;>
      simp [stat_sum, EpEffect.is_stopped, hl, NN_ARTIPC_STATE_IDLE, NN_ARTIPC_STATE_STOPPING,
        NN_ARTIPC_STATE_STOPPING_SRTIPC_FINAL]
  · split_ifs <;> rfl
  · intro s2 e2 h
    rcases hs with hf | hf <;> cases h2 : env.srtipc_isidle <;>
      cases h3 : env.usock_isidle <;> by_cases hl : s.listener = none <;>
      simp [hf, h2, h3, hl, NN_ARTIPC_STATE_STOPPING, NN_ARTIPC_STATE_STOPPING_SRTIPC_FINAL] at h <;>
      obtain ⟨hs2, he2⟩ := h <;> subst hs2 <;> subst he2 <;>
      simp [stat_sum, EpEffect.is_stopped, hf, hl, NN_ARTIPC_STATE_IDLE, NN_ARTIPC_STATE_STOPPING,
        NN_ARTIPC_STATE_STOPPING_SRTIPC_FINAL]

/-- C35 (witness): a pending AcceptSession, still borrowing the listening
socket 2 of the owner `(1, 7)`, is stopped while its Session and its socket are
idle: nothing is counted, the socket is stopped, the listener is returned and
Stopped is raised. -/
theorem C35_accept_stop_cascade_witness :
    nn_artipc_stop ep_env_idle
        { fsm := 20, state := NN_ARTIPC_STATE_ACCEPTING, listener := some 2,
          listener_owner := { src := 1, fsm := some 7 } }
      = some ({ fsm := 20, state := NN_ARTIPC_STATE_IDLE, listener := none,
                listener_owner := { src := -1, fsm := none } },
          [EpEffect.usock_stop, EpEffect.usock_swap_owner { src := 1, fsm := some 7 },
           EpEffect.artipc_stopped nn_artipc_event.NN_ARTIPC_STOPPED])
    ∧ stat_sum nn_stat.NN_STAT_DROPPED_CONNECTIONS
        [EpEffect.usock_stop, EpEffect.usock_swap_owner { src := 1, fsm := some 7 },
         EpEffect.artipc_stopped nn_artipc_event.NN_ARTIPC_STOPPED]
      = (if ep_env_idle.srtipc_isidle_at_stop = false then 1 else 0) :=
  ⟨rfl,
   ((C35_accept_stop_cascade ep_env_idle
      { fsm := 20, state := NN_ARTIPC_STATE_ACCEPTING, listener := some 2,
        listener_owner := { src := 1, fsm := some 7 } }
      { fsm := 20, state := NN_ARTIPC_STATE_STOPPING, listener := none,
        listener_owner := { src := -1, fsm := none } }
      (artipc_input.usock nn_usock_event.NN_USOCK_STOPPED)
      ⟨Or.inl rfl, by simp⟩ (Or.inr rfl) (by simp) rfl).2.1 _ _ rfl).1⟩

/-! ### C37 -/

/-- The stop call on a started ConnectEndpoint runs its shutdown handler with
the Stop action. -/
theorem nn_crtipc_stop_running (env : ep_env) (self : nn_crtipc) (h : self.running) :
    nn_crtipc_stop env self
      = nn_crtipc_shutdown env self (crtipc_input.action nn_fsm_action.NN_FSM_STOP) := by
  rcases h with h | h | h | h | h | h <;>
    simp [nn_crtipc_stop, h, NN_CRTIPC_STATE_IDLE, NN_CRTIPC_STATE_CONNECTING,
      NN_CRTIPC_STATE_ACTIVE, NN_CRTIPC_STATE_STOPPING_SRTIPC, NN_CRTIPC_STATE_STOPPING_USOCK,
      NN_CRTIPC_STATE_WAITING, NN_CRTIPC_STATE_STOPPING_BACKOFF,
      NN_CRTIPC_STATE_STOPPING_SRTIPC_FINAL, NN_CRTIPC_STATE_STOPPING]

/-- C37: on Stop, a ConnectEndpoint increments DROPPED_CONNECTIONS by exactly 1
and stops its Session if and only if the Session is non-idle; it stops the
backoff and the socket only once the Session is idle, and it enters IDLE,
raises Stopped and notifies the endpoint as stopped only once both the backoff
and the socket are idle. The first part is the stop call on a started
ConnectEndpoint, the second part a later event that reaches the ConnectEndpoint
during its shutdown. -/
theorem C37_connect_stop_cascade (env : ep_env) (self s : nn_crtipc) (v : crtipc_input)
    (hrun : self.running)
    (hs : s.state = NN_CRTIPC_STATE_STOPPING_SRTIPC_FINAL ∨ s.state = NN_CRTIPC_STATE_STOPPING)
    (hv : v.is_action = false) :
    (nn_crtipc_stop env self).isSome = true
    ∧ (∀ s1 e1, nn_crtipc_stop env self = some (s1, e1) →
        stat_sum nn_stat.NN_STAT_DROPPED_CONNECTIONS e1
          = (if env.srtipc_isidle_at_stop = false then 1 else 0)
        ∧ e1.count EpEffect.srtipc_stop = (if env.srtipc_isidle_at_stop = false then 1 else 0)
        ∧ e1.count EpEffect.backoff_stop = (if env.srtipc_isidle = true then 1 else 0)
        ∧ e1.count EpEffect.usock_stop = (if env.srtipc_isidle = true then 1 else 0)
        ∧ (s1.state = NN_CRTIPC_STATE_IDLE
            ↔ env.srtipc_isidle = true ∧ env.backoff_isidle = true ∧ env.usock_isidle = true)
        ∧ (s1.state ≠ NN_CRTIPC_STATE_IDLE →
            s1.state = (if env.srtipc_isidle = true then NN_CRTIPC_STATE_STOPPING
                        else NN_CRTIPC_STATE_STOPPING_SRTIPC_FINAL))
        ∧ e1.count EpEffect.fsm_stopped_noevent
            = (if s1.state = NN_CRTIPC_STATE_IDLE then 1 else 0)
        ∧ e1.count EpEffect.epbase_stopped
            = (if s1.state = NN_CRTIPC_STATE_IDLE then 1 else 0))
    ∧ (nn_crtipc_feed env s v).isSome = true
    ∧ (∀ s2 e2, nn_crtipc_feed env s v = some (s2, e2) →
        stat_sum nn_stat.NN_STAT_DROPPED_CONNECTIONS e2 = 0
        ∧ e2.count EpEffect.srtipc_stop = 0
        ∧ e2.count EpEffect.backoff_stop
            = (if s.state = NN_CRTIPC_STATE_STOPPING_SRTIPC_FINAL ∧ env.srtipc_isidle = true
               then 1 else 0)
        ∧ e2.count EpEffect.usock_stop
            = (if s.state = NN_CRTIPC_STATE_STOPPING_SRTIPC_FINAL ∧ env.srtipc_isidle = true
               then 1 else 0)
        ∧ (s2.state = NN_CRTIPC_STATE_IDLE
            ↔ (s.state = NN_CRTIPC_STATE_STOPPING_SRTIPC_FINAL → env.srtipc_isidle = true)
              ∧ env.backoff_isidle = true ∧ env.usock_isidle = true)
        ∧ e2.count EpEffect.fsm_stopped_noevent
            = (if s2.state = NN_CRTIPC_STATE_IDLE then 1 else 0)
        ∧ e2.count EpEffect.epbase_stopped
            = (if s2.state = NN_CRTIPC_STATE_IDLE then 1 else 0)) := by
  have hstop := nn_crtipc_stop_running env self hrun
  have hvne : v ≠ crtipc_input.action nn_fsm_action.NN_FSM_STOP := by
    intro h
    rw [h] at hv
    simp [crtipc_input.is_action] at hv
  rw [hstop]
  refine ⟨?_, ?_, ?_, ?_⟩
  · cases h1 : env.srtipc_isidle_at_stop <;> cases h2 : env.srtipc_isidle <;>
      cases h3 : env.usock_isidle <;> cases h4 : env.backoff_isidle <;>
      simp [nn_crtipc_shutdown, nn_crtipc_shutdown_STOPPING, h1, h2, h3, h4]
  · intro s1 e1 h
    cases h1 : env.srtipc_isidle_at_stop <;> cases h2 : env.srtipc_isidle <;>
      cases h3 : env.usock_isidle <;> cases h4 : env.backoff_isidle <;>
      simp [nn_crtipc_shutdown, nn_crtipc_shutdown_STOPPING, h1, h2, h3, h4] at h <;>
      obtain ⟨hs1, he1⟩ := h <;> subst hs1 <;> subst he1 <;>
      simp [stat_sum, NN_CRTIPC_STATE_IDLE, NN_CRTIPC_STATE_STOPPING,
        NN_CRTIPC_STATE_STOPPING_SRTIPC_FINAL]
  · rcases hs with hf | hf <;> cases h2 : env.srtipc_isidle <;>
      cases h3 : env.usock_isidle <;> cases h4 : env.backoff_isidle <;>
      simp [nn_crtipc_feed, nn_crtipc_shutdown, nn_crtipc_shutdown_STOPPING, hf, hvne, h2, h3, h4,
        NN_CRTIPC_STATE_STOPPING, NN_CRTIPC_STATE_STOPPING_SRTIPC_FINAL]
  · intro s2 e2 h
    rcases hs with hf | hf <;> cases h2 : env.srtipc_isidle <;>
      cases h3 : env.usock_isidle <;> cases h4 : env.backoff_isidle <;>
      simp [nn_crtipc_feed, nn_crtipc_shutdown, nn_crtipc_shutdown_STOPPING, hf, hvne, h2, h3, h4,
        NN_CRTIPC_STATE_STOPPING, NN_CRTIPC_STATE_STOPPING_SRTIPC_FINAL] at h <;>
      obtain ⟨hs2, he2⟩ := h <;> subst hs2 <;> subst he2 <;>
      simp [stat_sum, hf, NN_CRTIPC_STATE_IDLE, NN_CRTIPC_STATE_STOPPING,
        NN_CRTIPC_STATE_STOPPING_SRTIPC_FINAL]

/-- C37 (witness): a ConnectEndpoint with an established connection is stopped;
the Session is not idle yet, so the connection is counted as dropped, the
Session is stopped and neither the backoff nor the socket is touched. -/
theorem C37_connect_stop_cascade_witness :
    nn_crtipc_stop ep_env_busy { fsm := 30, state := NN_CRTIPC_STATE_ACTIVE }
      = some ({ fsm := 30, state := NN_CRTIPC_STATE_STOPPING_SRTIPC_FINAL },
          [EpEffect.epbase_stat_increment nn_stat.NN_STAT_DROPPED_CONNECTIONS 1,
           EpEffect.srtipc_stop])
    ∧ stat_sum nn_stat.NN_STAT_DROPPED_CONNECTIONS
        [EpEffect.epbase_stat_increment nn_stat.NN_STAT_DROPPED_CONNECTIONS 1,
         EpEffect.srtipc_stop]
      = (if ep_env_busy.srtipc_isidle_at_stop = false then 1 else 0) :=
  ⟨rfl,
   ((C37_connect_stop_cascade ep_env_busy
      { fsm := 30, state := NN_CRTIPC_STATE_ACTIVE }
      { fsm := 30, state := NN_CRTIPC_STATE_STOPPING }
      (crtipc_input.usock nn_usock_event.NN_USOCK_STOPPED)
      (Or.inr (Or.inl rfl)) (Or.inr rfl) rfl).2.1 _ _ rfl).1⟩

/-! ### C39 -/

/-- C39 (as stated, refuted): a Session that is started and then stopped by its
owner during the handshake calls `nn_pipebase_stop` although
`nn_pipebase_start` was never called; and a Session whose connection breaks in
ACTIVE calls `nn_pipebase_stop` in the handler and, when its owner stops it,
once more for the same start. -/
theorem C39_counterexample :
    (srtipc_run (srtipc_world_init 5)
        [srtipc_call.start 1 { src := 3, fsm := some 9 }, srtipc_call.stop false]).map
      (fun w => w.trace)
      = some [Effect.usock_swap_owner { src := 1, fsm := some 5 }, Effect.streamhdr_start,
              Effect.pipebase_stop, Effect.streamhdr_stop]
    ∧ srtipc_pipe_log (srtipc_world_init 5)
        [srtipc_call.start 1 { src := 3, fsm := some 9 }, srtipc_call.stop false]
      = some [pipe_call.stop_by_shutdown]
    ∧ stops_follow_starts false [pipe_call.stop_by_shutdown] = false
    ∧ (srtipc_run (srtipc_world_init 5) pipe_broken_calls).map (fun w => w.trace)
      = some [Effect.usock_swap_owner { src := 1, fsm := some 5 }, Effect.streamhdr_start,
              Effect.streamhdr_stop, Effect.pipebase_start, Effect.usock_recv RecvBuf.inhdr 9,
              Effect.pipebase_stop, Effect.srtipc_raise NN_SRTIPC_ERROR,
              Effect.pipebase_stop, Effect.streamhdr_stop,
              Effect.usock_swap_owner { src := 3, fsm := some 9 },
              Effect.srtipc_stopped NN_SRTIPC_STOPPED]
    ∧ srtipc_pipe_log (srtipc_world_init 5) pipe_broken_calls
      = some [pipe_call.started, pipe_call.stop_by_handler, pipe_call.stop_by_shutdown]
    ∧ stops_follow_starts false
        [pipe_call.started, pipe_call.stop_by_handler, pipe_call.stop_by_shutdown] = false := by
  refine ⟨by decide, by decide, by decide, by decide, by decide, by decide⟩

/-- The pipe calls of one step of a Session: none, and then ACTIVE is not
entered; or a failed start, which does not lead to ACTIVE; or a successful
start; or one stop by the handler, in ACTIVE and on the way out of it; or one
stop by the shutdown handler, on a stop call of the owner. -/
theorem srtipc_step_pipe_calls (w w1 : srtipc_world) (c : srtipc_call)
    (h : srtipc_step w c = some w1) :
    (pipe_calls c.is_stop (decide (0 ≤ c.start_rc)) (w1.trace.drop w.trace.length) = []
      ∧ (w1.self.state = NN_SRTIPC_STATE_ACTIVE → w.self.state = NN_SRTIPC_STATE_ACTIVE))
    ∨ (pipe_calls c.is_stop (decide (0 ≤ c.start_rc)) (w1.trace.drop w.trace.length)
        = [pipe_call.start_failed] ∧ w1.self.state ≠ NN_SRTIPC_STATE_ACTIVE)
    ∨ pipe_calls c.is_stop (decide (0 ≤ c.start_rc)) (w1.trace.drop w.trace.length)
        = [pipe_call.started]
    ∨ (pipe_calls c.is_stop (decide (0 ≤ c.start_rc)) (w1.trace.drop w.trace.length)
        = [pipe_call.stop_by_handler] ∧ w.self.state = NN_SRTIPC_STATE_ACTIVE
      ∧ w1.self.state ≠ NN_SRTIPC_STATE_ACTIVE)
    ∨ (pipe_calls c.is_stop (decide (0 ≤ c.start_rc)) (w1.trace.drop w.trace.length)
        = [pipe_call.stop_by_shutdown] ∧ w1.self.state ≠ NN_SRTIPC_STATE_ACTIVE) := by
  replace h := h.symm
  cases c with
  | start u o =>
    simp [srtipc_step, nn_srtipc_start, nn_srtipc_handler, nn_srtipc_handler_IDLE,
      nn_srtipc_handler_PROTOHDR, nn_srtipc_handler_STOPPING_STREAMHDR,
      nn_srtipc_handler_ACTIVE, nn_srtipc_handler_SHUTTING_DOWN] at h
    split_ifs at h
    simp_all [srtipc_world_next, pipe_calls, srtipc_call.is_stop,
      srtipc_call.start_rc, NN_SRTIPC_STATE_IDLE,
      NN_SRTIPC_STATE_PROTOHDR, NN_SRTIPC_STATE_STOPPING_STREAMHDR, NN_SRTIPC_STATE_ACTIVE,
      NN_SRTIPC_STATE_STOPPING, NN_SRTIPC_STATE_DONE, NN_SRTIPC_STATE_SHUTTING_DOWN]
  | stop idle =>
    simp [srtipc_step, nn_srtipc_stop, nn_srtipc_shutdown] at h
    split_ifs at h <;> simp_all [srtipc_world_next, pipe_calls, srtipc_call.is_stop,
      srtipc_call.start_rc, NN_SRTIPC_STATE_IDLE,
      NN_SRTIPC_STATE_PROTOHDR, NN_SRTIPC_STATE_STOPPING_STREAMHDR, NN_SRTIPC_STATE_ACTIVE,
      NN_SRTIPC_STATE_STOPPING, NN_SRTIPC_STATE_DONE, NN_SRTIPC_STATE_SHUTTING_DOWN]
  | usock t data idle =>
    have h1 := (usock_store_state w.self w.rd data).1
    cases t <;> simp [srtipc_step, nn_srtipc_feed, nn_srtipc_shutdown, nn_srtipc_handler,
      nn_srtipc_handler_IDLE, nn_srtipc_handler_PROTOHDR, nn_srtipc_handler_STOPPING_STREAMHDR,
      nn_srtipc_handler_ACTIVE, nn_srtipc_handler_ACTIVE_RECEIVED,
      nn_srtipc_handler_SHUTTING_DOWN, usock_store_state] at h <;>
      split_ifs at h <;> simp_all [srtipc_world_next, pipe_calls, srtipc_call.is_stop,
      srtipc_call.start_rc, NN_SRTIPC_STATE_IDLE,
      NN_SRTIPC_STATE_PROTOHDR, NN_SRTIPC_STATE_STOPPING_STREAMHDR, NN_SRTIPC_STATE_ACTIVE,
      NN_SRTIPC_STATE_STOPPING, NN_SRTIPC_STATE_DONE, NN_SRTIPC_STATE_SHUTTING_DOWN]
  | streamhdr t idle rc =>
    cases t <;> simp [srtipc_step, nn_srtipc_feed, nn_srtipc_shutdown, nn_srtipc_handler,
      nn_srtipc_handler_IDLE, nn_srtipc_handler_PROTOHDR, nn_srtipc_handler_STOPPING_STREAMHDR,
      nn_srtipc_handler_ACTIVE, nn_srtipc_handler_SHUTTING_DOWN, usock_store_state] at h <;>
      split_ifs at h <;> simp_all [srtipc_world_next, pipe_calls, srtipc_call.is_stop,
      srtipc_call.start_rc, NN_SRTIPC_STATE_IDLE,
      NN_SRTIPC_STATE_PROTOHDR, NN_SRTIPC_STATE_STOPPING_STREAMHDR, NN_SRTIPC_STATE_ACTIVE,
      NN_SRTIPC_STATE_STOPPING, NN_SRTIPC_STATE_DONE, NN_SRTIPC_STATE_SHUTTING_DOWN]
  | send msg =>
    simp [srtipc_step, nn_srtipc_send] at h
    split_ifs at h
    simp_all [srtipc_world_next, pipe_calls, srtipc_call.is_stop,
      srtipc_call.start_rc, NN_SRTIPC_STATE_IDLE,
      NN_SRTIPC_STATE_PROTOHDR, NN_SRTIPC_STATE_STOPPING_STREAMHDR, NN_SRTIPC_STATE_ACTIVE,
      NN_SRTIPC_STATE_STOPPING, NN_SRTIPC_STATE_DONE, NN_SRTIPC_STATE_SHUTTING_DOWN]
  | recv =>
    simp [srtipc_step, nn_srtipc_recv] at h
    split_ifs at h
    simp_all [srtipc_world_next, pipe_calls, srtipc_call.is_stop,
      srtipc_call.start_rc, NN_SRTIPC_STATE_IDLE,
      NN_SRTIPC_STATE_PROTOHDR, NN_SRTIPC_STATE_STOPPING_STREAMHDR, NN_SRTIPC_STATE_ACTIVE,
      NN_SRTIPC_STATE_STOPPING, NN_SRTIPC_STATE_DONE, NN_SRTIPC_STATE_SHUTTING_DOWN]

/-- Along every run of a Session in which the pipe stands started whenever the
Session is ACTIVE, the stops of the handler follow the starts. -/
theorem srtipc_pipe_log_handler_stops (calls : List srtipc_call) :
    ∀ (w : srtipc_world) (b : Bool) (l : List pipe_call),
      (w.self.state = NN_SRTIPC_STATE_ACTIVE → b = true) →
      srtipc_pipe_log w calls = some l → handler_stops_follow_starts b l = true := by
  induction calls with
  | nil =>
    intro w b l _ h
    simp only [srtipc_pipe_log, Option.some.injEq] at h
    subst h
    rfl
  | cons c cs ih =>
    intro w b l hb h
    simp only [srtipc_pipe_log] at h
    cases hs : srtipc_step w c with
    | none => simp [hs] at h
    | some w1 =>
      simp only [hs] at h
      cases hl : srtipc_pipe_log w1 cs with
      | none => simp [hl] at h
      | some l1 =>
        simp only [hl, Option.some.injEq] at h
        subst h
        rcases srtipc_step_pipe_calls w w1 c hs with ⟨hp, ha⟩ | ⟨hp, ha⟩ | hp | ⟨hp, ha, ha1⟩
          | ⟨hp, ha⟩
        · rw [hp]
          exact ih w1 b l1 (fun h1 => hb (ha h1)) hl
        · rw [hp]
          exact ih w1 b l1 (fun h1 => absurd h1 ha) hl
        · rw [hp]
          exact ih w1 true l1 (fun _ => rfl) hl
        · rw [hp, hb ha]
          have h2 := ih w1 false l1 (fun h1 => absurd h1 ha1) hl
          simp [handler_stops_follow_starts, h2]
        · rw [hp]
          exact ih w1 false l1 (fun h1 => absurd h1 ha) hl

/-- The log of pipe calls exists for exactly the runs that hit no assertion. -/
theorem srtipc_pipe_log_isSome (calls : List srtipc_call) :
    ∀ (w : srtipc_world), (srtipc_pipe_log w calls).isSome = (srtipc_run w calls).isSome := by
  induction calls with
  | nil =>
    intro w
    rfl
  | cons c cs ih =>
    intro w
    simp only [srtipc_pipe_log, srtipc_run]
    cases hs : srtipc_step w c with
    | none => rfl
    | some w1 =>
      have h1 := ih w1
      cases hl : srtipc_pipe_log w1 cs with
      | none =>
        rw [hl] at h1
        simp only [← h1, hl]
      | some l1 =>
        rw [hl] at h1
        simp only [← h1, hl]
        rfl

/-- C39 (amended): along every event sequence of a Session, the handler invokes
`nn_pipebase_stop` only after a successful `nn_pipebase_start` and at most once
per start; the shutdown handler invokes `nn_pipebase_stop` once more on every
Stop of the owner that reaches a started Session, whether or not the pipe was
started or has been stopped already. -/
theorem C39_handler_stops_follow_starts (fsm : Nat) (calls : List srtipc_call)
    (l : List pipe_call) (idle : Bool) (s : nn_srtipc)
    (hrun : srtipc_pipe_log (srtipc_world_init fsm) calls = some l)
    (hs : s.running) :
    handler_stops_follow_starts false l = true
    ∧ (srtipc_run (srtipc_world_init fsm) calls).isSome = true
    ∧ ∃ s1 e, nn_srtipc_stop idle s = some (s1, e)
        ∧ pipe_calls true true e = [pipe_call.stop_by_shutdown]
        ∧ e.count Effect.pipebase_stop = 1 := by
  refine ⟨?_, ?_, ?_⟩
  · refine srtipc_pipe_log_handler_stops calls (srtipc_world_init fsm) false l ?_ hrun
    intro h
    simp [srtipc_world_init, nn_srtipc_init, NN_SRTIPC_STATE_IDLE, NN_SRTIPC_STATE_ACTIVE] at h
  · rw [← srtipc_pipe_log_isSome, hrun]
    rfl
  · simp only [nn_srtipc.running] at hs
    apply exists_result_of_isSome
    · cases idle <;> rcases hs with hs | hs | hs | hs | hs <;>
        simp [nn_srtipc_stop, nn_srtipc_shutdown, hs, NN_SRTIPC_STATE_IDLE,
          NN_SRTIPC_STATE_PROTOHDR, NN_SRTIPC_STATE_STOPPING_STREAMHDR, NN_SRTIPC_STATE_ACTIVE,
          NN_SRTIPC_STATE_SHUTTING_DOWN, NN_SRTIPC_STATE_DONE, NN_SRTIPC_STATE_STOPPING]
    · intro s1 e h
      replace h := h.symm
      cases idle <;> rcases hs with hs | hs | hs | hs | hs <;>
        simp [nn_srtipc_stop, nn_srtipc_shutdown, hs, NN_SRTIPC_STATE_IDLE,
          NN_SRTIPC_STATE_PROTOHDR, NN_SRTIPC_STATE_STOPPING_STREAMHDR, NN_SRTIPC_STATE_ACTIVE,
          NN_SRTIPC_STATE_SHUTTING_DOWN, NN_SRTIPC_STATE_DONE, NN_SRTIPC_STATE_STOPPING] at h <;>
        obtain ⟨-, h4⟩ := h <;> subst h4 <;> simp [pipe_calls]

/-- C39 (witness): the connection that breaks in ACTIVE and is then stopped:
the handler stops the pipe once after its start, the shutdown handler once
more. -/
theorem C39_handler_stops_follow_starts_witness :
    srtipc_pipe_log (srtipc_world_init 5) pipe_broken_calls
      = some [pipe_call.started, pipe_call.stop_by_handler, pipe_call.stop_by_shutdown]
    ∧ handler_stops_follow_starts false
        [pipe_call.started, pipe_call.stop_by_handler, pipe_call.stop_by_shutdown] = true :=
  ⟨by decide,
   (C39_handler_stops_follow_starts 5 pipe_broken_calls
      [pipe_call.started, pipe_call.stop_by_handler, pipe_call.stop_by_shutdown] true
      { (nn_srtipc_init 5) with state := NN_SRTIPC_STATE_DONE }
      (by decide) (Or.inr (Or.inr (Or.inr (Or.inr rfl))))).1⟩

/-! ### C38 -/

/-- One call of the BindEndpoint leaves the endpoint itself as it is. -/
theorem bind_exec_one_b (envs : Nat → ep_env) (w w1 : bind_world) (x : EpEffect)
    (h : bind_exec_one envs w x = some w1) : w1.b = w.b := by
  cases x with
  | artipc_init q s o =>
    simp only [bind_exec_one] at h
    split_ifs at h
    simp only [Option.some.injEq] at h
    subst h
    rfl
  | artipc_start q l =>
    simp only [bind_exec_one] at h
    cases hq : w.objs q with
    | none => simp [hq] at h
    | some a =>
      simp only [hq] at h
      cases hs : nn_artipc_start (envs q) w.owner a l with
      | none => simp [hs] at h
      | some r =>
        obtain ⟨a1, e⟩ := r
        simp only [hs, Option.some.injEq] at h
        subst h
        rfl
  | artipc_stop q =>
    simp only [bind_exec_one] at h
    cases hq : w.objs q with
    | none => simp [hq] at h
    | some a =>
      simp only [hq] at h
      split_ifs at h
      · simp only [Option.some.injEq] at h
        subst h
        rfl
      · cases hs : nn_artipc_stop (envs q) a with
        | none => simp [hs] at h
        | some r =>
          obtain ⟨a1, e⟩ := r
          simp only [hs, Option.some.injEq] at h
          subst h
          rfl
  | artipc_term q =>
    simp only [bind_exec_one] at h
    cases hq : w.objs q with
    | none => simp [hq] at h
    | some a =>
      simp only [hq] at h
      split_ifs at h
      simp only [Option.some.injEq] at h
      subst h
      rfl
  | free q =>
    simp only [bind_exec_one, Option.some.injEq] at h
    subst h
    rfl
  | _ =>
    simp only [bind_exec_one, Option.some.injEq] at h
    subst h
    rfl

/-- The calls of the BindEndpoint leave the endpoint itself as it is. -/
theorem bind_exec_b (envs : Nat → ep_env) (es : List EpEffect) :
    ∀ (w w1 : bind_world), bind_exec envs w es = some w1 → w1.b = w.b := by
  induction es with
  | nil =>
    intro w w1 h
    simp only [bind_exec, Option.some.injEq] at h
    subst h
    rfl
  | cons x es ih =>
    intro w w1 h
    simp only [bind_exec] at h
    cases h1 : bind_exec_one envs w x with
    | none => simp [h1] at h
    | some w2 =>
      simp only [h1] at h
      rw [ih w2 w1 h, bind_exec_one_b envs w w2 x h1]

/-- The block `artipcs_stopping` leaves a BindEndpoint that is not in ACTIVE out
of ACTIVE, and idle only with an empty list. -/
theorem nn_brtipc_shutdown_artipcs_stopping_leaves (s b1 : nn_brtipc) (e es : List EpEffect)
    (hs : s.state ≠ NN_BRTIPC_STATE_ACTIVE ∧ s.state ≠ NN_BRTIPC_STATE_IDLE)
    (h : nn_brtipc_shutdown_artipcs_stopping s e = some (b1, es)) : b1.left_active := by
  by_cases hl : s.artipcs = []
  · rw [(nn_brtipc_shutdown_artipcs_stopping_eq s e).1 hl] at h
    simp only [Option.some.injEq, Prod.mk.injEq] at h
    obtain ⟨h1, -⟩ := h
    subst h1
    exact ⟨by simp [NN_BRTIPC_STATE_IDLE, NN_BRTIPC_STATE_ACTIVE], fun _ => hl⟩
  · rw [(nn_brtipc_shutdown_artipcs_stopping_eq s e).2 hl] at h
    simp only [Option.some.injEq, Prod.mk.injEq] at h
    obtain ⟨h1, -⟩ := h
    subst h1
    exact ⟨hs.1, fun h2 => absurd h2 hs.2⟩

/-- The block STOPPING_USOCK leaves a BindEndpoint that is not in ACTIVE out of
ACTIVE, and idle only with an empty list. -/
theorem nn_brtipc_shutdown_STOPPING_USOCK_leaves (env : ep_env) (s b1 : nn_brtipc)
    (e es : List EpEffect)
    (hs : s.state ≠ NN_BRTIPC_STATE_ACTIVE ∧ s.state ≠ NN_BRTIPC_STATE_IDLE)
    (h : nn_brtipc_shutdown_STOPPING_USOCK env s e = some (b1, es)) : b1.left_active := by
  simp only [nn_brtipc_shutdown_STOPPING_USOCK] at h
  split_ifs at h
  · simp only [Option.some.injEq, Prod.mk.injEq] at h
    obtain ⟨h1, -⟩ := h
    subst h1
    exact ⟨hs.1, fun h2 => absurd h2 hs.2⟩
  · exact nn_brtipc_shutdown_artipcs_stopping_leaves _ b1 _ es
      (by simp [NN_BRTIPC_STATE_STOPPING_ARTIPCS, NN_BRTIPC_STATE_ACTIVE, NN_BRTIPC_STATE_IDLE]) h

/-- The block STOPPING_ARTIPC leaves a BindEndpoint that is not in ACTIVE out of
ACTIVE, and idle only with an empty list. -/
theorem nn_brtipc_shutdown_STOPPING_ARTIPC_leaves (env : ep_env) (s b1 : nn_brtipc)
    (e es : List EpEffect)
    (hs : s.state ≠ NN_BRTIPC_STATE_ACTIVE ∧ s.state ≠ NN_BRTIPC_STATE_IDLE)
    (h : nn_brtipc_shutdown_STOPPING_ARTIPC env s e = some (b1, es)) : b1.left_active := by
  simp only [nn_brtipc_shutdown_STOPPING_ARTIPC] at h
  cases hp : s.artipc with
  | none => simp [hp] at h
  | some p =>
    simp only [hp] at h
    split_ifs at h
    · simp only [Option.some.injEq, Prod.mk.injEq] at h
      obtain ⟨h1, -⟩ := h
      subst h1
      exact ⟨hs.1, fun h2 => absurd h2 hs.2⟩
    · exact nn_brtipc_shutdown_STOPPING_USOCK_leaves env _ b1 _ es
        (by simp [NN_BRTIPC_STATE_STOPPING_USOCK, NN_BRTIPC_STATE_ACTIVE, NN_BRTIPC_STATE_IDLE]) h

/-- The shutdown handler leaves the BindEndpoint out of ACTIVE, and idle only
with an empty list. -/
theorem nn_brtipc_shutdown_leaves (env : ep_env) (s b1 : nn_brtipc) (ev : brtipc_input)
    (es : List EpEffect) (h : nn_brtipc_shutdown env s ev = some (b1, es)) :
    b1.left_active := by
  simp only [nn_brtipc_shutdown] at h
  split_ifs at h with h0 h3 h4 h5
  · cases hp : s.artipc with
    | none => simp [hp] at h
    | some p =>
      simp only [hp] at h
      exact nn_brtipc_shutdown_STOPPING_ARTIPC_leaves env _ b1 _ es
        (by simp [NN_BRTIPC_STATE_STOPPING_ARTIPC, NN_BRTIPC_STATE_ACTIVE, NN_BRTIPC_STATE_IDLE])
        h
  · exact nn_brtipc_shutdown_STOPPING_ARTIPC_leaves env s b1 _ es
      (by simp [h3, NN_BRTIPC_STATE_STOPPING_ARTIPC, NN_BRTIPC_STATE_ACTIVE,
        NN_BRTIPC_STATE_IDLE]) h
  · exact nn_brtipc_shutdown_STOPPING_USOCK_leaves env s b1 _ es
      (by simp [h4, NN_BRTIPC_STATE_STOPPING_USOCK, NN_BRTIPC_STATE_ACTIVE,
        NN_BRTIPC_STATE_IDLE]) h
  · cases ev with
    | artipc q t =>
      cases t with
      | NN_ARTIPC_STOPPED =>
        simp only [nn_brtipc_shutdown_STOPPING_ARTIPCS] at h
        cases hl : nn_list_erase s.artipcs q with
        | none => simp [hl] at h
        | some l =>
          simp only [hl] at h
          exact nn_brtipc_shutdown_artipcs_stopping_leaves _ b1 _ es
            (by simp [h5, NN_BRTIPC_STATE_STOPPING_ARTIPCS, NN_BRTIPC_STATE_ACTIVE,
              NN_BRTIPC_STATE_IDLE]) h
      | NN_ARTIPC_ACCEPTED => simp [nn_brtipc_shutdown_STOPPING_ARTIPCS] at h
      | NN_ARTIPC_ERROR => simp [nn_brtipc_shutdown_STOPPING_ARTIPCS] at h
    | action t => simp [nn_brtipc_shutdown_STOPPING_ARTIPCS] at h
    | usock t => simp [nn_brtipc_shutdown_STOPPING_ARTIPCS] at h

/-- The stop call leaves the BindEndpoint out of ACTIVE, and idle only with an
empty list. -/
theorem nn_brtipc_stop_leaves (env : ep_env) (b b1 : nn_brtipc) (es : List EpEffect)
    (h : nn_brtipc_stop env b = some (b1, es)) : b1.left_active := by
  simp only [nn_brtipc_stop] at h
  split_ifs at h with h1 h2
  · simp only [Option.some.injEq, Prod.mk.injEq] at h
    obtain ⟨h3, -⟩ := h
    subst h3
    refine ⟨?_, fun h4 => absurd h4 h1⟩
    rcases h2 with h2 | h2 | h2 <;>
      simp [h2, NN_BRTIPC_STATE_ACTIVE, NN_BRTIPC_STATE_STOPPING_ARTIPC,
        NN_BRTIPC_STATE_STOPPING_USOCK, NN_BRTIPC_STATE_STOPPING_ARTIPCS]
  · exact nn_brtipc_shutdown_leaves env b b1 _ es h

/-- An event delivered to a BindEndpoint that is not in ACTIVE leaves it out of
ACTIVE, and idle only with an empty list. -/
theorem nn_brtipc_feed_leaves (env : ep_env) (b b1 : nn_brtipc) (v : brtipc_input)
    (es : List EpEffect) (hs : b.state ≠ NN_BRTIPC_STATE_ACTIVE) (hv : v.is_action = false)
    (h : nn_brtipc_feed env b v = some (b1, es)) : b1.left_active := by
  by_cases h1 : b.state = NN_BRTIPC_STATE_IDLE
  · rw [(nn_brtipc_feed_draining env b v hv).2.2.2 h1] at h
    simp at h
  · simp only [nn_brtipc_feed] at h
    split_ifs at h
    · exact nn_brtipc_shutdown_leaves env b b1 v es h
    · simp [nn_brtipc_handler, h1, hs] at h

/-- The handler of a BindEndpoint in ACTIVE: the Accepted event of the pending
AcceptSession puts it at the end of the list and makes a new AcceptSession the
pending one; the Error event of another AcceptSession stops it; the Stopped
event of another AcceptSession, which is in the list, takes it out of the list
and frees it. -/
theorem nn_brtipc_feed_active (env : ep_env) (b b1 : nn_brtipc) (v : brtipc_input)
    (es : List EpEffect) (hs : b.state = NN_BRTIPC_STATE_ACTIVE)
    (h : nn_brtipc_feed env b v = some (b1, es)) :
    (∃ q r, v = brtipc_input.artipc q nn_artipc_event.NN_ARTIPC_ACCEPTED ∧ b.artipc = some q
      ∧ b1 = { b with artipcs := b.artipcs ++ [q], artipc := some r }
      ∧ es = [EpEffect.artipc_init r NN_BRTIPC_SRC_ARTIPC b.fsm,
              EpEffect.artipc_start r b.usock])
    ∨ (∃ q, v = brtipc_input.artipc q nn_artipc_event.NN_ARTIPC_ERROR ∧ b.artipc ≠ some q
      ∧ b1 = b ∧ es = [EpEffect.artipc_stop q])
    ∨ (∃ q, v = brtipc_input.artipc q nn_artipc_event.NN_ARTIPC_STOPPED ∧ b.artipc ≠ some q
      ∧ q ∈ b.artipcs ∧ b1 = { b with artipcs := b.artipcs.erase q }
      ∧ es = [EpEffect.artipc_term q, EpEffect.free q]) := by
  replace h := h.symm
  have hfeed : nn_brtipc_feed env b v = nn_brtipc_handler_ACTIVE env b v := by
    simp [nn_brtipc_feed, nn_brtipc_handler, hs, NN_BRTIPC_STATE_ACTIVE, NN_BRTIPC_STATE_IDLE,
      NN_BRTIPC_STATE_STOPPING_ARTIPC, NN_BRTIPC_STATE_STOPPING_USOCK,
      NN_BRTIPC_STATE_STOPPING_ARTIPCS]
  rw [hfeed] at h
  cases v with
  | action t => simp [nn_brtipc_handler_ACTIVE] at h
  | usock t => simp [nn_brtipc_handler_ACTIVE] at h
  | artipc q t =>
    by_cases hq : some q = b.artipc
    · cases t with
      | NN_ARTIPC_ACCEPTED =>
        cases ha : env.alloc with
        | none => simp [nn_brtipc_handler_ACTIVE, hq, nn_brtipc_start_accepting, ha] at h
        | some r =>
          simp [nn_brtipc_handler_ACTIVE, hq, nn_brtipc_start_accepting, ha] at h
          obtain ⟨h6, h7⟩ := h
          subst h6
          subst h7
          exact Or.inl ⟨q, r, rfl, hq.symm, rfl, rfl⟩
      | NN_ARTIPC_ERROR => simp [nn_brtipc_handler_ACTIVE, hq] at h
      | NN_ARTIPC_STOPPED => simp [nn_brtipc_handler_ACTIVE, hq] at h
    · have hq2 : b.artipc ≠ some q := fun h2 => hq h2.symm
      cases t with
      | NN_ARTIPC_ACCEPTED => simp [nn_brtipc_handler_ACTIVE, hq] at h
      | NN_ARTIPC_ERROR =>
        simp [nn_brtipc_handler_ACTIVE, hq] at h
        obtain ⟨h6, h7⟩ := h
        subst h6
        subst h7
        exact Or.inr (Or.inl ⟨q, rfl, hq2, rfl, rfl⟩)
      | NN_ARTIPC_STOPPED =>
        by_cases hm : q ∈ b.artipcs
        · simp [nn_brtipc_handler_ACTIVE, hq, nn_list_erase, hm] at h
          obtain ⟨h6, h7⟩ := h
          subst h6
          subst h7
          exact Or.inr (Or.inr ⟨q, rfl, hq2, hm, rfl, rfl⟩)
        · simp [nn_brtipc_handler_ACTIVE, hq, nn_list_erase, hm] at h

/-- The start of an idle BindEndpoint: it opens the listening socket, makes a
new AcceptSession the pending one and enters ACTIVE; the list is as it was. -/
theorem nn_brtipc_feed_start_eq (env : ep_env) (b b1 : nn_brtipc) (es : List EpEffect)
    (hs : b.state = NN_BRTIPC_STATE_IDLE)
    (h : nn_brtipc_feed env b (brtipc_input.action nn_fsm_action.NN_FSM_START)
      = some (b1, es)) :
    ∃ q, b1 = { b with artipc := some q, state := NN_BRTIPC_STATE_ACTIVE }
      ∧ es = [EpEffect.unlink env.addr, EpEffect.usock_start, EpEffect.usock_bind env.addr,
              EpEffect.usock_listen NN_BRTIPC_BACKLOG,
              EpEffect.artipc_init q NN_BRTIPC_SRC_ARTIPC b.fsm,
              EpEffect.artipc_start q b.usock] := by
  replace h := h.symm
  have hfeed : nn_brtipc_feed env b (brtipc_input.action nn_fsm_action.NN_FSM_START)
      = nn_brtipc_handler_IDLE env b (brtipc_input.action nn_fsm_action.NN_FSM_START) := by
    simp [nn_brtipc_feed, nn_brtipc_handler, hs, NN_BRTIPC_STATE_IDLE,
      NN_BRTIPC_STATE_STOPPING_ARTIPC, NN_BRTIPC_STATE_STOPPING_USOCK,
      NN_BRTIPC_STATE_STOPPING_ARTIPCS]
  rw [hfeed] at h
  cases hl : nn_brtipc_start_listening env with
  | none => simp [nn_brtipc_handler_IDLE, hl] at h
  | some e1 =>
    have he1 : e1 = [EpEffect.unlink env.addr, EpEffect.usock_start, EpEffect.usock_bind env.addr,
        EpEffect.usock_listen NN_BRTIPC_BACKLOG] := by
      unfold nn_brtipc_start_listening at hl
      split_ifs at hl
      simpa using hl.symm
    by_cases hp : b.artipc = none
    · cases ha : env.alloc with
      | none => simp [nn_brtipc_handler_IDLE, hl, nn_brtipc_start_accepting, hp, ha] at h
      | some q =>
        simp [nn_brtipc_handler_IDLE, hl, nn_brtipc_start_accepting, hp, ha] at h
        obtain ⟨h6, h7⟩ := h
        subst h6
        subst h7
        exact ⟨q, rfl, by rw [he1]; rfl⟩
    · simp [nn_brtipc_handler_IDLE, hl, nn_brtipc_start_accepting, hp] at h

/-- The creation and the start of an AcceptSession at `q`: the address was not
allocated, and afterwards a started AcceptSession stands there; nothing else
changes among the AcceptSessions, nor in the endpoint. -/
theorem bind_exec_alloc_objs (envs : Nat → ep_env) (w w1 : bind_world) (q l o : Nat) (s : Int)
    (h : bind_exec envs w [EpEffect.artipc_init q s o, EpEffect.artipc_start q l] = some w1) :
    w.objs q = none ∧ w1.b = w.b
    ∧ ∃ a, a.started ∧ w1.objs = Function.update w.objs q (some a) := by
  simp only [bind_exec, bind_exec_one] at h
  split_ifs at h with hc
  simp only [Function.update_same] at h
  obtain ⟨e, h5, -, -⟩ := nn_artipc_start_new (envs q) w.owner q l
  simp only [h5, Option.some.injEq] at h
  subst h
  have hnone : w.objs q = none := by
    cases hq : w.objs q with
    | none => rfl
    | some a =>
      exfalso
      apply hc
      left
      simp [hq]
  refine ⟨hnone, rfl, nn_artipc.mk q NN_ARTIPC_STATE_ACCEPTING (some l) w.owner, Or.inl rfl, ?_⟩
  simp [artipc_absorb]

/-- An event delivered to a started AcceptSession leaves it started. -/
theorem nn_artipc_feed_started (env : ep_env) (a a1 : nn_artipc) (ev : artipc_input)
    (e : List EpEffect) (ha : a.started) (hev : ev.is_action = false)
    (h : nn_artipc_feed env a ev = some (a1, e)) : a1.started := by
  replace h := h.symm
  simp only [nn_artipc.started]
  rcases ha with ha | ha | ha | ha | ha
  · cases ev with
    | action t => simp [artipc_input.is_action] at hev
    | usock t =>
      cases t <;> simp [nn_artipc_feed, nn_artipc_handler, nn_artipc_handler_ACCEPTING, ha,
        NN_ARTIPC_STATE_IDLE, NN_ARTIPC_STATE_ACCEPTING, NN_ARTIPC_STATE_STOPPING_SRTIPC_FINAL,
        NN_ARTIPC_STATE_STOPPING] at h
      obtain ⟨-, -, h1, -⟩ := h
      subst h1
      exact Or.inr (Or.inl rfl)
    | srtipc t =>
      simp [nn_artipc_feed, nn_artipc_handler, nn_artipc_handler_ACCEPTING, ha,
        NN_ARTIPC_STATE_IDLE, NN_ARTIPC_STATE_ACCEPTING, NN_ARTIPC_STATE_STOPPING_SRTIPC_FINAL,
        NN_ARTIPC_STATE_STOPPING] at h
    | listener t =>
      cases t <;> simp [nn_artipc_feed, nn_artipc_handler, nn_artipc_handler_ACCEPTING, ha,
        NN_ARTIPC_STATE_IDLE, NN_ARTIPC_STATE_ACCEPTING, NN_ARTIPC_STATE_STOPPING_SRTIPC_FINAL,
        NN_ARTIPC_STATE_STOPPING] at h
      obtain ⟨h1, -⟩ := h
      subst h1
      exact Or.inl ha
  · cases ev with
    | srtipc t =>
      simp [nn_artipc_feed, nn_artipc_handler, nn_artipc_handler_ACTIVE, ha,
        NN_ARTIPC_STATE_IDLE, NN_ARTIPC_STATE_ACCEPTING, NN_ARTIPC_STATE_ACTIVE,
        NN_ARTIPC_STATE_STOPPING_SRTIPC_FINAL, NN_ARTIPC_STATE_STOPPING] at h
      obtain ⟨-, h1, -⟩ := h
      subst h1
      simp [NN_ARTIPC_STATE_ACTIVE, NN_ARTIPC_STATE_ACCEPTING, NN_ARTIPC_STATE_STOPPING_SRTIPC]
    | _ =>
      simp [nn_artipc_feed, nn_artipc_handler, nn_artipc_handler_ACTIVE, ha,
        NN_ARTIPC_STATE_IDLE, NN_ARTIPC_STATE_ACCEPTING, NN_ARTIPC_STATE_ACTIVE,
        NN_ARTIPC_STATE_STOPPING_SRTIPC_FINAL, NN_ARTIPC_STATE_STOPPING] at h
  · cases ev with
    | srtipc t =>
      simp [nn_artipc_feed, nn_artipc_handler, nn_artipc_handler_STOPPING_SRTIPC, ha,
        NN_ARTIPC_STATE_IDLE, NN_ARTIPC_STATE_ACCEPTING, NN_ARTIPC_STATE_ACTIVE,
        NN_ARTIPC_STATE_STOPPING_SRTIPC, NN_ARTIPC_STATE_STOPPING_SRTIPC_FINAL,
        NN_ARTIPC_STATE_STOPPING] at h
      split_ifs at h
      · simp only [Option.some.injEq, Prod.mk.injEq] at h
        obtain ⟨h1, -⟩ := h
        subst h1
        exact Or.inr (Or.inr (Or.inl ha))
      · simp only [Option.some.injEq, Prod.mk.injEq] at h
        obtain ⟨h1, -⟩ := h
        subst h1
        simp [NN_ARTIPC_STATE_ACTIVE, NN_ARTIPC_STATE_ACCEPTING, NN_ARTIPC_STATE_STOPPING_SRTIPC,
          NN_ARTIPC_STATE_STOPPING_USOCK]
    | _ =>
      simp [nn_artipc_feed, nn_artipc_handler, nn_artipc_handler_STOPPING_SRTIPC, ha,
        NN_ARTIPC_STATE_IDLE, NN_ARTIPC_STATE_ACCEPTING, NN_ARTIPC_STATE_ACTIVE,
        NN_ARTIPC_STATE_STOPPING_SRTIPC, NN_ARTIPC_STATE_STOPPING_SRTIPC_FINAL,
        NN_ARTIPC_STATE_STOPPING] at h
  · cases ev with
    | usock t =>
      cases t <;> simp [nn_artipc_feed, nn_artipc_handler, nn_artipc_handler_STOPPING_USOCK, ha,
        NN_ARTIPC_STATE_IDLE, NN_ARTIPC_STATE_ACCEPTING, NN_ARTIPC_STATE_ACTIVE,
        NN_ARTIPC_STATE_STOPPING_SRTIPC, NN_ARTIPC_STATE_STOPPING_USOCK,
        NN_ARTIPC_STATE_STOPPING_SRTIPC_FINAL, NN_ARTIPC_STATE_STOPPING] at h <;>
        obtain ⟨h1, -⟩ := h <;> subst h1 <;>
        simp [ha, NN_ARTIPC_STATE_ACTIVE, NN_ARTIPC_STATE_ACCEPTING,
          NN_ARTIPC_STATE_STOPPING_SRTIPC, NN_ARTIPC_STATE_STOPPING_USOCK, NN_ARTIPC_STATE_DONE]
    | _ =>
      simp [nn_artipc_feed, nn_artipc_handler, nn_artipc_handler_STOPPING_USOCK, ha,
        NN_ARTIPC_STATE_IDLE, NN_ARTIPC_STATE_ACCEPTING, NN_ARTIPC_STATE_ACTIVE,
        NN_ARTIPC_STATE_STOPPING_SRTIPC, NN_ARTIPC_STATE_STOPPING_USOCK,
        NN_ARTIPC_STATE_STOPPING_SRTIPC_FINAL, NN_ARTIPC_STATE_STOPPING] at h
  · simp [nn_artipc_feed, nn_artipc_handler, ha,
      NN_ARTIPC_STATE_IDLE, NN_ARTIPC_STATE_ACCEPTING, NN_ARTIPC_STATE_ACTIVE,
      NN_ARTIPC_STATE_STOPPING_SRTIPC, NN_ARTIPC_STATE_STOPPING_USOCK, NN_ARTIPC_STATE_DONE,
      NN_ARTIPC_STATE_STOPPING_SRTIPC_FINAL, NN_ARTIPC_STATE_STOPPING] at h

/-- The stop of the AcceptSession at `q`, carried out on a world: every other
AcceptSession is as it was, and the one at `q` stays allocated. -/
theorem bind_exec_stop_objs (envs : Nat → ep_env) (w w1 : bind_world) (q : Nat)
    (h : bind_exec envs w [EpEffect.artipc_stop q] = some w1) :
    w1.b = w.b ∧ (∀ r, r ≠ q → w1.objs r = w.objs r)
    ∧ ∀ r, (w.objs r).isSome = true → (w1.objs r).isSome = true := by
  simp only [bind_exec, bind_exec_one] at h
  cases hq : w.objs q with
  | none => simp [hq] at h
  | some a =>
    simp only [hq] at h
    split_ifs at h
    · simp only [Option.some.injEq] at h
      subst h
      exact ⟨rfl, fun _ _ => rfl, fun _ hr => hr⟩
    · cases hs : nn_artipc_stop (envs q) a with
      | none => simp [hs] at h
      | some x =>
        obtain ⟨a1, e⟩ := x
        simp only [hs, Option.some.injEq] at h
        subst h
        refine ⟨rfl, ?_, ?_⟩
        · intro r hr
          simp [artipc_absorb, Function.update_noteq hr]
        · intro r hr
          by_cases hrq : r = q
          · subst hrq
            simp [artipc_absorb]
          · simpa [artipc_absorb, Function.update_noteq hrq] using hr

/-- The release of the AcceptSession at `q`, carried out on a world: the
address `q` is free afterwards and every other AcceptSession is as it was. -/
theorem bind_exec_free_objs (envs : Nat → ep_env) (w w1 : bind_world) (q : Nat)
    (h : bind_exec envs w [EpEffect.artipc_term q, EpEffect.free q] = some w1) :
    w1.b = w.b ∧ w1.objs = Function.update w.objs q none := by
  simp only [bind_exec, bind_exec_one] at h
  cases hq : w.objs q with
  | none => simp [hq] at h
  | some a =>
    simp only [hq] at h
    split_ifs at h
    simp only [Option.some.injEq] at h
    subst h
    exact ⟨rfl, rfl⟩

/-- A world whose endpoint left ACTIVE satisfies `pending_ok`. -/
theorem bind_world.pending_ok_of_left_active (w : bind_world) (h : w.b.left_active) :
    w.pending_ok :=
  ⟨h.2, fun hs => absurd hs h.1⟩

/-- One step of the world keeps `pending_ok`. -/
theorem bind_step_pending_ok (w w1 : bind_world) (c : bind_call) (h : w.pending_ok)
    (hstep : bind_step w c = some w1) : w1.pending_ok := by
  obtain ⟨hidle, hact⟩ := h
  cases c with
  | create env envs =>
    simp only [bind_step] at hstep
    split_ifs at hstep with hs
    cases hr : nn_brtipc_feed env w.b (brtipc_input.action nn_fsm_action.NN_FSM_START) with
    | none => simp [hr, bind_apply] at hstep
    | some r =>
      obtain ⟨b1, es⟩ := r
      obtain ⟨q, hb1, hes⟩ := nn_brtipc_feed_start_eq env w.b b1 es hs hr
      subst hes
      simp only [hr, bind_apply] at hstep
      have hstep2 : bind_exec envs { w with b := b1 }
          [EpEffect.artipc_init q NN_BRTIPC_SRC_ARTIPC w.b.fsm,
           EpEffect.artipc_start q w.b.usock] = some w1 := hstep
      obtain ⟨-, hb, a, ha, hobjs⟩ := bind_exec_alloc_objs envs _ w1 q _ _ _ hstep2
      have hb2 : w1.b = { w.b with artipc := some q, state := NN_BRTIPC_STATE_ACTIVE } := by
        rw [hb, hb1]
      have hl : w1.b.artipcs = [] := by
        rw [hb2]
        exact hidle hs
      refine ⟨fun _ => hl, fun _ => ⟨⟨q, a, ?_, ?_, ha, ?_⟩, ?_, ?_⟩⟩
      · rw [hb2]
      · rw [hobjs]
        simp
      · rw [hl]
        simp
      · rw [hl]
        exact List.nodup_nil
      · rw [hl]
        intro r hr
        simp at hr
  | stop env envs =>
    simp only [bind_step] at hstep
    cases hr : nn_brtipc_stop { env with artipc_isidle := w.pending_isidle_after_stop envs } w.b with
    | none => simp [hr, bind_apply] at hstep
    | some r =>
      obtain ⟨b1, es⟩ := r
      simp only [hr, bind_apply] at hstep
      have hb := bind_exec_b envs es _ w1 hstep
      apply bind_world.pending_ok_of_left_active
      rw [hb]
      exact nn_brtipc_stop_leaves _ w.b b1 es hr
  | deliver env envs =>
    simp only [bind_step] at hstep
    cases hq : w.queue with
    | nil => simp [hq] at hstep
    | cons x rest =>
      obtain ⟨p, t⟩ := x
      simp only [hq] at hstep
      cases hr : nn_brtipc_feed { env with artipc_isidle := w.pending_isidle } w.b
          (brtipc_input.artipc p t) with
      | none => simp [hr, bind_apply] at hstep
      | some r =>
        obtain ⟨b1, es⟩ := r
        simp only [hr, bind_apply] at hstep
        by_cases hs : w.b.state = NN_BRTIPC_STATE_ACTIVE
        · obtain ⟨⟨p0, a0, hp0, ha0, hst0, hnot0⟩, hnd, hall⟩ := hact hs
          rcases nn_brtipc_feed_active _ w.b b1 _ es hs hr with
            ⟨q, r, hv, hpq, hb1, hes⟩ | ⟨q, hv, hpq, hb1, hes⟩ | ⟨q, hv, hpq, hm, hb1, hes⟩
          · subst hes
            obtain ⟨hnone, hb, a, ha, hobjs⟩ := bind_exec_alloc_objs envs _ w1 r _ _ _ hstep
            have hb2 : w1.b = { w.b with artipcs := w.b.artipcs ++ [q], artipc := some r } := by
              rw [hb, hb1]
            have hq0 : q = p0 := by
              rw [hp0] at hpq
              simpa using hpq.symm
            subst hq0
            have hnone2 : w.objs r = none := hnone
            have hrq : r ≠ q := by
              intro hrq
              rw [hrq, ha0] at hnone2
              simp at hnone2
            have hrl : r ∉ w.b.artipcs := by
              intro hrl
              have := hall r hrl
              rw [hnone2] at this
              simp at this
            refine ⟨fun h1 => ?_, fun _ => ⟨⟨r, a, ?_, ?_, ha, ?_⟩, ?_, ?_⟩⟩
            · rw [hb2] at h1
              simp only at h1
              rw [hs] at h1
              simp [NN_BRTIPC_STATE_ACTIVE, NN_BRTIPC_STATE_IDLE] at h1
            · rw [hb2]
            · rw [hobjs]
              simp
            · rw [hb2]
              simp only [List.mem_append, List.mem_singleton, not_or]
              exact ⟨hrl, hrq⟩
            · rw [hb2]
              simp only
              rw [List.nodup_append]
              refine ⟨hnd, List.nodup_singleton q, ?_⟩
              intro x hx1 hx2
              simp only [List.mem_singleton] at hx2
              subst hx2
              exact hnot0 hx1
            · rw [hb2]
              simp only [List.mem_append, List.mem_singleton]
              intro x hx
              have hxr : x ≠ r := by
                rcases hx with hx | hx
                · intro hxr
                  rw [hxr] at hx
                  exact hrl hx
                · rw [hx]
                  exact fun h2 => hrq h2.symm
              rw [hobjs]
              simp only [Function.update_noteq hxr]
              rcases hx with hx | hx
              · exact hall x hx
              · rw [hx, ha0]
                rfl
          · subst hes
            subst hb1
            obtain ⟨hb, hoth, hsome⟩ := bind_exec_stop_objs envs _ w1 q hstep
            have hpq0 : p0 ≠ q := by
              intro h2
              rw [hp0, h2] at hpq
              exact hpq rfl
            refine ⟨fun h1 => ?_, fun _ => ⟨⟨p0, a0, ?_, ?_, hst0, ?_⟩, ?_, ?_⟩⟩
            · rw [hb]
              rw [hb] at h1
              exact hidle h1
            · rw [hb]
              exact hp0
            · rw [hoth p0 hpq0]
              exact ha0
            · rw [hb]
              exact hnot0
            · rw [hb]
              exact hnd
            · rw [hb]
              intro x hx
              exact hsome x (hall x hx)
          · subst hes
            obtain ⟨hb, hobjs⟩ := bind_exec_free_objs envs _ w1 q hstep
            have hb2 : w1.b = { w.b with artipcs := w.b.artipcs.erase q } := by
              rw [hb, hb1]
            have hpq0 : p0 ≠ q := by
              intro h2
              rw [hp0, h2] at hpq
              exact hpq rfl
            refine ⟨fun h1 => ?_, fun _ => ⟨⟨p0, a0, ?_, ?_, hst0, ?_⟩, ?_, ?_⟩⟩
            · rw [hb2] at h1
              simp only at h1
              rw [hs] at h1
              simp [NN_BRTIPC_STATE_ACTIVE, NN_BRTIPC_STATE_IDLE] at h1
            · rw [hb2]
              exact hp0
            · rw [hobjs]
              simp only [Function.update_noteq hpq0]
              exact ha0
            · rw [hb2]
              exact fun h2 => hnot0 (List.mem_of_mem_erase h2)
            · rw [hb2]
              exact hnd.erase q
            · rw [hb2]
              intro x hx
              have hx2 := (List.Nodup.mem_erase_iff hnd).mp hx
              rw [hobjs]
              simp only [Function.update_noteq hx2.1]
              exact hall x hx2.2
        · have hb := bind_exec_b envs es _ w1 hstep
          apply bind_world.pending_ok_of_left_active
          rw [hb]
          exact nn_brtipc_feed_leaves _ w.b b1 (brtipc_input.artipc p t) es hs rfl hr
  | usock t env envs =>
    simp only [bind_step] at hstep
    cases hr : nn_brtipc_feed { env with artipc_isidle := w.pending_isidle } w.b
        (brtipc_input.usock t) with
    | none => simp [hr, bind_apply] at hstep
    | some r =>
      obtain ⟨b1, es⟩ := r
      simp only [hr, bind_apply] at hstep
      by_cases hs : w.b.state = NN_BRTIPC_STATE_ACTIVE
      · exfalso
        rcases nn_brtipc_feed_active _ w.b b1 _ es hs hr with
          ⟨q, r, hv, -⟩ | ⟨q, hv, -⟩ | ⟨q, hv, -⟩ <;> simp at hv
      · have hb := bind_exec_b envs es _ w1 hstep
        apply bind_world.pending_ok_of_left_active
        rw [hb]
        exact nn_brtipc_feed_leaves _ w.b b1 (brtipc_input.usock t) es hs rfl hr
  | child p ev env =>
    simp only [bind_step] at hstep
    split_ifs at hstep with hev
    cases hq : w.objs p with
    | none => simp [hq] at hstep
    | some a =>
      simp only [hq] at hstep
      cases hr : nn_artipc_feed env a ev with
      | none => simp [hr] at hstep
      | some r =>
        obtain ⟨a1, e⟩ := r
        simp only [hr, Option.some.injEq] at hstep
        subst hstep
        have hev2 : ev.is_action = false := by simpa using hev
        refine ⟨hidle, fun hs => ?_⟩
        obtain ⟨⟨p0, a0, hp0, ha0, hst0, hnot0⟩, hnd, hall⟩ := hact hs
        refine ⟨?_, hnd, ?_⟩
        · by_cases hpp : p0 = p
          · subst hpp
            rw [hq] at ha0
            simp only [Option.some.injEq] at ha0
            subst ha0
            exact ⟨p0, a1, hp0, by simp [artipc_absorb],
              nn_artipc_feed_started env a a1 ev e hst0 hev2 hr, hnot0⟩
          · exact ⟨p0, a0, hp0, by simp [artipc_absorb, Function.update_noteq hpp, ha0],
              hst0, hnot0⟩
        · intro x hx
          by_cases hxp : x = p
          · subst hxp
            simp [artipc_absorb]
          · simpa [artipc_absorb, Function.update_noteq hxp] using hall x hx

/-- The world after the creation of the endpoint satisfies `pending_ok`. -/
theorem bind_world_init_pending_ok (fsm usock : Nat) :
    (bind_world_init fsm usock).pending_ok := by
  refine ⟨fun _ => rfl, fun h => ?_⟩
  simp [bind_world_init, nn_brtipc_init, NN_BRTIPC_STATE_IDLE, NN_BRTIPC_STATE_ACTIVE] at h

/-- The steps of the world keep `pending_ok`. -/
theorem bind_run_pending_ok (cs : List bind_call) :
    ∀ (w w1 : bind_world), w.pending_ok → bind_run w cs = some w1 → w1.pending_ok := by
  induction cs with
  | nil =>
    intro w w1 h hrun
    simp only [bind_run, Option.some.injEq] at hrun
    subst hrun
    exact h
  | cons c cs ih =>
    intro w w1 h hrun
    simp only [bind_run] at hrun
    cases hs : bind_step w c with
    | none => simp [hs] at hrun
    | some w2 =>
      simp only [hs] at hrun
      exact ih w2 w1 (bind_step_pending_ok w w2 c h hs) hrun

/-- C38: in every world reached from the creation of a BindEndpoint by starts,
stops and deliveries of events in which the endpoint is in ACTIVE, the pending
AcceptSession pointer is non-null and refers to an allocated, started
AcceptSession that is not in the list of accepted ones, and the list holds no
AcceptSession twice; hence the stop call in ACTIVE, which dereferences the
pending pointer, hits no assertion of the shutdown handler, whatever the
collaborators answer. -/
theorem C38_active_has_started_pending (fsm usock : Nat) (cs : List bind_call)
    (w : bind_world) (env : ep_env)
    (hrun : bind_run (bind_world_init fsm usock) cs = some w)
    (hact : w.b.state = NN_BRTIPC_STATE_ACTIVE) :
    (∃ p a, w.b.artipc = some p ∧ w.objs p = some a ∧ a.started ∧ p ∉ w.b.artipcs)
    ∧ w.b.artipcs.Nodup
    ∧ (nn_brtipc_stop env w.b).isSome = true := by
  obtain ⟨-, h2⟩ := bind_run_pending_ok cs (bind_world_init fsm usock) w
    (bind_world_init_pending_ok fsm usock) hrun
  obtain ⟨⟨p, a, hp, ha, hst, hnot⟩, hnd, -⟩ := h2 hact
  refine ⟨⟨p, a, hp, ha, hst, hnot⟩, hnd, ?_⟩
  rw [nn_brtipc_stop_running env w.b p hact hp]
  simp only [nn_brtipc_shutdown_STOPPING_ARTIPC, nn_brtipc_shutdown_STOPPING_USOCK,
    nn_brtipc_shutdown_artipcs_stopping, hp]
  split_ifs <;> rfl

/-- C38 (witness): the endpoint at 1 with the listening socket 2 is created and
allocates its first AcceptSession at 11; the socket of 11 reports Accepted;
the Accepted event of 11 is delivered and the endpoint, still in ACTIVE, puts
11 into its list and allocates the next pending AcceptSession at 12. -/
theorem C38_active_has_started_pending_witness :
    ∃ w, bind_run (bind_world_init 1 2)
        [bind_call.create ep_env_idle (fun _ => ep_env_busy),
         bind_call.child 11 (artipc_input.usock nn_usock_event.NN_USOCK_ACCEPTED) ep_env_idle,
         bind_call.deliver { ep_env_idle with alloc := some 12 } (fun _ => ep_env_busy)]
        = some w
      ∧ w.b.state = NN_BRTIPC_STATE_ACTIVE ∧ w.b.artipc = some 12 ∧ w.b.artipcs = [11]
      ∧ (w.objs 12).map (fun a => a.state) = some NN_ARTIPC_STATE_ACCEPTING
      ∧ (∃ p a, w.b.artipc = some p ∧ w.objs p = some a ∧ a.started ∧ p ∉ w.b.artipcs)
      ∧ w.b.artipcs.Nodup
      ∧ (nn_brtipc_stop ep_env_busy w.b).isSome = true :=
  have hs : (bind_run (bind_world_init 1 2)
        [bind_call.create ep_env_idle (fun _ => ep_env_busy),
         bind_call.child 11 (artipc_input.usock nn_usock_event.NN_USOCK_ACCEPTED) ep_env_idle,
         bind_call.deliver { ep_env_idle with alloc := some 12 } (fun _ => ep_env_busy)]).isSome
      = true := by decide
  ⟨Option.get _ hs, (Option.some_get hs).symm, rfl, rfl, rfl, rfl,
    C38_active_has_started_pending 1 2 _ _ ep_env_busy (Option.some_get hs).symm rfl⟩


/-! ### C26: the Stopped event of an accepted AcceptSession in the order of the runtime -/

end NN
